import Mathlib

/-!
PHiLiP discontinuous-Galerkin residual assembly.

A shallow embedding of the face traversal of `DGBase::assemble_residual` and
`DGBase::assemble_residual_dRdW` (src/dg/dg.cpp) and of the local kernels and mode
dispatchers of `DGWeak` (src/dg/weak_dg.cpp).

Conventions of the embedding.
* `real`/`double` values are exact rationals; rounding is not modelled.
* `std::vector`, `std::array`, `dealii::Vector` and `dealii::Tensor` are read by index, so
  they are functions from `Nat`; loops bound the indices that are touched.
* A `for (i = 0; i < n; ++i)` loop is `forLoop n body`.
* Mesh, finite-element, physics and numerical-flux objects belong to collaborators whose
  code is outside the repository; what the code reads from them is a field of a record.
* The metric step of a kernel is a function of its own (`assemble_volume_term_metric_terms`,
  `assemble_boundary_term_metric_terms`, `assemble_face_term_metric_terms`); the rest of the
  kernel reads its result from a field of the input record. The square root of plain reals
  (`std::sqrt`) is a parameter of the metric steps that call `norm`.
-/

set_option autoImplicit false

namespace PHiLiP

/-! ## Loops and vectors -/

/-- The loop `for (i = 0; i < n; ++i) s = body i s`. -/
def forLoop {σ : Type} (n : Nat) (body : Nat → σ → σ) (init : σ) : σ :=
  (List.range n).foldl (fun s i => body i s) init

/-- A vector of reals read by index. -/
abbrev Vec := Nat → ℚ

/-- A vector initialised to zero, as `dealii::Vector<double> v (n)`. -/
def zeroVec : Vec := fun _ => 0

/-- The update `v(k) += x`. -/
def addAt (v : Vec) (k : Nat) (x : ℚ) : Vec :=
  fun j => if j = k then v j + x else v j

/-- The loop `for (i = 0; i < n; ++i) buffer(i) += contribution(i)` with which every
kernel ends (weak_dg.cpp lines 553, 681, 831, 847). -/
def accumulate (n : Nat) (buffer contribution : Vec) : Vec :=
  forLoop n (fun i b => addAt b i (contribution i)) buffer

/-- The scatter `for (i = 0; i < n; ++i) right_hand_side(dofs_indices[i]) += local_rhs(i)`
(dg.cpp lines 310-312, 366-368, 420-422, 432-434). -/
def scatter (n : Nat) (right_hand_side : Vec) (dofs_indices : Nat → Nat) (local_rhs : Vec) : Vec :=
  forLoop n (fun i r => addAt r (dofs_indices i) (local_rhs i)) right_hand_side

/-! ## Mesh data read by the traversal -/

/-- What the traversal reads of a cell through an iterator: `index()`, `level()`,
`get_dof_indices` and `extent_in_direction`. -/
structure CellAccessor where
  index : Int
  level : Int
  dof_indices : Nat → Nat
  extent_in_direction : Nat → ℚ

/-- The answers of the mesh to the queries the traversal makes about local face `iface`
of the current cell. -/
structure FaceView where
  at_boundary : Bool
  boundary_id : Nat
  has_periodic_neighbor : Bool
  periodic_neighbor : CellAccessor
  periodic_neighbor_is_coarser : Bool
  periodic_neighbor_of_periodic_neighbor : Nat
  has_children : Bool
  number_of_children : Nat
  neighbor_child_on_subface : Nat → CellAccessor
  neighbor_face_no : Nat
  neighbor : CellAccessor
  neighbor_is_coarser : Bool
  neighbor_of_neighbor : Nat

/-- An active cell together with its faces, `face iface` for `iface < faces_per_cell`. -/
structure ActiveCell where
  cell : CellAccessor
  face : Nat → FaceView

/-- The call `current_cell->neighbor_or_periodic_neighbor(iface)`: the periodic neighbour at
a boundary face, the neighbour otherwise. -/
def FaceView.neighbor_or_periodic_neighbor (f : FaceView) : CellAccessor :=
  if f.at_boundary then f.periodic_neighbor else f.neighbor

/-- The constant `dealii::GeometryInfo<dim>::faces_per_cell`. -/
def faces_per_cell (dim : Nat) : Nat := 2 * dim

/-- The table `dealii::GeometryInfo<dim>::unit_normal_direction`, which is 0,0,1,1,2,2. -/
def unit_normal_direction (iface : Nat) : Nat := iface / 2

/-- The members of `Parameters::AllParameters` read by the traversal and the kernels. -/
structure AllParameters where
  use_periodic_bc : Bool
  add_artificial_dissipation : Bool
  use_manufactured_source_term : Bool

/-! ## Face ownership -/

/-- The tie-break of dg.cpp lines 270-271 and 377-381:
`neighbor_cell->index() > current_cell->index() ||
 (neighbor_cell->index() == current_cell->index() && current_cell->level() < neighbor_cell->level())`. -/
def lower_index_does_work (current_cell neighbor_cell : CellAccessor) : Bool :=
  decide (neighbor_cell.index > current_cell.index) ||
    (decide (neighbor_cell.index = current_cell.index) &&
      decide (current_cell.level < neighbor_cell.level))

/-- The ownership test of `assemble_residual` for a face without children: the condition of
Case 3 (dg.cpp lines 375-382), which is also the condition of the periodic case (lines
269-273) with `periodic_neighbor_is_coarser` for `neighbor_is_coarser`. -/
def ownership_test (neighbor_is_coarser : Bool) (current_cell neighbor_cell : CellAccessor) : Bool :=
  !neighbor_is_coarser && lower_index_does_work current_cell neighbor_cell

/-! ## Penalty parameter -/

/-- The value `deg1sq = (degree_current == 0) ? 1 : degree_current * (degree_current+1)`
(dg.cpp lines 251, 288, 347, 398). Both operands are `unsigned int`, so the sum and the
product wrap at `2^32`. -/
def deg1sq (degree_current : Nat) : Nat :=
  if degree_current = 0 then 1
  else (degree_current * ((degree_current + 1) % 2 ^ 32)) % 2 ^ 32

/-- The boundary penalty `deg1sq / vol_div_facearea1` of dg.cpp lines 250-255. -/
def boundary_penalty (degree_current : Nat) (current_cell : CellAccessor) (iface : Nat) : ℚ :=
  let normal_direction := unit_normal_direction iface
  let vol_div_facearea1 := current_cell.extent_in_direction normal_direction
  (deg1sq degree_current : ℚ) / vol_div_facearea1

/-- The two-sided penalty `0.5 * (penalty1 + penalty2)` of dg.cpp lines 285-297, 344-357
and 395-408. -/
def face_penalty (degree_current : Nat) (current_cell : CellAccessor) (iface : Nat)
    (neighbor_cell : CellAccessor) (neighbor_face_no : Nat) : ℚ :=
  let normal_direction1 := unit_normal_direction iface
  let normal_direction2 := unit_normal_direction neighbor_face_no
  let vol_div_facearea1 := current_cell.extent_in_direction normal_direction1
  let vol_div_facearea2 := neighbor_cell.extent_in_direction normal_direction2
  let penalty1 := (deg1sq degree_current : ℚ) / vol_div_facearea1
  let penalty2 := (deg1sq degree_current : ℚ) / vol_div_facearea2
  (1 / 2) * (penalty1 + penalty2)

/-! ## The traversal of `DGBase` -/

/-- What an `FEFaceValues` or `FESubfaceValues` object was last `reinit`-ed with. -/
structure FaceHandle where
  cell : CellAccessor
  face_no : Nat
  subface_no : Option Nat

/-- The virtual kernels of `DGBase` that the traversal calls. A kernel adds a local
contribution to each buffer it is handed (`local_rhs(itest) += rhs`); a hook gives that
contribution, and `accumulate` performs the addition. -/
structure AssemblyHooks where
  assemble_cell_terms_explicit : CellAccessor → Vec
  assemble_boundary_term_explicit : Nat → FaceHandle → ℚ → Vec
  assemble_face_term_explicit : FaceHandle → FaceHandle → ℚ → Vec × Vec
  assemble_cell_terms_implicit : CellAccessor → Vec
  assemble_boundary_term_implicit : Nat → FaceHandle → ℚ → Vec
  assemble_face_term_implicit : FaceHandle → FaceHandle → ℚ → Vec × Vec

/-- A record of one kernel call made by the traversal; `cell_no` is the value of
`n_cell_visited` before the current cell was counted, that is the position of the current
cell in the iteration over active cells. -/
inductive KernelCall where
  | cell_terms (cell_no : Nat)
  | boundary_term (cell_no iface boundary_id : Nat) (penalty : ℚ)
  | face_term (cell_no iface : Nat) (subface_no : Option Nat)
      (neighbor_index neighbor_level : Int) (neighbor_face_no : Nat) (penalty : ℚ)
deriving DecidableEq

/-- The variables of an assembly pass: the global residual, the two counters, the local
buffer of the current cell, and the log of kernel calls. -/
structure AssemblyState where
  right_hand_side : Vec
  n_cell_visited : Nat
  n_face_visited : Nat
  current_cell_rhs : Vec
  kernel_calls : List KernelCall

/-- One face-kernel call of the traversal followed by the scatter of the neighbour buffer:
dg.cpp lines 303-312, 360-368 and 413-422. Returns the state and the neighbour buffer. -/
def face_call (face_term : FaceHandle → FaceHandle → ℚ → Vec × Vec)
    (degree_current dofs_per_cell cell_no : Nat) (current_cell : CellAccessor) (iface : Nat)
    (subface_no : Option Nat) (neighbor_cell : CellAccessor) (neighbor_face_no : Nat)
    (neighbor_cell_rhs : Vec) (st : AssemblyState) : AssemblyState × Vec :=
  let neighbor_dofs_indices := neighbor_cell.dof_indices
  let penalty := face_penalty degree_current current_cell iface neighbor_cell neighbor_face_no
  let contribution := face_term ⟨current_cell, iface, subface_no⟩ ⟨neighbor_cell, neighbor_face_no, none⟩ penalty
  let current_cell_rhs := accumulate dofs_per_cell st.current_cell_rhs contribution.1
  let neighbor_cell_rhs := accumulate dofs_per_cell neighbor_cell_rhs contribution.2
  ({ st with
      current_cell_rhs := current_cell_rhs
      right_hand_side := scatter dofs_per_cell st.right_hand_side neighbor_dofs_indices neighbor_cell_rhs
      kernel_calls := st.kernel_calls ++
        [KernelCall.face_term cell_no iface subface_no neighbor_cell.index neighbor_cell.level
          neighbor_face_no penalty] },
   neighbor_cell_rhs)

/-- The body of the loop over the sub-faces of a face with children (dg.cpp lines 331-369,
542-581); the second component of the state is the buffer `neighbor_cell_rhs`. -/
def subface_step (face_term : FaceHandle → FaceHandle → ℚ → Vec × Vec)
    (degree_current dofs_per_cell cell_no : Nat) (current_cell : CellAccessor) (iface : Nat)
    (f : FaceView) (subface_no : Nat) (s : AssemblyState × Vec) : AssemblyState × Vec :=
  let neighbor_face_no := f.neighbor_face_no
  let st : AssemblyState := { s.1 with n_face_visited := s.1.n_face_visited + 1 }
  let neighbor_child_cell := f.neighbor_child_on_subface subface_no
  face_call face_term degree_current dofs_per_cell cell_no current_cell iface
    (some subface_no) neighbor_child_cell neighbor_face_no s.2 st

/-- Case 2 of the face loop (dg.cpp lines 322-369, 533-581): the face has children. The
buffer `neighbor_cell_rhs` is declared once, before the loop over the sub-faces. -/
def finer_neighbor_case (face_term : FaceHandle → FaceHandle → ℚ → Vec × Vec)
    (degree_current dofs_per_cell cell_no : Nat) (current_cell : CellAccessor) (iface : Nat)
    (f : FaceView) (st : AssemblyState) : AssemblyState :=
  let neighbor_cell_rhs : Vec := zeroVec
  (forLoop f.number_of_children
    (subface_step face_term degree_current dofs_per_cell cell_no current_cell iface f)
    (st, neighbor_cell_rhs)).1

/-- The body of the face loop of `assemble_residual` (dg.cpp lines 209-430) in a release
build, in which the macro `Assert` of lines 278, 326, 337 and 388 expands to nothing. The
body in a debug build is `assemble_residual_face_with_assertions`. -/
def assemble_residual_face (dim : Nat) (all_parameters : AllParameters) (hooks : AssemblyHooks)
    (degree_current dofs_per_cell cell_no : Nat) (current_cell : ActiveCell) (iface : Nat)
    (st : AssemblyState) : AssemblyState :=
  let f := current_cell.face iface
  let neighbor_cell := f.neighbor
  -- Case 1: face at boundary
  if f.at_boundary && !f.has_periodic_neighbor then
    let st := { st with n_face_visited := st.n_face_visited + 1 }
    if f.at_boundary && all_parameters.use_periodic_bc && decide (dim = 1) then
      -- lines 227-246 only reposition fe_values_face_int, fe_values_face_ext and
      -- neighbor_dofs_indices; no kernel is called
      st
    else
      let penalty := boundary_penalty degree_current current_cell.cell iface
      let boundary_id := f.boundary_id
      { st with
        current_cell_rhs := accumulate dofs_per_cell st.current_cell_rhs
          (hooks.assemble_boundary_term_explicit boundary_id ⟨current_cell.cell, iface, none⟩ penalty)
        kernel_calls := st.kernel_calls ++ [KernelCall.boundary_term cell_no iface boundary_id penalty] }
  -- Case 1.5: periodic boundary conditions
  else if f.at_boundary && f.has_periodic_neighbor then
    let neighbor_cell := f.periodic_neighbor
    if ownership_test f.periodic_neighbor_is_coarser current_cell.cell neighbor_cell then
      let st := { st with n_face_visited := st.n_face_visited + 1 }
      let neighbor_cell_rhs : Vec := zeroVec
      let neighbor_cell := f.periodic_neighbor
      let neighbor_face_no := f.periodic_neighbor_of_periodic_neighbor
      (face_call hooks.assemble_face_term_explicit degree_current dofs_per_cell cell_no
        current_cell.cell iface none neighbor_cell neighbor_face_no neighbor_cell_rhs st).1
    else
      st
  -- Case 2: neighbour is finer
  else if f.has_children then
    finer_neighbor_case hooks.assemble_face_term_explicit degree_current dofs_per_cell cell_no
      current_cell.cell iface f st
  -- Case 3: neighbour is not coarser
  else if ownership_test f.neighbor_is_coarser current_cell.cell neighbor_cell then
    let st := { st with n_face_visited := st.n_face_visited + 1 }
    let neighbor_cell_rhs : Vec := zeroVec
    let neighbor_cell := f.neighbor_or_periodic_neighbor
    let neighbor_face_no := f.neighbor_of_neighbor
    (face_call hooks.assemble_face_term_explicit degree_current dofs_per_cell cell_no
      current_cell.cell iface none neighbor_cell neighbor_face_no neighbor_cell_rhs st).1
  -- Case 4: neighbour is coarser
  else
    st

/-- The body of the cell loop of `assemble_residual` (dg.cpp lines 197-436). -/
def assemble_residual_cell (dim : Nat) (all_parameters : AllParameters) (hooks : AssemblyHooks)
    (degree_current dofs_per_cell : Nat) (st : AssemblyState) (current_cell : ActiveCell) :
    AssemblyState :=
  let cell_no := st.n_cell_visited
  let st := { st with n_cell_visited := st.n_cell_visited + 1 }
  let st := { st with current_cell_rhs := zeroVec }
  let current_dofs_indices := current_cell.cell.dof_indices
  let st := { st with
    current_cell_rhs := accumulate dofs_per_cell st.current_cell_rhs
      (hooks.assemble_cell_terms_explicit current_cell.cell)
    kernel_calls := st.kernel_calls ++ [KernelCall.cell_terms cell_no] }
  let st := forLoop (faces_per_cell dim)
    (fun iface s => assemble_residual_face dim all_parameters hooks degree_current dofs_per_cell
      cell_no current_cell iface s) st
  { st with
    right_hand_side := scatter dofs_per_cell st.right_hand_side current_dofs_indices st.current_cell_rhs }

/-- The pass `DGBase::assemble_residual` (dg.cpp lines 173-438) over the active cells in
iteration order, in a release build; the pass in a debug build, which can abort, is
`assemble_residual_with_assertions`. The previous content of `right_hand_side` is an
argument; line 177 resets it. -/
def assemble_residual (dim : Nat) (all_parameters : AllParameters) (hooks : AssemblyHooks)
    (degree_current dofs_per_cell : Nat) (active_cells : List ActiveCell)
    (_right_hand_side_before : Vec) : AssemblyState :=
  let right_hand_side : Vec := zeroVec
  active_cells.foldl
    (assemble_residual_cell dim all_parameters hooks degree_current dofs_per_cell)
    { right_hand_side := right_hand_side, n_cell_visited := 0, n_face_visited := 0,
      current_cell_rhs := zeroVec, kernel_calls := [] }

/-- The body of the face loop of `assemble_residual_dRdW` (dg.cpp lines 476-642) in a
release build, in which the macro `Assert` of lines 537, 548 and 600 expands to nothing.
The body in a debug build is `assemble_residual_dRdW_face_with_assertions`. -/
def assemble_residual_dRdW_face (all_parameters : AllParameters) (hooks : AssemblyHooks)
    (degree_current dofs_per_cell cell_no : Nat) (current_cell : ActiveCell) (iface : Nat)
    (st : AssemblyState) : AssemblyState :=
  let f := current_cell.face iface
  let neighbor_cell := f.neighbor
  -- Case 1: face at boundary
  if f.at_boundary then
    let st := { st with n_face_visited := st.n_face_visited + 1 }
    if all_parameters.use_periodic_bc then
      -- lines 493-512 only reposition fe_values_face_int, fe_values_face_ext and
      -- neighbor_dofs_indices; no kernel is called
      st
    else
      let penalty := boundary_penalty degree_current current_cell.cell iface
      let boundary_id := f.boundary_id
      { st with
        current_cell_rhs := accumulate dofs_per_cell st.current_cell_rhs
          (hooks.assemble_boundary_term_implicit boundary_id ⟨current_cell.cell, iface, none⟩ penalty)
        kernel_calls := st.kernel_calls ++ [KernelCall.boundary_term cell_no iface boundary_id penalty] }
  -- Case 2: neighbour is finer
  else if f.has_children then
    finer_neighbor_case hooks.assemble_face_term_implicit degree_current dofs_per_cell cell_no
      current_cell.cell iface f st
  -- Case 3: neighbour is not coarser
  else if ownership_test f.neighbor_is_coarser current_cell.cell neighbor_cell then
    let st := { st with n_face_visited := st.n_face_visited + 1 }
    let neighbor_cell_rhs : Vec := zeroVec
    let neighbor_cell := f.neighbor
    let neighbor_face_no := f.neighbor_of_neighbor
    (face_call hooks.assemble_face_term_implicit degree_current dofs_per_cell cell_no
      current_cell.cell iface none neighbor_cell neighbor_face_no neighbor_cell_rhs st).1
  -- Case 4: neighbour is coarser
  else
    st

/-- The body of the cell loop of `assemble_residual_dRdW` (dg.cpp lines 465-648). -/
def assemble_residual_dRdW_cell (dim : Nat) (all_parameters : AllParameters)
    (hooks : AssemblyHooks) (degree_current dofs_per_cell : Nat) (st : AssemblyState)
    (current_cell : ActiveCell) : AssemblyState :=
  let cell_no := st.n_cell_visited
  let st := { st with n_cell_visited := st.n_cell_visited + 1 }
  let st := { st with current_cell_rhs := zeroVec }
  let current_dofs_indices := current_cell.cell.dof_indices
  let st := { st with
    current_cell_rhs := accumulate dofs_per_cell st.current_cell_rhs
      (hooks.assemble_cell_terms_implicit current_cell.cell)
    kernel_calls := st.kernel_calls ++ [KernelCall.cell_terms cell_no] }
  let st := forLoop (faces_per_cell dim)
    (fun iface s => assemble_residual_dRdW_face all_parameters hooks degree_current dofs_per_cell
      cell_no current_cell iface s) st
  { st with
    right_hand_side := scatter dofs_per_cell st.right_hand_side current_dofs_indices st.current_cell_rhs }

/-- The pass `DGBase::assemble_residual_dRdW` (dg.cpp lines 441-650) in a release build;
the pass in a debug build is `assemble_residual_dRdW_with_assertions`. -/
def assemble_residual_dRdW (dim : Nat) (all_parameters : AllParameters) (hooks : AssemblyHooks)
    (degree_current dofs_per_cell : Nat) (active_cells : List ActiveCell)
    (_right_hand_side_before : Vec) : AssemblyState :=
  let right_hand_side : Vec := zeroVec
  active_cells.foldl
    (assemble_residual_dRdW_cell dim all_parameters hooks degree_current dofs_per_cell)
    { right_hand_side := right_hand_side, n_cell_visited := 0, n_face_visited := 0,
      current_cell_rhs := zeroVec, kernel_calls := [] }

/-! ## Face configurations and interfaces -/

/-- The identity of a cell in the triangulation: its level and its index within the
level. -/
structure CellId where
  level : Int
  index : Int
deriving DecidableEq

/-- The identity of the cell an accessor points to. -/
def CellAccessor.id (c : CellAccessor) : CellId := ⟨c.level, c.index⟩

/-- A topologically distinct interface of a mesh, or for a refined face the group of its
sub-faces.
* `boundary c`: a boundary face of `c` without periodic neighbour.
* `interior a b`: a conforming face shared by `a` and `b`.
* `hanging coarse fine`: a face of `coarse` with children; the k-th child is a face of the
  finer cell `fine[k]`.
* `periodic a b`: a conforming periodic pair of boundary faces of `a` and `b`.
* `periodic_hanging coarse parent fine`: a periodic pair in which the partner `parent` of
  `coarse` is refined; the active cells behind the partner face are `fine`. -/
inductive Interface where
  | boundary (c : CellId)
  | interior (a b : CellId)
  | hanging (coarse : CellId) (fine : List CellId)
  | periodic (a b : CellId)
  | periodic_hanging (coarse parent : CellId) (fine : List CellId)

/-- The record of the face-kernel call of the current cell across face `iface`. -/
def face_term_call (degree_current cell_no : Nat) (current_cell : CellAccessor) (iface : Nat)
    (subface_no : Option Nat) (neighbor_cell : CellAccessor) (neighbor_face_no : Nat) :
    KernelCall :=
  KernelCall.face_term cell_no iface subface_no neighbor_cell.index neighbor_cell.level
    neighbor_face_no (face_penalty degree_current current_cell iface neighbor_cell neighbor_face_no)

/-- The kernel calls `assemble_residual` makes for face `iface` of the current cell. -/
def assemble_residual_face_calls (dim : Nat) (all_parameters : AllParameters)
    (degree_current cell_no : Nat) (current_cell : ActiveCell) (iface : Nat) : List KernelCall :=
  let f := current_cell.face iface
  if f.at_boundary && !f.has_periodic_neighbor then
    if f.at_boundary && all_parameters.use_periodic_bc && decide (dim = 1) then []
    else [KernelCall.boundary_term cell_no iface f.boundary_id
            (boundary_penalty degree_current current_cell.cell iface)]
  else if f.at_boundary && f.has_periodic_neighbor then
    if ownership_test f.periodic_neighbor_is_coarser current_cell.cell f.periodic_neighbor then
      [face_term_call degree_current cell_no current_cell.cell iface none f.periodic_neighbor
        f.periodic_neighbor_of_periodic_neighbor]
    else []
  else if f.has_children then
    (List.range f.number_of_children).map (fun subface_no =>
      face_term_call degree_current cell_no current_cell.cell iface (some subface_no)
        (f.neighbor_child_on_subface subface_no) f.neighbor_face_no)
  else if ownership_test f.neighbor_is_coarser current_cell.cell f.neighbor then
    [face_term_call degree_current cell_no current_cell.cell iface none
      f.neighbor_or_periodic_neighbor f.neighbor_of_neighbor]
  else []

/-- The kernel calls `assemble_residual_dRdW` makes for face `iface` of the current
cell. -/
def assemble_residual_dRdW_face_calls (all_parameters : AllParameters)
    (degree_current cell_no : Nat) (current_cell : ActiveCell) (iface : Nat) : List KernelCall :=
  let f := current_cell.face iface
  if f.at_boundary then
    if all_parameters.use_periodic_bc then []
    else [KernelCall.boundary_term cell_no iface f.boundary_id
            (boundary_penalty degree_current current_cell.cell iface)]
  else if f.has_children then
    (List.range f.number_of_children).map (fun subface_no =>
      face_term_call degree_current cell_no current_cell.cell iface (some subface_no)
        (f.neighbor_child_on_subface subface_no) f.neighbor_face_no)
  else if ownership_test f.neighbor_is_coarser current_cell.cell f.neighbor then
    [face_term_call degree_current cell_no current_cell.cell iface none f.neighbor
      f.neighbor_of_neighbor]
  else []

/-- Is the call a boundary-kernel call for face `iface` of the cell at position `cell_no`
of the iteration? -/
def KernelCall.is_boundary_call_of (cell_no iface : Nat) : KernelCall → Bool
  | KernelCall.boundary_term c f _ _ => decide (c = cell_no) && decide (f = iface)
  | _ => false

/-- The boundary-kernel calls of a pass for face `iface` of the cell at position `cell_no`. -/
def boundary_calls_of (cell_no iface : Nat) (calls : List KernelCall) : List KernelCall :=
  calls.filter (KernelCall.is_boundary_call_of cell_no iface)

/-! ## Collaborators of the local kernels -/

/-- The array `std::array<real,nstate>`, read by component. -/
abbrev State := Nat → ℚ

/-- The tensor `dealii::Tensor<1,dim,real>`, read by direction. -/
abbrev Tensor1 := Nat → ℚ

/-- The array `std::array<dealii::Tensor<1,dim,real>,nstate>`, read by component and
direction. -/
abbrev ArrayTensor1 := Nat → Nat → ℚ

/-- The point `dealii::Point<dim,real>`, read by direction. -/
abbrev Point := Nat → ℚ

/-- The assignment `v[k] = x`. -/
def setAt (v : Vec) (k : Nat) (x : ℚ) : Vec :=
  fun j => if j = k then x else v j

/-- The physics strategy `Physics::PhysicsBase`. The last function returns the pair
`(soln_ext, soln_grad_ext)` that `boundary_face_values` writes into its two output
arguments. -/
structure PhysicsBase where
  convective_flux : State → ArrayTensor1
  dissipative_flux : State → ArrayTensor1 → ArrayTensor1
  artificial_dissipative_flux : ℚ → State → ArrayTensor1 → ArrayTensor1
  source_term : Point → State → State
  boundary_face_values : Nat → Point → Tensor1 → State → ArrayTensor1 → State × ArrayTensor1

/-- The strategy `NumericalFlux::NumericalFluxConvective`. -/
structure NumericalFluxConvective where
  evaluate_flux : State → State → Tensor1 → State

/-- The strategy `NumericalFlux::NumericalFluxDissipative`. The last argument of
`evaluate_auxiliary_flux` is the flag `on_boundary`, which is `false` when omitted. -/
structure NumericalFluxDissipative where
  evaluate_solution_flux : State → State → Tensor1 → State
  evaluate_auxiliary_flux :
    ℚ → ℚ → State → State → ArrayTensor1 → ArrayTensor1 → Tensor1 → ℚ → Bool → State

/-- What the kernels read of a `dealii::FESystem`: `dofs_per_cell`,
`system_to_component_index(i).first`, and the reference shape values and gradients at a
point. The elements of the system are primitive: `shape_value_component(i, p, c)` and
`shape_grad_component(i, p, c)` are `shape_value(i, p)` and `shape_grad(i, p)` for the
component `c` of the shape function `i` and zero for every other component. -/
structure FESystem where
  dofs_per_cell : Nat
  system_to_component_index : Nat → Nat
  shape_value : Nat → Point → ℚ
  shape_grad : Nat → Point → Tensor1
  shape_value_component : Nat → Point → Nat → ℚ :=
    fun i p c => if c = system_to_component_index i then shape_value i p else 0
  shape_grad_component : Nat → Point → Nat → Tensor1 :=
    fun i p c => if c = system_to_component_index i then shape_grad i p else fun _ => 0

/-- What the kernels read of a `dealii::Quadrature`. -/
structure Quadrature where
  size : Nat
  point : Nat → Point
  weight : Nat → ℚ

/-- What the kernels read of a `dealii::FEValues` or `dealii::FEFaceValuesBase`; the field
`fe_system_to_component_index` is `get_fe().system_to_component_index(i).first`. -/
structure FEValues where
  n_quadrature_points : Nat
  dofs_per_cell : Nat
  fe_system_to_component_index : Nat → Nat
  shape_value_component : Nat → Nat → Nat → ℚ
  shape_grad_component : Nat → Nat → Nat → Tensor1
  JxW : Nat → ℚ
  normal_vector : Nat → Tensor1
  quadrature_point : Nat → Point

/-- The interpolation loop
`for idof: soln[istate(idof)] += soln_coeff[idof] * interpolation_operator[idof]`
from a state initialised to zero (for example weak_dg.cpp lines 3086-3092). -/
def interpolate_solution (n_soln_dofs : Nat) (system_to_component_index : Nat → Nat)
    (soln_coeff : Vec) (interpolation_operator : Nat → ℚ) : State :=
  forLoop n_soln_dofs
    (fun idof soln =>
      let istate := system_to_component_index idof
      addAt soln istate (soln_coeff idof * interpolation_operator idof))
    (fun _ => 0)

/-- The interpolation loop
`for idof: for d: soln_grad[istate(idof)][d] += soln_coeff[idof] * gradient_operator[d][idof]`
from gradients initialised to zero (for example weak_dg.cpp lines 3086-3095). -/
def interpolate_gradient (dim n_soln_dofs : Nat) (system_to_component_index : Nat → Nat)
    (soln_coeff : Vec) (gradient_operator : Nat → Nat → ℚ) : ArrayTensor1 :=
  forLoop n_soln_dofs
    (fun idof soln_grad =>
      let istate := system_to_component_index idof
      forLoop dim
        (fun d (g : ArrayTensor1) => fun s e =>
          if s = istate ∧ e = d then g s e + soln_coeff idof * gradient_operator d idof
          else g s e)
        soln_grad)
    (fun _ _ => 0)

/-- The loop `for s < nstate: flux[s] += extra[s]` on arrays of tensors. -/
def add_flux (nstate : Nat) (flux extra : ArrayTensor1) : ArrayTensor1 :=
  forLoop nstate
    (fun s (g : ArrayTensor1) => fun t d => if t = s then g t d + extra t d else g t d)
    flux

/-- The product `y = A x` of `vmult` (weak_dg.cpp lines 41-52). -/
def vmult (dim : Nat) (A : Nat → Nat → ℚ) (x : Tensor1) : Tensor1 :=
  fun row => if row < dim then forLoop dim (fun col y => y + A row col * x col) 0 else 0

/-! ## Volume kernel -/

/-- The metric terms a kernel holds after its metric step (weak_dg.cpp lines 2942-3009 for
the volume kernel): the Jacobian determinant and the inverse-transpose Jacobian at each
quadrature point. -/
structure MetricTerms where
  jac_det : Nat → ℚ
  jac_inv_tran : Nat → Nat → Nat → ℚ

/-- The table `interpolation_operator[idof][iquad]` built at weak_dg.cpp lines 3014-3019
(and 984-989). -/
def interpolation_operator (fe_soln : FESystem) (unit_quad_pts : Nat → Point) (idof iquad : Nat) :
    ℚ :=
  fe_soln.shape_value idof (unit_quad_pts iquad)

/-- The table `gradient_operator[d][idof][iquad]` built at weak_dg.cpp lines 3026-3058
(and 994-1019). -/
def gradient_operator (dim : Nat) (compute_metric_derivatives : Bool) (fe_soln : FESystem)
    (unit_quad_pts : Nat → Point) (metric : MetricTerms) (fe_values : FEValues)
    (d idof iquad : Nat) : ℚ :=
  if compute_metric_derivatives then
    let ref_shape_grad := fe_soln.shape_grad idof (unit_quad_pts iquad)
    let phys_shape_grad := vmult dim (metric.jac_inv_tran iquad) ref_shape_grad
    phys_shape_grad d
  else
    let istate := fe_soln.system_to_component_index idof
    fe_values.shape_grad_component idof iquad istate d

/-- The point `ad_point` or `real_quad_pts[iquad]` interpolated from the geometry
coefficients (weak_dg.cpp lines 3109-3114 and 902-906). -/
def interpolate_point (fe_metric : FESystem) (coords_coeff : Vec) (unit_quad_pt : Point) :
    Point :=
  forLoop fe_metric.dofs_per_cell
    (fun idof pt =>
      let iaxis := fe_metric.system_to_component_index idof
      addAt pt iaxis (coords_coeff idof * fe_metric.shape_value idof unit_quad_pt))
    (fun _ => 0)

/-- The inputs of `DGWeak::assemble_volume_term`; `artificial_dissipation_coeff` is the
entry `artificial_dissipation_coeffs[current_cell_index]` and `metric` the result of the
metric step. -/
structure VolumeInput where
  dim : Nat
  nstate : Nat
  all_parameters : AllParameters
  artificial_dissipation_coeff : ℚ
  soln_coeff : Vec
  coords_coeff : Vec
  local_dual : Vec
  fe_soln : FESystem
  fe_metric : FESystem
  quadrature : Quadrature
  physics : PhysicsBase
  compute_metric_derivatives : Bool
  fe_values_vol : FEValues
  metric : MetricTerms

/-- The value `artificial_diss_coeff` of weak_dg.cpp lines 3074-3076. -/
def VolumeInput.artificial_diss_coeff (x : VolumeInput) : ℚ :=
  if x.all_parameters.add_artificial_dissipation then x.artificial_dissipation_coeff else 0

/-- The entry `interpolation_operator[idof][iquad]` of the volume kernel. -/
def VolumeInput.interp (x : VolumeInput) (idof iquad : Nat) : ℚ :=
  interpolation_operator x.fe_soln x.quadrature.point idof iquad

/-- The entry `gradient_operator[d][idof][iquad]` of the volume kernel. -/
def VolumeInput.grad (x : VolumeInput) (d idof iquad : Nat) : ℚ :=
  gradient_operator x.dim x.compute_metric_derivatives x.fe_soln x.quadrature.point x.metric
    x.fe_values_vol d idof iquad

/-- The state `soln_at_q[iquad]` (weak_dg.cpp lines 3086-3092). -/
def VolumeInput.soln_at_q (x : VolumeInput) (iquad : Nat) : State :=
  interpolate_solution x.fe_soln.dofs_per_cell x.fe_soln.system_to_component_index x.soln_coeff
    (fun idof => x.interp idof iquad)

/-- The gradient `soln_grad_at_q[iquad]` (weak_dg.cpp lines 3086-3095). -/
def VolumeInput.soln_grad_at_q (x : VolumeInput) (iquad : Nat) : ArrayTensor1 :=
  interpolate_gradient x.dim x.fe_soln.dofs_per_cell x.fe_soln.system_to_component_index
    x.soln_coeff (fun d idof => x.grad d idof iquad)

/-- The flux `conv_phys_flux_at_q[iquad]` (weak_dg.cpp line 3097). -/
def VolumeInput.conv_phys_flux_at_q (x : VolumeInput) (iquad : Nat) : ArrayTensor1 :=
  x.physics.convective_flux (x.soln_at_q iquad)

/-- The flux `diss_phys_flux_at_q[iquad]` (weak_dg.cpp lines 3098-3106). -/
def VolumeInput.diss_phys_flux_at_q (x : VolumeInput) (iquad : Nat) : ArrayTensor1 :=
  let diss_phys_flux := x.physics.dissipative_flux (x.soln_at_q iquad) (x.soln_grad_at_q iquad)
  if x.all_parameters.add_artificial_dissipation then
    let artificial_diss_phys_flux_at_q :=
      x.physics.artificial_dissipative_flux x.artificial_diss_coeff (x.soln_at_q iquad)
        (x.soln_grad_at_q iquad)
    add_flux x.nstate diss_phys_flux artificial_diss_phys_flux_at_q
  else
    diss_phys_flux

/-- The source `source_at_q[iquad]` (weak_dg.cpp lines 3084, 3108-3118); the array is
zero when the manufactured source term is off. -/
def VolumeInput.source_at_q (x : VolumeInput) (iquad : Nat) : State :=
  if x.all_parameters.use_manufactured_source_term then
    let ad_point := interpolate_point x.fe_metric x.coords_coeff (x.quadrature.point iquad)
    x.physics.source_term ad_point (x.soln_at_q iquad)
  else
    fun _ => 0

/-- The kernel `DGWeak::assemble_volume_term` (weak_dg.cpp lines 2912-3154): returns `rhs`
and `dual_dot_residual`. -/
def assemble_volume_term (x : VolumeInput) : Vec × ℚ :=
  let n_quad_pts := x.quadrature.size
  let n_soln_dofs := x.fe_soln.dofs_per_cell
  let rhs : Vec := forLoop n_soln_dofs (fun itest rhs => setAt rhs itest 0) zeroVec
  let dual_dot_residual : ℚ := 0
  forLoop n_soln_dofs
    (fun itest (s : Vec × ℚ) =>
      let istate := x.fe_soln.system_to_component_index itest
      let rhs := forLoop n_quad_pts
        (fun iquad (rhs : Vec) =>
          let JxW_iquad := x.metric.jac_det iquad * x.quadrature.weight iquad
          let rhs := forLoop x.dim
            (fun d (rhs : Vec) =>
              let rhs := setAt rhs itest
                (rhs itest + x.grad d itest iquad * x.conv_phys_flux_at_q iquad istate d * JxW_iquad)
              setAt rhs itest
                (rhs itest + x.grad d itest iquad * x.diss_phys_flux_at_q iquad istate d * JxW_iquad))
            rhs
          if x.all_parameters.use_manufactured_source_term then
            setAt rhs itest
              (rhs itest + x.interp itest iquad * x.source_at_q iquad istate * JxW_iquad)
          else rhs)
        s.1
      (rhs, s.2 + x.local_dual itest * rhs itest))
    (rhs, dual_dot_residual)

/-- The right-hand side the volume kernel is specified to return for test function
`itest`: the sum over the quadrature points of
`(grad phi . (F_conv + F_diss) + phi S) J_det w` for given fluxes `F_conv`, `F_diss` and
source `S`. -/
def volume_term_formula (x : VolumeInput) (F_conv F_diss : Nat → ArrayTensor1)
    (S : Nat → State) (itest : Nat) : ℚ :=
  let istate := x.fe_soln.system_to_component_index itest
  ∑ q ∈ Finset.range x.quadrature.size,
    ((∑ d ∈ Finset.range x.dim,
        x.grad d itest q * (F_conv q istate d + F_diss q istate d))
      + x.interp itest q * S q istate)
    * (x.metric.jac_det q * x.quadrature.weight q)

/-! ## Boundary kernel -/

/-- The loops `for s < nstate: for d < dim: jump[s][d] = (u_star[s] - u[s]) * normal[d]`
(weak_dg.cpp lines 644-648, 792-797, 1066-1071, 2007-2013). -/
def soln_jump (dim nstate : Nat) (diss_soln_num_flux soln : State) (normal : Tensor1) :
    ArrayTensor1 :=
  fun s d => if s < nstate ∧ d < dim then (diss_soln_num_flux s - soln s) * normal d else 0

/-- The dissipative flux of a jump with the artificial dissipation added when it is
enabled (weak_dg.cpp lines 649-655, 798-808, 1072-1079, 2014-2024). -/
def diss_flux_of_jump (nstate : Nat) (all_parameters : AllParameters) (physics : PhysicsBase)
    (artificial_diss_coeff : ℚ) (soln : State) (diss_soln_jump : ArrayTensor1) : ArrayTensor1 :=
  let diss_flux_jump := physics.dissipative_flux soln diss_soln_jump
  if all_parameters.add_artificial_dissipation then
    let artificial_diss_flux_jump :=
      physics.artificial_dissipative_flux artificial_diss_coeff soln diss_soln_jump
    add_flux nstate diss_flux_jump artificial_diss_flux_jump
  else
    diss_flux_jump

/-- The metric terms the boundary kernel computes from the geometry coefficients when
`compute_metric_derivatives` is set (weak_dg.cpp lines 892-977), the result of
`assemble_boundary_term_metric_terms`. -/
structure BoundaryMetric where
  jac_inv_tran : Nat → Nat → Nat → ℚ
  surface_jac_det : Nat → ℚ
  normals : Nat → Tensor1

/-- The inputs of `DGWeak::assemble_boundary_term`; `face_quadrature` is the projection of
`quadrature` to face `face_number`. -/
structure BoundaryInput where
  dim : Nat
  nstate : Nat
  all_parameters : AllParameters
  artificial_dissipation_coeff : ℚ
  soln_coeff : Vec
  coords_coeff : Vec
  local_dual : Vec
  boundary_id : Nat
  physics : PhysicsBase
  conv_num_flux : NumericalFluxConvective
  diss_num_flux : NumericalFluxDissipative
  fe_values_boundary : FEValues
  penalty : ℚ
  fe_soln : FESystem
  fe_metric : FESystem
  face_quadrature : Quadrature
  compute_metric_derivatives : Bool
  metric : BoundaryMetric

/-- The value `artificial_diss_coeff` of weak_dg.cpp lines 1025-1027. -/
def BoundaryInput.artificial_diss_coeff (x : BoundaryInput) : ℚ :=
  if x.all_parameters.add_artificial_dissipation then x.artificial_dissipation_coeff else 0

/-- The point `real_quad_pts[iquad]` (weak_dg.cpp lines 902-906, 931). -/
def BoundaryInput.real_quad_pts (x : BoundaryInput) (iquad : Nat) : Point :=
  if x.compute_metric_derivatives then
    interpolate_point x.fe_metric x.coords_coeff (x.face_quadrature.point iquad)
  else
    x.fe_values_boundary.quadrature_point iquad

/-- The value `surface_jac_det[iquad]` (weak_dg.cpp lines 932, 969). -/
def BoundaryInput.surface_jac_det (x : BoundaryInput) (iquad : Nat) : ℚ :=
  if x.compute_metric_derivatives then x.metric.surface_jac_det iquad
  else x.fe_values_boundary.JxW iquad / x.face_quadrature.weight iquad

/-- The normal `normals[iquad]` (weak_dg.cpp lines 933, 973-975). -/
def BoundaryInput.normals (x : BoundaryInput) (iquad : Nat) : Tensor1 :=
  if x.compute_metric_derivatives then x.metric.normals iquad
  else x.fe_values_boundary.normal_vector iquad

/-- The entry `interpolation_operator[idof][iquad]` of the boundary kernel. -/
def BoundaryInput.interp (x : BoundaryInput) (idof iquad : Nat) : ℚ :=
  interpolation_operator x.fe_soln x.face_quadrature.point idof iquad

/-- The entry `gradient_operator[d][idof][iquad]` of the boundary kernel. -/
def BoundaryInput.grad (x : BoundaryInput) (d idof iquad : Nat) : ℚ :=
  gradient_operator x.dim x.compute_metric_derivatives x.fe_soln x.face_quadrature.point
    ⟨fun _ => 0, x.metric.jac_inv_tran⟩ x.fe_values_boundary d idof iquad

/-- The interior trace `soln_int` at a quadrature point (weak_dg.cpp lines 1037-1047). -/
def BoundaryInput.soln_int (x : BoundaryInput) (iquad : Nat) : State :=
  interpolate_solution x.fe_soln.dofs_per_cell x.fe_values_boundary.fe_system_to_component_index
    x.soln_coeff (fun idof => x.interp idof iquad)

/-- The interior gradient `soln_grad_int` at a quadrature point (lines 1037-1047). -/
def BoundaryInput.soln_grad_int (x : BoundaryInput) (iquad : Nat) : ArrayTensor1 :=
  interpolate_gradient x.dim x.fe_soln.dofs_per_cell
    x.fe_values_boundary.fe_system_to_component_index x.soln_coeff
    (fun d idof => x.grad d idof iquad)

/-- The pair `(soln_ext, soln_grad_ext)` returned by the boundary-condition closure
(weak_dg.cpp line 1049). -/
def BoundaryInput.boundary_values (x : BoundaryInput) (iquad : Nat) : State × ArrayTensor1 :=
  x.physics.boundary_face_values x.boundary_id (x.real_quad_pts iquad) (x.normals iquad)
    (x.soln_int iquad) (x.soln_grad_int iquad)

/-- The flux `conv_num_flux_dot_n[iquad]` (weak_dg.cpp line 1062). -/
def BoundaryInput.conv_num_flux_dot_n (x : BoundaryInput) (iquad : Nat) : State :=
  let normal_int := x.normals iquad
  let soln_int := x.soln_int iquad
  let soln_ext := (x.boundary_values iquad).1
  x.conv_num_flux.evaluate_flux soln_int soln_ext normal_int

/-- The solution flux `diss_soln_num_flux[iquad]` (weak_dg.cpp line 1064). -/
def BoundaryInput.diss_soln_num_flux (x : BoundaryInput) (iquad : Nat) : State :=
  let normal_int := x.normals iquad
  let soln_ext := (x.boundary_values iquad).1
  x.diss_num_flux.evaluate_solution_flux soln_ext soln_ext normal_int

/-- The flux `diss_flux_jump_int[iquad]` (weak_dg.cpp lines 1066-1079). -/
def BoundaryInput.diss_flux_jump_int (x : BoundaryInput) (iquad : Nat) : ArrayTensor1 :=
  let normal_int := x.normals iquad
  let soln_int := x.soln_int iquad
  let diss_soln_jump_int := soln_jump x.dim x.nstate (x.diss_soln_num_flux iquad) soln_int normal_int
  diss_flux_of_jump x.nstate x.all_parameters x.physics x.artificial_diss_coeff soln_int
    diss_soln_jump_int

/-- The flux `diss_auxi_num_flux_dot_n[iquad]` (weak_dg.cpp lines 1081-1086). -/
def BoundaryInput.diss_auxi_num_flux_dot_n (x : BoundaryInput) (iquad : Nat) : State :=
  x.diss_num_flux.evaluate_auxiliary_flux x.artificial_diss_coeff x.artificial_diss_coeff
    (x.soln_int iquad) (x.boundary_values iquad).1 (x.soln_grad_int iquad)
    (x.boundary_values iquad).2 (x.normals iquad) x.penalty true

/-- The kernel `DGWeak::assemble_boundary_term` (weak_dg.cpp lines 851-1112): returns `rhs`
and `dual_dot_residual`. -/
def assemble_boundary_term (x : BoundaryInput) : Vec × ℚ :=
  let n_soln_dofs := x.fe_soln.dofs_per_cell
  let n_quad_pts := x.fe_values_boundary.n_quadrature_points
  let dual_dot_residual : ℚ := 0
  let rhs : Vec := forLoop n_soln_dofs (fun itest rhs => setAt rhs itest 0) zeroVec
  forLoop n_soln_dofs
    (fun itest (s : Vec × ℚ) =>
      let rhs_val : ℚ := 0
      let istate := x.fe_values_boundary.fe_system_to_component_index itest
      let rhs_val := forLoop n_quad_pts
        (fun iquad rhs_val =>
          let JxW_iquad := x.surface_jac_det iquad * x.face_quadrature.weight iquad
          let rhs_val := rhs_val - x.interp itest iquad * x.conv_num_flux_dot_n iquad istate * JxW_iquad
          let rhs_val := rhs_val
            - x.interp itest iquad * x.diss_auxi_num_flux_dot_n iquad istate * JxW_iquad
          forLoop x.dim
            (fun d rhs_val =>
              rhs_val + x.grad d itest iquad * x.diss_flux_jump_int iquad istate d * JxW_iquad)
            rhs_val)
        rhs_val
      (setAt s.1 itest rhs_val, s.2 + x.local_dual itest * rhs_val))
    (rhs, dual_dot_residual)

/-- The right-hand side the boundary kernel is specified to return for test function
`itest`: the sum over the face quadrature points of
`(- phi F*_conv - phi F*_aux + grad phi . flux_jump) surface_jac_det w` for a given
`flux_jump`. -/
def boundary_term_formula (x : BoundaryInput) (flux_jump : Nat → ArrayTensor1) (itest : Nat) : ℚ :=
  let istate := x.fe_values_boundary.fe_system_to_component_index itest
  ∑ q ∈ Finset.range x.fe_values_boundary.n_quadrature_points,
    (- (x.interp itest q * x.conv_num_flux_dot_n q istate)
      - x.interp itest q * x.diss_auxi_num_flux_dot_n q istate
      + ∑ d ∈ Finset.range x.dim, x.grad d itest q * flux_jump q istate d)
    * (x.surface_jac_det q * x.face_quadrature.weight q)

/-- The scalar product of two `dealii::Tensor<1,dim>`. -/
def dot (dim : Nat) (a b : Tensor1) : ℚ :=
  forLoop dim (fun d acc => acc + a d * b d) 0

/-- The inputs of `DGWeak::assemble_boundary_term_explicit`. -/
structure BoundaryExplicitInput where
  dim : Nat
  nstate : Nat
  all_parameters : AllParameters
  artificial_dissipation_coeff : ℚ
  soln_coeff_int : Vec
  boundary_id : Nat
  physics : PhysicsBase
  conv_num_flux : NumericalFluxConvective
  diss_num_flux : NumericalFluxDissipative
  fe_values_boundary : FEValues
  penalty : ℚ

/-- The value `artificial_diss_coeff` of weak_dg.cpp lines 609-611. -/
def BoundaryExplicitInput.artificial_diss_coeff (x : BoundaryExplicitInput) : ℚ :=
  if x.all_parameters.add_artificial_dissipation then x.artificial_dissipation_coeff else 0

/-- The interior trace `soln_int[iquad]` (weak_dg.cpp lines 598-623). -/
def BoundaryExplicitInput.soln_int (x : BoundaryExplicitInput) (iquad : Nat) : State :=
  interpolate_solution x.fe_values_boundary.dofs_per_cell
    x.fe_values_boundary.fe_system_to_component_index x.soln_coeff_int
    (fun idof => x.fe_values_boundary.shape_value_component idof iquad
      (x.fe_values_boundary.fe_system_to_component_index idof))

/-- The interior gradient `soln_grad_int[iquad]` (weak_dg.cpp lines 598-623). -/
def BoundaryExplicitInput.soln_grad_int (x : BoundaryExplicitInput) (iquad : Nat) : ArrayTensor1 :=
  interpolate_gradient x.dim x.fe_values_boundary.dofs_per_cell
    x.fe_values_boundary.fe_system_to_component_index x.soln_coeff_int
    (fun d idof => x.fe_values_boundary.shape_grad_component idof iquad
      (x.fe_values_boundary.fe_system_to_component_index idof) d)

/-- The pair `(soln_ext[iquad], soln_grad_ext[iquad])` (weak_dg.cpp line 626). -/
def BoundaryExplicitInput.boundary_values (x : BoundaryExplicitInput) (iquad : Nat) :
    State × ArrayTensor1 :=
  x.physics.boundary_face_values x.boundary_id (x.fe_values_boundary.quadrature_point iquad)
    (x.fe_values_boundary.normal_vector iquad) (x.soln_int iquad) (x.soln_grad_int iquad)

/-- The flux `conv_num_flux_dot_n[iquad]` (weak_dg.cpp line 639). -/
def BoundaryExplicitInput.conv_num_flux_dot_n (x : BoundaryExplicitInput) (iquad : Nat) : State :=
  let normal_int := x.fe_values_boundary.normal_vector iquad
  let soln_int := x.soln_int iquad
  let soln_ext := (x.boundary_values iquad).1
  x.conv_num_flux.evaluate_flux soln_int soln_ext normal_int

/-- The solution flux `diss_soln_num_flux[iquad]` (weak_dg.cpp line 641). -/
def BoundaryExplicitInput.diss_soln_num_flux (x : BoundaryExplicitInput) (iquad : Nat) : State :=
  let normal_int := x.fe_values_boundary.normal_vector iquad
  let soln_ext := (x.boundary_values iquad).1
  x.diss_num_flux.evaluate_solution_flux soln_ext soln_ext normal_int

/-- The flux `diss_flux_jump_int[iquad]` (weak_dg.cpp lines 643-655). -/
def BoundaryExplicitInput.diss_flux_jump_int (x : BoundaryExplicitInput) (iquad : Nat) :
    ArrayTensor1 :=
  let normal_int := x.fe_values_boundary.normal_vector iquad
  let soln_int := x.soln_int iquad
  let diss_soln_jump_int := soln_jump x.dim x.nstate (x.diss_soln_num_flux iquad) soln_int normal_int
  diss_flux_of_jump x.nstate x.all_parameters x.physics x.artificial_diss_coeff soln_int
    diss_soln_jump_int

/-- The flux `diss_auxi_num_flux_dot_n[iquad]` (weak_dg.cpp lines 657-662). -/
def BoundaryExplicitInput.diss_auxi_num_flux_dot_n (x : BoundaryExplicitInput) (iquad : Nat) :
    State :=
  x.diss_num_flux.evaluate_auxiliary_flux x.artificial_diss_coeff x.artificial_diss_coeff
    (x.soln_int iquad) (x.boundary_values iquad).1 (x.soln_grad_int iquad)
    (x.boundary_values iquad).2 (x.fe_values_boundary.normal_vector iquad) x.penalty true

/-- The kernel `DGWeak::assemble_boundary_term_explicit` (weak_dg.cpp lines 559-683): the
contribution it adds to `local_rhs_int_cell`. -/
def assemble_boundary_term_explicit (x : BoundaryExplicitInput) : Vec :=
  let n_soln_dofs_int := x.fe_values_boundary.dofs_per_cell
  let n_face_quad_pts := x.fe_values_boundary.n_quadrature_points
  forLoop n_soln_dofs_int
    (fun itest (contribution : Vec) =>
      let rhs : ℚ := 0
      let istate := x.fe_values_boundary.fe_system_to_component_index itest
      let rhs := forLoop n_face_quad_pts
        (fun iquad rhs =>
          let rhs := rhs - x.fe_values_boundary.shape_value_component itest iquad istate
            * x.conv_num_flux_dot_n iquad istate * x.fe_values_boundary.JxW iquad
          let rhs := rhs - x.fe_values_boundary.shape_value_component itest iquad istate
            * x.diss_auxi_num_flux_dot_n iquad istate * x.fe_values_boundary.JxW iquad
          rhs + dot x.dim (x.fe_values_boundary.shape_grad_component itest iquad istate)
            (x.diss_flux_jump_int iquad istate) * x.fe_values_boundary.JxW iquad)
        rhs
      addAt contribution itest rhs)
    zeroVec

/-! ## Face kernel -/

/-- The metric terms of one side of a face that `assemble_face_term` computes from the
geometry coefficients (weak_dg.cpp lines 1692-1882), the result of
`assemble_face_term_metric_terms`. -/
structure FaceMetric where
  jac_inv_tran : Nat → Nat → Nat → ℚ
  surface_jac_det : Nat → ℚ
  normal_normalized : Nat → Tensor1

/-- The inputs of `DGWeak::assemble_face_term`. The two coefficients
`artificial_dissipation_coeff_int` and `_ext` are the entries of
`artificial_dissipation_coeffs` at `current_cell_index` and `neighbor_cell_index`;
`face_quadrature_int` and `_ext` are the projections of `face_quadrature` to the (sub)face
of each side. -/
structure FaceInput where
  dim : Nat
  nstate : Nat
  all_parameters : AllParameters
  artificial_dissipation_coeff_int : ℚ
  artificial_dissipation_coeff_ext : ℚ
  soln_coeff_int : Vec
  soln_coeff_ext : Vec
  dual_int : Vec
  dual_ext : Vec
  physics : PhysicsBase
  conv_num_flux : NumericalFluxConvective
  diss_num_flux : NumericalFluxDissipative
  fe_values_int : FEValues
  fe_values_ext : FEValues
  penalty : ℚ
  fe_int : FESystem
  fe_ext : FESystem
  face_quadrature : Quadrature
  face_quadrature_int : Quadrature
  face_quadrature_ext : Quadrature
  metric_int : FaceMetric
  metric_ext : FaceMetric

/-- The local constant `compute_metric_derivatives = true` of weak_dg.cpp line 1684. -/
def FaceInput.compute_metric_derivatives (_x : FaceInput) : Bool := true

/-- The value `artificial_diss_coeff_int` of weak_dg.cpp lines 1740-1742. -/
def FaceInput.artificial_diss_coeff_int (x : FaceInput) : ℚ :=
  if x.all_parameters.add_artificial_dissipation then x.artificial_dissipation_coeff_int else 0

/-- The value `artificial_diss_coeff_ext` of weak_dg.cpp lines 1743-1745. -/
def FaceInput.artificial_diss_coeff_ext (x : FaceInput) : ℚ :=
  if x.all_parameters.add_artificial_dissipation then x.artificial_dissipation_coeff_ext else 0

/-- The value `surface_jac_det_int` (weak_dg.cpp lines 1881, 1954). -/
def FaceInput.surface_jac_det_int (x : FaceInput) (iquad : Nat) : ℚ :=
  if x.compute_metric_derivatives then x.metric_int.surface_jac_det iquad
  else x.fe_values_int.JxW iquad / x.face_quadrature_int.weight iquad

/-- The value `surface_jac_det_ext` (weak_dg.cpp lines 1882, 1955). -/
def FaceInput.surface_jac_det_ext (x : FaceInput) (iquad : Nat) : ℚ :=
  if x.compute_metric_derivatives then x.metric_ext.surface_jac_det iquad
  else x.fe_values_ext.JxW iquad / x.face_quadrature_ext.weight iquad

/-- The normal `normal_normalized_int` (weak_dg.cpp lines 1874-1876, 1957). -/
def FaceInput.normal_normalized_int (x : FaceInput) (iquad : Nat) : Tensor1 :=
  if x.compute_metric_derivatives then x.metric_int.normal_normalized iquad
  else x.fe_values_int.normal_vector iquad

/-- The normal `normal_normalized_ext` (weak_dg.cpp lines 1877-1879, 1958). -/
def FaceInput.normal_normalized_ext (x : FaceInput) (iquad : Nat) : Tensor1 :=
  if x.compute_metric_derivatives then x.metric_ext.normal_normalized iquad
  else fun d => - x.normal_normalized_int iquad d

/-- The value `surface_jac_det` selected at weak_dg.cpp lines 1966-1977. -/
def FaceInput.surface_jac_det (x : FaceInput) (iquad : Nat) : ℚ :=
  if x.surface_jac_det_int iquad > x.surface_jac_det_ext iquad then
    -- Interior is the large face, exterior is the small face.
    x.surface_jac_det_ext iquad
  else
    -- Exterior is the large face, interior is the small face.
    x.surface_jac_det_int iquad

/-- The weight `JxW_iquad = surface_jac_det * face_quadrature_int.weight(iquad)` of
weak_dg.cpp lines 2039 and 2057. -/
def FaceInput.JxW_iquad (x : FaceInput) (iquad : Nat) : ℚ :=
  x.surface_jac_det iquad * x.face_quadrature_int.weight iquad

/-- The entry `interpolation_operator_int[idof]` at a quadrature point. -/
def FaceInput.interp_int (x : FaceInput) (idof iquad : Nat) : ℚ :=
  interpolation_operator x.fe_int x.face_quadrature_int.point idof iquad

/-- The entry `interpolation_operator_ext[idof]` at a quadrature point. -/
def FaceInput.interp_ext (x : FaceInput) (idof iquad : Nat) : ℚ :=
  interpolation_operator x.fe_ext x.face_quadrature_ext.point idof iquad

/-- The entry `gradient_operator_int[d][idof]` at a quadrature point. -/
def FaceInput.grad_int (x : FaceInput) (d idof iquad : Nat) : ℚ :=
  gradient_operator x.dim x.compute_metric_derivatives x.fe_int x.face_quadrature_int.point
    ⟨fun _ => 0, x.metric_int.jac_inv_tran⟩ x.fe_values_int d idof iquad

/-- The entry `gradient_operator_ext[d][idof]` at a quadrature point. -/
def FaceInput.grad_ext (x : FaceInput) (d idof iquad : Nat) : ℚ :=
  gradient_operator x.dim x.compute_metric_derivatives x.fe_ext x.face_quadrature_ext.point
    ⟨fun _ => 0, x.metric_ext.jac_inv_tran⟩ x.fe_values_ext d idof iquad

/-- The interior trace `soln_int` (weak_dg.cpp lines 1980-1994). -/
def FaceInput.soln_int (x : FaceInput) (iquad : Nat) : State :=
  interpolate_solution x.fe_int.dofs_per_cell x.fe_int.system_to_component_index
    x.soln_coeff_int (fun idof => x.interp_int idof iquad)

/-- The exterior trace `soln_ext` (weak_dg.cpp lines 1980-2001). -/
def FaceInput.soln_ext (x : FaceInput) (iquad : Nat) : State :=
  interpolate_solution x.fe_ext.dofs_per_cell x.fe_ext.system_to_component_index
    x.soln_coeff_ext (fun idof => x.interp_ext idof iquad)

/-- The interior gradient `soln_grad_int` (weak_dg.cpp lines 1980-1994). -/
def FaceInput.soln_grad_int (x : FaceInput) (iquad : Nat) : ArrayTensor1 :=
  interpolate_gradient x.dim x.fe_int.dofs_per_cell x.fe_int.system_to_component_index
    x.soln_coeff_int (fun d idof => x.grad_int d idof iquad)

/-- The exterior gradient `soln_grad_ext` (weak_dg.cpp lines 1980-2001). -/
def FaceInput.soln_grad_ext (x : FaceInput) (iquad : Nat) : ArrayTensor1 :=
  interpolate_gradient x.dim x.fe_ext.dofs_per_cell x.fe_ext.system_to_component_index
    x.soln_coeff_ext (fun d idof => x.grad_ext d idof iquad)

/-- The flux `conv_num_flux_dot_n` (weak_dg.cpp line 2004). -/
def FaceInput.conv_num_flux_dot_n (x : FaceInput) (iquad : Nat) : State :=
  x.conv_num_flux.evaluate_flux (x.soln_int iquad) (x.soln_ext iquad)
    (x.normal_normalized_int iquad)

/-- The solution flux `diss_soln_num_flux` (weak_dg.cpp line 2005). -/
def FaceInput.diss_soln_num_flux (x : FaceInput) (iquad : Nat) : State :=
  x.diss_num_flux.evaluate_solution_flux (x.soln_int iquad) (x.soln_ext iquad)
    (x.normal_normalized_int iquad)

/-- The flux `diss_flux_jump_int` (weak_dg.cpp lines 2007-2024). -/
def FaceInput.diss_flux_jump_int (x : FaceInput) (iquad : Nat) : ArrayTensor1 :=
  let diss_soln_jump_int := soln_jump x.dim x.nstate (x.diss_soln_num_flux iquad)
    (x.soln_int iquad) (x.normal_normalized_int iquad)
  diss_flux_of_jump x.nstate x.all_parameters x.physics x.artificial_diss_coeff_int
    (x.soln_int iquad) diss_soln_jump_int

/-- The flux `diss_flux_jump_ext` (weak_dg.cpp lines 2007-2024). -/
def FaceInput.diss_flux_jump_ext (x : FaceInput) (iquad : Nat) : ArrayTensor1 :=
  let diss_soln_jump_ext := soln_jump x.dim x.nstate (x.diss_soln_num_flux iquad)
    (x.soln_ext iquad) (x.normal_normalized_ext iquad)
  diss_flux_of_jump x.nstate x.all_parameters x.physics x.artificial_diss_coeff_ext
    (x.soln_ext iquad) diss_soln_jump_ext

/-- The flux `diss_auxi_num_flux_dot_n` (weak_dg.cpp lines 2027-2032). -/
def FaceInput.diss_auxi_num_flux_dot_n (x : FaceInput) (iquad : Nat) : State :=
  x.diss_num_flux.evaluate_auxiliary_flux x.artificial_diss_coeff_int
    x.artificial_diss_coeff_ext (x.soln_int iquad) (x.soln_ext iquad) (x.soln_grad_int iquad)
    (x.soln_grad_ext iquad) (x.normal_normalized_int iquad) x.penalty false

/-- The outputs of the face kernel. -/
structure FaceOutput where
  rhs_int : Vec
  rhs_ext : Vec
  dual_dot_residual : ℚ

/-- The loop over the interior test functions at one quadrature point (weak_dg.cpp lines
2035-2050). -/
def face_term_int_tests (x : FaceInput) (iquad : Nat) (out : FaceOutput) : FaceOutput :=
  forLoop x.fe_int.dofs_per_cell
    (fun itest_int (out : FaceOutput) =>
      let rhs : ℚ := 0
      let istate := x.fe_int.system_to_component_index itest_int
      let JxW_iquad := x.surface_jac_det iquad * x.face_quadrature_int.weight iquad
      let rhs := rhs - x.interp_int itest_int iquad * x.conv_num_flux_dot_n iquad istate * JxW_iquad
      let rhs := rhs
        - x.interp_int itest_int iquad * x.diss_auxi_num_flux_dot_n iquad istate * JxW_iquad
      let rhs := forLoop x.dim
        (fun d rhs =>
          rhs + x.grad_int d itest_int iquad * x.diss_flux_jump_int iquad istate d * JxW_iquad)
        rhs
      { out with
        rhs_int := addAt out.rhs_int itest_int rhs
        dual_dot_residual := out.dual_dot_residual + x.dual_int itest_int * rhs })
    out

/-- The loop over the exterior test functions at one quadrature point (weak_dg.cpp lines
2053-2068). -/
def face_term_ext_tests (x : FaceInput) (iquad : Nat) (out : FaceOutput) : FaceOutput :=
  forLoop x.fe_ext.dofs_per_cell
    (fun itest_ext (out : FaceOutput) =>
      let rhs : ℚ := 0
      let istate := x.fe_ext.system_to_component_index itest_ext
      let JxW_iquad := x.surface_jac_det iquad * x.face_quadrature_int.weight iquad
      let rhs := rhs
        - x.interp_ext itest_ext iquad * (- x.conv_num_flux_dot_n iquad istate) * JxW_iquad
      let rhs := rhs
        - x.interp_ext itest_ext iquad * (- x.diss_auxi_num_flux_dot_n iquad istate) * JxW_iquad
      let rhs := forLoop x.dim
        (fun d rhs =>
          rhs + x.grad_ext d itest_ext iquad * x.diss_flux_jump_ext iquad istate d * JxW_iquad)
        rhs
      { out with
        rhs_ext := addAt out.rhs_ext itest_ext rhs
        dual_dot_residual := out.dual_dot_residual + x.dual_ext itest_ext * rhs })
    out

/-- The kernel `DGWeak::assemble_face_term` (weak_dg.cpp lines 1591-2071): returns
`rhs_int`, `rhs_ext` and `dual_dot_residual`. The assertions of lines 1893-1916 are not
part of this definition. -/
def assemble_face_term (x : FaceInput) : FaceOutput :=
  let n_face_quad_pts := x.face_quadrature.size
  let dual_dot_residual : ℚ := 0
  let rhs_int : Vec := forLoop x.fe_int.dofs_per_cell (fun itest rhs => setAt rhs itest 0) zeroVec
  let rhs_ext : Vec := forLoop x.fe_ext.dofs_per_cell (fun itest rhs => setAt rhs itest 0) zeroVec
  forLoop n_face_quad_pts
    (fun iquad out => face_term_ext_tests x iquad (face_term_int_tests x iquad out))
    { rhs_int := rhs_int, rhs_ext := rhs_ext, dual_dot_residual := dual_dot_residual }

/-- The integrand of the interior side at a quadrature point, without the integration
weight: `grad phi . flux_jump_int - phi F*_conv - phi F*_aux`. -/
def FaceInput.integrand_int (x : FaceInput) (itest_int iquad : Nat) : ℚ :=
  let istate := x.fe_int.system_to_component_index itest_int
  (∑ d ∈ Finset.range x.dim, x.grad_int d itest_int iquad * x.diss_flux_jump_int iquad istate d)
    - x.interp_int itest_int iquad * x.conv_num_flux_dot_n iquad istate
    - x.interp_int itest_int iquad * x.diss_auxi_num_flux_dot_n iquad istate

/-- The integrand of the exterior side at a quadrature point, without the integration
weight: `grad phi . flux_jump_ext - phi (- F*_conv) - phi (- F*_aux)`. -/
def FaceInput.integrand_ext (x : FaceInput) (itest_ext iquad : Nat) : ℚ :=
  let istate := x.fe_ext.system_to_component_index itest_ext
  (∑ d ∈ Finset.range x.dim, x.grad_ext d itest_ext iquad * x.diss_flux_jump_ext iquad istate d)
    - x.interp_ext itest_ext iquad * (- x.conv_num_flux_dot_n iquad istate)
    - x.interp_ext itest_ext iquad * (- x.diss_auxi_num_flux_dot_n iquad istate)

/-- The inputs of `DGWeak::assemble_face_term_explicit`. -/
structure FaceExplicitInput where
  dim : Nat
  nstate : Nat
  all_parameters : AllParameters
  artificial_dissipation_coeff_int : ℚ
  artificial_dissipation_coeff_ext : ℚ
  soln_coeff_int : Vec
  soln_coeff_ext : Vec
  physics : PhysicsBase
  conv_num_flux : NumericalFluxConvective
  diss_num_flux : NumericalFluxDissipative
  fe_values_int : FEValues
  fe_values_ext : FEValues
  penalty : ℚ

/-- The value `artificial_diss_coeff_int` of weak_dg.cpp lines 763-765. -/
def FaceExplicitInput.artificial_diss_coeff_int (x : FaceExplicitInput) : ℚ :=
  if x.all_parameters.add_artificial_dissipation then x.artificial_dissipation_coeff_int else 0

/-- The value `artificial_diss_coeff_ext` of weak_dg.cpp lines 766-768. -/
def FaceExplicitInput.artificial_diss_coeff_ext (x : FaceExplicitInput) : ℚ :=
  if x.all_parameters.add_artificial_dissipation then x.artificial_dissipation_coeff_ext else 0

/-- The normal `normal_int = normals_int[iquad]` (weak_dg.cpp line 772). -/
def FaceExplicitInput.normal_int (x : FaceExplicitInput) (iquad : Nat) : Tensor1 :=
  x.fe_values_int.normal_vector iquad

/-- The normal `normal_ext = -normal_int` (weak_dg.cpp line 773). -/
def FaceExplicitInput.normal_ext (x : FaceExplicitInput) (iquad : Nat) : Tensor1 :=
  fun d => - x.normal_int iquad d

/-- The interior trace `soln_int[iquad]` (weak_dg.cpp lines 776-780). -/
def FaceExplicitInput.soln_int (x : FaceExplicitInput) (iquad : Nat) : State :=
  interpolate_solution x.fe_values_int.dofs_per_cell
    x.fe_values_int.fe_system_to_component_index x.soln_coeff_int
    (fun idof => x.fe_values_int.shape_value_component idof iquad
      (x.fe_values_int.fe_system_to_component_index idof))

/-- The exterior trace `soln_ext[iquad]` (weak_dg.cpp lines 781-785). -/
def FaceExplicitInput.soln_ext (x : FaceExplicitInput) (iquad : Nat) : State :=
  interpolate_solution x.fe_values_ext.dofs_per_cell
    x.fe_values_ext.fe_system_to_component_index x.soln_coeff_ext
    (fun idof => x.fe_values_ext.shape_value_component idof iquad
      (x.fe_values_ext.fe_system_to_component_index idof))

/-- The interior gradient `soln_grad_int[iquad]` (weak_dg.cpp lines 776-780). -/
def FaceExplicitInput.soln_grad_int (x : FaceExplicitInput) (iquad : Nat) : ArrayTensor1 :=
  interpolate_gradient x.dim x.fe_values_int.dofs_per_cell
    x.fe_values_int.fe_system_to_component_index x.soln_coeff_int
    (fun d idof => x.fe_values_int.shape_grad_component idof iquad
      (x.fe_values_int.fe_system_to_component_index idof) d)

/-- The exterior gradient `soln_grad_ext[iquad]` (weak_dg.cpp lines 781-785). -/
def FaceExplicitInput.soln_grad_ext (x : FaceExplicitInput) (iquad : Nat) : ArrayTensor1 :=
  interpolate_gradient x.dim x.fe_values_ext.dofs_per_cell
    x.fe_values_ext.fe_system_to_component_index x.soln_coeff_ext
    (fun d idof => x.fe_values_ext.shape_grad_component idof iquad
      (x.fe_values_ext.fe_system_to_component_index idof) d)

/-- The flux `conv_num_flux_dot_n[iquad]` (weak_dg.cpp line 788). -/
def FaceExplicitInput.conv_num_flux_dot_n (x : FaceExplicitInput) (iquad : Nat) : State :=
  x.conv_num_flux.evaluate_flux (x.soln_int iquad) (x.soln_ext iquad) (x.normal_int iquad)

/-- The solution flux `diss_soln_num_flux[iquad]` (weak_dg.cpp line 789). -/
def FaceExplicitInput.diss_soln_num_flux (x : FaceExplicitInput) (iquad : Nat) : State :=
  x.diss_num_flux.evaluate_solution_flux (x.soln_int iquad) (x.soln_ext iquad)
    (x.normal_int iquad)

/-- The flux `diss_flux_jump_int[iquad]` (weak_dg.cpp lines 791-808). -/
def FaceExplicitInput.diss_flux_jump_int (x : FaceExplicitInput) (iquad : Nat) : ArrayTensor1 :=
  let diss_soln_jump_int := soln_jump x.dim x.nstate (x.diss_soln_num_flux iquad)
    (x.soln_int iquad) (x.normal_int iquad)
  diss_flux_of_jump x.nstate x.all_parameters x.physics x.artificial_diss_coeff_int
    (x.soln_int iquad) diss_soln_jump_int

/-- The flux `diss_flux_jump_ext[iquad]` (weak_dg.cpp lines 791-808). -/
def FaceExplicitInput.diss_flux_jump_ext (x : FaceExplicitInput) (iquad : Nat) : ArrayTensor1 :=
  let diss_soln_jump_ext := soln_jump x.dim x.nstate (x.diss_soln_num_flux iquad)
    (x.soln_ext iquad) (x.normal_ext iquad)
  diss_flux_of_jump x.nstate x.all_parameters x.physics x.artificial_diss_coeff_ext
    (x.soln_ext iquad) diss_soln_jump_ext

/-- The flux `diss_auxi_num_flux_dot_n[iquad]` (weak_dg.cpp lines 810-815). -/
def FaceExplicitInput.diss_auxi_num_flux_dot_n (x : FaceExplicitInput) (iquad : Nat) : State :=
  x.diss_num_flux.evaluate_auxiliary_flux x.artificial_diss_coeff_int
    x.artificial_diss_coeff_ext (x.soln_int iquad) (x.soln_ext iquad) (x.soln_grad_int iquad)
    (x.soln_grad_ext iquad) (x.normal_int iquad) x.penalty false

/-- The kernel `DGWeak::assemble_face_term_explicit` (weak_dg.cpp lines 685-849): the
contributions it adds to `local_rhs_int_cell` and to `local_rhs_ext_cell`. -/
def assemble_face_term_explicit (x : FaceExplicitInput) : Vec × Vec :=
  -- Use quadrature points of neighbor cell
  let n_face_quad_pts := x.fe_values_ext.n_quadrature_points
  let n_soln_dofs_int := x.fe_values_int.dofs_per_cell
  let n_soln_dofs_ext := x.fe_values_ext.dofs_per_cell
  let JxW_int := x.fe_values_int.JxW
  -- From test functions associated with interior cell point of view
  let contribution_int := forLoop n_soln_dofs_int
    (fun itest_int (contribution : Vec) =>
      let rhs : ℚ := 0
      let istate := x.fe_values_int.fe_system_to_component_index itest_int
      let rhs := forLoop n_face_quad_pts
        (fun iquad rhs =>
          let rhs := rhs - x.fe_values_int.shape_value_component itest_int iquad istate
            * x.conv_num_flux_dot_n iquad istate * JxW_int iquad
          let rhs := rhs - x.fe_values_int.shape_value_component itest_int iquad istate
            * x.diss_auxi_num_flux_dot_n iquad istate * JxW_int iquad
          rhs + dot x.dim (x.fe_values_int.shape_grad_component itest_int iquad istate)
            (x.diss_flux_jump_int iquad istate) * JxW_int iquad)
        rhs
      addAt contribution itest_int rhs)
    zeroVec
  -- From test functions associated with neighbor cell point of view
  let contribution_ext := forLoop n_soln_dofs_ext
    (fun itest_ext (contribution : Vec) =>
      let rhs : ℚ := 0
      let istate := x.fe_values_int.fe_system_to_component_index itest_ext
      let rhs := forLoop n_face_quad_pts
        (fun iquad rhs =>
          let rhs := rhs - x.fe_values_ext.shape_value_component itest_ext iquad istate
            * (- x.conv_num_flux_dot_n iquad istate) * JxW_int iquad
          let rhs := rhs - x.fe_values_ext.shape_value_component itest_ext iquad istate
            * (- x.diss_auxi_num_flux_dot_n iquad istate) * JxW_int iquad
          rhs + dot x.dim (x.fe_values_ext.shape_grad_component itest_ext iquad istate)
            (x.diss_flux_jump_ext iquad istate) * JxW_int iquad)
        rhs
      addAt contribution itest_ext rhs)
    zeroVec
  (contribution_int, contribution_ext)

/-! ## Mode dispatch -/

/-- The number type a kernel wrapper is instantiated with. -/
inductive NumberType where
  | real
  | codi_JacobianComputationType
  | codi_HessianComputationType
deriving DecidableEq

/-- The wrapper a dispatcher calls: the residual wrapper (`assemble_*_residual`) with plain
reals, or the taped wrapper (`assemble_*_codi_taped_derivatives`) with a differentiable
type. -/
inductive WrapperCall where
  | residual
  | codi_taped_derivatives (adtype : NumberType)
deriving DecidableEq

/-- The dispatcher `DGWeak::assemble_volume_term_derivatives` (weak_dg.cpp lines 3553-3600):
the list of wrapper calls it makes. -/
def assemble_volume_term_derivatives (compute_dRdW compute_dRdX compute_d2R : Bool) :
    List WrapperCall :=
  if compute_d2R then
    [WrapperCall.codi_taped_derivatives NumberType.codi_HessianComputationType]
  else if compute_dRdW || compute_dRdX then
    [WrapperCall.codi_taped_derivatives NumberType.codi_JacobianComputationType]
  else
    [WrapperCall.residual]

/-- The dispatcher `DGWeak::assemble_boundary_term_derivatives` (weak_dg.cpp lines
1523-1587): the list of wrapper calls it makes. -/
def assemble_boundary_term_derivatives (compute_dRdW compute_dRdX compute_d2R : Bool) :
    List WrapperCall :=
  if compute_d2R then
    [WrapperCall.codi_taped_derivatives NumberType.codi_HessianComputationType]
  else if compute_dRdW || compute_dRdX then
    [WrapperCall.codi_taped_derivatives NumberType.codi_JacobianComputationType]
  else
    [WrapperCall.residual]

/-- The dispatcher `DGWeak::assemble_face_term_derivatives` (weak_dg.cpp lines 3602-3701):
the list of wrapper calls it makes. -/
def assemble_face_term_derivatives (compute_dRdW compute_dRdX compute_d2R : Bool) :
    List WrapperCall :=
  if compute_d2R then
    [WrapperCall.codi_taped_derivatives NumberType.codi_HessianComputationType]
  else if compute_dRdW || compute_dRdX then
    [WrapperCall.codi_taped_derivatives NumberType.codi_JacobianComputationType]
  else
    [WrapperCall.residual]

/-! ## Derivative index layout -/

/-- The sum of two `unsigned int` values: the addition wraps at `2^32`. -/
def unsigned_add (a b : Nat) : Nat := (a + b) % 2 ^ 32

/-- The four outputs of `automatic_differentiation_indexing_1`. -/
structure Indexing1 where
  w_start : Nat
  w_end : Nat
  x_start : Nat
  x_end : Nat
deriving DecidableEq

/-- The function `automatic_differentiation_indexing_1` (weak_dg.cpp lines 99-127); the
last branch prints a message and leaves the four outputs at zero. -/
def automatic_differentiation_indexing_1 (compute_dRdW compute_dRdX compute_d2R : Bool)
    (n_soln_dofs n_metric_dofs : Nat) : Indexing1 :=
  if compute_d2R || (compute_dRdW && compute_dRdX) then
    let w_start := 0
    let w_end := unsigned_add w_start n_soln_dofs
    let x_start := w_end
    let x_end := unsigned_add x_start n_metric_dofs
    { w_start := w_start, w_end := w_end, x_start := x_start, x_end := x_end }
  else if compute_dRdW then
    let w_start := 0
    let w_end := unsigned_add w_start n_soln_dofs
    let x_start := w_end
    let x_end := unsigned_add x_start 0
    { w_start := w_start, w_end := w_end, x_start := x_start, x_end := x_end }
  else if compute_dRdX then
    let w_start := 0
    let w_end := unsigned_add w_start 0
    let x_start := w_end
    let x_end := unsigned_add x_start n_metric_dofs
    { w_start := w_start, w_end := w_end, x_start := x_start, x_end := x_end }
  else
    { w_start := 0, w_end := 0, x_start := 0, x_end := 0 }

/-- The eight outputs of `automatic_differentiation_indexing_2`. -/
structure Indexing2 where
  w_int_start : Nat
  w_int_end : Nat
  w_ext_start : Nat
  w_ext_end : Nat
  x_int_start : Nat
  x_int_end : Nat
  x_ext_start : Nat
  x_ext_end : Nat
deriving DecidableEq

/-- The function `automatic_differentiation_indexing_2` (weak_dg.cpp lines 134-173); the
last branch prints a message and leaves the eight outputs at zero. -/
def automatic_differentiation_indexing_2 (compute_dRdW compute_dRdX compute_d2R : Bool)
    (n_soln_dofs_int n_soln_dofs_ext n_metric_dofs : Nat) : Indexing2 :=
  -- Current derivative order is: soln_int, soln_ext, metric_int, metric_ext
  if compute_d2R || (compute_dRdW && compute_dRdX) then
    let w_int_start := 0
    let w_int_end := unsigned_add w_int_start n_soln_dofs_int
    let w_ext_start := w_int_end
    let w_ext_end := unsigned_add w_ext_start n_soln_dofs_ext
    let x_int_start := w_ext_end
    let x_int_end := unsigned_add x_int_start n_metric_dofs
    let x_ext_start := x_int_end
    let x_ext_end := unsigned_add x_ext_start n_metric_dofs
    { w_int_start := w_int_start, w_int_end := w_int_end, w_ext_start := w_ext_start,
      w_ext_end := w_ext_end, x_int_start := x_int_start, x_int_end := x_int_end,
      x_ext_start := x_ext_start, x_ext_end := x_ext_end }
  else if compute_dRdW then
    let w_int_start := 0
    let w_int_end := unsigned_add w_int_start n_soln_dofs_int
    let w_ext_start := w_int_end
    let w_ext_end := unsigned_add w_ext_start n_soln_dofs_ext
    let x_int_start := w_ext_end
    let x_int_end := unsigned_add x_int_start 0
    let x_ext_start := x_int_end
    let x_ext_end := unsigned_add x_ext_start 0
    { w_int_start := w_int_start, w_int_end := w_int_end, w_ext_start := w_ext_start,
      w_ext_end := w_ext_end, x_int_start := x_int_start, x_int_end := x_int_end,
      x_ext_start := x_ext_start, x_ext_end := x_ext_end }
  else if compute_dRdX then
    let w_int_start := 0
    let w_int_end := unsigned_add w_int_start 0
    let w_ext_start := w_int_end
    let w_ext_end := unsigned_add w_ext_start 0
    let x_int_start := w_ext_end
    let x_int_end := unsigned_add x_int_start n_metric_dofs
    let x_ext_start := x_int_end
    let x_ext_end := unsigned_add x_ext_start n_metric_dofs
    { w_int_start := w_int_start, w_int_end := w_int_end, w_ext_start := w_ext_start,
      w_ext_end := w_ext_end, x_int_start := x_int_start, x_int_end := x_int_end,
      x_ext_start := x_ext_start, x_ext_end := x_ext_end }
  else
    { w_int_start := 0, w_int_end := 0, w_ext_start := 0, w_ext_end := 0,
      x_int_start := 0, x_int_end := 0, x_ext_start := 0, x_ext_end := 0 }

/-- The half-open range `[start, stop)` of derivative indices. -/
def index_range (start stop : Nat) : Finset Nat := Finset.Ico start stop

/-! ## Factory -/

/-- Modelled from the spec: the enumeration
`Parameters::AllParameters::PartialDifferentialEquation` is declared in the parameters
header, which is not among the sources. It has the six enumerators that dg.cpp names;
`other` stands for any further value of the enumeration type. -/
inductive PartialDifferentialEquation where
  | advection
  | diffusion
  | convection_diffusion
  | advection_vector
  | burgers_inviscid
  | euler
  | other (underlying_value : Nat)
deriving DecidableEq

/-- The engine a factory call constructs: `DGWeak<dim,nstate,real>` or
`DGStrong<dim,nstate,real>` with the given polynomial degree. -/
inductive DGBase where
  | DGWeak (dim nstate degree : Nat)
  | DGStrong (dim nstate degree : Nat)
deriving DecidableEq

/-- Whether the engine is a `DGWeak`. -/
def DGBase.is_weak : DGBase → Bool
  | DGBase.DGWeak _ _ _ => true
  | DGBase.DGStrong _ _ _ => false

/-- The factory `DGFactory::create_discontinuous_galerkin` (dg.cpp lines 38-87); `none` is
the null pointer returned after the message "Invalid PDE type". -/
def create_discontinuous_galerkin (dim : Nat) (pde_type : PartialDifferentialEquation)
    (use_weak_form : Bool) (degree : Nat) : Option DGBase :=
  if use_weak_form then
    if pde_type = PartialDifferentialEquation.advection then
      some (DGBase.DGWeak dim 1 degree)
    else if pde_type = PartialDifferentialEquation.advection_vector then
      some (DGBase.DGWeak dim 2 degree)
    else if pde_type = PartialDifferentialEquation.diffusion then
      some (DGBase.DGWeak dim 1 degree)
    else if pde_type = PartialDifferentialEquation.convection_diffusion then
      some (DGBase.DGWeak dim 1 degree)
    else if pde_type = PartialDifferentialEquation.burgers_inviscid then
      some (DGBase.DGWeak dim dim degree)
    else if pde_type = PartialDifferentialEquation.euler then
      some (DGBase.DGWeak dim (dim + 2) degree)
    else
      none
  else
    if pde_type = PartialDifferentialEquation.advection then
      some (DGBase.DGStrong dim 1 degree)
    else if pde_type = PartialDifferentialEquation.advection_vector then
      some (DGBase.DGStrong dim 2 degree)
    else if pde_type = PartialDifferentialEquation.diffusion then
      some (DGBase.DGStrong dim 1 degree)
    else if pde_type = PartialDifferentialEquation.convection_diffusion then
      some (DGBase.DGStrong dim 1 degree)
    else if pde_type = PartialDifferentialEquation.burgers_inviscid then
      some (DGBase.DGStrong dim dim degree)
    else if pde_type = PartialDifferentialEquation.euler then
      some (DGBase.DGStrong dim (dim + 2) degree)
    else
      none

/-- The PDE types the factory is specified to support. -/
def supported_pde_type (pde_type : PartialDifferentialEquation) : Prop :=
  pde_type = PartialDifferentialEquation.advection
    ∨ pde_type = PartialDifferentialEquation.advection_vector
    ∨ pde_type = PartialDifferentialEquation.diffusion
    ∨ pde_type = PartialDifferentialEquation.convection_diffusion
    ∨ pde_type = PartialDifferentialEquation.burgers_inviscid
    ∨ pde_type = PartialDifferentialEquation.euler

instance (pde_type : PartialDifferentialEquation) : Decidable (supported_pde_type pde_type) := by
  unfold supported_pde_type; infer_instance

/-! ## Taped wrappers: registrations and Hessian scatter -/

/-- A variable of a taped wrapper that is registered with the tape helper. -/
inductive TapeVariable where
  | soln_coeff (idof : Nat)
  | coords_coeff (idof : Nat)
  | soln_coeff_int (idof : Nat)
  | soln_coeff_ext (idof : Nat)
  | coords_coeff_int (idof : Nat)
  | coords_coeff_ext (idof : Nat)
  | rhs (itest : Nat)
  | rhs_int (itest : Nat)
  | rhs_ext (itest : Nat)
  | dual_dot_residual
deriving DecidableEq

/-- What a `codi::TapeHelper` holds of the registrations: the inputs and the outputs, each
in the order of registration, which is the order of their indices in the Jacobian and in
the Hessian of the tape. -/
structure TapeHelper where
  inputs : List TapeVariable
  outputs : List TapeVariable
deriving DecidableEq

/-- The call `th.registerInput(v)`. -/
def TapeHelper.registerInput (th : TapeHelper) (v : TapeVariable) : TapeHelper :=
  { th with inputs := th.inputs ++ [v] }

/-- The call `th.registerOutput(v)`. -/
def TapeHelper.registerOutput (th : TapeHelper) (v : TapeVariable) : TapeHelper :=
  { th with outputs := th.outputs ++ [v] }

/-- The registrations of `assemble_volume_codi_taped_derivatives` (weak_dg.cpp lines
3357-3403): the inputs in the two loops before the kernel call, the outputs after it. -/
def assemble_volume_codi_taped_derivatives_tape (compute_dRdW compute_dRdX compute_d2R : Bool)
    (n_soln_dofs n_metric_dofs : Nat) : TapeHelper :=
  let th : TapeHelper := { inputs := [], outputs := [] }
  let th := forLoop n_soln_dofs
    (fun idof (th : TapeHelper) =>
      if compute_dRdW || compute_d2R then th.registerInput (TapeVariable.soln_coeff idof)
      else th)
    th
  let th := forLoop n_metric_dofs
    (fun idof (th : TapeHelper) =>
      if compute_dRdX || compute_d2R then th.registerInput (TapeVariable.coords_coeff idof)
      else th)
    th
  if compute_dRdW || compute_dRdX then
    forLoop n_soln_dofs (fun itest (th : TapeHelper) => th.registerOutput (TapeVariable.rhs itest))
      th
  else if compute_d2R then
    th.registerOutput TapeVariable.dual_dot_residual
  else
    th

/-- The output index `i_dependent` of `assemble_volume_codi_taped_derivatives` (weak_dg.cpp
line 3446). -/
def assemble_volume_codi_taped_derivatives_i_dependent (compute_dRdW compute_dRdX : Bool)
    (n_soln_dofs : Nat) : Nat :=
  if compute_dRdW || compute_dRdX then n_soln_dofs else 0

/-- The registrations of `assemble_boundary_codi_taped_derivatives` (weak_dg.cpp lines
1299-1361). -/
def assemble_boundary_codi_taped_derivatives_tape (compute_dRdW compute_dRdX compute_d2R : Bool)
    (n_soln_dofs n_metric_dofs : Nat) : TapeHelper :=
  let th : TapeHelper := { inputs := [], outputs := [] }
  let th := forLoop n_soln_dofs
    (fun idof (th : TapeHelper) =>
      if compute_dRdW || compute_d2R then th.registerInput (TapeVariable.soln_coeff idof)
      else th)
    th
  let th := forLoop n_metric_dofs
    (fun idof (th : TapeHelper) =>
      if compute_dRdX || compute_d2R then th.registerInput (TapeVariable.coords_coeff idof)
      else th)
    th
  if compute_dRdW || compute_dRdX then
    forLoop n_soln_dofs (fun itest (th : TapeHelper) => th.registerOutput (TapeVariable.rhs itest))
      th
  else if compute_d2R then
    th.registerOutput TapeVariable.dual_dot_residual
  else
    th

/-- The output index `i_dependent` of `assemble_boundary_codi_taped_derivatives`
(weak_dg.cpp line 1404). -/
def assemble_boundary_codi_taped_derivatives_i_dependent (compute_dRdW compute_dRdX : Bool)
    (n_soln_dofs : Nat) : Nat :=
  if compute_dRdW || compute_dRdX then n_soln_dofs else 0

/-- The registrations of `assemble_face_codi_taped_derivatives` (weak_dg.cpp lines
2464-2564). -/
def assemble_face_codi_taped_derivatives_tape (compute_dRdW compute_dRdX compute_d2R : Bool)
    (n_soln_dofs_int n_soln_dofs_ext n_metric_dofs : Nat) : TapeHelper :=
  let th : TapeHelper := { inputs := [], outputs := [] }
  let th := forLoop n_soln_dofs_int
    (fun idof (th : TapeHelper) =>
      if compute_dRdW || compute_d2R then th.registerInput (TapeVariable.soln_coeff_int idof)
      else th)
    th
  let th := forLoop n_soln_dofs_ext
    (fun idof (th : TapeHelper) =>
      if compute_dRdW || compute_d2R then th.registerInput (TapeVariable.soln_coeff_ext idof)
      else th)
    th
  let th := forLoop n_metric_dofs
    (fun idof (th : TapeHelper) =>
      if compute_dRdX || compute_d2R then th.registerInput (TapeVariable.coords_coeff_int idof)
      else th)
    th
  let th := forLoop n_metric_dofs
    (fun idof (th : TapeHelper) =>
      if compute_dRdX || compute_d2R then th.registerInput (TapeVariable.coords_coeff_ext idof)
      else th)
    th
  if compute_dRdW || compute_dRdX then
    let th := forLoop n_soln_dofs_int
      (fun itest (th : TapeHelper) => th.registerOutput (TapeVariable.rhs_int itest)) th
    forLoop n_soln_dofs_ext
      (fun itest (th : TapeHelper) => th.registerOutput (TapeVariable.rhs_ext itest)) th
  else if compute_d2R then
    th.registerOutput TapeVariable.dual_dot_residual
  else
    th

/-- The output index `i_dependent` of `assemble_face_codi_taped_derivatives` (weak_dg.cpp
line 2675). -/
def assemble_face_codi_taped_derivatives_i_dependent (compute_dRdW compute_dRdX : Bool)
    (n_soln_dofs_int n_soln_dofs_ext : Nat) : Nat :=
  if compute_dRdW || compute_dRdX then unsigned_add n_soln_dofs_int n_soln_dofs_ext else 0

/-- The global second-derivative structures of the engine to which the wrappers add. -/
inductive HessianMatrix where
  | d2RdWdW
  | d2RdWdX
  | d2RdXdX
deriving DecidableEq

/-- One call `matrix.add(row, cols, values)` of the Hessian part of a taped wrapper. The
vector `values` has `buffer_size` entries, and the loop before the call has written
`values[jdof] = hes(i_dependent, i_dx, j_dx[jdof])` for each `jdof` of the loop. -/
structure HessianAdd where
  matrix : HessianMatrix
  row : Nat
  cols : List Nat
  i_dependent : Nat
  i_dx : Nat
  j_dx : List Nat
  buffer_size : Nat
deriving DecidableEq

/-- The addition of the Hessian entry `hes(i_dependent, i_dx, j_dx)` of the tape at the
position `(row, col)` of a global structure. -/
structure HessianEntry where
  matrix : HessianMatrix
  row : Nat
  col : Nat
  i_dependent : Nat
  i_dx : Nat
  j_dx : Nat
deriving DecidableEq

/-- The entries that one `add` call adds: the value of position `jdof` goes to column
`cols[jdof]`. -/
def HessianAdd.entries (c : HessianAdd) : List HessianEntry :=
  (List.zip c.cols c.j_dx).map
    (fun p => { matrix := c.matrix, row := c.row, col := p.1, i_dependent := c.i_dependent,
                i_dx := c.i_dx, j_dx := p.2 })

/-- All entries added by a list of `add` calls. -/
def scattered_entries (calls : List HessianAdd) : List HessianEntry :=
  calls.flatMap HessianAdd.entries

/-- The global indices held by a vector of `n` dof indices. -/
def dof_indices_vector (n : Nat) (dof_indices : Nat → Nat) : List Nat :=
  (List.range n).map dof_indices

/-- The indices `j_dx = jdof + start` of a loop `for jdof < n`. -/
def derivative_indices (n start : Nat) : List Nat :=
  (List.range n).map (fun jdof => unsigned_add jdof start)

/-- The Hessian part of `assemble_volume_codi_taped_derivatives` (weak_dg.cpp lines
3442-3481): the `add` calls it makes, in order. -/
def assemble_volume_codi_taped_derivatives_hessian
    (compute_dRdW compute_dRdX compute_d2R : Bool) (n_soln_dofs n_metric_dofs : Nat)
    (soln_dof_indices metric_dof_indices : Nat → Nat) : List HessianAdd :=
  let idx := automatic_differentiation_indexing_1 compute_dRdW compute_dRdX compute_d2R
    n_soln_dofs n_metric_dofs
  if compute_d2R then
    let i_dependent :=
      assemble_volume_codi_taped_derivatives_i_dependent compute_dRdW compute_dRdX n_soln_dofs
    let calls := forLoop n_soln_dofs
      (fun idof (calls : List HessianAdd) =>
        let i_dx := unsigned_add idof idx.w_start
        let calls := calls ++ [{
          matrix := HessianMatrix.d2RdWdW, row := soln_dof_indices idof,
          cols := dof_indices_vector n_soln_dofs soln_dof_indices,
          i_dependent := i_dependent, i_dx := i_dx,
          j_dx := derivative_indices n_soln_dofs idx.w_start, buffer_size := n_soln_dofs }]
        calls ++ [{
          matrix := HessianMatrix.d2RdWdX, row := soln_dof_indices idof,
          cols := dof_indices_vector n_metric_dofs metric_dof_indices,
          i_dependent := i_dependent, i_dx := i_dx,
          j_dx := derivative_indices n_metric_dofs idx.x_start, buffer_size := n_metric_dofs }])
      []
    forLoop n_metric_dofs
      (fun idof (calls : List HessianAdd) =>
        let i_dx := unsigned_add idof idx.x_start
        calls ++ [{
          matrix := HessianMatrix.d2RdXdX, row := metric_dof_indices idof,
          cols := dof_indices_vector n_metric_dofs metric_dof_indices,
          i_dependent := i_dependent, i_dx := i_dx,
          j_dx := derivative_indices n_metric_dofs idx.x_start, buffer_size := n_metric_dofs }])
      calls
  else
    []

/-- The Hessian part of `assemble_boundary_codi_taped_derivatives` (weak_dg.cpp lines
1400-1439): the `add` calls it makes, in order. -/
def assemble_boundary_codi_taped_derivatives_hessian
    (compute_dRdW compute_dRdX compute_d2R : Bool) (n_soln_dofs n_metric_dofs : Nat)
    (soln_dof_indices metric_dof_indices : Nat → Nat) : List HessianAdd :=
  let idx := automatic_differentiation_indexing_1 compute_dRdW compute_dRdX compute_d2R
    n_soln_dofs n_metric_dofs
  if compute_d2R then
    let i_dependent :=
      assemble_boundary_codi_taped_derivatives_i_dependent compute_dRdW compute_dRdX n_soln_dofs
    let calls := forLoop n_soln_dofs
      (fun idof (calls : List HessianAdd) =>
        let i_dx := unsigned_add idof idx.w_start
        let calls := calls ++ [{
          matrix := HessianMatrix.d2RdWdW, row := soln_dof_indices idof,
          cols := dof_indices_vector n_soln_dofs soln_dof_indices,
          i_dependent := i_dependent, i_dx := i_dx,
          j_dx := derivative_indices n_soln_dofs idx.w_start, buffer_size := n_soln_dofs }]
        calls ++ [{
          matrix := HessianMatrix.d2RdWdX, row := soln_dof_indices idof,
          cols := dof_indices_vector n_metric_dofs metric_dof_indices,
          i_dependent := i_dependent, i_dx := i_dx,
          j_dx := derivative_indices n_metric_dofs idx.x_start, buffer_size := n_metric_dofs }])
      []
    forLoop n_metric_dofs
      (fun idof (calls : List HessianAdd) =>
        let i_dx := unsigned_add idof idx.x_start
        calls ++ [{
          matrix := HessianMatrix.d2RdXdX, row := metric_dof_indices idof,
          cols := dof_indices_vector n_metric_dofs metric_dof_indices,
          i_dependent := i_dependent, i_dx := i_dx,
          j_dx := derivative_indices n_metric_dofs idx.x_start, buffer_size := n_metric_dofs }])
      calls
  else
    []

/-- The Hessian part of `assemble_face_codi_taped_derivatives` (weak_dg.cpp lines
2667-2783): the `add` calls it makes, in order. The buffer `dWidW` has `n_soln_dofs_int`
entries in the first loop and is resized to `n_soln_dofs_ext` before the third. -/
def assemble_face_codi_taped_derivatives_hessian
    (compute_dRdW compute_dRdX compute_d2R : Bool)
    (n_soln_dofs_int n_soln_dofs_ext n_metric_dofs : Nat)
    (soln_dof_indices_int soln_dof_indices_ext metric_dof_indices_int
      metric_dof_indices_ext : Nat → Nat) : List HessianAdd :=
  let idx := automatic_differentiation_indexing_2 compute_dRdW compute_dRdX compute_d2R
    n_soln_dofs_int n_soln_dofs_ext n_metric_dofs
  let soln_int := dof_indices_vector n_soln_dofs_int soln_dof_indices_int
  let soln_ext := dof_indices_vector n_soln_dofs_ext soln_dof_indices_ext
  let metric_int := dof_indices_vector n_metric_dofs metric_dof_indices_int
  let metric_ext := dof_indices_vector n_metric_dofs metric_dof_indices_ext
  if compute_d2R then
    let i_dependent := assemble_face_codi_taped_derivatives_i_dependent compute_dRdW
      compute_dRdX n_soln_dofs_int n_soln_dofs_ext
    let calls := forLoop n_soln_dofs_int
      (fun idof (calls : List HessianAdd) =>
        let i_dx := unsigned_add idof idx.w_int_start
        -- dWint_dWint
        let calls := calls ++ [⟨HessianMatrix.d2RdWdW, soln_dof_indices_int idof, soln_int,
          i_dependent, i_dx, derivative_indices n_soln_dofs_int idx.w_int_start, n_soln_dofs_int⟩]
        -- dWint_dWext
        let calls := calls ++ [⟨HessianMatrix.d2RdWdW, soln_dof_indices_int idof, soln_ext,
          i_dependent, i_dx, derivative_indices n_soln_dofs_ext idx.w_ext_start, n_soln_dofs_int⟩]
        -- dWint_dXint
        let calls := calls ++ [⟨HessianMatrix.d2RdWdX, soln_dof_indices_int idof, metric_int,
          i_dependent, i_dx, derivative_indices n_metric_dofs idx.x_int_start, n_metric_dofs⟩]
        -- dWint_dXext
        calls ++ [⟨HessianMatrix.d2RdWdX, soln_dof_indices_int idof, metric_ext,
          i_dependent, i_dx, derivative_indices n_metric_dofs idx.x_ext_start, n_metric_dofs⟩])
      []
    let calls := forLoop n_metric_dofs
      (fun idof (calls : List HessianAdd) =>
        let i_dx := unsigned_add idof idx.x_int_start
        -- dXint_dXint
        let calls := calls ++ [⟨HessianMatrix.d2RdXdX, metric_dof_indices_int idof, metric_int,
          i_dependent, i_dx, derivative_indices n_metric_dofs idx.x_int_start, n_metric_dofs⟩]
        -- dXint_dXext
        calls ++ [⟨HessianMatrix.d2RdXdX, metric_dof_indices_int idof, metric_ext,
          i_dependent, i_dx, derivative_indices n_metric_dofs idx.x_ext_start, n_metric_dofs⟩])
      calls
    let calls := forLoop n_soln_dofs_ext
      (fun idof (calls : List HessianAdd) =>
        let i_dx := unsigned_add idof idx.w_ext_start
        -- dWext_dWint
        let calls := calls ++ [⟨HessianMatrix.d2RdWdW, soln_dof_indices_ext idof, soln_int,
          i_dependent, i_dx, derivative_indices n_soln_dofs_int idx.w_int_start, n_soln_dofs_ext⟩]
        -- dWext_dWext
        let calls := calls ++ [⟨HessianMatrix.d2RdWdW, soln_dof_indices_ext idof, soln_ext,
          i_dependent, i_dx, derivative_indices n_soln_dofs_ext idx.w_ext_start, n_soln_dofs_ext⟩]
        -- dWext_dXint
        let calls := calls ++ [⟨HessianMatrix.d2RdWdX, soln_dof_indices_ext idof, metric_int,
          i_dependent, i_dx, derivative_indices n_metric_dofs idx.x_int_start, n_metric_dofs⟩]
        -- dWext_dXext
        calls ++ [⟨HessianMatrix.d2RdWdX, soln_dof_indices_ext idof, metric_ext,
          i_dependent, i_dx, derivative_indices n_metric_dofs idx.x_ext_start, n_metric_dofs⟩])
      calls
    forLoop n_metric_dofs
      (fun idof (calls : List HessianAdd) =>
        let i_dx := unsigned_add idof idx.x_ext_start
        let calls := calls ++ [⟨HessianMatrix.d2RdXdX, metric_dof_indices_ext idof, metric_int,
          i_dependent, i_dx, derivative_indices n_metric_dofs idx.x_int_start, n_metric_dofs⟩]
        calls ++ [⟨HessianMatrix.d2RdXdX, metric_dof_indices_ext idof, metric_ext,
          i_dependent, i_dx, derivative_indices n_metric_dofs idx.x_ext_start, n_metric_dofs⟩])
      calls
  else
    []

/-- The entry of a Hessian block: for row `i` and column `j` of the block, the entry
`hes(i_dependent, i_start + i, j_start + j)` of the tape added to `matrix` at the global
position `(row_dofs i, col_dofs j)`. -/
def is_block_entry (matrix : HessianMatrix) (i_dependent : Nat)
    (n_rows : Nat) (row_dofs : Nat → Nat) (i_start : Nat)
    (n_cols : Nat) (col_dofs : Nat → Nat) (j_start : Nat) (e : HessianEntry) : Prop :=
  ∃ i, i < n_rows ∧ ∃ j, j < n_cols ∧
    e = { matrix := matrix, row := row_dofs i, col := col_dofs j, i_dependent := i_dependent,
          i_dx := i_start + i, j_dx := j_start + j }

/-- The blocks that the Hessian part of a single-cell wrapper scatters: state-state into
`d2RdWdW`, state-geometry into `d2RdWdX` and geometry-geometry into `d2RdXdX`, the state
indices starting at 0 and the geometry indices at `n_soln_dofs`. -/
def cell_hessian_blocks (i_dependent n_soln_dofs n_metric_dofs : Nat)
    (soln_dof_indices metric_dof_indices : Nat → Nat) (e : HessianEntry) : Prop :=
  let w_start := 0
  let x_start := n_soln_dofs
  is_block_entry HessianMatrix.d2RdWdW i_dependent n_soln_dofs soln_dof_indices w_start
      n_soln_dofs soln_dof_indices w_start e
    ∨ is_block_entry HessianMatrix.d2RdWdX i_dependent n_soln_dofs soln_dof_indices w_start
      n_metric_dofs metric_dof_indices x_start e
    ∨ is_block_entry HessianMatrix.d2RdXdX i_dependent n_metric_dofs metric_dof_indices x_start
      n_metric_dofs metric_dof_indices x_start e

/-- The blocks that the Hessian part of the face wrapper scatters: for each pair of sides,
state-state into `d2RdWdW`, state-geometry into `d2RdWdX` and geometry-geometry into
`d2RdXdX`, the derivative indices in the order state-int, state-ext, geometry-int,
geometry-ext. -/
def face_hessian_blocks (i_dependent n_soln_dofs_int n_soln_dofs_ext n_metric_dofs : Nat)
    (soln_dof_indices_int soln_dof_indices_ext metric_dof_indices_int
      metric_dof_indices_ext : Nat → Nat) (e : HessianEntry) : Prop :=
  let w_int := 0
  let w_ext := n_soln_dofs_int
  let x_int := n_soln_dofs_int + n_soln_dofs_ext
  let x_ext := n_soln_dofs_int + n_soln_dofs_ext + n_metric_dofs
  (is_block_entry HessianMatrix.d2RdWdW i_dependent n_soln_dofs_int soln_dof_indices_int w_int
      n_soln_dofs_int soln_dof_indices_int w_int e
    ∨ is_block_entry HessianMatrix.d2RdWdW i_dependent n_soln_dofs_int soln_dof_indices_int w_int
      n_soln_dofs_ext soln_dof_indices_ext w_ext e
    ∨ is_block_entry HessianMatrix.d2RdWdW i_dependent n_soln_dofs_ext soln_dof_indices_ext w_ext
      n_soln_dofs_int soln_dof_indices_int w_int e
    ∨ is_block_entry HessianMatrix.d2RdWdW i_dependent n_soln_dofs_ext soln_dof_indices_ext w_ext
      n_soln_dofs_ext soln_dof_indices_ext w_ext e)
  ∨ (is_block_entry HessianMatrix.d2RdWdX i_dependent n_soln_dofs_int soln_dof_indices_int w_int
      n_metric_dofs metric_dof_indices_int x_int e
    ∨ is_block_entry HessianMatrix.d2RdWdX i_dependent n_soln_dofs_int soln_dof_indices_int w_int
      n_metric_dofs metric_dof_indices_ext x_ext e
    ∨ is_block_entry HessianMatrix.d2RdWdX i_dependent n_soln_dofs_ext soln_dof_indices_ext w_ext
      n_metric_dofs metric_dof_indices_int x_int e
    ∨ is_block_entry HessianMatrix.d2RdWdX i_dependent n_soln_dofs_ext soln_dof_indices_ext w_ext
      n_metric_dofs metric_dof_indices_ext x_ext e)
  ∨ (is_block_entry HessianMatrix.d2RdXdX i_dependent n_metric_dofs metric_dof_indices_int x_int
      n_metric_dofs metric_dof_indices_int x_int e
    ∨ is_block_entry HessianMatrix.d2RdXdX i_dependent n_metric_dofs metric_dof_indices_int x_int
      n_metric_dofs metric_dof_indices_ext x_ext e
    ∨ is_block_entry HessianMatrix.d2RdXdX i_dependent n_metric_dofs metric_dof_indices_ext x_ext
      n_metric_dofs metric_dof_indices_int x_int e
    ∨ is_block_entry HessianMatrix.d2RdXdX i_dependent n_metric_dofs metric_dof_indices_ext x_ext
      n_metric_dofs metric_dof_indices_ext x_ext e)


/-- Whether an entry belongs to the geometry-state block: its first derivative index is a
geometry index and its second a state index, or it is added at a row of a geometry dof and
a column of a solution dof. -/
def HessianEntry.is_geometry_state (w_start w_end x_start x_end : Nat)
    (soln_dofs metric_dofs : List Nat) (e : HessianEntry) : Prop :=
  ((x_start ≤ e.i_dx ∧ e.i_dx < x_end) ∧ (w_start ≤ e.j_dx ∧ e.j_dx < w_end))
    ∨ (e.row ∈ metric_dofs ∧ e.col ∈ soln_dofs)

instance (w_start w_end x_start x_end : Nat) (soln_dofs metric_dofs : List Nat)
    (e : HessianEntry) :
    Decidable (e.is_geometry_state w_start w_end x_start x_end soln_dofs metric_dofs) := by
  unfold HessianEntry.is_geometry_state; infer_instance

/-- The scalar of the face kernel minus the adjoint-weighted sums of its two vectors. -/
def FaceOutput.dual_defect (x : FaceInput) (out : FaceOutput) : ℚ :=
  out.dual_dot_residual
    - (∑ i ∈ Finset.range x.fe_int.dofs_per_cell, x.dual_int i * out.rhs_int i)
    - (∑ j ∈ Finset.range x.fe_ext.dofs_per_cell, x.dual_ext j * out.rhs_ext j)

/-! ## Metric terms -/

/-- The assignment `a[i][j] = x` on an array with two indices. -/
def set_entry2 (a : Nat → Nat → ℚ) (i j : Nat) (x : ℚ) : Nat → Nat → ℚ :=
  fun i' j' => if i' = i ∧ j' = j then x else a i' j'

/-- The assignment `a[i][j][k] = x` on an array with three indices. -/
def set_entry3 (a : Nat → Nat → Nat → ℚ) (i j k : Nat) (x : ℚ) : Nat → Nat → Nat → ℚ :=
  fun i' j' k' => if i' = i ∧ j' = j ∧ k' = k then x else a i' j' k'

/-- The assignment `a[i] = 0.0` of a whole tensor of an array of rank-2 tensors. -/
def clear_tensor (a : Nat → Nat → Nat → ℚ) (i : Nat) : Nat → Nat → Nat → ℚ :=
  fun i' j' k' => if i' = i then 0 else a i' j' k'

/-- What `evaluate_covariant_metric_jacobian` reads of the scalar element
`fe_metric.base_element(0)`: the number of its unit support points, the points, and the
gradients of its shape functions. -/
structure FiniteElement where
  n_unit_support_points : Nat
  unit_support_points : Nat → Point
  shape_grad : Nat → Point → Tensor1

/-- The function `evaluate_finite_element_values` (weak_dg.cpp lines 175-200): the array
`values[ipoint][icomp]`. -/
def evaluate_finite_element_values (n_components n_pts : Nat) (unit_points : Nat → Point)
    (coefficients : Vec) (finite_element : FESystem) : Nat → Nat → ℚ :=
  let n_dofs := finite_element.dofs_per_cell
  forLoop n_pts
    (fun ipoint (values : Nat → Nat → ℚ) =>
      let values := forLoop n_components
        (fun icomp (values : Nat → Nat → ℚ) => set_entry2 values ipoint icomp 0) values
      forLoop n_dofs
        (fun idof (values : Nat → Nat → ℚ) =>
          let icomp := finite_element.system_to_component_index idof
          set_entry2 values ipoint icomp
            (values ipoint icomp + coefficients idof
              * finite_element.shape_value_component idof (unit_points ipoint) icomp))
        values)
    (fun _ _ => 0)

/-- The function `evaluate_finite_element_gradients` (weak_dg.cpp lines 202-228): the array
`gradients[ipoint][icomp][d]`. -/
def evaluate_finite_element_gradients (dim n_components n_pts : Nat) (unit_points : Nat → Point)
    (coefficients : Vec) (finite_element : FESystem) : Nat → Nat → Nat → ℚ :=
  let n_dofs := finite_element.dofs_per_cell
  forLoop n_pts
    (fun ipoint (gradients : Nat → Nat → Nat → ℚ) =>
      let gradients := forLoop n_components
        (fun icomp (gradients : Nat → Nat → Nat → ℚ) =>
          fun i c d => if i = ipoint ∧ c = icomp then 0 else gradients i c d)
        gradients
      forLoop n_dofs
        (fun idof (gradients : Nat → Nat → Nat → ℚ) =>
          let icomp := finite_element.system_to_component_index idof
          let shape_grad := finite_element.shape_grad_component idof (unit_points ipoint) icomp
          forLoop dim
            (fun d (gradients : Nat → Nat → Nat → ℚ) =>
              set_entry3 gradients ipoint icomp d
                (gradients ipoint icomp d + coefficients idof * shape_grad d))
            gradients)
        gradients)
    (fun _ _ _ => 0)

/-- The function `evaluate_metric_jacobian` (weak_dg.cpp lines 231-256): the array
`metric_jacobian[ipoint][row][col]`. -/
def evaluate_metric_jacobian (dim n_pts : Nat) (points : Nat → Point) (coords_coeff : Vec)
    (fe_metric : FESystem) : Nat → Nat → Nat → ℚ :=
  let coords_gradients :=
    evaluate_finite_element_gradients dim dim n_pts points coords_coeff fe_metric
  forLoop n_pts
    (fun ipoint (metric_jacobian : Nat → Nat → Nat → ℚ) =>
      forLoop dim
        (fun row (metric_jacobian : Nat → Nat → Nat → ℚ) =>
          forLoop dim
            (fun col (metric_jacobian : Nat → Nat → Nat → ℚ) =>
              set_entry3 metric_jacobian ipoint row col (coords_gradients ipoint row col))
            metric_jacobian)
        metric_jacobian)
    (fun _ _ _ => 0)

/-- The function `determinant_ArrayTensor` (weak_dg.cpp lines 258-277) on `n` arrays of
gradients. -/
def determinant_ArrayTensor (dim n : Nat) (coords_gradients : Nat → Nat → Nat → ℚ) : Vec :=
  forLoop n
    (fun i (determinants : Vec) =>
      let determinants :=
        if dim = 1 then setAt determinants i (coords_gradients i 0 0) else determinants
      let determinants :=
        if dim = 2 then
          setAt determinants i
            (coords_gradients i 0 0 * coords_gradients i 1 1
              - coords_gradients i 0 1 * coords_gradients i 1 0)
        else determinants
      if dim = 3 then
        setAt determinants i
          (coords_gradients i 0 0
              * (coords_gradients i 1 1 * coords_gradients i 2 2
                  - coords_gradients i 1 2 * coords_gradients i 2 1)
            - coords_gradients i 0 1
              * (coords_gradients i 1 0 * coords_gradients i 2 2
                  - coords_gradients i 1 2 * coords_gradients i 2 0)
            + coords_gradients i 0 2
              * (coords_gradients i 1 0 * coords_gradients i 2 1
                  - coords_gradients i 1 1 * coords_gradients i 2 0))
      else determinants)
    zeroVec

/-- The two outputs of `evaluate_covariant_metric_jacobian`. -/
structure CovariantMetric where
  covariant_metric_jacobian : Nat → Nat → Nat → ℚ
  jacobian_determinants : Vec

/-- The dimension-2 part of `evaluate_covariant_metric_jacobian` (weak_dg.cpp lines
337-379). -/
def covariant_metric_jacobian_2 (n_quad_pts n_grid_pts : Nat) (unit_quad_pts : Nat → Point)
    (fe_lagrange_grid : FiniteElement) (coords : Nat → Nat → ℚ) (jacobian_determinants : Vec)
    (covariant_metric_jacobian : Nat → Nat → Nat → ℚ) : Nat → Nat → Nat → ℚ :=
  let dim := 2
  -- In 2D Cross-Product Form = Conservative-Curl Form
  let dphys_dref_quad := forLoop n_quad_pts
    (fun iquad (dphys_dref_quad : Nat → Nat → Nat → ℚ) =>
      let dphys_dref_quad := clear_tensor dphys_dref_quad iquad
      let quad_point := unit_quad_pts iquad
      forLoop n_grid_pts
        (fun igrid (dphys_dref_quad : Nat → Nat → Nat → ℚ) =>
          let shape_grad := fe_lagrange_grid.shape_grad igrid quad_point
          forLoop dim
            (fun dphys (dphys_dref_quad : Nat → Nat → Nat → ℚ) =>
              forLoop dim
                (fun dref (dphys_dref_quad : Nat → Nat → Nat → ℚ) =>
                  set_entry3 dphys_dref_quad iquad dphys dref
                    (dphys_dref_quad iquad dphys dref + coords igrid dphys * shape_grad dref))
                dphys_dref_quad)
            dphys_dref_quad)
        dphys_dref_quad)
    (fun _ _ _ => 0)
  forLoop n_quad_pts
    (fun iquad (covariant_metric_jacobian : Nat → Nat → Nat → ℚ) =>
      let invJ := 1 / jacobian_determinants iquad
      let covariant_metric_jacobian := clear_tensor covariant_metric_jacobian iquad
      -- inv(A)^T = [ a b ; c d ]^-T = (1/det(A)) [ d -c ; -b a ]
      let covariant_metric_jacobian :=
        set_entry3 covariant_metric_jacobian iquad 0 0 (dphys_dref_quad iquad 1 1 * invJ)
      let covariant_metric_jacobian :=
        set_entry3 covariant_metric_jacobian iquad 0 1 (- dphys_dref_quad iquad 1 0 * invJ)
      let covariant_metric_jacobian :=
        set_entry3 covariant_metric_jacobian iquad 1 0 (- dphys_dref_quad iquad 0 1 * invJ)
      set_entry3 covariant_metric_jacobian iquad 1 1 (dphys_dref_quad iquad 0 0 * invJ))
    covariant_metric_jacobian

/-- The update `a[i][j][k] += x` on an array with three indices. -/
def add_entry3 (a : Nat → Nat → Nat → ℚ) (i j k : Nat) (x : ℚ) : Nat → Nat → Nat → ℚ :=
  fun i' j' k' => if i' = i ∧ j' = j ∧ k' = k then a i' j' k' + x else a i' j' k'

/-- The update `a[i] *= c` of a whole tensor of an array of rank-2 tensors. -/
def scale_tensor (a : Nat → Nat → Nat → ℚ) (i : Nat) (c : ℚ) : Nat → Nat → Nat → ℚ :=
  fun i' j' k' => if i' = i then a i' j' k' * c else a i' j' k'

/-- The loop `for igrid < n: T[igrid] = f(igrid)` on a vector of zeros. -/
def grid_values (n : Nat) (f : Nat → ℚ) : Vec :=
  forLoop n (fun igrid (T : Vec) => setAt T igrid (f igrid)) zeroVec

/-- The dimension-3 part of `evaluate_covariant_metric_jacobian` (weak_dg.cpp lines
380-437). -/
def covariant_metric_jacobian_3 (n_quad_pts n_grid_pts : Nat) (unit_quad_pts : Nat → Point)
    (fe_lagrange_grid : FiniteElement) (coords : Nat → Nat → ℚ)
    (coords_gradients : Nat → Nat → Nat → ℚ) (jacobian_determinants : Vec)
    (covariant_metric_jacobian : Nat → Nat → Nat → ℚ) : Nat → Nat → Nat → ℚ :=
  -- Evaluate the physical (Y grad Z), (Z grad X), (X grad Y)
  let Ta := grid_values n_grid_pts (fun igrid =>
    (1 / 2) * (coords_gradients igrid 1 1 * coords igrid 2 - coords_gradients igrid 2 1 * coords igrid 1))
  let Tb := grid_values n_grid_pts (fun igrid =>
    (1 / 2) * (coords_gradients igrid 1 2 * coords igrid 2 - coords_gradients igrid 2 2 * coords igrid 1))
  let Tc := grid_values n_grid_pts (fun igrid =>
    (1 / 2) * (coords_gradients igrid 1 0 * coords igrid 2 - coords_gradients igrid 2 0 * coords igrid 1))
  let Td := grid_values n_grid_pts (fun igrid =>
    (1 / 2) * (coords_gradients igrid 2 1 * coords igrid 0 - coords_gradients igrid 0 1 * coords igrid 2))
  let Te := grid_values n_grid_pts (fun igrid =>
    (1 / 2) * (coords_gradients igrid 2 2 * coords igrid 0 - coords_gradients igrid 0 2 * coords igrid 2))
  let Tf := grid_values n_grid_pts (fun igrid =>
    (1 / 2) * (coords_gradients igrid 2 0 * coords igrid 0 - coords_gradients igrid 0 0 * coords igrid 2))
  let Tg := grid_values n_grid_pts (fun igrid =>
    (1 / 2) * (coords_gradients igrid 0 1 * coords igrid 1 - coords_gradients igrid 1 1 * coords igrid 0))
  let Th := grid_values n_grid_pts (fun igrid =>
    (1 / 2) * (coords_gradients igrid 0 2 * coords igrid 1 - coords_gradients igrid 1 2 * coords igrid 0))
  let Ti := grid_values n_grid_pts (fun igrid =>
    (1 / 2) * (coords_gradients igrid 0 0 * coords igrid 1 - coords_gradients igrid 1 0 * coords igrid 0))
  forLoop n_quad_pts
    (fun iquad (covariant_metric_jacobian : Nat → Nat → Nat → ℚ) =>
      let covariant_metric_jacobian := clear_tensor covariant_metric_jacobian iquad
      let quad_point := unit_quad_pts iquad
      let covariant_metric_jacobian := forLoop n_grid_pts
        (fun igrid (c : Nat → Nat → Nat → ℚ) =>
          let shape_grad := fe_lagrange_grid.shape_grad igrid quad_point
          let c := add_entry3 c iquad 0 0 (shape_grad 2 * Ta igrid - shape_grad 1 * Tb igrid)
          let c := add_entry3 c iquad 1 0 (shape_grad 2 * Td igrid - shape_grad 1 * Te igrid)
          let c := add_entry3 c iquad 2 0 (shape_grad 2 * Tg igrid - shape_grad 1 * Th igrid)
          let c := add_entry3 c iquad 0 1 (shape_grad 0 * Tb igrid - shape_grad 2 * Tc igrid)
          let c := add_entry3 c iquad 1 1 (shape_grad 0 * Te igrid - shape_grad 2 * Tf igrid)
          let c := add_entry3 c iquad 2 1 (shape_grad 0 * Th igrid - shape_grad 2 * Ti igrid)
          let c := add_entry3 c iquad 0 2 (shape_grad 1 * Tc igrid - shape_grad 0 * Ta igrid)
          let c := add_entry3 c iquad 1 2 (shape_grad 1 * Tf igrid - shape_grad 0 * Td igrid)
          add_entry3 c iquad 2 2 (shape_grad 1 * Ti igrid - shape_grad 0 * Tg igrid))
        covariant_metric_jacobian
      let invJ := 1 / jacobian_determinants iquad
      scale_tensor covariant_metric_jacobian iquad invJ)
    covariant_metric_jacobian

/-- The function `evaluate_covariant_metric_jacobian` (weak_dg.cpp lines 302-439). The
argument `covariant_metric_jacobian` is the content of the output array at the call;
`fe_lagrange_grid` is `fe_metric.base_element(0)`. The function has no statement that
leaves it before its end: it returns its two outputs for every input. The quotient
`1.0/jacobian_determinants[iquad]` is the rational quotient, which the model takes as 0 for
a zero determinant. -/
def evaluate_covariant_metric_jacobian (dim : Nat) (quadrature : Quadrature)
    (coords_coeff : Vec) (fe_metric : FESystem) (fe_lagrange_grid : FiniteElement)
    (covariant_metric_jacobian : Nat → Nat → Nat → ℚ) : CovariantMetric :=
  let unit_quad_pts := quadrature.point
  let n_quad_pts := quadrature.size
  let unit_grid_pts := fe_lagrange_grid.unit_support_points
  let n_grid_pts := fe_lagrange_grid.n_unit_support_points
  let coords := evaluate_finite_element_values dim n_grid_pts unit_grid_pts coords_coeff fe_metric
  let coords_gradients :=
    evaluate_finite_element_gradients dim dim n_grid_pts unit_grid_pts coords_coeff fe_metric
  let quad_pts_coords_gradients :=
    evaluate_finite_element_gradients dim dim n_quad_pts unit_quad_pts coords_coeff fe_metric
  let jacobian_determinants := determinant_ArrayTensor dim n_quad_pts quad_pts_coords_gradients
  let covariant_metric_jacobian :=
    if dim = 1 then
      forLoop n_quad_pts
        (fun iquad (covariant_metric_jacobian : Nat → Nat → Nat → ℚ) =>
          let invJ := 1 / jacobian_determinants iquad
          set_entry3 covariant_metric_jacobian iquad 0 0 invJ)
        covariant_metric_jacobian
    else covariant_metric_jacobian
  let covariant_metric_jacobian :=
    if dim = 2 then
      covariant_metric_jacobian_2 n_quad_pts n_grid_pts unit_quad_pts fe_lagrange_grid coords
        jacobian_determinants covariant_metric_jacobian
    else covariant_metric_jacobian
  let covariant_metric_jacobian :=
    if dim = 3 then
      covariant_metric_jacobian_3 n_quad_pts n_grid_pts unit_quad_pts fe_lagrange_grid coords
        coords_gradients jacobian_determinants covariant_metric_jacobian
    else covariant_metric_jacobian
  { covariant_metric_jacobian := covariant_metric_jacobian,
    jacobian_determinants := jacobian_determinants }

/-- The library function `dealii::determinant` on a tensor of rank 2 and dimension at most
3. -/
def determinant (dim : Nat) (t : Nat → Nat → ℚ) : ℚ :=
  if dim = 1 then t 0 0
  else if dim = 2 then t 0 0 * t 1 1 - t 1 0 * t 0 1
  else if dim = 3 then
    t 0 0 * (t 1 1 * t 2 2 - t 1 2 * t 2 1)
      - t 0 1 * (t 1 0 * t 2 2 - t 1 2 * t 2 0)
      + t 0 2 * (t 1 0 * t 2 1 - t 1 1 * t 2 0)
  else 0

/-- The library function `dealii::invert` on a tensor of rank 2 and dimension at most 3:
the adjugate divided by the determinant. -/
def invert (dim : Nat) (t : Nat → Nat → ℚ) : Nat → Nat → ℚ :=
  let inv_det_t := 1 / determinant dim t
  if dim = 1 then
    fun i j => if i = 0 ∧ j = 0 then inv_det_t else 0
  else if dim = 2 then
    fun i j =>
      if i = 0 ∧ j = 0 then t 1 1 * inv_det_t
      else if i = 0 ∧ j = 1 then - t 0 1 * inv_det_t
      else if i = 1 ∧ j = 0 then - t 1 0 * inv_det_t
      else if i = 1 ∧ j = 1 then t 0 0 * inv_det_t
      else 0
  else if dim = 3 then
    fun i j =>
      if i < 3 ∧ j < 3 then
        (t ((j + 1) % 3) ((i + 1) % 3) * t ((j + 2) % 3) ((i + 2) % 3)
          - t ((j + 1) % 3) ((i + 2) % 3) * t ((j + 2) % 3) ((i + 1) % 3)) * inv_det_t
      else 0
  else fun _ _ => 0

/-- The library function `dealii::transpose` on a tensor of rank 2. -/
def transpose (t : Nat → Nat → ℚ) : Nat → Nat → ℚ :=
  fun i j => t j i

/-- The metric step of `DGWeak::assemble_volume_term` (weak_dg.cpp lines 2942-3009, with
`KOPRIVA_METRICS_VOL` defined): the arrays `jac_det` and `jac_inv_tran` with which the
kernel goes on. The loop of lines 2965-3008 prints a message when the two determinants of
a quadrature point differ by more than `1e-10` and changes nothing. -/
def assemble_volume_term_metric_terms (dim : Nat) (quadrature : Quadrature) (coords_coeff : Vec)
    (fe_metric : FESystem) (fe_lagrange_grid : FiniteElement) (compute_metric_derivatives : Bool)
    (fe_values_vol : FEValues) : MetricTerms :=
  let n_quad_pts := quadrature.size
  let points := quadrature.point
  -- Evaluate metric terms
  let metric_jacobian : Nat → Nat → Nat → ℚ :=
    if compute_metric_derivatives then
      evaluate_metric_jacobian dim n_quad_pts points coords_coeff fe_metric
    else fun _ _ _ => 0
  let metric := forLoop n_quad_pts
    (fun iquad (metric : MetricTerms) =>
      if compute_metric_derivatives then
        let jacobian_determinant := determinant dim (metric_jacobian iquad)
        let jacobian_transpose_inverse := transpose (invert dim (metric_jacobian iquad))
        { jac_det := setAt metric.jac_det iquad jacobian_determinant,
          jac_inv_tran := fun i => if i = iquad then jacobian_transpose_inverse
            else metric.jac_inv_tran i }
      else
        { metric with
          jac_det := setAt metric.jac_det iquad
            (fe_values_vol.JxW iquad / quadrature.weight iquad) })
    { jac_det := zeroVec, jac_inv_tran := fun _ _ _ => 0 }
  if dim ≠ 1 then
    let covariant := evaluate_covariant_metric_jacobian dim quadrature coords_coeff fe_metric
      fe_lagrange_grid metric.jac_inv_tran
    { jac_det := covariant.jacobian_determinants,
      jac_inv_tran := covariant.covariant_metric_jacobian }
  else
    metric

/-! ## Metric terms of the boundary and the face kernel -/

/-- The function `norm` (weak_dg.cpp lines 59-67); `sqrt` is the square root of plain
reals. -/
def norm (sqrt : ℚ → ℚ) (dim : Nat) (x : Tensor1) : ℚ :=
  let val : ℚ := forLoop dim (fun row val => val + x row * x row) 0
  sqrt val

/-- The table `dealii::GeometryInfo<dim>::unit_normal_vector`: the outward unit normal of
face `face_number` of the reference cell. -/
def unit_normal_vector (face_number : Nat) : Tensor1 :=
  fun d => if d = face_number / 2 then (if face_number % 2 = 0 then -1 else 1) else 0

/-- The arrays of the metric step of `assemble_boundary_term`. -/
structure BoundaryMetricArrays where
  jac_det : Vec
  jac_inv_tran : Nat → Nat → Nat → ℚ
  surface_jac_det : Vec
  normals : Nat → Tensor1

/-- The surface Jacobian and the normalized normal of a quadrature point, from the
inverse-transpose Jacobian and the determinant of the point (weak_dg.cpp lines 914-923 and
966-975). -/
def BoundaryMetricArrays.set_surface (sqrt : ℚ → ℚ) (dim : Nat) (unit_normal : Tensor1)
    (iquad : Nat) (s : BoundaryMetricArrays) : BoundaryMetricArrays :=
  let normal := vmult dim (s.jac_inv_tran iquad) unit_normal
  let area := norm sqrt dim normal
  let surface_jac_det := setAt s.surface_jac_det iquad (norm sqrt dim normal * s.jac_det iquad)
  let normals := forLoop dim
    (fun d (normals : Nat → Tensor1) => set_entry2 normals iquad d (normal d / area))
    s.normals
  { s with surface_jac_det := surface_jac_det, normals := normals }

/-- The metric step of `DGWeak::assemble_boundary_term` (weak_dg.cpp lines 886-977, with
`KOPRIVA_METRICS_BOUNDARY` defined): the arrays `jac_inv_tran`, `surface_jac_det` and
`normals` with which the kernel goes on. The points `real_quad_pts` of lines 902-906 are
`BoundaryInput.real_quad_pts`. -/
def assemble_boundary_term_metric_terms (sqrt : ℚ → ℚ) (dim face_number : Nat)
    (face_quadrature : Quadrature) (coords_coeff : Vec) (fe_metric : FESystem)
    (fe_lagrange_grid : FiniteElement) (compute_metric_derivatives : Bool)
    (fe_values_boundary : FEValues) : BoundaryMetric :=
  let n_quad_pts := fe_values_boundary.n_quadrature_points
  let unit_quad_pts := face_quadrature.point
  let metric_jacobian :=
    evaluate_metric_jacobian dim face_quadrature.size unit_quad_pts coords_coeff fe_metric
  let unit_normal := unit_normal_vector face_number
  let s := forLoop n_quad_pts
    (fun iquad (s : BoundaryMetricArrays) =>
      if compute_metric_derivatives then
        let jacobian_determinant := determinant dim (metric_jacobian iquad)
        let jacobian_transpose_inverse := transpose (invert dim (metric_jacobian iquad))
        let s : BoundaryMetricArrays :=
          { s with
            jac_det := setAt s.jac_det iquad jacobian_determinant,
            jac_inv_tran := fun i => if i = iquad then jacobian_transpose_inverse
              else s.jac_inv_tran i }
        s.set_surface sqrt dim unit_normal iquad
      else
        { s with
          surface_jac_det := setAt s.surface_jac_det iquad
            (fe_values_boundary.JxW iquad / face_quadrature.weight iquad),
          normals := fun i => if i = iquad then fe_values_boundary.normal_vector iquad
            else s.normals i })
    { jac_det := zeroVec, jac_inv_tran := fun _ _ _ => 0, surface_jac_det := zeroVec,
      normals := fun _ _ => 0 }
  let s : BoundaryMetricArrays :=
    if dim ≠ 1 then
      let covariant := evaluate_covariant_metric_jacobian dim face_quadrature coords_coeff
        fe_metric fe_lagrange_grid s.jac_inv_tran
      { s with
        jac_det := covariant.jacobian_determinants,
        jac_inv_tran := covariant.covariant_metric_jacobian }
    else s
  let s := forLoop n_quad_pts
    (fun iquad (s : BoundaryMetricArrays) =>
      if compute_metric_derivatives then s.set_surface sqrt dim unit_normal iquad else s)
    s
  { jac_inv_tran := s.jac_inv_tran, surface_jac_det := s.surface_jac_det,
    normals := s.normals }

/-- The arrays `jacobian_determinant` and `jacobian_transpose_inverse` of one side of a
face. -/
structure FaceMetricArrays where
  jacobian_determinant : Vec
  jacobian_transpose_inverse : Nat → Nat → Nat → ℚ

/-- The metric step of `DGWeak::assemble_face_term` for one side of the face (weak_dg.cpp
lines 1689-1882, with `KOPRIVA_METRICS_FACE` defined and the local constant
`compute_metric_derivatives = true`): the Jacobian of the side at the points of its
projected quadrature, the determinant and the inverse transpose, their replacement by
`evaluate_covariant_metric_jacobian` in more than one dimension, and at each quadrature
point the normal, its norm `area`, the normalized normal and the surface Jacobian
`area * jac_det`. The kernel does this for the interior side with `face_subface_int`,
`face_quadrature_int` and `coords_coeff_int` and for the exterior side with
`face_subface_ext`, `face_quadrature_ext` and `coords_coeff_ext`. The arrays `coords_int`
and `coords_ext` of lines 1819-1830 are not read again. -/
def assemble_face_term_metric_terms (sqrt : ℚ → ℚ) (dim face_number n_face_quad_pts : Nat)
    (face_quadrature_side : Quadrature) (coords_coeff : Vec) (fe_metric : FESystem)
    (fe_lagrange_grid : FiniteElement) : FaceMetric :=
  let unit_quad_pts := face_quadrature_side.point
  let metric_jac :=
    evaluate_metric_jacobian dim face_quadrature_side.size unit_quad_pts coords_coeff fe_metric
  let unit_normal := unit_normal_vector face_number
  let s := forLoop n_face_quad_pts
    (fun iquad (s : FaceMetricArrays) =>
      { jacobian_determinant :=
          setAt s.jacobian_determinant iquad (determinant dim (metric_jac iquad)),
        jacobian_transpose_inverse := fun i =>
          if i = iquad then transpose (invert dim (metric_jac iquad))
          else s.jacobian_transpose_inverse i })
    { jacobian_determinant := zeroVec, jacobian_transpose_inverse := fun _ _ _ => 0 }
  let s : FaceMetricArrays :=
    if dim ≠ 1 then
      let covariant := evaluate_covariant_metric_jacobian dim face_quadrature_side coords_coeff
        fe_metric fe_lagrange_grid s.jacobian_transpose_inverse
      { jacobian_determinant := covariant.jacobian_determinants,
        jacobian_transpose_inverse := covariant.covariant_metric_jacobian }
    else s
  { jac_inv_tran := s.jacobian_transpose_inverse,
    surface_jac_det := fun iquad =>
      let jac_det := s.jacobian_determinant iquad
      let jac_inv_tran := s.jacobian_transpose_inverse iquad
      let normal := vmult dim jac_inv_tran unit_normal
      let area := norm sqrt dim normal
      area * jac_det,
    normal_normalized := fun iquad d =>
      let jac_inv_tran := s.jacobian_transpose_inverse iquad
      let normal := vmult dim jac_inv_tran unit_normal
      let area := norm sqrt dim normal
      if d < dim then normal d / area else 0 }

/-! ## Consistency checks of the face kernel -/

/-- The sum `diff_norm * diff_norm` of the squares of the components of
`normal_normalized_int + normal_normalized_ext` (weak_dg.cpp lines 1901-1905). -/
def FaceInput.diff_norm_squared (x : FaceInput) (iquad : Nat) : ℚ :=
  forLoop x.dim
    (fun d (diff_norm : ℚ) =>
      let diff := x.normal_normalized_int iquad d + x.normal_normalized_ext iquad d
      diff_norm + diff * diff)
    0

/-- Whether an `assert` of weak_dg.cpp lines 1893-1916 fails at a quadrature point. The
first is made when neither side is a sub-face (`face_subface.second == -1` on both sides).
The test `diff_norm > 1e-10` compares a square root; the model compares the squares. -/
def FaceInput.assertion_fails (x : FaceInput) (face_subface_int face_subface_ext : Nat × Int)
    (iquad : Nat) : Bool :=
  let surface_jac_det_int := x.surface_jac_det_int iquad
  let surface_jac_det_ext := x.surface_jac_det_ext iquad
  let jacobians_fail :=
    decide (face_subface_int.2 = -1 ∧ face_subface_ext.2 = -1)
      && !decide (|surface_jac_det_int - surface_jac_det_ext| < 1 / 10 ^ 12)
  let normals_fail :=
    decide (x.diff_norm_squared iquad > (1 / 10 ^ 10) ^ 2)
      && (List.range x.dim).any (fun d =>
        !decide (|x.normal_normalized_int iquad d + x.normal_normalized_ext iquad d|
          < 1 / 10 ^ 10))
  jacobians_fail || normals_fail

/-- The kernel `DGWeak::assemble_face_term` (weak_dg.cpp lines 1591-2071) with its
assertions: `none` when the call aborts on a failed `assert`, and otherwise the outputs of
`assemble_face_term`. The assertions are inside `if (std::is_same<double,real2>::value)`,
and `assert` does nothing in a build with `NDEBUG`. -/
def assemble_face_term_with_assertions (real2 : NumberType) (NDEBUG : Bool) (x : FaceInput)
    (face_subface_int face_subface_ext : Nat × Int) : Option FaceOutput :=
  let n_face_quad_pts := x.face_quadrature.size
  let dual_dot_residual : ℚ := 0
  let rhs_int : Vec := forLoop x.fe_int.dofs_per_cell (fun itest rhs => setAt rhs itest 0) zeroVec
  let rhs_ext : Vec := forLoop x.fe_ext.dofs_per_cell (fun itest rhs => setAt rhs itest 0) zeroVec
  forLoop n_face_quad_pts
    (fun iquad (out : Option FaceOutput) =>
      out.bind (fun out =>
        if x.compute_metric_derivatives = true ∧ real2 = NumberType.real ∧ NDEBUG = false
            ∧ x.assertion_fails face_subface_int face_subface_ext iquad = true then
          none
        else
          some (face_term_ext_tests x iquad (face_term_int_tests x iquad out))))
    (some { rhs_int := rhs_int, rhs_ext := rhs_ext, dual_dot_residual := dual_dot_residual })

/-! ## Engine state and the explicit volume kernel -/

/-- The members of the engine that the kernels read or write, with the solution, the
adjoint and the right-hand side. -/
structure DGWeakState where
  all_parameters : AllParameters
  solution : Vec
  dual : Vec
  right_hand_side : Vec
  artificial_dissipation_coeffs : Nat → ℚ
  cell_volume : Nat → ℚ
  max_dt_cell : Nat → ℚ

/-- The inputs of `DGWeak::assemble_volume_term_explicit` besides the engine. The fields
`cell_index`, `cell_degree` and `diameter` are `fe_values_vol.get_cell()->active_cell_index()`,
`fe_values_vol.get_fe().tensor_degree()` and `fe_values_vol.get_cell()->diameter()`;
`evaluate_CFL` is the member function of `DGBaseState`, which is declared outside the
sources. -/
structure VolumeExplicitInput where
  dim : Nat
  nstate : Nat
  current_cell_index : Nat
  fe_values_vol : FEValues
  soln_dof_indices_int : Nat → Nat
  cell_index : Nat
  cell_degree : Nat
  diameter : ℚ
  pde_physics_double : PhysicsBase
  evaluate_CFL : (Nat → State) → ℚ → ℚ → Nat → ℚ

/-- The coefficients `soln_coeff` read from the solution of the engine (weak_dg.cpp lines
467-470). -/
def VolumeExplicitInput.soln_coeff (x : VolumeExplicitInput) (engine : DGWeakState) : Vec :=
  fun idof => engine.solution (x.soln_dof_indices_int idof)

/-- The value `artificial_diss_coeff` of weak_dg.cpp lines 475-477. -/
def VolumeExplicitInput.artificial_diss_coeff (x : VolumeExplicitInput) (engine : DGWeakState) :
    ℚ :=
  if engine.all_parameters.add_artificial_dissipation then
    engine.artificial_dissipation_coeffs x.current_cell_index
  else 0

/-- The state `soln_at_q[iquad]` (weak_dg.cpp lines 481-494). -/
def VolumeExplicitInput.soln_at_q (x : VolumeExplicitInput) (engine : DGWeakState)
    (iquad : Nat) : State :=
  interpolate_solution x.fe_values_vol.dofs_per_cell
    x.fe_values_vol.fe_system_to_component_index (x.soln_coeff engine)
    (fun idof => x.fe_values_vol.shape_value_component idof iquad
      (x.fe_values_vol.fe_system_to_component_index idof))

/-- The gradient `soln_grad_at_q[iquad]` (weak_dg.cpp lines 481-494). -/
def VolumeExplicitInput.soln_grad_at_q (x : VolumeExplicitInput) (engine : DGWeakState)
    (iquad : Nat) : ArrayTensor1 :=
  interpolate_gradient x.dim x.fe_values_vol.dofs_per_cell
    x.fe_values_vol.fe_system_to_component_index (x.soln_coeff engine)
    (fun d idof => x.fe_values_vol.shape_grad_component idof iquad
      (x.fe_values_vol.fe_system_to_component_index idof) d)

/-- The flux `conv_phys_flux_at_q[iquad]` (weak_dg.cpp line 496). -/
def VolumeExplicitInput.conv_phys_flux_at_q (x : VolumeExplicitInput) (engine : DGWeakState)
    (iquad : Nat) : ArrayTensor1 :=
  x.pde_physics_double.convective_flux (x.soln_at_q engine iquad)

/-- The flux `diss_phys_flux_at_q[iquad]` (weak_dg.cpp lines 497-503). -/
def VolumeExplicitInput.diss_phys_flux_at_q (x : VolumeExplicitInput) (engine : DGWeakState)
    (iquad : Nat) : ArrayTensor1 :=
  let diss_phys_flux :=
    x.pde_physics_double.dissipative_flux (x.soln_at_q engine iquad)
      (x.soln_grad_at_q engine iquad)
  if engine.all_parameters.add_artificial_dissipation then
    let artificial_diss_phys_flux_at_q :=
      x.pde_physics_double.artificial_dissipative_flux (x.artificial_diss_coeff engine)
        (x.soln_at_q engine iquad) (x.soln_grad_at_q engine iquad)
    add_flux x.nstate diss_phys_flux artificial_diss_phys_flux_at_q
  else
    diss_phys_flux

/-- The source `source_at_q[iquad]` (weak_dg.cpp lines 504-509); the array is zero when the
manufactured source term is off. -/
def VolumeExplicitInput.source_at_q (x : VolumeExplicitInput) (engine : DGWeakState)
    (iquad : Nat) : State :=
  if engine.all_parameters.use_manufactured_source_term then
    let point := x.fe_values_vol.quadrature_point iquad
    x.pde_physics_double.source_term point (x.soln_at_q engine iquad)
  else
    fun _ => 0

/-- The sum `cell_volume` of the values `JxW` (weak_dg.cpp lines 514-517). -/
def VolumeExplicitInput.cell_volume (x : VolumeExplicitInput) : ℚ :=
  forLoop x.fe_values_vol.n_quadrature_points
    (fun iquad cell_volume => cell_volume + x.fe_values_vol.JxW iquad) 0

/-- The value stored in `max_dt_cell[cell_index]` (weak_dg.cpp lines 518-524). -/
def VolumeExplicitInput.max_dt (x : VolumeExplicitInput) (engine : DGWeakState) : ℚ :=
  let cell_diameter := x.cell_volume / x.diameter ^ (x.dim - 1)
  let cell_radius := (1 / 2) * cell_diameter
  x.evaluate_CFL (x.soln_at_q engine) (x.artificial_diss_coeff engine) cell_radius x.cell_degree

/-- The kernel `DGWeak::assemble_volume_term_explicit` (weak_dg.cpp lines 441-556): the
engine after the call and the contribution added to `local_rhs_int_cell`. -/
def assemble_volume_term_explicit (engine : DGWeakState) (x : VolumeExplicitInput) :
    DGWeakState × Vec :=
  let n_quad_pts := x.fe_values_vol.n_quadrature_points
  let n_soln_dofs_int := x.fe_values_vol.dofs_per_cell
  let JxW := x.fe_values_vol.JxW
  let cell_index := x.cell_index
  let engine_after : DGWeakState :=
    { engine with cell_volume := setAt engine.cell_volume cell_index x.cell_volume }
  let engine_after : DGWeakState :=
    { engine_after with
      max_dt_cell := setAt engine_after.max_dt_cell cell_index (x.max_dt engine) }
  -- Weak form
  let contribution := forLoop n_soln_dofs_int
    (fun itest (contribution : Vec) =>
      let rhs : ℚ := 0
      let istate := x.fe_values_vol.fe_system_to_component_index itest
      let rhs := forLoop n_quad_pts
        (fun iquad rhs =>
          -- Convective
          let rhs := rhs + dot x.dim (x.fe_values_vol.shape_grad_component itest iquad istate)
            (x.conv_phys_flux_at_q engine iquad istate) * JxW iquad
          -- Diffusive
          let rhs := rhs + dot x.dim (x.fe_values_vol.shape_grad_component itest iquad istate)
            (x.diss_phys_flux_at_q engine iquad istate) * JxW iquad
          -- Source
          if engine.all_parameters.use_manufactured_source_term then
            rhs + x.fe_values_vol.shape_value_component itest iquad istate
              * x.source_at_q engine iquad istate * JxW iquad
          else rhs)
        rhs
      addAt contribution itest rhs)
    zeroVec
  (engine_after, contribution)

/-- The call of `DGWeak::assemble_boundary_term_explicit` on the engine: the kernel reads
`all_parameters`, `artificial_dissipation_coeffs[current_cell_index]` and the solution at
`soln_dof_indices_int`, and assigns to no member of the engine. -/
def assemble_boundary_term_explicit_on (engine : DGWeakState) (current_cell_index : Nat)
    (soln_dof_indices_int : Nat → Nat) (x : BoundaryExplicitInput) : DGWeakState × Vec :=
  (engine, assemble_boundary_term_explicit
    { x with
      all_parameters := engine.all_parameters
      artificial_dissipation_coeff := engine.artificial_dissipation_coeffs current_cell_index
      soln_coeff_int := fun idof => engine.solution (soln_dof_indices_int idof) })

/-- The call of `DGWeak::assemble_face_term_explicit` on the engine: the kernel reads
`all_parameters`, the entries of `artificial_dissipation_coeffs` of the two cells and the
solution at the dof indices of the two cells, and assigns to no member of the engine. -/
def assemble_face_term_explicit_on (engine : DGWeakState)
    (current_cell_index neighbor_cell_index : Nat)
    (soln_dof_indices_int soln_dof_indices_ext : Nat → Nat) (x : FaceExplicitInput) :
    DGWeakState × (Vec × Vec) :=
  (engine, assemble_face_term_explicit
    { x with
      all_parameters := engine.all_parameters
      artificial_dissipation_coeff_int := engine.artificial_dissipation_coeffs current_cell_index
      artificial_dissipation_coeff_ext := engine.artificial_dissipation_coeffs neighbor_cell_index
      soln_coeff_int := fun idof => engine.solution (soln_dof_indices_int idof)
      soln_coeff_ext := fun idof => engine.solution (soln_dof_indices_ext idof) })

/-- The call of `DGWeak::assemble_volume_term` on the engine: the kernel reads
`all_parameters` and `artificial_dissipation_coeffs[current_cell_index]` and assigns to no
member of the engine. -/
def assemble_volume_term_on (engine : DGWeakState) (current_cell_index : Nat)
    (x : VolumeInput) : DGWeakState × (Vec × ℚ) :=
  (engine, assemble_volume_term
    { x with
      all_parameters := engine.all_parameters
      artificial_dissipation_coeff := engine.artificial_dissipation_coeffs current_cell_index })

/-- The call of `DGWeak::assemble_boundary_term` on the engine: the kernel reads
`all_parameters` and `artificial_dissipation_coeffs[current_cell_index]` and assigns to no
member of the engine. -/
def assemble_boundary_term_on (engine : DGWeakState) (current_cell_index : Nat)
    (x : BoundaryInput) : DGWeakState × (Vec × ℚ) :=
  (engine, assemble_boundary_term
    { x with
      all_parameters := engine.all_parameters
      artificial_dissipation_coeff := engine.artificial_dissipation_coeffs current_cell_index })

/-- The call of `DGWeak::assemble_face_term` on the engine: the kernel reads
`all_parameters` and the entries of `artificial_dissipation_coeffs` of the two cells and
assigns to no member of the engine. -/
def assemble_face_term_on (engine : DGWeakState) (current_cell_index neighbor_cell_index : Nat)
    (x : FaceInput) : DGWeakState × FaceOutput :=
  (engine, assemble_face_term
    { x with
      all_parameters := engine.all_parameters
      artificial_dissipation_coeff_int := engine.artificial_dissipation_coeffs current_cell_index
      artificial_dissipation_coeff_ext :=
        engine.artificial_dissipation_coeffs neighbor_cell_index })

/-! ## The loop bodies of the kernels -/

/-- The body of the loop over the directions `d` of `assemble_volume_term` (weak_dg.cpp
lines 3139-3143). -/
def VolumeInput.direction_step (x : VolumeInput) (itest iquad d : Nat) (rhs : Vec) : Vec :=
  let istate := x.fe_soln.system_to_component_index itest
  let JxW_iquad := x.metric.jac_det iquad * x.quadrature.weight iquad
  let rhs := setAt rhs itest
    (rhs itest + x.grad d itest iquad * x.conv_phys_flux_at_q iquad istate d * JxW_iquad)
  setAt rhs itest
    (rhs itest + x.grad d itest iquad * x.diss_phys_flux_at_q iquad istate d * JxW_iquad)

/-- The body of the loop over the quadrature points of `assemble_volume_term` (weak_dg.cpp
lines 3135-3148). -/
def VolumeInput.quadrature_step (x : VolumeInput) (itest iquad : Nat) (rhs : Vec) : Vec :=
  let istate := x.fe_soln.system_to_component_index itest
  let JxW_iquad := x.metric.jac_det iquad * x.quadrature.weight iquad
  let rhs := forLoop x.dim (fun d (rhs : Vec) => x.direction_step itest iquad d rhs) rhs
  if x.all_parameters.use_manufactured_source_term then
    setAt rhs itest (rhs itest + x.interp itest iquad * x.source_at_q iquad istate * JxW_iquad)
  else rhs

/-- The body of the loop over the test functions of `assemble_volume_term` (weak_dg.cpp
lines 3131-3151). -/
def VolumeInput.test_step (x : VolumeInput) (itest : Nat) (s : Vec × ℚ) : Vec × ℚ :=
  let rhs := forLoop x.quadrature.size
    (fun iquad (rhs : Vec) => x.quadrature_step itest iquad rhs) s.1
  (rhs, s.2 + x.local_dual itest * rhs itest)

/-- The body of the loop over the quadrature points of `assemble_boundary_term`
(weak_dg.cpp lines 1097-1106). -/
def BoundaryInput.quadrature_step (x : BoundaryInput) (itest iquad : Nat) (rhs_val : ℚ) : ℚ :=
  let istate := x.fe_values_boundary.fe_system_to_component_index itest
  let JxW_iquad := x.surface_jac_det iquad * x.face_quadrature.weight iquad
  let rhs_val := rhs_val - x.interp itest iquad * x.conv_num_flux_dot_n iquad istate * JxW_iquad
  let rhs_val := rhs_val
    - x.interp itest iquad * x.diss_auxi_num_flux_dot_n iquad istate * JxW_iquad
  forLoop x.dim
    (fun d rhs_val =>
      rhs_val + x.grad d itest iquad * x.diss_flux_jump_int iquad istate d * JxW_iquad)
    rhs_val

/-- The body of the loop over the test functions of `assemble_boundary_term` (weak_dg.cpp
lines 1091-1111). -/
def BoundaryInput.test_step (x : BoundaryInput) (itest : Nat) (s : Vec × ℚ) : Vec × ℚ :=
  let rhs_val : ℚ := 0
  let rhs_val := forLoop x.fe_values_boundary.n_quadrature_points
    (fun iquad rhs_val => x.quadrature_step itest iquad rhs_val) rhs_val
  (setAt s.1 itest rhs_val, s.2 + x.local_dual itest * rhs_val)

/-- The value `rhs` of one interior test function at one quadrature point of
`assemble_face_term` (weak_dg.cpp lines 2037-2046). -/
def FaceInput.rhs_int_at (x : FaceInput) (iquad itest_int : Nat) : ℚ :=
  let rhs : ℚ := 0
  let istate := x.fe_int.system_to_component_index itest_int
  let JxW_iquad := x.surface_jac_det iquad * x.face_quadrature_int.weight iquad
  let rhs := rhs - x.interp_int itest_int iquad * x.conv_num_flux_dot_n iquad istate * JxW_iquad
  let rhs := rhs
    - x.interp_int itest_int iquad * x.diss_auxi_num_flux_dot_n iquad istate * JxW_iquad
  forLoop x.dim
    (fun d rhs =>
      rhs + x.grad_int d itest_int iquad * x.diss_flux_jump_int iquad istate d * JxW_iquad)
    rhs

/-- The value `rhs` of one exterior test function at one quadrature point of
`assemble_face_term` (weak_dg.cpp lines 2055-2064). -/
def FaceInput.rhs_ext_at (x : FaceInput) (iquad itest_ext : Nat) : ℚ :=
  let rhs : ℚ := 0
  let istate := x.fe_ext.system_to_component_index itest_ext
  let JxW_iquad := x.surface_jac_det iquad * x.face_quadrature_int.weight iquad
  let rhs := rhs
    - x.interp_ext itest_ext iquad * (- x.conv_num_flux_dot_n iquad istate) * JxW_iquad
  let rhs := rhs
    - x.interp_ext itest_ext iquad * (- x.diss_auxi_num_flux_dot_n iquad istate) * JxW_iquad
  forLoop x.dim
    (fun d rhs =>
      rhs + x.grad_ext d itest_ext iquad * x.diss_flux_jump_ext iquad istate d * JxW_iquad)
    rhs

/-! ## The kernels as templates over the number type

The kernels `assemble_volume_term`, `assemble_boundary_term` and `assemble_face_term` are
templates over the number type `real2` of the solution and geometry coefficients. The
definitions of this section embed them for a number type `R` with the arithmetic of a
commutative algebra over the plain reals, a quotient, a square root and a comparison; a
plain real that meets a value of type `real2` is converted by `algebraMap ℚ R`. The shape
functions, the quadrature weights, the penalty and the adjoint weights are plain reals in
every instance. Each kernel computes its metric terms from the geometry coefficients in the
number type `R`. -/

namespace Templated

/-- The physics strategy `Physics::PhysicsBase<dim,nstate,real2>`. -/
structure PhysicsBase (R : Type) where
  convective_flux : (Nat → R) → (Nat → Nat → R)
  dissipative_flux : (Nat → R) → (Nat → Nat → R) → (Nat → Nat → R)
  artificial_dissipative_flux : R → (Nat → R) → (Nat → Nat → R) → (Nat → Nat → R)
  source_term : (Nat → R) → (Nat → R) → (Nat → R)
  boundary_face_values :
    Nat → (Nat → R) → (Nat → R) → (Nat → R) → (Nat → Nat → R) → (Nat → R) × (Nat → Nat → R)

/-- The strategy `NumericalFlux::NumericalFluxConvective<dim,nstate,real2>`. -/
structure NumericalFluxConvective (R : Type) where
  evaluate_flux : (Nat → R) → (Nat → R) → (Nat → R) → (Nat → R)

/-- The strategy `NumericalFlux::NumericalFluxDissipative<dim,nstate,real2>`; the penalty is
a plain real. -/
structure NumericalFluxDissipative (R : Type) where
  evaluate_solution_flux : (Nat → R) → (Nat → R) → (Nat → R) → (Nat → R)
  evaluate_auxiliary_flux :
    R → R → (Nat → R) → (Nat → R) → (Nat → Nat → R) → (Nat → Nat → R) → (Nat → R) → ℚ → Bool
      → (Nat → R)

/-- The metric terms of the volume kernel in the number type `R`. -/
structure MetricTerms (R : Type) where
  jac_det : Nat → R
  jac_inv_tran : Nat → Nat → Nat → R

/-- The operations of the number type `real2` that a commutative algebra does not have:
the quotient `operator/`, the function `sqrt` and the comparison `operator>`. -/
class RealOperations (R : Type) where
  div : R → R → R
  sqrt : R → R
  greater : R → R → Bool

variable {R : Type} [CommRing R] [Algebra ℚ R] [RealOperations R]

/-- The value projection of a differentiable number type `R`: the member `value()` down to
the underlying real. The type computes the value of a sum, difference, product, quotient,
square root or converted plain real with the same operation on the values of the operands,
and compares two numbers by their values; `sqrt` is the square root of plain reals. -/
structure ValueProjection (R : Type) [CommRing R] [Algebra ℚ R] [RealOperations R]
    (sqrt : ℚ → ℚ) where
  value : R →ₐ[ℚ] ℚ
  value_div : ∀ a b : R, value (RealOperations.div a b) = value a / value b
  value_sqrt : ∀ a : R, value (RealOperations.sqrt a) = sqrt (value a)
  greater_eq : ∀ a b : R, RealOperations.greater a b = decide (value a > value b)

/-- The assignment `v[k] = x`. -/
def setAt (v : Nat → R) (k : Nat) (x : R) : Nat → R :=
  fun j => if j = k then x else v j

/-- The update `v[k] += x`. -/
def addAt (v : Nat → R) (k : Nat) (x : R) : Nat → R :=
  fun j => if j = k then v j + x else v j

/-- The interpolation loop of the solution (weak_dg.cpp lines 3086-3092); the
interpolation operator is a table of plain reals. -/
def interpolate_solution (n_soln_dofs : Nat) (system_to_component_index : Nat → Nat)
    (soln_coeff : Nat → R) (interpolation_operator : Nat → ℚ) : Nat → R :=
  forLoop n_soln_dofs
    (fun idof soln =>
      let istate := system_to_component_index idof
      addAt soln istate (soln_coeff idof * algebraMap ℚ R (interpolation_operator idof)))
    (fun _ => 0)

/-- The interpolation loop of the gradient (weak_dg.cpp lines 3086-3095); the gradient
operator has the number type of the metric terms. -/
def interpolate_gradient (dim n_soln_dofs : Nat) (system_to_component_index : Nat → Nat)
    (soln_coeff : Nat → R) (gradient_operator : Nat → Nat → R) : Nat → Nat → R :=
  forLoop n_soln_dofs
    (fun idof soln_grad =>
      let istate := system_to_component_index idof
      forLoop dim
        (fun d (g : Nat → Nat → R) => fun s e =>
          if s = istate ∧ e = d then g s e + soln_coeff idof * gradient_operator d idof
          else g s e)
        soln_grad)
    (fun _ _ => 0)

/-- The loop `for s < nstate: flux[s] += extra[s]` on arrays of tensors. -/
def add_flux (nstate : Nat) (flux extra : Nat → Nat → R) : Nat → Nat → R :=
  forLoop nstate
    (fun s (g : Nat → Nat → R) => fun t d => if t = s then g t d + extra t d else g t d)
    flux

/-- The product `y = A x` of `vmult` (weak_dg.cpp lines 41-52) with `A` of type `real1` and
`x` a tensor of plain reals. -/
def vmult (dim : Nat) (A : Nat → Nat → R) (x : Tensor1) : Nat → R :=
  fun row =>
    if row < dim then forLoop dim (fun col y => y + A row col * algebraMap ℚ R (x col)) 0
    else 0

/-- The table `gradient_operator[d][idof][iquad]` (weak_dg.cpp lines 3026-3058). -/
def gradient_operator (dim : Nat) (compute_metric_derivatives : Bool) (fe_soln : FESystem)
    (unit_quad_pts : Nat → Point) (jac_inv_tran : Nat → Nat → Nat → R) (fe_values : FEValues)
    (d idof iquad : Nat) : R :=
  if compute_metric_derivatives then
    let ref_shape_grad := fe_soln.shape_grad idof (unit_quad_pts iquad)
    let phys_shape_grad := vmult dim (jac_inv_tran iquad) ref_shape_grad
    phys_shape_grad d
  else
    let istate := fe_soln.system_to_component_index idof
    algebraMap ℚ R (fe_values.shape_grad_component idof iquad istate d)

/-- The point interpolated from the geometry coefficients (weak_dg.cpp lines 3109-3114). -/
def interpolate_point (fe_metric : FESystem) (coords_coeff : Nat → R) (unit_quad_pt : Point) :
    Nat → R :=
  forLoop fe_metric.dofs_per_cell
    (fun idof pt =>
      let iaxis := fe_metric.system_to_component_index idof
      addAt pt iaxis (coords_coeff idof * algebraMap ℚ R (fe_metric.shape_value idof unit_quad_pt)))
    (fun _ => 0)

/-- The assignment `a[i][j] = x` on an array with two indices. -/
def set_entry2 (a : Nat → Nat → R) (i j : Nat) (x : R) : Nat → Nat → R :=
  fun i' j' => if i' = i ∧ j' = j then x else a i' j'

/-- The assignment `a[i][j][k] = x` on an array with three indices. -/
def set_entry3 (a : Nat → Nat → Nat → R) (i j k : Nat) (x : R) : Nat → Nat → Nat → R :=
  fun i' j' k' => if i' = i ∧ j' = j ∧ k' = k then x else a i' j' k'

/-- The assignment `a[i] = 0.0` of a whole tensor of an array of rank-2 tensors. -/
def clear_tensor (a : Nat → Nat → Nat → R) (i : Nat) : Nat → Nat → Nat → R :=
  fun i' j' k' => if i' = i then 0 else a i' j' k'

/-- The update `a[i][j][k] += x` on an array with three indices. -/
def add_entry3 (a : Nat → Nat → Nat → R) (i j k : Nat) (x : R) : Nat → Nat → Nat → R :=
  fun i' j' k' => if i' = i ∧ j' = j ∧ k' = k then a i' j' k' + x else a i' j' k'

/-- The update `a[i] *= c` of a whole tensor of an array of rank-2 tensors. -/
def scale_tensor (a : Nat → Nat → Nat → R) (i : Nat) (c : R) : Nat → Nat → Nat → R :=
  fun i' j' k' => if i' = i then a i' j' k' * c else a i' j' k'

/-- The loop `for igrid < n: T[igrid] = f(igrid)` on a vector of zeros. -/
def grid_values (n : Nat) (f : Nat → R) : Nat → R :=
  forLoop n (fun igrid (T : Nat → R) => setAt T igrid (f igrid)) (fun _ => 0)

/-- The template `evaluate_finite_element_values<dim,real,n_components>` (weak_dg.cpp lines
175-200); the shape values are plain reals. -/
def evaluate_finite_element_values (n_components n_pts : Nat) (unit_points : Nat → Point)
    (coefficients : Nat → R) (finite_element : FESystem) : Nat → Nat → R :=
  let n_dofs := finite_element.dofs_per_cell
  forLoop n_pts
    (fun ipoint (values : Nat → Nat → R) =>
      let values := forLoop n_components
        (fun icomp (values : Nat → Nat → R) => set_entry2 values ipoint icomp 0) values
      forLoop n_dofs
        (fun idof (values : Nat → Nat → R) =>
          let icomp := finite_element.system_to_component_index idof
          set_entry2 values ipoint icomp
            (values ipoint icomp + coefficients idof
              * algebraMap ℚ R
                  (finite_element.shape_value_component idof (unit_points ipoint) icomp)))
        values)
    (fun _ _ => 0)

/-- The template `evaluate_finite_element_gradients<dim,real,n_components>` (weak_dg.cpp
lines 202-228); the shape gradients are plain reals. -/
def evaluate_finite_element_gradients (dim n_components n_pts : Nat)
    (unit_points : Nat → Point) (coefficients : Nat → R) (finite_element : FESystem) :
    Nat → Nat → Nat → R :=
  let n_dofs := finite_element.dofs_per_cell
  forLoop n_pts
    (fun ipoint (gradients : Nat → Nat → Nat → R) =>
      let gradients := forLoop n_components
        (fun icomp (gradients : Nat → Nat → Nat → R) =>
          fun i c d => if i = ipoint ∧ c = icomp then 0 else gradients i c d)
        gradients
      forLoop n_dofs
        (fun idof (gradients : Nat → Nat → Nat → R) =>
          let icomp := finite_element.system_to_component_index idof
          let shape_grad := finite_element.shape_grad_component idof (unit_points ipoint) icomp
          forLoop dim
            (fun d (gradients : Nat → Nat → Nat → R) =>
              set_entry3 gradients ipoint icomp d
                (gradients ipoint icomp d + coefficients idof * algebraMap ℚ R (shape_grad d)))
            gradients)
        gradients)
    (fun _ _ _ => 0)

/-- The template `evaluate_metric_jacobian<dim,real>` (weak_dg.cpp lines 231-256). -/
def evaluate_metric_jacobian (dim n_pts : Nat) (points : Nat → Point) (coords_coeff : Nat → R)
    (fe_metric : FESystem) : Nat → Nat → Nat → R :=
  let coords_gradients :=
    evaluate_finite_element_gradients dim dim n_pts points coords_coeff fe_metric
  forLoop n_pts
    (fun ipoint (metric_jacobian : Nat → Nat → Nat → R) =>
      forLoop dim
        (fun row (metric_jacobian : Nat → Nat → Nat → R) =>
          forLoop dim
            (fun col (metric_jacobian : Nat → Nat → Nat → R) =>
              set_entry3 metric_jacobian ipoint row col (coords_gradients ipoint row col))
            metric_jacobian)
        metric_jacobian)
    (fun _ _ _ => 0)

/-- The template `determinant_ArrayTensor<dim,real>` (weak_dg.cpp lines 258-277). -/
def determinant_ArrayTensor (dim n : Nat) (coords_gradients : Nat → Nat → Nat → R) : Nat → R :=
  forLoop n
    (fun i (determinants : Nat → R) =>
      let determinants :=
        if dim = 1 then setAt determinants i (coords_gradients i 0 0) else determinants
      let determinants :=
        if dim = 2 then
          setAt determinants i
            (coords_gradients i 0 0 * coords_gradients i 1 1
              - coords_gradients i 0 1 * coords_gradients i 1 0)
        else determinants
      if dim = 3 then
        setAt determinants i
          (coords_gradients i 0 0
              * (coords_gradients i 1 1 * coords_gradients i 2 2
                  - coords_gradients i 1 2 * coords_gradients i 2 1)
            - coords_gradients i 0 1
              * (coords_gradients i 1 0 * coords_gradients i 2 2
                  - coords_gradients i 1 2 * coords_gradients i 2 0)
            + coords_gradients i 0 2
              * (coords_gradients i 1 0 * coords_gradients i 2 1
                  - coords_gradients i 1 1 * coords_gradients i 2 0))
      else determinants)
    (fun _ => 0)

/-- The two outputs of `evaluate_covariant_metric_jacobian<dim,real>`. -/
structure CovariantMetric (R : Type) where
  covariant_metric_jacobian : Nat → Nat → Nat → R
  jacobian_determinants : Nat → R

/-- The dimension-2 part of `evaluate_covariant_metric_jacobian<dim,real>` (weak_dg.cpp
lines 337-379). -/
def covariant_metric_jacobian_2 (n_quad_pts n_grid_pts : Nat)
    (unit_quad_pts : Nat → Point) (fe_lagrange_grid : FiniteElement) (coords : Nat → Nat → R)
    (jacobian_determinants : Nat → R) (covariant_metric_jacobian : Nat → Nat → Nat → R) :
    Nat → Nat → Nat → R :=
  let dim := 2
  -- In 2D Cross-Product Form = Conservative-Curl Form
  let dphys_dref_quad := forLoop n_quad_pts
    (fun iquad (dphys_dref_quad : Nat → Nat → Nat → R) =>
      let dphys_dref_quad := clear_tensor dphys_dref_quad iquad
      let quad_point := unit_quad_pts iquad
      forLoop n_grid_pts
        (fun igrid (dphys_dref_quad : Nat → Nat → Nat → R) =>
          let shape_grad := fe_lagrange_grid.shape_grad igrid quad_point
          forLoop dim
            (fun dphys (dphys_dref_quad : Nat → Nat → Nat → R) =>
              forLoop dim
                (fun dref (dphys_dref_quad : Nat → Nat → Nat → R) =>
                  set_entry3 dphys_dref_quad iquad dphys dref
                    (dphys_dref_quad iquad dphys dref
                      + coords igrid dphys * algebraMap ℚ R (shape_grad dref)))
                dphys_dref_quad)
            dphys_dref_quad)
        dphys_dref_quad)
    (fun _ _ _ => 0)
  forLoop n_quad_pts
    (fun iquad (covariant_metric_jacobian : Nat → Nat → Nat → R) =>
      let invJ := RealOperations.div 1 (jacobian_determinants iquad)
      let covariant_metric_jacobian := clear_tensor covariant_metric_jacobian iquad
      -- inv(A)^T = [ a b ; c d ]^-T = (1/det(A)) [ d -c ; -b a ]
      let covariant_metric_jacobian :=
        set_entry3 covariant_metric_jacobian iquad 0 0 (dphys_dref_quad iquad 1 1 * invJ)
      let covariant_metric_jacobian :=
        set_entry3 covariant_metric_jacobian iquad 0 1 (- dphys_dref_quad iquad 1 0 * invJ)
      let covariant_metric_jacobian :=
        set_entry3 covariant_metric_jacobian iquad 1 0 (- dphys_dref_quad iquad 0 1 * invJ)
      set_entry3 covariant_metric_jacobian iquad 1 1 (dphys_dref_quad iquad 0 0 * invJ))
    covariant_metric_jacobian

/-- The dimension-3 part of `evaluate_covariant_metric_jacobian<dim,real>` (weak_dg.cpp
lines 380-437). -/
def covariant_metric_jacobian_3 (n_quad_pts n_grid_pts : Nat)
    (unit_quad_pts : Nat → Point) (fe_lagrange_grid : FiniteElement) (coords : Nat → Nat → R)
    (coords_gradients : Nat → Nat → Nat → R) (jacobian_determinants : Nat → R)
    (covariant_metric_jacobian : Nat → Nat → Nat → R) : Nat → Nat → Nat → R :=
  -- Evaluate the physical (Y grad Z), (Z grad X), (X grad Y)
  let Ta := grid_values n_grid_pts (fun igrid =>
    algebraMap ℚ R (1 / 2) * (coords_gradients igrid 1 1 * coords igrid 2 - coords_gradients igrid 2 1 * coords igrid 1))
  let Tb := grid_values n_grid_pts (fun igrid =>
    algebraMap ℚ R (1 / 2) * (coords_gradients igrid 1 2 * coords igrid 2 - coords_gradients igrid 2 2 * coords igrid 1))
  let Tc := grid_values n_grid_pts (fun igrid =>
    algebraMap ℚ R (1 / 2) * (coords_gradients igrid 1 0 * coords igrid 2 - coords_gradients igrid 2 0 * coords igrid 1))
  let Td := grid_values n_grid_pts (fun igrid =>
    algebraMap ℚ R (1 / 2) * (coords_gradients igrid 2 1 * coords igrid 0 - coords_gradients igrid 0 1 * coords igrid 2))
  let Te := grid_values n_grid_pts (fun igrid =>
    algebraMap ℚ R (1 / 2) * (coords_gradients igrid 2 2 * coords igrid 0 - coords_gradients igrid 0 2 * coords igrid 2))
  let Tf := grid_values n_grid_pts (fun igrid =>
    algebraMap ℚ R (1 / 2) * (coords_gradients igrid 2 0 * coords igrid 0 - coords_gradients igrid 0 0 * coords igrid 2))
  let Tg := grid_values n_grid_pts (fun igrid =>
    algebraMap ℚ R (1 / 2) * (coords_gradients igrid 0 1 * coords igrid 1 - coords_gradients igrid 1 1 * coords igrid 0))
  let Th := grid_values n_grid_pts (fun igrid =>
    algebraMap ℚ R (1 / 2) * (coords_gradients igrid 0 2 * coords igrid 1 - coords_gradients igrid 1 2 * coords igrid 0))
  let Ti := grid_values n_grid_pts (fun igrid =>
    algebraMap ℚ R (1 / 2) * (coords_gradients igrid 0 0 * coords igrid 1 - coords_gradients igrid 1 0 * coords igrid 0))
  forLoop n_quad_pts
    (fun iquad (covariant_metric_jacobian : Nat → Nat → Nat → R) =>
      let covariant_metric_jacobian := clear_tensor covariant_metric_jacobian iquad
      let quad_point := unit_quad_pts iquad
      let covariant_metric_jacobian := forLoop n_grid_pts
        (fun igrid (c : Nat → Nat → Nat → R) =>
          let shape_grad : Nat → R :=
            fun d => algebraMap ℚ R (fe_lagrange_grid.shape_grad igrid quad_point d)
          let c := add_entry3 c iquad 0 0 (shape_grad 2 * Ta igrid - shape_grad 1 * Tb igrid)
          let c := add_entry3 c iquad 1 0 (shape_grad 2 * Td igrid - shape_grad 1 * Te igrid)
          let c := add_entry3 c iquad 2 0 (shape_grad 2 * Tg igrid - shape_grad 1 * Th igrid)
          let c := add_entry3 c iquad 0 1 (shape_grad 0 * Tb igrid - shape_grad 2 * Tc igrid)
          let c := add_entry3 c iquad 1 1 (shape_grad 0 * Te igrid - shape_grad 2 * Tf igrid)
          let c := add_entry3 c iquad 2 1 (shape_grad 0 * Th igrid - shape_grad 2 * Ti igrid)
          let c := add_entry3 c iquad 0 2 (shape_grad 1 * Tc igrid - shape_grad 0 * Ta igrid)
          let c := add_entry3 c iquad 1 2 (shape_grad 1 * Tf igrid - shape_grad 0 * Td igrid)
          add_entry3 c iquad 2 2 (shape_grad 1 * Ti igrid - shape_grad 0 * Tg igrid))
        covariant_metric_jacobian
      let invJ := RealOperations.div 1 (jacobian_determinants iquad)
      scale_tensor covariant_metric_jacobian iquad invJ)
    covariant_metric_jacobian

/-- The template `evaluate_covariant_metric_jacobian<dim,real>` (weak_dg.cpp lines
302-439); `fe_lagrange_grid` is `fe_metric.base_element(0)`. -/
def evaluate_covariant_metric_jacobian (dim : Nat) (quadrature : Quadrature)
    (coords_coeff : Nat → R) (fe_metric : FESystem) (fe_lagrange_grid : FiniteElement)
    (covariant_metric_jacobian : Nat → Nat → Nat → R) : CovariantMetric R :=
  let unit_quad_pts := quadrature.point
  let n_quad_pts := quadrature.size
  let unit_grid_pts := fe_lagrange_grid.unit_support_points
  let n_grid_pts := fe_lagrange_grid.n_unit_support_points
  let coords := evaluate_finite_element_values dim n_grid_pts unit_grid_pts coords_coeff fe_metric
  let coords_gradients :=
    evaluate_finite_element_gradients dim dim n_grid_pts unit_grid_pts coords_coeff fe_metric
  let quad_pts_coords_gradients :=
    evaluate_finite_element_gradients dim dim n_quad_pts unit_quad_pts coords_coeff fe_metric
  let jacobian_determinants := determinant_ArrayTensor dim n_quad_pts quad_pts_coords_gradients
  let covariant_metric_jacobian :=
    if dim = 1 then
      forLoop n_quad_pts
        (fun iquad (covariant_metric_jacobian : Nat → Nat → Nat → R) =>
          let invJ := RealOperations.div 1 (jacobian_determinants iquad)
          set_entry3 covariant_metric_jacobian iquad 0 0 invJ)
        covariant_metric_jacobian
    else covariant_metric_jacobian
  let covariant_metric_jacobian :=
    if dim = 2 then
      covariant_metric_jacobian_2 n_quad_pts n_grid_pts unit_quad_pts fe_lagrange_grid coords
        jacobian_determinants covariant_metric_jacobian
    else covariant_metric_jacobian
  let covariant_metric_jacobian :=
    if dim = 3 then
      covariant_metric_jacobian_3 n_quad_pts n_grid_pts unit_quad_pts fe_lagrange_grid coords
        coords_gradients jacobian_determinants covariant_metric_jacobian
    else covariant_metric_jacobian
  { covariant_metric_jacobian := covariant_metric_jacobian,
    jacobian_determinants := jacobian_determinants }

/-- The library function `dealii::determinant` on a tensor of rank 2 and dimension at most
3 with entries of type `R`. -/
def determinant (dim : Nat) (t : Nat → Nat → R) : R :=
  if dim = 1 then t 0 0
  else if dim = 2 then t 0 0 * t 1 1 - t 1 0 * t 0 1
  else if dim = 3 then
    t 0 0 * (t 1 1 * t 2 2 - t 1 2 * t 2 1)
      - t 0 1 * (t 1 0 * t 2 2 - t 1 2 * t 2 0)
      + t 0 2 * (t 1 0 * t 2 1 - t 1 1 * t 2 0)
  else 0

/-- The library function `dealii::invert` on a tensor of rank 2 and dimension at most 3
with entries of type `R`: the adjugate divided by the determinant. -/
def invert (dim : Nat) (t : Nat → Nat → R) : Nat → Nat → R :=
  let inv_det_t := RealOperations.div 1 (determinant dim t)
  if dim = 1 then
    fun i j => if i = 0 ∧ j = 0 then inv_det_t else 0
  else if dim = 2 then
    fun i j =>
      if i = 0 ∧ j = 0 then t 1 1 * inv_det_t
      else if i = 0 ∧ j = 1 then - t 0 1 * inv_det_t
      else if i = 1 ∧ j = 0 then - t 1 0 * inv_det_t
      else if i = 1 ∧ j = 1 then t 0 0 * inv_det_t
      else 0
  else if dim = 3 then
    fun i j =>
      if i < 3 ∧ j < 3 then
        (t ((j + 1) % 3) ((i + 1) % 3) * t ((j + 2) % 3) ((i + 2) % 3)
          - t ((j + 1) % 3) ((i + 2) % 3) * t ((j + 2) % 3) ((i + 1) % 3)) * inv_det_t
      else 0
  else fun _ _ => 0

/-- The library function `dealii::transpose` on a tensor of rank 2. -/
def transpose (t : Nat → Nat → R) : Nat → Nat → R :=
  fun i j => t j i

/-- The template `norm<dim,real1>` (weak_dg.cpp lines 59-67). -/
def norm (dim : Nat) (x : Nat → R) : R :=
  let val : R := forLoop dim (fun row val => val + x row * x row) 0
  RealOperations.sqrt val

/-- The metric step of the template `DGWeak::assemble_volume_term<real2>` (weak_dg.cpp
lines 2942-3009, with `KOPRIVA_METRICS_VOL` defined): the arrays `jac_det` and
`jac_inv_tran` of type `real2` that the kernel computes from `coords_coeff`. The loop of
lines 2965-3008 prints a message and changes nothing. -/
def assemble_volume_term_metric_terms (dim : Nat) (quadrature : Quadrature)
    (coords_coeff : Nat → R) (fe_metric : FESystem) (fe_lagrange_grid : FiniteElement)
    (compute_metric_derivatives : Bool) (fe_values_vol : FEValues) : MetricTerms R :=
  let n_quad_pts := quadrature.size
  let points := quadrature.point
  -- Evaluate metric terms
  let metric_jacobian : Nat → Nat → Nat → R :=
    if compute_metric_derivatives then
      evaluate_metric_jacobian dim n_quad_pts points coords_coeff fe_metric
    else fun _ _ _ => 0
  let metric := forLoop n_quad_pts
    (fun iquad (metric : MetricTerms R) =>
      if compute_metric_derivatives then
        let jacobian_determinant := determinant dim (metric_jacobian iquad)
        let jacobian_transpose_inverse := transpose (invert dim (metric_jacobian iquad))
        { jac_det := setAt metric.jac_det iquad jacobian_determinant,
          jac_inv_tran := fun i => if i = iquad then jacobian_transpose_inverse
            else metric.jac_inv_tran i }
      else
        { metric with
          jac_det := setAt metric.jac_det iquad
            (algebraMap ℚ R (fe_values_vol.JxW iquad / quadrature.weight iquad)) })
    { jac_det := fun _ => 0, jac_inv_tran := fun _ _ _ => 0 }
  if dim ≠ 1 then
    let covariant := evaluate_covariant_metric_jacobian dim quadrature coords_coeff fe_metric
      fe_lagrange_grid metric.jac_inv_tran
    { jac_det := covariant.jacobian_determinants,
      jac_inv_tran := covariant.covariant_metric_jacobian }
  else
    metric

/-- The metric terms of the boundary kernel in the number type `R`. -/
structure BoundaryMetric (R : Type) where
  jac_inv_tran : Nat → Nat → Nat → R
  surface_jac_det : Nat → R
  normals : Nat → Nat → R

/-- The arrays of the metric step of `assemble_boundary_term<adtype>`. -/
structure BoundaryMetricArrays (R : Type) where
  jac_det : Nat → R
  jac_inv_tran : Nat → Nat → Nat → R
  surface_jac_det : Nat → R
  normals : Nat → Nat → R

/-- The surface Jacobian and the normalized normal of a quadrature point, from the
inverse-transpose Jacobian and the determinant of the point (weak_dg.cpp lines 914-923 and
966-975). -/
def BoundaryMetricArrays.set_surface (dim : Nat) (unit_normal : Tensor1)
    (iquad : Nat) (s : BoundaryMetricArrays R) : BoundaryMetricArrays R :=
  let normal := vmult dim (s.jac_inv_tran iquad) unit_normal
  let area := norm dim normal
  let surface_jac_det := setAt s.surface_jac_det iquad (norm dim normal * s.jac_det iquad)
  let normals := forLoop dim
    (fun d (normals : Nat → Nat → R) =>
      set_entry2 normals iquad d (RealOperations.div (normal d) area))
    s.normals
  { s with surface_jac_det := surface_jac_det, normals := normals }

/-- The metric step of the template `DGWeak::assemble_boundary_term<adtype>` (weak_dg.cpp
lines 886-977, with `KOPRIVA_METRICS_BOUNDARY` defined): the arrays `jac_inv_tran`,
`surface_jac_det` and `normals` of type `adtype` that the kernel computes from
`coords_coeff`. -/
def assemble_boundary_term_metric_terms (dim face_number : Nat)
    (face_quadrature : Quadrature) (coords_coeff : Nat → R) (fe_metric : FESystem)
    (fe_lagrange_grid : FiniteElement) (compute_metric_derivatives : Bool)
    (fe_values_boundary : FEValues) : BoundaryMetric R :=
  let n_quad_pts := fe_values_boundary.n_quadrature_points
  let unit_quad_pts := face_quadrature.point
  let metric_jacobian :=
    evaluate_metric_jacobian dim face_quadrature.size unit_quad_pts coords_coeff fe_metric
  let unit_normal := unit_normal_vector face_number
  let s := forLoop n_quad_pts
    (fun iquad (s : BoundaryMetricArrays R) =>
      if compute_metric_derivatives then
        let jacobian_determinant := determinant dim (metric_jacobian iquad)
        let jacobian_transpose_inverse := transpose (invert dim (metric_jacobian iquad))
        let s : BoundaryMetricArrays R :=
          { s with
            jac_det := setAt s.jac_det iquad jacobian_determinant,
            jac_inv_tran := fun i => if i = iquad then jacobian_transpose_inverse
              else s.jac_inv_tran i }
        s.set_surface dim unit_normal iquad
      else
        { s with
          surface_jac_det := setAt s.surface_jac_det iquad
            (algebraMap ℚ R (fe_values_boundary.JxW iquad / face_quadrature.weight iquad)),
          normals := fun i =>
            if i = iquad then fun d => algebraMap ℚ R (fe_values_boundary.normal_vector iquad d)
            else s.normals i })
    { jac_det := fun _ => 0, jac_inv_tran := fun _ _ _ => 0, surface_jac_det := fun _ => 0,
      normals := fun _ _ => 0 }
  let s : BoundaryMetricArrays R :=
    if dim ≠ 1 then
      let covariant := evaluate_covariant_metric_jacobian dim face_quadrature coords_coeff
        fe_metric fe_lagrange_grid s.jac_inv_tran
      { s with
        jac_det := covariant.jacobian_determinants,
        jac_inv_tran := covariant.covariant_metric_jacobian }
    else s
  let s := forLoop n_quad_pts
    (fun iquad (s : BoundaryMetricArrays R) =>
      if compute_metric_derivatives then s.set_surface dim unit_normal iquad else s)
    s
  { jac_inv_tran := s.jac_inv_tran, surface_jac_det := s.surface_jac_det,
    normals := s.normals }

/-- The metric terms of one side of a face in the number type `R`. -/
structure FaceMetric (R : Type) where
  jac_inv_tran : Nat → Nat → Nat → R
  surface_jac_det : Nat → R
  normal_normalized : Nat → Nat → R

/-- The arrays `jacobian_determinant` and `jacobian_transpose_inverse` of one side of a
face. -/
structure FaceMetricArrays (R : Type) where
  jacobian_determinant : Nat → R
  jacobian_transpose_inverse : Nat → Nat → Nat → R

/-- The metric step of the template `DGWeak::assemble_face_term<real2>` for one side of the
face (weak_dg.cpp lines 1689-1882, with `KOPRIVA_METRICS_FACE` defined and the local
constant `compute_metric_derivatives = true`): the metric terms of type `real2` that the
kernel computes from the geometry coefficients of the side. -/
def assemble_face_term_metric_terms (dim face_number n_face_quad_pts : Nat)
    (face_quadrature_side : Quadrature) (coords_coeff : Nat → R) (fe_metric : FESystem)
    (fe_lagrange_grid : FiniteElement) : FaceMetric R :=
  let unit_quad_pts := face_quadrature_side.point
  let metric_jac :=
    evaluate_metric_jacobian dim face_quadrature_side.size unit_quad_pts coords_coeff fe_metric
  let unit_normal := unit_normal_vector face_number
  let s := forLoop n_face_quad_pts
    (fun iquad (s : FaceMetricArrays R) =>
      { jacobian_determinant :=
          setAt s.jacobian_determinant iquad (determinant dim (metric_jac iquad)),
        jacobian_transpose_inverse := fun i =>
          if i = iquad then transpose (invert dim (metric_jac iquad))
          else s.jacobian_transpose_inverse i })
    { jacobian_determinant := fun _ => 0, jacobian_transpose_inverse := fun _ _ _ => 0 }
  let s : FaceMetricArrays R :=
    if dim ≠ 1 then
      let covariant := evaluate_covariant_metric_jacobian dim face_quadrature_side coords_coeff
        fe_metric fe_lagrange_grid s.jacobian_transpose_inverse
      { jacobian_determinant := covariant.jacobian_determinants,
        jacobian_transpose_inverse := covariant.covariant_metric_jacobian }
    else s
  { jac_inv_tran := s.jacobian_transpose_inverse,
    surface_jac_det := fun iquad =>
      let jac_det := s.jacobian_determinant iquad
      let jac_inv_tran := s.jacobian_transpose_inverse iquad
      let normal := vmult dim jac_inv_tran unit_normal
      let area := norm dim normal
      area * jac_det,
    normal_normalized := fun iquad d =>
      let jac_inv_tran := s.jacobian_transpose_inverse iquad
      let normal := vmult dim jac_inv_tran unit_normal
      let area := norm dim normal
      if d < dim then RealOperations.div (normal d) area else 0 }

/-- The inputs of the template `DGWeak::assemble_volume_term<real2>`; `fe_lagrange_grid` is
the element `fe_metric.base_element(0)`. -/
structure VolumeInput (R : Type) where
  dim : Nat
  nstate : Nat
  all_parameters : AllParameters
  artificial_dissipation_coeff : ℚ
  soln_coeff : Nat → R
  coords_coeff : Nat → R
  local_dual : Vec
  fe_soln : FESystem
  fe_metric : FESystem
  quadrature : Quadrature
  physics : PhysicsBase R
  compute_metric_derivatives : Bool
  fe_values_vol : FEValues
  fe_lagrange_grid : FiniteElement

/-- The metric terms that the volume kernel computes from `coords_coeff` (weak_dg.cpp lines
2942-3009). -/
def VolumeInput.metric (x : VolumeInput R) : MetricTerms R :=
  assemble_volume_term_metric_terms x.dim x.quadrature x.coords_coeff x.fe_metric
    x.fe_lagrange_grid x.compute_metric_derivatives x.fe_values_vol

/-- The value `artificial_diss_coeff` of weak_dg.cpp lines 3074-3076. -/
def VolumeInput.artificial_diss_coeff (x : VolumeInput R) : R :=
  if x.all_parameters.add_artificial_dissipation then
    algebraMap ℚ R x.artificial_dissipation_coeff
  else 0

/-- The entry `interpolation_operator[idof][iquad]` of the volume kernel. -/
def VolumeInput.interp (x : VolumeInput R) (idof iquad : Nat) : ℚ :=
  interpolation_operator x.fe_soln x.quadrature.point idof iquad

/-- The entry `gradient_operator[d][idof][iquad]` of the volume kernel. -/
def VolumeInput.grad (x : VolumeInput R) (d idof iquad : Nat) : R :=
  gradient_operator x.dim x.compute_metric_derivatives x.fe_soln x.quadrature.point
    x.metric.jac_inv_tran x.fe_values_vol d idof iquad

/-- The state `soln_at_q[iquad]` (weak_dg.cpp lines 3086-3092). -/
def VolumeInput.soln_at_q (x : VolumeInput R) (iquad : Nat) : Nat → R :=
  interpolate_solution x.fe_soln.dofs_per_cell x.fe_soln.system_to_component_index x.soln_coeff
    (fun idof => x.interp idof iquad)

/-- The gradient `soln_grad_at_q[iquad]` (weak_dg.cpp lines 3086-3095). -/
def VolumeInput.soln_grad_at_q (x : VolumeInput R) (iquad : Nat) : Nat → Nat → R :=
  interpolate_gradient x.dim x.fe_soln.dofs_per_cell x.fe_soln.system_to_component_index
    x.soln_coeff (fun d idof => x.grad d idof iquad)

/-- The flux `conv_phys_flux_at_q[iquad]` (weak_dg.cpp line 3097). -/
def VolumeInput.conv_phys_flux_at_q (x : VolumeInput R) (iquad : Nat) : Nat → Nat → R :=
  x.physics.convective_flux (x.soln_at_q iquad)

/-- The flux `diss_phys_flux_at_q[iquad]` (weak_dg.cpp lines 3098-3106). -/
def VolumeInput.diss_phys_flux_at_q (x : VolumeInput R) (iquad : Nat) : Nat → Nat → R :=
  let diss_phys_flux := x.physics.dissipative_flux (x.soln_at_q iquad) (x.soln_grad_at_q iquad)
  if x.all_parameters.add_artificial_dissipation then
    let artificial_diss_phys_flux_at_q :=
      x.physics.artificial_dissipative_flux x.artificial_diss_coeff (x.soln_at_q iquad)
        (x.soln_grad_at_q iquad)
    add_flux x.nstate diss_phys_flux artificial_diss_phys_flux_at_q
  else
    diss_phys_flux

/-- The source `source_at_q[iquad]` (weak_dg.cpp lines 3084, 3108-3118). -/
def VolumeInput.source_at_q (x : VolumeInput R) (iquad : Nat) : Nat → R :=
  if x.all_parameters.use_manufactured_source_term then
    let ad_point := interpolate_point x.fe_metric x.coords_coeff (x.quadrature.point iquad)
    x.physics.source_term ad_point (x.soln_at_q iquad)
  else
    fun _ => 0

/-- The body of the loop over the directions `d` of the volume kernel (weak_dg.cpp lines
3139-3143). -/
def VolumeInput.direction_step (x : VolumeInput R) (itest iquad d : Nat) (rhs : Nat → R) :
    Nat → R :=
  let istate := x.fe_soln.system_to_component_index itest
  let JxW_iquad := x.metric.jac_det iquad * algebraMap ℚ R (x.quadrature.weight iquad)
  let rhs := setAt rhs itest
    (rhs itest + x.grad d itest iquad * x.conv_phys_flux_at_q iquad istate d * JxW_iquad)
  setAt rhs itest
    (rhs itest + x.grad d itest iquad * x.diss_phys_flux_at_q iquad istate d * JxW_iquad)

/-- The body of the loop over the quadrature points of the volume kernel (weak_dg.cpp lines
3135-3148). -/
def VolumeInput.quadrature_step (x : VolumeInput R) (itest iquad : Nat) (rhs : Nat → R) :
    Nat → R :=
  let istate := x.fe_soln.system_to_component_index itest
  let JxW_iquad := x.metric.jac_det iquad * algebraMap ℚ R (x.quadrature.weight iquad)
  let rhs := forLoop x.dim (fun d (rhs : Nat → R) => x.direction_step itest iquad d rhs) rhs
  if x.all_parameters.use_manufactured_source_term then
    setAt rhs itest
      (rhs itest + algebraMap ℚ R (x.interp itest iquad) * x.source_at_q iquad istate * JxW_iquad)
  else rhs

/-- The body of the loop over the test functions of the volume kernel (weak_dg.cpp lines
3131-3151). -/
def VolumeInput.test_step (x : VolumeInput R) (itest : Nat) (s : (Nat → R) × R) :
    (Nat → R) × R :=
  let rhs := forLoop x.quadrature.size
    (fun iquad (rhs : Nat → R) => x.quadrature_step itest iquad rhs) s.1
  (rhs, s.2 + algebraMap ℚ R (x.local_dual itest) * rhs itest)

/-- The template `DGWeak::assemble_volume_term<real2>` (weak_dg.cpp lines 2912-3154):
returns `rhs` and `dual_dot_residual`. -/
def assemble_volume_term (x : VolumeInput R) : (Nat → R) × R :=
  let n_soln_dofs := x.fe_soln.dofs_per_cell
  let rhs : Nat → R := forLoop n_soln_dofs (fun itest rhs => setAt rhs itest 0) (fun _ => 0)
  let dual_dot_residual : R := 0
  forLoop n_soln_dofs (fun itest (s : (Nat → R) × R) => x.test_step itest s)
    (rhs, dual_dot_residual)

/-- The physics of type `real2` commutes with the value projection: the values of its
fluxes, source and boundary values are the fluxes, source and boundary values of the plain
physics at the values of its arguments. -/
def PhysicsBase.commutes (value : R → ℚ) (physics_ad : PhysicsBase R)
    (physics : PHiLiP.PhysicsBase) : Prop :=
  (∀ u s d, value (physics_ad.convective_flux u s d)
      = physics.convective_flux (fun s => value (u s)) s d)
  ∧ (∀ u g s d, value (physics_ad.dissipative_flux u g s d)
      = physics.dissipative_flux (fun s => value (u s)) (fun s d => value (g s d)) s d)
  ∧ (∀ c u g s d, value (physics_ad.artificial_dissipative_flux c u g s d)
      = physics.artificial_dissipative_flux (value c) (fun s => value (u s))
          (fun s d => value (g s d)) s d)
  ∧ (∀ p u s, value (physics_ad.source_term p u s)
      = physics.source_term (fun d => value (p d)) (fun s => value (u s)) s)
  ∧ (∀ b p n u g s, value ((physics_ad.boundary_face_values b p n u g).1 s)
      = (physics.boundary_face_values b (fun d => value (p d)) (fun d => value (n d))
          (fun s => value (u s)) (fun s d => value (g s d))).1 s)
  ∧ (∀ b p n u g s d, value ((physics_ad.boundary_face_values b p n u g).2 s d)
      = (physics.boundary_face_values b (fun d => value (p d)) (fun d => value (n d))
          (fun s => value (u s)) (fun s d => value (g s d))).2 s d)

/-- The plain input of the volume kernel that the value projection gives: the values of the
coefficients and of the metric terms, with the plain physics. -/
def VolumeInput.value (value : R → ℚ) (physics : PHiLiP.PhysicsBase) (x : VolumeInput R) :
    PHiLiP.VolumeInput :=
  { dim := x.dim, nstate := x.nstate, all_parameters := x.all_parameters,
    artificial_dissipation_coeff := x.artificial_dissipation_coeff,
    soln_coeff := fun idof => value (x.soln_coeff idof),
    coords_coeff := fun idof => value (x.coords_coeff idof),
    local_dual := x.local_dual, fe_soln := x.fe_soln, fe_metric := x.fe_metric,
    quadrature := x.quadrature, physics := physics,
    compute_metric_derivatives := x.compute_metric_derivatives,
    fe_values_vol := x.fe_values_vol,
    metric :=
      { jac_det := fun iquad => value (x.metric.jac_det iquad),
        jac_inv_tran := fun iquad row col => value (x.metric.jac_inv_tran iquad row col) } }

/-- The numerical fluxes of type `real2` commute with the value projection. -/
def NumericalFluxConvective.commutes (value : R → ℚ)
    (conv_num_flux_ad : NumericalFluxConvective R)
    (conv_num_flux : PHiLiP.NumericalFluxConvective) : Prop :=
  ∀ a b n s, value (conv_num_flux_ad.evaluate_flux a b n s)
    = conv_num_flux.evaluate_flux (fun s => value (a s)) (fun s => value (b s))
        (fun d => value (n d)) s

/-- The dissipative numerical fluxes of type `real2` commute with the value projection. -/
def NumericalFluxDissipative.commutes (value : R → ℚ)
    (diss_num_flux_ad : NumericalFluxDissipative R)
    (diss_num_flux : PHiLiP.NumericalFluxDissipative) : Prop :=
  (∀ a b n s, value (diss_num_flux_ad.evaluate_solution_flux a b n s)
      = diss_num_flux.evaluate_solution_flux (fun s => value (a s)) (fun s => value (b s))
          (fun d => value (n d)) s)
  ∧ (∀ c1 c2 a b ga gb n penalty on_boundary s,
      value (diss_num_flux_ad.evaluate_auxiliary_flux c1 c2 a b ga gb n penalty on_boundary s)
        = diss_num_flux.evaluate_auxiliary_flux (value c1) (value c2) (fun s => value (a s))
            (fun s => value (b s)) (fun s d => value (ga s d)) (fun s d => value (gb s d))
            (fun d => value (n d)) penalty on_boundary s)

/-- The loops of the jump `(u_star[s] - u[s]) * normal[d]` (weak_dg.cpp lines 1066-1071,
2007-2013). -/
def soln_jump (dim nstate : Nat) (diss_soln_num_flux soln : Nat → R) (normal : Nat → R) :
    Nat → Nat → R :=
  fun s d => if s < nstate ∧ d < dim then (diss_soln_num_flux s - soln s) * normal d else 0

/-- The dissipative flux of a jump with the artificial dissipation added when it is
enabled (weak_dg.cpp lines 1072-1079, 2014-2024). -/
def diss_flux_of_jump (nstate : Nat) (all_parameters : AllParameters) (physics : PhysicsBase R)
    (artificial_diss_coeff : R) (soln : Nat → R) (diss_soln_jump : Nat → Nat → R) :
    Nat → Nat → R :=
  let diss_flux_jump := physics.dissipative_flux soln diss_soln_jump
  if all_parameters.add_artificial_dissipation then
    let artificial_diss_flux_jump :=
      physics.artificial_dissipative_flux artificial_diss_coeff soln diss_soln_jump
    add_flux nstate diss_flux_jump artificial_diss_flux_jump
  else
    diss_flux_jump

/-- The inputs of the template `DGWeak::assemble_boundary_term<adtype>`; `face_quadrature`
is the projection of `quadrature` to face `face_number`, and `fe_lagrange_grid` is the
element `fe_metric.base_element(0)`. -/
structure BoundaryInput (R : Type) where
  dim : Nat
  nstate : Nat
  all_parameters : AllParameters
  artificial_dissipation_coeff : ℚ
  soln_coeff : Nat → R
  coords_coeff : Nat → R
  local_dual : Vec
  boundary_id : Nat
  physics : PhysicsBase R
  conv_num_flux : NumericalFluxConvective R
  diss_num_flux : NumericalFluxDissipative R
  fe_values_boundary : FEValues
  penalty : ℚ
  fe_soln : FESystem
  fe_metric : FESystem
  face_quadrature : Quadrature
  compute_metric_derivatives : Bool
  face_number : Nat
  fe_lagrange_grid : FiniteElement

/-- The metric terms that the boundary kernel computes from `coords_coeff` (weak_dg.cpp
lines 886-977). -/
def BoundaryInput.metric (x : BoundaryInput R) : BoundaryMetric R :=
  assemble_boundary_term_metric_terms x.dim x.face_number x.face_quadrature x.coords_coeff
    x.fe_metric x.fe_lagrange_grid x.compute_metric_derivatives x.fe_values_boundary

/-- The value `artificial_diss_coeff` of weak_dg.cpp lines 1025-1027. -/
def BoundaryInput.artificial_diss_coeff (x : BoundaryInput R) : R :=
  if x.all_parameters.add_artificial_dissipation then
    algebraMap ℚ R x.artificial_dissipation_coeff
  else 0

/-- The point `real_quad_pts[iquad]` (weak_dg.cpp lines 902-906, 931). -/
def BoundaryInput.real_quad_pts (x : BoundaryInput R) (iquad : Nat) : Nat → R :=
  if x.compute_metric_derivatives then
    interpolate_point x.fe_metric x.coords_coeff (x.face_quadrature.point iquad)
  else
    fun d => algebraMap ℚ R (x.fe_values_boundary.quadrature_point iquad d)

/-- The value `surface_jac_det[iquad]` (weak_dg.cpp lines 932, 969). -/
def BoundaryInput.surface_jac_det (x : BoundaryInput R) (iquad : Nat) : R :=
  if x.compute_metric_derivatives then x.metric.surface_jac_det iquad
  else algebraMap ℚ R (x.fe_values_boundary.JxW iquad / x.face_quadrature.weight iquad)

/-- The normal `normals[iquad]` (weak_dg.cpp lines 933, 973-975). -/
def BoundaryInput.normals (x : BoundaryInput R) (iquad : Nat) : Nat → R :=
  if x.compute_metric_derivatives then x.metric.normals iquad
  else fun d => algebraMap ℚ R (x.fe_values_boundary.normal_vector iquad d)

/-- The entry `interpolation_operator[idof][iquad]` of the boundary kernel. -/
def BoundaryInput.interp (x : BoundaryInput R) (idof iquad : Nat) : ℚ :=
  interpolation_operator x.fe_soln x.face_quadrature.point idof iquad

/-- The entry `gradient_operator[d][idof][iquad]` of the boundary kernel. -/
def BoundaryInput.grad (x : BoundaryInput R) (d idof iquad : Nat) : R :=
  gradient_operator x.dim x.compute_metric_derivatives x.fe_soln x.face_quadrature.point
    x.metric.jac_inv_tran x.fe_values_boundary d idof iquad

/-- The interior trace `soln_int` at a quadrature point (weak_dg.cpp lines 1037-1047). -/
def BoundaryInput.soln_int (x : BoundaryInput R) (iquad : Nat) : Nat → R :=
  interpolate_solution x.fe_soln.dofs_per_cell x.fe_values_boundary.fe_system_to_component_index
    x.soln_coeff (fun idof => x.interp idof iquad)

/-- The interior gradient `soln_grad_int` at a quadrature point (lines 1037-1047). -/
def BoundaryInput.soln_grad_int (x : BoundaryInput R) (iquad : Nat) : Nat → Nat → R :=
  interpolate_gradient x.dim x.fe_soln.dofs_per_cell
    x.fe_values_boundary.fe_system_to_component_index x.soln_coeff
    (fun d idof => x.grad d idof iquad)

/-- The pair `(soln_ext, soln_grad_ext)` returned by the boundary-condition closure
(weak_dg.cpp line 1049). -/
def BoundaryInput.boundary_values (x : BoundaryInput R) (iquad : Nat) :
    (Nat → R) × (Nat → Nat → R) :=
  x.physics.boundary_face_values x.boundary_id (x.real_quad_pts iquad) (x.normals iquad)
    (x.soln_int iquad) (x.soln_grad_int iquad)

/-- The flux `conv_num_flux_dot_n[iquad]` (weak_dg.cpp line 1062). -/
def BoundaryInput.conv_num_flux_dot_n (x : BoundaryInput R) (iquad : Nat) : Nat → R :=
  let normal_int := x.normals iquad
  let soln_int := x.soln_int iquad
  let soln_ext := (x.boundary_values iquad).1
  x.conv_num_flux.evaluate_flux soln_int soln_ext normal_int

/-- The solution flux `diss_soln_num_flux[iquad]` (weak_dg.cpp line 1064). -/
def BoundaryInput.diss_soln_num_flux (x : BoundaryInput R) (iquad : Nat) : Nat → R :=
  let normal_int := x.normals iquad
  let soln_ext := (x.boundary_values iquad).1
  x.diss_num_flux.evaluate_solution_flux soln_ext soln_ext normal_int

/-- The flux `diss_flux_jump_int[iquad]` (weak_dg.cpp lines 1066-1079). -/
def BoundaryInput.diss_flux_jump_int (x : BoundaryInput R) (iquad : Nat) : Nat → Nat → R :=
  let normal_int := x.normals iquad
  let soln_int := x.soln_int iquad
  let diss_soln_jump_int := soln_jump x.dim x.nstate (x.diss_soln_num_flux iquad) soln_int normal_int
  diss_flux_of_jump x.nstate x.all_parameters x.physics x.artificial_diss_coeff soln_int
    diss_soln_jump_int

/-- The flux `diss_auxi_num_flux_dot_n[iquad]` (weak_dg.cpp lines 1081-1086). -/
def BoundaryInput.diss_auxi_num_flux_dot_n (x : BoundaryInput R) (iquad : Nat) : Nat → R :=
  x.diss_num_flux.evaluate_auxiliary_flux x.artificial_diss_coeff x.artificial_diss_coeff
    (x.soln_int iquad) (x.boundary_values iquad).1 (x.soln_grad_int iquad)
    (x.boundary_values iquad).2 (x.normals iquad) x.penalty true

/-- The body of the loop over the quadrature points of the boundary kernel (weak_dg.cpp
lines 1097-1106). -/
def BoundaryInput.quadrature_step (x : BoundaryInput R) (itest iquad : Nat) (rhs_val : R) : R :=
  let istate := x.fe_values_boundary.fe_system_to_component_index itest
  let JxW_iquad := x.surface_jac_det iquad * algebraMap ℚ R (x.face_quadrature.weight iquad)
  let rhs_val := rhs_val
    - algebraMap ℚ R (x.interp itest iquad) * x.conv_num_flux_dot_n iquad istate * JxW_iquad
  let rhs_val := rhs_val
    - algebraMap ℚ R (x.interp itest iquad) * x.diss_auxi_num_flux_dot_n iquad istate * JxW_iquad
  forLoop x.dim
    (fun d rhs_val =>
      rhs_val + x.grad d itest iquad * x.diss_flux_jump_int iquad istate d * JxW_iquad)
    rhs_val

/-- The body of the loop over the test functions of the boundary kernel (weak_dg.cpp lines
1091-1111). -/
def BoundaryInput.test_step (x : BoundaryInput R) (itest : Nat) (s : (Nat → R) × R) :
    (Nat → R) × R :=
  let rhs_val : R := 0
  let rhs_val := forLoop x.fe_values_boundary.n_quadrature_points
    (fun iquad rhs_val => x.quadrature_step itest iquad rhs_val) rhs_val
  (setAt s.1 itest rhs_val, s.2 + algebraMap ℚ R (x.local_dual itest) * rhs_val)

/-- The template `DGWeak::assemble_boundary_term<adtype>` (weak_dg.cpp lines 851-1112):
returns `rhs` and `dual_dot_residual`. -/
def assemble_boundary_term (x : BoundaryInput R) : (Nat → R) × R :=
  let n_soln_dofs := x.fe_soln.dofs_per_cell
  let dual_dot_residual : R := 0
  let rhs : Nat → R := forLoop n_soln_dofs (fun itest rhs => setAt rhs itest 0) (fun _ => 0)
  forLoop n_soln_dofs (fun itest (s : (Nat → R) × R) => x.test_step itest s)
    (rhs, dual_dot_residual)

/-- The plain input of the boundary kernel that the value projection gives. -/
def BoundaryInput.value (value : R → ℚ) (physics : PHiLiP.PhysicsBase)
    (conv_num_flux : PHiLiP.NumericalFluxConvective)
    (diss_num_flux : PHiLiP.NumericalFluxDissipative) (x : BoundaryInput R) :
    PHiLiP.BoundaryInput :=
  { dim := x.dim, nstate := x.nstate, all_parameters := x.all_parameters,
    artificial_dissipation_coeff := x.artificial_dissipation_coeff,
    soln_coeff := fun idof => value (x.soln_coeff idof),
    coords_coeff := fun idof => value (x.coords_coeff idof),
    local_dual := x.local_dual, boundary_id := x.boundary_id, physics := physics,
    conv_num_flux := conv_num_flux, diss_num_flux := diss_num_flux,
    fe_values_boundary := x.fe_values_boundary, penalty := x.penalty, fe_soln := x.fe_soln,
    fe_metric := x.fe_metric, face_quadrature := x.face_quadrature,
    compute_metric_derivatives := x.compute_metric_derivatives,
    metric :=
      { jac_inv_tran := fun iquad row col => value (x.metric.jac_inv_tran iquad row col),
        surface_jac_det := fun iquad => value (x.metric.surface_jac_det iquad),
        normals := fun iquad d => value (x.metric.normals iquad d) } }

/-- The inputs of the template `DGWeak::assemble_face_term<real2>`; `face_quadrature_int`
and `_ext` are the projections of `face_quadrature` to the (sub)face of each side, and
`fe_lagrange_grid` is the element `fe_metric.base_element(0)`. -/
structure FaceInput (R : Type) where
  dim : Nat
  nstate : Nat
  all_parameters : AllParameters
  artificial_dissipation_coeff_int : ℚ
  artificial_dissipation_coeff_ext : ℚ
  soln_coeff_int : Nat → R
  soln_coeff_ext : Nat → R
  coords_coeff_int : Nat → R
  coords_coeff_ext : Nat → R
  dual_int : Vec
  dual_ext : Vec
  face_subface_int : Nat × Int
  face_subface_ext : Nat × Int
  physics : PhysicsBase R
  conv_num_flux : NumericalFluxConvective R
  diss_num_flux : NumericalFluxDissipative R
  fe_values_int : FEValues
  fe_values_ext : FEValues
  penalty : ℚ
  fe_int : FESystem
  fe_ext : FESystem
  fe_metric : FESystem
  face_quadrature : Quadrature
  face_quadrature_int : Quadrature
  face_quadrature_ext : Quadrature
  fe_lagrange_grid : FiniteElement

/-- The metric terms of the interior side that the face kernel computes from
`coords_coeff_int` (weak_dg.cpp lines 1689-1882). -/
def FaceInput.metric_int (x : FaceInput R) : FaceMetric R :=
  assemble_face_term_metric_terms x.dim x.face_subface_int.1 x.face_quadrature.size
    x.face_quadrature_int x.coords_coeff_int x.fe_metric x.fe_lagrange_grid

/-- The metric terms of the exterior side that the face kernel computes from
`coords_coeff_ext` (weak_dg.cpp lines 1689-1882). -/
def FaceInput.metric_ext (x : FaceInput R) : FaceMetric R :=
  assemble_face_term_metric_terms x.dim x.face_subface_ext.1 x.face_quadrature.size
    x.face_quadrature_ext x.coords_coeff_ext x.fe_metric x.fe_lagrange_grid

/-- The local constant `compute_metric_derivatives = true` of weak_dg.cpp line 1684. -/
def FaceInput.compute_metric_derivatives (_x : FaceInput R) : Bool := true

/-- The value `artificial_diss_coeff_int` of weak_dg.cpp lines 1740-1742. -/
def FaceInput.artificial_diss_coeff_int (x : FaceInput R) : R :=
  if x.all_parameters.add_artificial_dissipation then
    algebraMap ℚ R x.artificial_dissipation_coeff_int
  else 0

/-- The value `artificial_diss_coeff_ext` of weak_dg.cpp lines 1743-1745. -/
def FaceInput.artificial_diss_coeff_ext (x : FaceInput R) : R :=
  if x.all_parameters.add_artificial_dissipation then
    algebraMap ℚ R x.artificial_dissipation_coeff_ext
  else 0

/-- The value `surface_jac_det_int` (weak_dg.cpp lines 1881, 1954). -/
def FaceInput.surface_jac_det_int (x : FaceInput R) (iquad : Nat) : R :=
  if x.compute_metric_derivatives then x.metric_int.surface_jac_det iquad
  else algebraMap ℚ R (x.fe_values_int.JxW iquad / x.face_quadrature_int.weight iquad)

/-- The value `surface_jac_det_ext` (weak_dg.cpp lines 1882, 1955). -/
def FaceInput.surface_jac_det_ext (x : FaceInput R) (iquad : Nat) : R :=
  if x.compute_metric_derivatives then x.metric_ext.surface_jac_det iquad
  else algebraMap ℚ R (x.fe_values_ext.JxW iquad / x.face_quadrature_ext.weight iquad)

/-- The normal `normal_normalized_int` (weak_dg.cpp lines 1874-1876, 1957). -/
def FaceInput.normal_normalized_int (x : FaceInput R) (iquad : Nat) : Nat → R :=
  if x.compute_metric_derivatives then x.metric_int.normal_normalized iquad
  else fun d => algebraMap ℚ R (x.fe_values_int.normal_vector iquad d)

/-- The normal `normal_normalized_ext` (weak_dg.cpp lines 1877-1879, 1958). -/
def FaceInput.normal_normalized_ext (x : FaceInput R) (iquad : Nat) : Nat → R :=
  if x.compute_metric_derivatives then x.metric_ext.normal_normalized iquad
  else fun d => - x.normal_normalized_int iquad d

/-- The value `surface_jac_det` selected at weak_dg.cpp lines 1966-1977. -/
def FaceInput.surface_jac_det (x : FaceInput R) (iquad : Nat) : R :=
  if RealOperations.greater (x.surface_jac_det_int iquad) (x.surface_jac_det_ext iquad) then
    -- Interior is the large face, exterior is the small face.
    x.surface_jac_det_ext iquad
  else
    -- Exterior is the large face, interior is the small face.
    x.surface_jac_det_int iquad

/-- The entry `interpolation_operator_int[idof]` at a quadrature point. -/
def FaceInput.interp_int (x : FaceInput R) (idof iquad : Nat) : ℚ :=
  interpolation_operator x.fe_int x.face_quadrature_int.point idof iquad

/-- The entry `interpolation_operator_ext[idof]` at a quadrature point. -/
def FaceInput.interp_ext (x : FaceInput R) (idof iquad : Nat) : ℚ :=
  interpolation_operator x.fe_ext x.face_quadrature_ext.point idof iquad

/-- The entry `gradient_operator_int[d][idof]` at a quadrature point. -/
def FaceInput.grad_int (x : FaceInput R) (d idof iquad : Nat) : R :=
  gradient_operator x.dim x.compute_metric_derivatives x.fe_int x.face_quadrature_int.point
    x.metric_int.jac_inv_tran x.fe_values_int d idof iquad

/-- The entry `gradient_operator_ext[d][idof]` at a quadrature point. -/
def FaceInput.grad_ext (x : FaceInput R) (d idof iquad : Nat) : R :=
  gradient_operator x.dim x.compute_metric_derivatives x.fe_ext x.face_quadrature_ext.point
    x.metric_ext.jac_inv_tran x.fe_values_ext d idof iquad

/-- The interior trace `soln_int` (weak_dg.cpp lines 1980-1994). -/
def FaceInput.soln_int (x : FaceInput R) (iquad : Nat) : Nat → R :=
  interpolate_solution x.fe_int.dofs_per_cell x.fe_int.system_to_component_index
    x.soln_coeff_int (fun idof => x.interp_int idof iquad)

/-- The exterior trace `soln_ext` (weak_dg.cpp lines 1980-2001). -/
def FaceInput.soln_ext (x : FaceInput R) (iquad : Nat) : Nat → R :=
  interpolate_solution x.fe_ext.dofs_per_cell x.fe_ext.system_to_component_index
    x.soln_coeff_ext (fun idof => x.interp_ext idof iquad)

/-- The interior gradient `soln_grad_int` (weak_dg.cpp lines 1980-1994). -/
def FaceInput.soln_grad_int (x : FaceInput R) (iquad : Nat) : Nat → Nat → R :=
  interpolate_gradient x.dim x.fe_int.dofs_per_cell x.fe_int.system_to_component_index
    x.soln_coeff_int (fun d idof => x.grad_int d idof iquad)

/-- The exterior gradient `soln_grad_ext` (weak_dg.cpp lines 1980-2001). -/
def FaceInput.soln_grad_ext (x : FaceInput R) (iquad : Nat) : Nat → Nat → R :=
  interpolate_gradient x.dim x.fe_ext.dofs_per_cell x.fe_ext.system_to_component_index
    x.soln_coeff_ext (fun d idof => x.grad_ext d idof iquad)

/-- The flux `conv_num_flux_dot_n` (weak_dg.cpp line 2004). -/
def FaceInput.conv_num_flux_dot_n (x : FaceInput R) (iquad : Nat) : Nat → R :=
  x.conv_num_flux.evaluate_flux (x.soln_int iquad) (x.soln_ext iquad)
    (x.normal_normalized_int iquad)

/-- The solution flux `diss_soln_num_flux` (weak_dg.cpp line 2005). -/
def FaceInput.diss_soln_num_flux (x : FaceInput R) (iquad : Nat) : Nat → R :=
  x.diss_num_flux.evaluate_solution_flux (x.soln_int iquad) (x.soln_ext iquad)
    (x.normal_normalized_int iquad)

/-- The flux `diss_flux_jump_int` (weak_dg.cpp lines 2007-2024). -/
def FaceInput.diss_flux_jump_int (x : FaceInput R) (iquad : Nat) : Nat → Nat → R :=
  let diss_soln_jump_int := soln_jump x.dim x.nstate (x.diss_soln_num_flux iquad)
    (x.soln_int iquad) (x.normal_normalized_int iquad)
  diss_flux_of_jump x.nstate x.all_parameters x.physics x.artificial_diss_coeff_int
    (x.soln_int iquad) diss_soln_jump_int

/-- The flux `diss_flux_jump_ext` (weak_dg.cpp lines 2007-2024). -/
def FaceInput.diss_flux_jump_ext (x : FaceInput R) (iquad : Nat) : Nat → Nat → R :=
  let diss_soln_jump_ext := soln_jump x.dim x.nstate (x.diss_soln_num_flux iquad)
    (x.soln_ext iquad) (x.normal_normalized_ext iquad)
  diss_flux_of_jump x.nstate x.all_parameters x.physics x.artificial_diss_coeff_ext
    (x.soln_ext iquad) diss_soln_jump_ext

/-- The flux `diss_auxi_num_flux_dot_n` (weak_dg.cpp lines 2027-2032). -/
def FaceInput.diss_auxi_num_flux_dot_n (x : FaceInput R) (iquad : Nat) : Nat → R :=
  x.diss_num_flux.evaluate_auxiliary_flux x.artificial_diss_coeff_int
    x.artificial_diss_coeff_ext (x.soln_int iquad) (x.soln_ext iquad) (x.soln_grad_int iquad)
    (x.soln_grad_ext iquad) (x.normal_normalized_int iquad) x.penalty false

/-- The outputs of the face kernel template. -/
structure FaceOutput (R : Type) where
  rhs_int : Nat → R
  rhs_ext : Nat → R
  dual_dot_residual : R

/-- The value `rhs` of one interior test function at one quadrature point (weak_dg.cpp
lines 2037-2046). -/
def FaceInput.rhs_int_at (x : FaceInput R) (iquad itest_int : Nat) : R :=
  let rhs : R := 0
  let istate := x.fe_int.system_to_component_index itest_int
  let JxW_iquad := x.surface_jac_det iquad * algebraMap ℚ R (x.face_quadrature_int.weight iquad)
  let rhs := rhs
    - algebraMap ℚ R (x.interp_int itest_int iquad) * x.conv_num_flux_dot_n iquad istate * JxW_iquad
  let rhs := rhs
    - algebraMap ℚ R (x.interp_int itest_int iquad) * x.diss_auxi_num_flux_dot_n iquad istate
        * JxW_iquad
  forLoop x.dim
    (fun d rhs =>
      rhs + x.grad_int d itest_int iquad * x.diss_flux_jump_int iquad istate d * JxW_iquad)
    rhs

/-- The value `rhs` of one exterior test function at one quadrature point (weak_dg.cpp
lines 2055-2064). -/
def FaceInput.rhs_ext_at (x : FaceInput R) (iquad itest_ext : Nat) : R :=
  let rhs : R := 0
  let istate := x.fe_ext.system_to_component_index itest_ext
  let JxW_iquad := x.surface_jac_det iquad * algebraMap ℚ R (x.face_quadrature_int.weight iquad)
  let rhs := rhs
    - algebraMap ℚ R (x.interp_ext itest_ext iquad) * (- x.conv_num_flux_dot_n iquad istate)
        * JxW_iquad
  let rhs := rhs
    - algebraMap ℚ R (x.interp_ext itest_ext iquad) * (- x.diss_auxi_num_flux_dot_n iquad istate)
        * JxW_iquad
  forLoop x.dim
    (fun d rhs =>
      rhs + x.grad_ext d itest_ext iquad * x.diss_flux_jump_ext iquad istate d * JxW_iquad)
    rhs

/-- The loop over the interior test functions at one quadrature point (weak_dg.cpp lines
2035-2050). -/
def face_term_int_tests (x : FaceInput R) (iquad : Nat) (out : FaceOutput R) : FaceOutput R :=
  forLoop x.fe_int.dofs_per_cell
    (fun itest_int (out : FaceOutput R) =>
      let rhs := x.rhs_int_at iquad itest_int
      { out with
        rhs_int := addAt out.rhs_int itest_int rhs
        dual_dot_residual := out.dual_dot_residual + algebraMap ℚ R (x.dual_int itest_int) * rhs })
    out

/-- The loop over the exterior test functions at one quadrature point (weak_dg.cpp lines
2053-2068). -/
def face_term_ext_tests (x : FaceInput R) (iquad : Nat) (out : FaceOutput R) : FaceOutput R :=
  forLoop x.fe_ext.dofs_per_cell
    (fun itest_ext (out : FaceOutput R) =>
      let rhs := x.rhs_ext_at iquad itest_ext
      { out with
        rhs_ext := addAt out.rhs_ext itest_ext rhs
        dual_dot_residual := out.dual_dot_residual + algebraMap ℚ R (x.dual_ext itest_ext) * rhs })
    out

/-- The template `DGWeak::assemble_face_term<real2>` (weak_dg.cpp lines 1591-2071): returns
`rhs_int`, `rhs_ext` and `dual_dot_residual`. The assertions of lines 1893-1916 are not
part of this definition. -/
def assemble_face_term (x : FaceInput R) : FaceOutput R :=
  let n_face_quad_pts := x.face_quadrature.size
  let dual_dot_residual : R := 0
  let rhs_int : Nat → R :=
    forLoop x.fe_int.dofs_per_cell (fun itest rhs => setAt rhs itest 0) (fun _ => 0)
  let rhs_ext : Nat → R :=
    forLoop x.fe_ext.dofs_per_cell (fun itest rhs => setAt rhs itest 0) (fun _ => 0)
  forLoop n_face_quad_pts
    (fun iquad out => face_term_ext_tests x iquad (face_term_int_tests x iquad out))
    { rhs_int := rhs_int, rhs_ext := rhs_ext, dual_dot_residual := dual_dot_residual }

/-- The plain input of the face kernel that the value projection gives. -/
def FaceInput.value (value : R → ℚ) (physics : PHiLiP.PhysicsBase)
    (conv_num_flux : PHiLiP.NumericalFluxConvective)
    (diss_num_flux : PHiLiP.NumericalFluxDissipative) (x : FaceInput R) : PHiLiP.FaceInput :=
  { dim := x.dim, nstate := x.nstate, all_parameters := x.all_parameters,
    artificial_dissipation_coeff_int := x.artificial_dissipation_coeff_int,
    artificial_dissipation_coeff_ext := x.artificial_dissipation_coeff_ext,
    soln_coeff_int := fun idof => value (x.soln_coeff_int idof),
    soln_coeff_ext := fun idof => value (x.soln_coeff_ext idof),
    dual_int := x.dual_int, dual_ext := x.dual_ext, physics := physics,
    conv_num_flux := conv_num_flux, diss_num_flux := diss_num_flux,
    fe_values_int := x.fe_values_int, fe_values_ext := x.fe_values_ext, penalty := x.penalty,
    fe_int := x.fe_int, fe_ext := x.fe_ext, face_quadrature := x.face_quadrature,
    face_quadrature_int := x.face_quadrature_int, face_quadrature_ext := x.face_quadrature_ext,
    metric_int :=
      { jac_inv_tran := fun iquad row col => value (x.metric_int.jac_inv_tran iquad row col),
        surface_jac_det := fun iquad => value (x.metric_int.surface_jac_det iquad),
        normal_normalized := fun iquad d => value (x.metric_int.normal_normalized iquad d) },
    metric_ext :=
      { jac_inv_tran := fun iquad row col => value (x.metric_ext.jac_inv_tran iquad row col),
        surface_jac_det := fun iquad => value (x.metric_ext.surface_jac_det iquad),
        normal_normalized := fun iquad d => value (x.metric_ext.normal_normalized iquad d) } }

/-- The values of the outputs of the face kernel template. -/
def FaceOutput.value (value : R → ℚ) (out : FaceOutput R) : PHiLiP.FaceOutput :=
  { rhs_int := fun i => value (out.rhs_int i), rhs_ext := fun i => value (out.rhs_ext i),
    dual_dot_residual := value out.dual_dot_residual }

end Templated

/-! ## Wrappers: the values added to the local right-hand side -/

/-- The part of the object `high_order_grid` that the wrappers and the kernels read;
`fe_lagrange_grid` is the element `fe_system.base_element(0)`. -/
structure HighOrderGrid where
  fe_system : FESystem
  fe_lagrange_grid : FiniteElement
  volume_nodes : Vec

/-- The function `getValue` at `real = double` (weak_dg.cpp lines 26-28): `return x`. -/
def getValue_double (x : ℚ) : ℚ := x

/-- The function `getValue` at a differentiable type (weak_dg.cpp lines 28-30):
`return getValue(x.value())`, where `value` is the member `value()` of the type and
`getValue_inner` is `getValue` at the type of `x.value()`. -/
def getValue_active {S T : Type} (value : S → T) (getValue_inner : T → ℚ) (x : S) : ℚ :=
  getValue_inner (value x)

/-- The arguments of `assemble_volume_residual` and `assemble_volume_codi_taped_derivatives`
that do not depend on the number type. -/
structure VolumeWrapperInput where
  dim : Nat
  nstate : Nat
  current_cell_index : Nat
  fe_values_vol : FEValues
  fe_soln : FESystem
  quadrature : Quadrature
  metric_dof_indices : Nat → Nat
  soln_dof_indices : Nat → Nat

/-- The arguments of `assemble_boundary_residual` and
`assemble_boundary_codi_taped_derivatives` that do not depend on the number type;
`face_quadrature` is the projection of `quadrature` to face `face_number`. -/
structure BoundaryWrapperInput where
  dim : Nat
  nstate : Nat
  current_cell_index : Nat
  face_number : Nat
  boundary_id : Nat
  fe_values_boundary : FEValues
  penalty : ℚ
  fe_soln : FESystem
  face_quadrature : Quadrature
  metric_dof_indices : Nat → Nat
  soln_dof_indices : Nat → Nat

/-- The arguments of `assemble_face_residual` and `assemble_face_codi_taped_derivatives`
that do not depend on the number type; `face_quadrature_int` and `_ext` are the projections
of `face_quadrature` to the (sub)face of each side. -/
structure FaceWrapperInput where
  dim : Nat
  nstate : Nat
  current_cell_index : Nat
  neighbor_cell_index : Nat
  face_subface_int : Nat × Int
  face_subface_ext : Nat × Int
  fe_values_int : FEValues
  fe_values_ext : FEValues
  penalty : ℚ
  fe_int : FESystem
  fe_ext : FESystem
  face_quadrature : Quadrature
  face_quadrature_int : Quadrature
  face_quadrature_ext : Quadrature
  metric_dof_indices_int : Nat → Nat
  metric_dof_indices_ext : Nat → Nat
  soln_dof_indices_int : Nat → Nat
  soln_dof_indices_ext : Nat → Nat

/-- The kernel call of `assemble_volume_residual` (weak_dg.cpp lines 3511-3545); the field
`metric` holds the metric terms that the kernel computes from `coords_coeff` in its metric
step (lines 2942-3009). -/
def assemble_volume_residual_kernel_input (engine : DGWeakState)
    (high_order_grid : HighOrderGrid) (c : VolumeWrapperInput) (physics : PhysicsBase) :
    VolumeInput :=
  let compute_metric_derivatives := true
  let fe_metric := high_order_grid.fe_system
  let n_metric_dofs := fe_metric.dofs_per_cell
  let n_soln_dofs := c.fe_soln.dofs_per_cell
  let local_dual : Vec := forLoop n_soln_dofs
    (fun itest local_dual =>
      let global_residual_row := c.soln_dof_indices itest
      setAt local_dual itest (engine.dual global_residual_row))
    zeroVec
  let soln_coeff : Vec := forLoop n_soln_dofs
    (fun idof soln_coeff =>
      let val := engine.solution (c.soln_dof_indices idof)
      setAt soln_coeff idof val)
    zeroVec
  let coords_coeff : Vec := forLoop n_metric_dofs
    (fun idof coords_coeff =>
      let val := high_order_grid.volume_nodes (c.metric_dof_indices idof)
      setAt coords_coeff idof val)
    zeroVec
  { dim := c.dim, nstate := c.nstate, all_parameters := engine.all_parameters,
    artificial_dissipation_coeff := engine.artificial_dissipation_coeffs c.current_cell_index,
    soln_coeff := soln_coeff, coords_coeff := coords_coeff, local_dual := local_dual,
    fe_soln := c.fe_soln, fe_metric := fe_metric, quadrature := c.quadrature,
    physics := physics, compute_metric_derivatives := compute_metric_derivatives,
    fe_values_vol := c.fe_values_vol,
    metric := assemble_volume_term_metric_terms c.dim c.quadrature coords_coeff fe_metric
      high_order_grid.fe_lagrange_grid compute_metric_derivatives c.fe_values_vol }

/-- The wrapper `DGWeak::assemble_volume_residual` (weak_dg.cpp lines 3492-3551), which is
called with the three flags false (assertion of line 3510): the vector `local_rhs_cell`
after the call. Every rational is finite, so `AssertIsFinite` passes. -/
def assemble_volume_residual (engine : DGWeakState) (high_order_grid : HighOrderGrid)
    (c : VolumeWrapperInput) (physics : PhysicsBase) (local_rhs_cell : Vec) : Vec :=
  let n_soln_dofs := c.fe_soln.dofs_per_cell
  let rhs :=
    (assemble_volume_term
      (assemble_volume_residual_kernel_input engine high_order_grid c physics)).1
  forLoop n_soln_dofs
    (fun itest local_rhs_cell => addAt local_rhs_cell itest (getValue_double (rhs itest)))
    local_rhs_cell

/-- The kernel call of `assemble_boundary_residual` (weak_dg.cpp lines 1464-1513); the
field `metric` holds the metric terms that the kernel computes from `coords_coeff` in its
metric step (lines 886-977), and `sqrt` is the square root of plain reals. -/
def assemble_boundary_residual_kernel_input (sqrt : ℚ → ℚ) (engine : DGWeakState)
    (high_order_grid : HighOrderGrid) (c : BoundaryWrapperInput) (physics : PhysicsBase)
    (conv_num_flux : NumericalFluxConvective) (diss_num_flux : NumericalFluxDissipative) :
    BoundaryInput :=
  let fe_metric := high_order_grid.fe_system
  let n_soln_dofs := c.fe_values_boundary.dofs_per_cell
  let n_metric_dofs := fe_metric.dofs_per_cell
  let compute_metric_derivatives := true
  let soln_coeff : Vec := forLoop n_soln_dofs
    (fun idof soln_coeff =>
      let val := engine.solution (c.soln_dof_indices idof)
      setAt soln_coeff idof val)
    zeroVec
  let coords_coeff : Vec := forLoop n_metric_dofs
    (fun idof coords_coeff =>
      let val := high_order_grid.volume_nodes (c.metric_dof_indices idof)
      setAt coords_coeff idof val)
    zeroVec
  let local_dual : Vec := forLoop n_soln_dofs
    (fun itest local_dual => setAt local_dual itest (engine.dual (c.soln_dof_indices itest)))
    zeroVec
  { dim := c.dim, nstate := c.nstate, all_parameters := engine.all_parameters,
    artificial_dissipation_coeff := engine.artificial_dissipation_coeffs c.current_cell_index,
    soln_coeff := soln_coeff, coords_coeff := coords_coeff, local_dual := local_dual,
    boundary_id := c.boundary_id, physics := physics, conv_num_flux := conv_num_flux,
    diss_num_flux := diss_num_flux, fe_values_boundary := c.fe_values_boundary,
    penalty := c.penalty, fe_soln := c.fe_soln, fe_metric := fe_metric,
    face_quadrature := c.face_quadrature,
    compute_metric_derivatives := compute_metric_derivatives,
    metric := assemble_boundary_term_metric_terms sqrt c.dim c.face_number c.face_quadrature
      coords_coeff fe_metric high_order_grid.fe_lagrange_grid compute_metric_derivatives
      c.fe_values_boundary }

/-- The wrapper `DGWeak::assemble_boundary_residual` (weak_dg.cpp lines 1449-1520): the
vector `local_rhs_cell` after the call; `sqrt` is the square root of plain reals. -/
def assemble_boundary_residual (sqrt : ℚ → ℚ) (engine : DGWeakState)
    (high_order_grid : HighOrderGrid) (c : BoundaryWrapperInput) (physics : PhysicsBase)
    (conv_num_flux : NumericalFluxConvective) (diss_num_flux : NumericalFluxDissipative)
    (local_rhs_cell : Vec) : Vec :=
  let n_soln_dofs := c.fe_values_boundary.dofs_per_cell
  let rhs :=
    (assemble_boundary_term
      (assemble_boundary_residual_kernel_input sqrt engine high_order_grid c physics
        conv_num_flux diss_num_flux)).1
  forLoop n_soln_dofs
    (fun itest local_rhs_cell => addAt local_rhs_cell itest (getValue_double (rhs itest)))
    local_rhs_cell

/-- The kernel call of `assemble_face_residual` (weak_dg.cpp lines 2829-2898). The fields
`metric_int` and `metric_ext` hold the metric terms that the kernel computes from
`coords_coeff_int` and `coords_coeff_ext` in its metric step (lines 1689-1882), through
which alone the geometry coefficients enter the face kernel; `sqrt` is the square root of
plain reals. -/
def assemble_face_residual_kernel_input (sqrt : ℚ → ℚ) (engine : DGWeakState)
    (high_order_grid : HighOrderGrid) (c : FaceWrapperInput)
    (physics : PhysicsBase) (conv_num_flux : NumericalFluxConvective)
    (diss_num_flux : NumericalFluxDissipative) : FaceInput :=
  let fe_metric := high_order_grid.fe_system
  let n_metric_dofs := fe_metric.dofs_per_cell
  let n_soln_dofs_int := c.fe_int.dofs_per_cell
  let n_soln_dofs_ext := c.fe_ext.dofs_per_cell
  let soln_coeff_int : Vec := forLoop n_soln_dofs_int
    (fun idof soln_coeff_int =>
      let val := engine.solution (c.soln_dof_indices_int idof)
      setAt soln_coeff_int idof val)
    zeroVec
  let soln_coeff_ext : Vec := forLoop n_soln_dofs_ext
    (fun idof soln_coeff_ext =>
      let val := engine.solution (c.soln_dof_indices_ext idof)
      setAt soln_coeff_ext idof val)
    zeroVec
  let coords_coeff_int : Vec := forLoop n_metric_dofs
    (fun idof coords_coeff_int =>
      let val := high_order_grid.volume_nodes (c.metric_dof_indices_int idof)
      setAt coords_coeff_int idof val)
    zeroVec
  let coords_coeff_ext : Vec := forLoop n_metric_dofs
    (fun idof coords_coeff_ext =>
      let val := high_order_grid.volume_nodes (c.metric_dof_indices_ext idof)
      setAt coords_coeff_ext idof val)
    zeroVec
  let dual_int : Vec := forLoop n_soln_dofs_int
    (fun itest dual_int =>
      let global_residual_row := c.soln_dof_indices_int itest
      setAt dual_int itest (engine.dual global_residual_row))
    zeroVec
  let dual_ext : Vec := forLoop n_soln_dofs_ext
    (fun itest dual_ext =>
      let global_residual_row := c.soln_dof_indices_ext itest
      setAt dual_ext itest (engine.dual global_residual_row))
    zeroVec
  { dim := c.dim, nstate := c.nstate, all_parameters := engine.all_parameters,
    artificial_dissipation_coeff_int :=
      engine.artificial_dissipation_coeffs c.current_cell_index,
    artificial_dissipation_coeff_ext :=
      engine.artificial_dissipation_coeffs c.neighbor_cell_index,
    soln_coeff_int := soln_coeff_int, soln_coeff_ext := soln_coeff_ext,
    dual_int := dual_int, dual_ext := dual_ext, physics := physics,
    conv_num_flux := conv_num_flux, diss_num_flux := diss_num_flux,
    fe_values_int := c.fe_values_int, fe_values_ext := c.fe_values_ext, penalty := c.penalty,
    fe_int := c.fe_int, fe_ext := c.fe_ext, face_quadrature := c.face_quadrature,
    face_quadrature_int := c.face_quadrature_int, face_quadrature_ext := c.face_quadrature_ext,
    metric_int := assemble_face_term_metric_terms sqrt c.dim c.face_subface_int.1
      c.face_quadrature.size c.face_quadrature_int coords_coeff_int fe_metric
      high_order_grid.fe_lagrange_grid,
    metric_ext := assemble_face_term_metric_terms sqrt c.dim c.face_subface_ext.1
      c.face_quadrature.size c.face_quadrature_ext coords_coeff_ext fe_metric
      high_order_grid.fe_lagrange_grid }

/-- Whether the call of `assemble_face_residual` aborts: an `assert` of the face kernel
(weak_dg.cpp lines 1893-1916) fails at a quadrature point in a build without `NDEBUG`. -/
def assemble_face_residual_aborts (sqrt : ℚ → ℚ) (NDEBUG : Bool) (engine : DGWeakState)
    (high_order_grid : HighOrderGrid) (c : FaceWrapperInput) (physics : PhysicsBase)
    (conv_num_flux : NumericalFluxConvective) (diss_num_flux : NumericalFluxDissipative) :
    Bool :=
  let x := assemble_face_residual_kernel_input sqrt engine high_order_grid c physics
    conv_num_flux diss_num_flux
  !NDEBUG && (List.range c.face_quadrature.size).any
    (fun iquad => x.assertion_fails c.face_subface_int c.face_subface_ext iquad)

/-- The wrapper `DGWeak::assemble_face_residual` (weak_dg.cpp lines 2800-2909): the vectors
`local_rhs_int_cell` and `local_rhs_ext_cell` after the call, and `none` when the kernel
aborts on a failed `assert`; `sqrt` is the square root of plain reals. -/
def assemble_face_residual (sqrt : ℚ → ℚ) (NDEBUG : Bool) (engine : DGWeakState)
    (high_order_grid : HighOrderGrid) (c : FaceWrapperInput)
    (physics : PhysicsBase) (conv_num_flux : NumericalFluxConvective)
    (diss_num_flux : NumericalFluxDissipative)
    (local_rhs_int_cell local_rhs_ext_cell : Vec) : Option (Vec × Vec) :=
  let n_soln_dofs_int := c.fe_int.dofs_per_cell
  let n_soln_dofs_ext := c.fe_ext.dofs_per_cell
  let x := assemble_face_residual_kernel_input sqrt engine high_order_grid c physics
    conv_num_flux diss_num_flux
  (assemble_face_term_with_assertions NumberType.real NDEBUG x c.face_subface_int
      c.face_subface_ext).map
    (fun out =>
      let local_rhs_int_cell := forLoop n_soln_dofs_int
        (fun itest_int local_rhs_int_cell =>
          addAt local_rhs_int_cell itest_int (getValue_double (out.rhs_int itest_int)))
        local_rhs_int_cell
      let local_rhs_ext_cell := forLoop n_soln_dofs_ext
        (fun itest_ext local_rhs_ext_cell =>
          addAt local_rhs_ext_cell itest_ext (getValue_double (out.rhs_ext itest_ext)))
        local_rhs_ext_cell
      (local_rhs_int_cell, local_rhs_ext_cell))

namespace Templated

variable {R : Type} [CommRing R] [Algebra ℚ R] [RealOperations R]

/-- The values of metric terms of the number type `R`. -/
def MetricTerms.value (value : R → ℚ) (metric : MetricTerms R) : PHiLiP.MetricTerms :=
  { jac_det := fun iquad => value (metric.jac_det iquad),
    jac_inv_tran := fun iquad row col => value (metric.jac_inv_tran iquad row col) }

/-- The values of boundary metric terms of the number type `R`. -/
def BoundaryMetric.value (value : R → ℚ) (metric : BoundaryMetric R) : PHiLiP.BoundaryMetric :=
  { jac_inv_tran := fun iquad row col => value (metric.jac_inv_tran iquad row col),
    surface_jac_det := fun iquad => value (metric.surface_jac_det iquad),
    normals := fun iquad d => value (metric.normals iquad d) }

/-- The values of face metric terms of the number type `R`. -/
def FaceMetric.value (value : R → ℚ) (metric : FaceMetric R) : PHiLiP.FaceMetric :=
  { jac_inv_tran := fun iquad row col => value (metric.jac_inv_tran iquad row col),
    surface_jac_det := fun iquad => value (metric.surface_jac_det iquad),
    normal_normalized := fun iquad d => value (metric.normal_normalized iquad d) }

/-- The values of the arrays of the metric step of the boundary kernel. -/
def BoundaryMetricArrays.value (value : R → ℚ) (s : BoundaryMetricArrays R) :
    PHiLiP.BoundaryMetricArrays :=
  { jac_det := fun iquad => value (s.jac_det iquad),
    jac_inv_tran := fun iquad row col => value (s.jac_inv_tran iquad row col),
    surface_jac_det := fun iquad => value (s.surface_jac_det iquad),
    normals := fun iquad d => value (s.normals iquad d) }

/-- The values of the arrays of the metric step of one side of the face kernel. -/
def FaceMetricArrays.value (value : R → ℚ) (s : FaceMetricArrays R) :
    PHiLiP.FaceMetricArrays :=
  { jacobian_determinant := fun iquad => value (s.jacobian_determinant iquad),
    jacobian_transpose_inverse := fun iquad row col =>
      value (s.jacobian_transpose_inverse iquad row col) }

/-- The kernel call of `assemble_volume_codi_taped_derivatives` (weak_dg.cpp lines
3336-3392): the plain values read from the engine are converted to `adtype`. -/
def assemble_volume_codi_taped_derivatives_kernel_input (engine : DGWeakState)
    (high_order_grid : HighOrderGrid) (c : VolumeWrapperInput) (physics : PhysicsBase R) :
    VolumeInput R :=
  let n_soln_dofs := c.fe_soln.dofs_per_cell
  let fe_metric := high_order_grid.fe_system
  let n_metric_dofs := fe_metric.dofs_per_cell
  let local_dual : Vec := forLoop n_soln_dofs
    (fun itest local_dual =>
      let global_residual_row := c.soln_dof_indices itest
      PHiLiP.setAt local_dual itest (engine.dual global_residual_row))
    zeroVec
  let compute_metric_derivatives := true
  let soln_coeff : Nat → R := forLoop n_soln_dofs
    (fun idof soln_coeff =>
      let val := engine.solution (c.soln_dof_indices idof)
      setAt soln_coeff idof (algebraMap ℚ R val))
    (fun _ => 0)
  let coords_coeff : Nat → R := forLoop n_metric_dofs
    (fun idof coords_coeff =>
      let val := high_order_grid.volume_nodes (c.metric_dof_indices idof)
      setAt coords_coeff idof (algebraMap ℚ R val))
    (fun _ => 0)
  { dim := c.dim, nstate := c.nstate, all_parameters := engine.all_parameters,
    artificial_dissipation_coeff := engine.artificial_dissipation_coeffs c.current_cell_index,
    soln_coeff := soln_coeff, coords_coeff := coords_coeff, local_dual := local_dual,
    fe_soln := c.fe_soln, fe_metric := fe_metric, quadrature := c.quadrature,
    physics := physics, compute_metric_derivatives := compute_metric_derivatives,
    fe_values_vol := c.fe_values_vol, fe_lagrange_grid := high_order_grid.fe_lagrange_grid }

/-- The wrapper `DGWeak::assemble_volume_codi_taped_derivatives` (weak_dg.cpp lines
3311-3408) up to the update of `local_rhs_cell`: the registrations on the tape and the
vector `local_rhs_cell` after the loop of lines 3405-3408. `getValue` is the instance
`getValue<adtype>`. -/
def assemble_volume_codi_taped_derivatives (getValue : R → ℚ) (engine : DGWeakState)
    (high_order_grid : HighOrderGrid) (c : VolumeWrapperInput) (physics : PhysicsBase R)
    (compute_dRdW compute_dRdX compute_d2R : Bool) (local_rhs_cell : Vec) :
    TapeHelper × Vec :=
  let n_soln_dofs := c.fe_soln.dofs_per_cell
  let n_metric_dofs := high_order_grid.fe_system.dofs_per_cell
  let th := assemble_volume_codi_taped_derivatives_tape compute_dRdW compute_dRdX compute_d2R
    n_soln_dofs n_metric_dofs
  let rhs :=
    (assemble_volume_term
      (assemble_volume_codi_taped_derivatives_kernel_input engine high_order_grid c
        physics)).1
  (th, forLoop n_soln_dofs
    (fun itest local_rhs_cell => PHiLiP.addAt local_rhs_cell itest (getValue (rhs itest)))
    local_rhs_cell)

/-- The kernel call of `assemble_boundary_codi_taped_derivatives` (weak_dg.cpp lines
1284-1350). -/
def assemble_boundary_codi_taped_derivatives_kernel_input (engine : DGWeakState)
    (high_order_grid : HighOrderGrid) (c : BoundaryWrapperInput) (physics : PhysicsBase R)
    (conv_num_flux : NumericalFluxConvective R) (diss_num_flux : NumericalFluxDissipative R) :
    BoundaryInput R :=
  let fe_metric := high_order_grid.fe_system
  let n_soln_dofs := c.fe_values_boundary.dofs_per_cell
  let n_metric_dofs := fe_metric.dofs_per_cell
  let compute_metric_derivatives := true
  let soln_coeff : Nat → R := forLoop n_soln_dofs
    (fun idof soln_coeff =>
      let val := engine.solution (c.soln_dof_indices idof)
      setAt soln_coeff idof (algebraMap ℚ R val))
    (fun _ => 0)
  let coords_coeff : Nat → R := forLoop n_metric_dofs
    (fun idof coords_coeff =>
      let val := high_order_grid.volume_nodes (c.metric_dof_indices idof)
      setAt coords_coeff idof (algebraMap ℚ R val))
    (fun _ => 0)
  let local_dual : Vec := forLoop n_soln_dofs
    (fun itest local_dual =>
      PHiLiP.setAt local_dual itest (engine.dual (c.soln_dof_indices itest)))
    zeroVec
  { dim := c.dim, nstate := c.nstate, all_parameters := engine.all_parameters,
    artificial_dissipation_coeff := engine.artificial_dissipation_coeffs c.current_cell_index,
    soln_coeff := soln_coeff, coords_coeff := coords_coeff, local_dual := local_dual,
    boundary_id := c.boundary_id, physics := physics, conv_num_flux := conv_num_flux,
    diss_num_flux := diss_num_flux, fe_values_boundary := c.fe_values_boundary,
    penalty := c.penalty, fe_soln := c.fe_soln, fe_metric := fe_metric,
    face_quadrature := c.face_quadrature,
    compute_metric_derivatives := compute_metric_derivatives, face_number := c.face_number,
    fe_lagrange_grid := high_order_grid.fe_lagrange_grid }

/-- The wrapper `DGWeak::assemble_boundary_codi_taped_derivatives` (weak_dg.cpp lines
1265-1366) up to the update of `local_rhs_cell`: the registrations on the tape and the
vector `local_rhs_cell` after the loop of lines 1363-1366. -/
def assemble_boundary_codi_taped_derivatives (getValue : R → ℚ) (engine : DGWeakState)
    (high_order_grid : HighOrderGrid) (c : BoundaryWrapperInput) (physics : PhysicsBase R)
    (conv_num_flux : NumericalFluxConvective R) (diss_num_flux : NumericalFluxDissipative R)
    (compute_dRdW compute_dRdX compute_d2R : Bool) (local_rhs_cell : Vec) :
    TapeHelper × Vec :=
  let n_soln_dofs := c.fe_values_boundary.dofs_per_cell
  let n_metric_dofs := high_order_grid.fe_system.dofs_per_cell
  let th := assemble_boundary_codi_taped_derivatives_tape compute_dRdW compute_dRdX
    compute_d2R n_soln_dofs n_metric_dofs
  let rhs :=
    (assemble_boundary_term
      (assemble_boundary_codi_taped_derivatives_kernel_input engine high_order_grid c physics
        conv_num_flux diss_num_flux)).1
  (th, forLoop n_soln_dofs
    (fun itest local_rhs_cell => PHiLiP.addAt local_rhs_cell itest (getValue (rhs itest)))
    local_rhs_cell)

/-- The kernel call of `assemble_face_codi_taped_derivatives` (weak_dg.cpp lines
2442-2545). -/
def assemble_face_codi_taped_derivatives_kernel_input (engine : DGWeakState)
    (high_order_grid : HighOrderGrid) (c : FaceWrapperInput) (physics : PhysicsBase R)
    (conv_num_flux : NumericalFluxConvective R) (diss_num_flux : NumericalFluxDissipative R) :
    FaceInput R :=
  let fe_metric := high_order_grid.fe_system
  let n_metric_dofs := fe_metric.dofs_per_cell
  let n_soln_dofs_int := c.fe_int.dofs_per_cell
  let n_soln_dofs_ext := c.fe_ext.dofs_per_cell
  let soln_coeff_int : Nat → R := forLoop n_soln_dofs_int
    (fun idof soln_coeff_int =>
      let val := engine.solution (c.soln_dof_indices_int idof)
      setAt soln_coeff_int idof (algebraMap ℚ R val))
    (fun _ => 0)
  let soln_coeff_ext : Nat → R := forLoop n_soln_dofs_ext
    (fun idof soln_coeff_ext =>
      let val := engine.solution (c.soln_dof_indices_ext idof)
      setAt soln_coeff_ext idof (algebraMap ℚ R val))
    (fun _ => 0)
  let coords_coeff_int : Nat → R := forLoop n_metric_dofs
    (fun idof coords_coeff_int =>
      let val := high_order_grid.volume_nodes (c.metric_dof_indices_int idof)
      setAt coords_coeff_int idof (algebraMap ℚ R val))
    (fun _ => 0)
  let coords_coeff_ext : Nat → R := forLoop n_metric_dofs
    (fun idof coords_coeff_ext =>
      let val := high_order_grid.volume_nodes (c.metric_dof_indices_ext idof)
      setAt coords_coeff_ext idof (algebraMap ℚ R val))
    (fun _ => 0)
  let dual_int : Vec := forLoop n_soln_dofs_int
    (fun itest dual_int =>
      let global_residual_row := c.soln_dof_indices_int itest
      PHiLiP.setAt dual_int itest (engine.dual global_residual_row))
    zeroVec
  let dual_ext : Vec := forLoop n_soln_dofs_ext
    (fun itest dual_ext =>
      let global_residual_row := c.soln_dof_indices_ext itest
      PHiLiP.setAt dual_ext itest (engine.dual global_residual_row))
    zeroVec
  { dim := c.dim, nstate := c.nstate, all_parameters := engine.all_parameters,
    artificial_dissipation_coeff_int :=
      engine.artificial_dissipation_coeffs c.current_cell_index,
    artificial_dissipation_coeff_ext :=
      engine.artificial_dissipation_coeffs c.neighbor_cell_index,
    soln_coeff_int := soln_coeff_int, soln_coeff_ext := soln_coeff_ext,
    coords_coeff_int := coords_coeff_int, coords_coeff_ext := coords_coeff_ext,
    dual_int := dual_int, dual_ext := dual_ext, face_subface_int := c.face_subface_int,
    face_subface_ext := c.face_subface_ext, physics := physics,
    conv_num_flux := conv_num_flux, diss_num_flux := diss_num_flux,
    fe_values_int := c.fe_values_int, fe_values_ext := c.fe_values_ext, penalty := c.penalty,
    fe_int := c.fe_int, fe_ext := c.fe_ext, fe_metric := fe_metric,
    face_quadrature := c.face_quadrature,
    face_quadrature_int := c.face_quadrature_int, face_quadrature_ext := c.face_quadrature_ext,
    fe_lagrange_grid := high_order_grid.fe_lagrange_grid }

/-- The wrapper `DGWeak::assemble_face_codi_taped_derivatives` (weak_dg.cpp lines
2412-2567) up to the update of the local right-hand sides: the registrations on the tape
and the vectors `local_rhs_int_cell` and `local_rhs_ext_cell` after the loops of lines
2562-2567. The assertions of the face kernel are made for `double` only, so this call
makes none. -/
def assemble_face_codi_taped_derivatives (getValue : R → ℚ)
    (engine : DGWeakState) (high_order_grid : HighOrderGrid) (c : FaceWrapperInput)
    (physics : PhysicsBase R) (conv_num_flux : NumericalFluxConvective R)
    (diss_num_flux : NumericalFluxDissipative R)
    (compute_dRdW compute_dRdX compute_d2R : Bool) (local_rhs_int_cell local_rhs_ext_cell : Vec) :
    TapeHelper × (Vec × Vec) :=
  let n_metric_dofs := high_order_grid.fe_system.dofs_per_cell
  let n_soln_dofs_int := c.fe_int.dofs_per_cell
  let n_soln_dofs_ext := c.fe_ext.dofs_per_cell
  let th := assemble_face_codi_taped_derivatives_tape compute_dRdW compute_dRdX compute_d2R
    n_soln_dofs_int n_soln_dofs_ext n_metric_dofs
  let out := assemble_face_term
    (assemble_face_codi_taped_derivatives_kernel_input engine high_order_grid c physics
      conv_num_flux diss_num_flux)
  let local_rhs_int_cell := forLoop n_soln_dofs_int
    (fun itest_int local_rhs_int_cell =>
      PHiLiP.addAt local_rhs_int_cell itest_int (getValue (out.rhs_int itest_int)))
    local_rhs_int_cell
  let local_rhs_ext_cell := forLoop n_soln_dofs_ext
    (fun itest_ext local_rhs_ext_cell =>
      PHiLiP.addAt local_rhs_ext_cell itest_ext (getValue (out.rhs_ext itest_ext)))
    local_rhs_ext_cell
  (th, (local_rhs_int_cell, local_rhs_ext_cell))

end Templated

/-! ## The residual pass on the engine -/

/-- The members of `DGBase` that `assemble_residual` assigns, with the solution, which the
kernels read. -/
structure DGBaseMembers where
  solution : Vec
  right_hand_side : Vec
  system_matrix : Nat → Nat → ℚ

/-- The cell loop of `assemble_residual` (dg.cpp lines 197-436) started on a given content
of `right_hand_side`. -/
def assemble_residual_cell_loop (dim : Nat) (all_parameters : AllParameters)
    (hooks : AssemblyHooks) (degree_current dofs_per_cell : Nat)
    (active_cells : List ActiveCell) (right_hand_side : Vec) : AssemblyState :=
  active_cells.foldl
    (assemble_residual_cell dim all_parameters hooks degree_current dofs_per_cell)
    { right_hand_side := right_hand_side, n_cell_visited := 0, n_face_visited := 0,
      current_cell_rhs := zeroVec, kernel_calls := [] }

/-- The call `DGBase::assemble_residual ()` (dg.cpp lines 173-438) on the members of the
engine. The kernels are member functions: `kernels` gives, for the solution of the engine,
the contributions that they add to the buffers they are handed. Lines 176-177 assign zero
to `system_matrix` and `right_hand_side`; the cell loop then adds to `right_hand_side`. -/
def assemble_residual_on (dim : Nat) (all_parameters : AllParameters)
    (kernels : Vec → AssemblyHooks) (degree_current dofs_per_cell : Nat)
    (active_cells : List ActiveCell) (engine : DGBaseMembers) : DGBaseMembers :=
  let engine : DGBaseMembers := { engine with system_matrix := fun _ _ => 0 }
  let engine : DGBaseMembers := { engine with right_hand_side := zeroVec }
  let st := assemble_residual_cell_loop dim all_parameters (kernels engine.solution)
    degree_current dofs_per_cell active_cells engine.right_hand_side
  { engine with right_hand_side := st.right_hand_side }

/-- The state of a pass with `right_hand_side_before` added to the global residual. -/
def AssemblyState.add_right_hand_side (right_hand_side_before : Vec) (st : AssemblyState) :
    AssemblyState :=
  { st with right_hand_side := fun i => right_hand_side_before i + st.right_hand_side i }

/-! ## The metric terms as functions of the reference point -/

/-- The array `dphys_dref_quad` of `evaluate_covariant_metric_jacobian` in dimension 2
(weak_dg.cpp lines 343-361): the gradient of the physical coordinates, interpolated from
their values `coords` at the grid points with the gradients of the shape functions of
`fe_lagrange_grid`. -/
def dphys_dref_quad (n_quad_pts n_grid_pts : Nat) (unit_quad_pts : Nat → Point)
    (fe_lagrange_grid : FiniteElement) (coords : Nat → Nat → ℚ) : Nat → Nat → Nat → ℚ :=
  let dim := 2
  forLoop n_quad_pts
    (fun iquad (dphys_dref_quad : Nat → Nat → Nat → ℚ) =>
      let dphys_dref_quad := clear_tensor dphys_dref_quad iquad
      let quad_point := unit_quad_pts iquad
      forLoop n_grid_pts
        (fun igrid (dphys_dref_quad : Nat → Nat → Nat → ℚ) =>
          let shape_grad := fe_lagrange_grid.shape_grad igrid quad_point
          forLoop dim
            (fun dphys (dphys_dref_quad : Nat → Nat → Nat → ℚ) =>
              forLoop dim
                (fun dref (dphys_dref_quad : Nat → Nat → Nat → ℚ) =>
                  set_entry3 dphys_dref_quad iquad dphys dref
                    (dphys_dref_quad iquad dphys dref + coords igrid dphys * shape_grad dref))
                dphys_dref_quad)
            dphys_dref_quad)
        dphys_dref_quad)
    (fun _ _ _ => 0)

/-- The entry `(n, j)` of the tensor that the dimension-2 part (weak_dg.cpp lines 343-377)
multiplies with `invJ`, taken in an algebra `R` in which `shape_grad igrid d` is the
derivative along the reference direction `d` of the shape function `igrid`: the sum of line
357 over the grid points, placed as in lines 372-375. With `R = ℚ` and the gradients at a
quadrature point it is the value at that point; with polynomials it is the metric term as
a function of the reference point. -/
def metric_term_2 {R : Type} [CommRing R] [Algebra ℚ R] (n_grid_pts : Nat)
    (coords : Nat → Nat → ℚ) (shape_grad : Nat → Nat → R) (n j : Nat) : R :=
  let dphys_dref (dphys dref : Nat) : R :=
    ∑ igrid ∈ Finset.range n_grid_pts, algebraMap ℚ R (coords igrid dphys) * shape_grad igrid dref
  if n = 0 ∧ j = 0 then dphys_dref 1 1
  else if n = 0 ∧ j = 1 then - dphys_dref 1 0
  else if n = 1 ∧ j = 0 then - dphys_dref 0 1
  else if n = 1 ∧ j = 1 then dphys_dref 0 0
  else 0

/-- The values `Ta`, ..., `Ti` at a grid point (weak_dg.cpp lines 384-407) in one formula:
for the physical direction `n` and the reference direction `d`, half of
`coords_gradients[n+1][d] * coords[n+2] - coords_gradients[n+2][d] * coords[n+1]` with the
indices `n+1` and `n+2` taken modulo 3. `Ta, Tb, Tc` are `n = 0` with `d = 1, 2, 0`,
`Td, Te, Tf` are `n = 1` and `Tg, Th, Ti` are `n = 2`. -/
def curl_potential (coords : Nat → Nat → ℚ) (coords_gradients : Nat → Nat → Nat → ℚ)
    (igrid n d : Nat) : ℚ :=
  (1 / 2) * (coords_gradients igrid ((n + 1) % 3) d * coords igrid ((n + 2) % 3)
    - coords_gradients igrid ((n + 2) % 3) d * coords igrid ((n + 1) % 3))

/-- The entry `(n, j)` of the tensor that the dimension-3 part (weak_dg.cpp lines 410-435)
multiplies with `invJ`, taken in an algebra `R` in which `shape_grad igrid d` is the
derivative along the reference direction `d` of the shape function `igrid`: the sum over
the grid points of lines 421-433, which for the entry `(n, j)` add
`shape_grad[j+2] * T(n, j+1) - shape_grad[j+1] * T(n, j+2)` with the indices modulo 3. -/
def metric_term_3 {R : Type} [CommRing R] [Algebra ℚ R] (n_grid_pts : Nat)
    (coords : Nat → Nat → ℚ) (coords_gradients : Nat → Nat → Nat → ℚ)
    (shape_grad : Nat → Nat → R) (n j : Nat) : R :=
  ∑ igrid ∈ Finset.range n_grid_pts,
    (shape_grad igrid ((j + 2) % 3)
        * algebraMap ℚ R (curl_potential coords coords_gradients igrid n ((j + 1) % 3))
      - shape_grad igrid ((j + 1) % 3)
        * algebraMap ℚ R (curl_potential coords coords_gradients igrid n ((j + 2) % 3)))

/-! ## Registered inputs of a tape -/

/-- The inputs that a loop `for idof < n: if (c) th.registerInput(f[idof])` registers, in
the order of registration. -/
def registered (c : Bool) (n : Nat) (f : Nat → TapeVariable) : List TapeVariable :=
  if c then (List.range n).map f else []

/-! ## The traversal with its assertions

The passes of `DGBase` contain the deal.II macro `Assert`, which aborts the program on a
failed condition in a debug build and expands to nothing in a release build. The
definitions `assemble_residual` and `assemble_residual_dRdW` above are the passes of a
release build. The definitions of this section are the passes of either build: the flag
`debug` says whether `Assert` is compiled in, and the result is `none` when the program
aborts. -/

/-- The test `current_cell->neighbor(iface).state() == dealii::IteratorState::valid` of the
assertions of dg.cpp lines 278, 326, 388, 537 and 600. A triangulation stores no neighbour
behind a face at the boundary, also when the face has a periodic neighbour, and
`neighbor(iface)` is then an iterator past the end, which is not valid. -/
def FaceView.neighbor_state_valid (f : FaceView) : Bool := !f.at_boundary

/-- The macro `Assert (cond, exc)` of deal.II: `none` when the program aborts, which it does
on a failed condition in a debug build. -/
def Assert (debug : Bool) (cond : Bool) : Option Unit :=
  if debug && !cond then none else some ()

/-- Case 2 of the face loop with its assertion (dg.cpp lines 322-369, 533-581). The
assertion of lines 337 and 548 is on `has_children()` of the cell that
`neighbor_child_on_subface` returns, which is a child of a neighbour that is refined
exactly once and so has no children; the mesh data of `FaceView` has no other cell behind a
sub-face. -/
def finer_neighbor_case_with_assertions (debug : Bool)
    (face_term : FaceHandle → FaceHandle → ℚ → Vec × Vec)
    (degree_current dofs_per_cell cell_no : Nat) (current_cell : CellAccessor) (iface : Nat)
    (f : FaceView) (st : AssemblyState) : Option AssemblyState :=
  (Assert debug f.neighbor_state_valid).bind (fun _ =>
    some (finer_neighbor_case face_term degree_current dofs_per_cell cell_no current_cell
      iface f st))

/-- The body of the face loop of `assemble_residual` with its assertions (dg.cpp lines
209-430). -/
def assemble_residual_face_with_assertions (debug : Bool) (dim : Nat)
    (all_parameters : AllParameters) (hooks : AssemblyHooks)
    (degree_current dofs_per_cell cell_no : Nat) (current_cell : ActiveCell) (iface : Nat)
    (st : AssemblyState) : Option AssemblyState :=
  let f := current_cell.face iface
  let neighbor_cell := f.neighbor
  -- Case 1: face at boundary
  if f.at_boundary && !f.has_periodic_neighbor then
    let st := { st with n_face_visited := st.n_face_visited + 1 }
    if f.at_boundary && all_parameters.use_periodic_bc && decide (dim = 1) then
      some st
    else
      let penalty := boundary_penalty degree_current current_cell.cell iface
      let boundary_id := f.boundary_id
      some
        { st with
          current_cell_rhs := accumulate dofs_per_cell st.current_cell_rhs
            (hooks.assemble_boundary_term_explicit boundary_id ⟨current_cell.cell, iface, none⟩ penalty)
          kernel_calls := st.kernel_calls ++ [KernelCall.boundary_term cell_no iface boundary_id penalty] }
  -- Case 1.5: periodic boundary conditions
  else if f.at_boundary && f.has_periodic_neighbor then
    let neighbor_cell := f.periodic_neighbor
    if ownership_test f.periodic_neighbor_is_coarser current_cell.cell neighbor_cell then
      let st := { st with n_face_visited := st.n_face_visited + 1 }
      let neighbor_cell_rhs : Vec := zeroVec
      -- line 278
      (Assert debug f.neighbor_state_valid).bind (fun _ =>
        let neighbor_cell := f.periodic_neighbor
        let neighbor_face_no := f.periodic_neighbor_of_periodic_neighbor
        some (face_call hooks.assemble_face_term_explicit degree_current dofs_per_cell cell_no
          current_cell.cell iface none neighbor_cell neighbor_face_no neighbor_cell_rhs st).1)
    else
      some st
  -- Case 2: neighbour is finer
  else if f.has_children then
    -- line 326
    finer_neighbor_case_with_assertions debug hooks.assemble_face_term_explicit degree_current
      dofs_per_cell cell_no current_cell.cell iface f st
  -- Case 3: neighbour is not coarser
  else if ownership_test f.neighbor_is_coarser current_cell.cell neighbor_cell then
    let st := { st with n_face_visited := st.n_face_visited + 1 }
    let neighbor_cell_rhs : Vec := zeroVec
    -- line 388
    (Assert debug f.neighbor_state_valid).bind (fun _ =>
      let neighbor_cell := f.neighbor_or_periodic_neighbor
      let neighbor_face_no := f.neighbor_of_neighbor
      some (face_call hooks.assemble_face_term_explicit degree_current dofs_per_cell cell_no
        current_cell.cell iface none neighbor_cell neighbor_face_no neighbor_cell_rhs st).1)
  -- Case 4: neighbour is coarser
  else
    some st

/-- The body of the cell loop of `assemble_residual` with its assertions (dg.cpp lines
197-436). -/
def assemble_residual_cell_with_assertions (debug : Bool) (dim : Nat)
    (all_parameters : AllParameters) (hooks : AssemblyHooks)
    (degree_current dofs_per_cell : Nat) (st : AssemblyState) (current_cell : ActiveCell) :
    Option AssemblyState :=
  let cell_no := st.n_cell_visited
  let st := { st with n_cell_visited := st.n_cell_visited + 1 }
  let st := { st with current_cell_rhs := zeroVec }
  let current_dofs_indices := current_cell.cell.dof_indices
  let st := { st with
    current_cell_rhs := accumulate dofs_per_cell st.current_cell_rhs
      (hooks.assemble_cell_terms_explicit current_cell.cell)
    kernel_calls := st.kernel_calls ++ [KernelCall.cell_terms cell_no] }
  let st := forLoop (faces_per_cell dim)
    (fun iface (s : Option AssemblyState) =>
      s.bind (fun s => assemble_residual_face_with_assertions debug dim all_parameters hooks
        degree_current dofs_per_cell cell_no current_cell iface s))
    (some st)
  st.map (fun st => { st with
    right_hand_side :=
      scatter dofs_per_cell st.right_hand_side current_dofs_indices st.current_cell_rhs })

/-- The pass `DGBase::assemble_residual` with its assertions (dg.cpp lines 173-438) over
the active cells in iteration order: the variables of the pass at its end, and `none` when
the pass aborts on a failed assertion. -/
def assemble_residual_with_assertions (debug : Bool) (dim : Nat)
    (all_parameters : AllParameters) (hooks : AssemblyHooks)
    (degree_current dofs_per_cell : Nat) (active_cells : List ActiveCell)
    (_right_hand_side_before : Vec) : Option AssemblyState :=
  let right_hand_side : Vec := zeroVec
  active_cells.foldl
    (fun (st : Option AssemblyState) current_cell =>
      st.bind (fun st => assemble_residual_cell_with_assertions debug dim all_parameters hooks
        degree_current dofs_per_cell st current_cell))
    (some
      { right_hand_side := right_hand_side, n_cell_visited := 0, n_face_visited := 0,
        current_cell_rhs := zeroVec, kernel_calls := [] })

/-- The body of the face loop of `assemble_residual_dRdW` with its assertions (dg.cpp lines
476-642). -/
def assemble_residual_dRdW_face_with_assertions (debug : Bool)
    (all_parameters : AllParameters) (hooks : AssemblyHooks)
    (degree_current dofs_per_cell cell_no : Nat) (current_cell : ActiveCell) (iface : Nat)
    (st : AssemblyState) : Option AssemblyState :=
  let f := current_cell.face iface
  let neighbor_cell := f.neighbor
  -- Case 1: face at boundary
  if f.at_boundary then
    let st := { st with n_face_visited := st.n_face_visited + 1 }
    if all_parameters.use_periodic_bc then
      some st
    else
      let penalty := boundary_penalty degree_current current_cell.cell iface
      let boundary_id := f.boundary_id
      some
        { st with
          current_cell_rhs := accumulate dofs_per_cell st.current_cell_rhs
            (hooks.assemble_boundary_term_implicit boundary_id ⟨current_cell.cell, iface, none⟩ penalty)
          kernel_calls := st.kernel_calls ++ [KernelCall.boundary_term cell_no iface boundary_id penalty] }
  -- Case 2: neighbour is finer
  else if f.has_children then
    -- line 537
    finer_neighbor_case_with_assertions debug hooks.assemble_face_term_implicit degree_current
      dofs_per_cell cell_no current_cell.cell iface f st
  -- Case 3: neighbour is not coarser
  else if ownership_test f.neighbor_is_coarser current_cell.cell neighbor_cell then
    let st := { st with n_face_visited := st.n_face_visited + 1 }
    let neighbor_cell_rhs : Vec := zeroVec
    -- line 600
    (Assert debug f.neighbor_state_valid).bind (fun _ =>
      let neighbor_cell := f.neighbor
      let neighbor_face_no := f.neighbor_of_neighbor
      some (face_call hooks.assemble_face_term_implicit degree_current dofs_per_cell cell_no
        current_cell.cell iface none neighbor_cell neighbor_face_no neighbor_cell_rhs st).1)
  -- Case 4: neighbour is coarser
  else
    some st

/-- The body of the cell loop of `assemble_residual_dRdW` with its assertions (dg.cpp lines
465-648). -/
def assemble_residual_dRdW_cell_with_assertions (debug : Bool) (dim : Nat)
    (all_parameters : AllParameters) (hooks : AssemblyHooks)
    (degree_current dofs_per_cell : Nat) (st : AssemblyState) (current_cell : ActiveCell) :
    Option AssemblyState :=
  let cell_no := st.n_cell_visited
  let st := { st with n_cell_visited := st.n_cell_visited + 1 }
  let st := { st with current_cell_rhs := zeroVec }
  let current_dofs_indices := current_cell.cell.dof_indices
  let st := { st with
    current_cell_rhs := accumulate dofs_per_cell st.current_cell_rhs
      (hooks.assemble_cell_terms_implicit current_cell.cell)
    kernel_calls := st.kernel_calls ++ [KernelCall.cell_terms cell_no] }
  let st := forLoop (faces_per_cell dim)
    (fun iface (s : Option AssemblyState) =>
      s.bind (fun s => assemble_residual_dRdW_face_with_assertions debug all_parameters hooks
        degree_current dofs_per_cell cell_no current_cell iface s))
    (some st)
  st.map (fun st => { st with
    right_hand_side :=
      scatter dofs_per_cell st.right_hand_side current_dofs_indices st.current_cell_rhs })

/-- The pass `DGBase::assemble_residual_dRdW` with its assertions (dg.cpp lines 441-650). -/
def assemble_residual_dRdW_with_assertions (debug : Bool) (dim : Nat)
    (all_parameters : AllParameters) (hooks : AssemblyHooks)
    (degree_current dofs_per_cell : Nat) (active_cells : List ActiveCell)
    (_right_hand_side_before : Vec) : Option AssemblyState :=
  let right_hand_side : Vec := zeroVec
  active_cells.foldl
    (fun (st : Option AssemblyState) current_cell =>
      st.bind (fun st => assemble_residual_dRdW_cell_with_assertions debug dim all_parameters
        hooks degree_current dofs_per_cell st current_cell))
    (some
      { right_hand_side := right_hand_side, n_cell_visited := 0, n_face_visited := 0,
        current_cell_rhs := zeroVec, kernel_calls := [] })

/-- Does the current cell pass the ownership test at the periodic face `iface`? -/
def ActiveCell.owns_periodic_face (current_cell : ActiveCell) (iface : Nat) : Bool :=
  let f := current_cell.face iface
  f.at_boundary && f.has_periodic_neighbor
    && ownership_test f.periodic_neighbor_is_coarser current_cell.cell f.periodic_neighbor

/-- Does some active cell pass the ownership test at one of its periodic faces? -/
def some_cell_owns_periodic_face (dim : Nat) (active_cells : List ActiveCell) : Bool :=
  active_cells.any (fun current_cell =>
    (List.range (faces_per_cell dim)).any (fun iface => current_cell.owns_periodic_face iface))

/-- An accessor past the end, as `neighbor(iface)` is at a boundary face. -/
def invalid_cell : CellAccessor :=
  { index := -1, level := -1, dof_indices := fun _ => 0, extent_in_direction := fun _ => 0 }

/-- A boundary face without periodic neighbour. -/
def boundary_face (boundary_id : Nat) : FaceView :=
  { at_boundary := true, boundary_id := boundary_id, has_periodic_neighbor := false,
    periodic_neighbor := invalid_cell, periodic_neighbor_is_coarser := false,
    periodic_neighbor_of_periodic_neighbor := 0, has_children := false,
    number_of_children := 0, neighbor_child_on_subface := fun _ => invalid_cell,
    neighbor_face_no := 0, neighbor := invalid_cell, neighbor_is_coarser := false,
    neighbor_of_neighbor := 0 }

/-- A boundary face with a periodic neighbour. -/
def periodic_face (periodic_neighbor : CellAccessor) (neighbor_face_no : Nat)
    (is_coarser : Bool) : FaceView :=
  { at_boundary := true, boundary_id := 0, has_periodic_neighbor := true,
    periodic_neighbor := periodic_neighbor, periodic_neighbor_is_coarser := is_coarser,
    periodic_neighbor_of_periodic_neighbor := neighbor_face_no, has_children := false,
    number_of_children := 0, neighbor_child_on_subface := fun _ => invalid_cell,
    neighbor_face_no := 0, neighbor := invalid_cell, neighbor_is_coarser := false,
    neighbor_of_neighbor := 0 }

/-- An interior face with children: `neighbor` is the refined neighbour and `children k`
the active cell behind sub-face `k`. -/
def refined_face (neighbor : CellAccessor) (n : Nat) (children : Nat → CellAccessor)
    (neighbor_face_no : Nat) : FaceView :=
  { at_boundary := false, boundary_id := 0, has_periodic_neighbor := false,
    periodic_neighbor := invalid_cell, periodic_neighbor_is_coarser := false,
    periodic_neighbor_of_periodic_neighbor := 0, has_children := true,
    number_of_children := n, neighbor_child_on_subface := children,
    neighbor_face_no := neighbor_face_no, neighbor := neighbor, neighbor_is_coarser := false,
    neighbor_of_neighbor := neighbor_face_no }

/-- An interior face without children. -/
def interior_face (neighbor : CellAccessor) (neighbor_face_no : Nat) (is_coarser : Bool) :
    FaceView :=
  { at_boundary := false, boundary_id := 0, has_periodic_neighbor := false,
    periodic_neighbor := invalid_cell, periodic_neighbor_is_coarser := false,
    periodic_neighbor_of_periodic_neighbor := 0, has_children := false,
    number_of_children := 0, neighbor_child_on_subface := fun _ => invalid_cell,
    neighbor_face_no := neighbor_face_no, neighbor := neighbor,
    neighbor_is_coarser := is_coarser, neighbor_of_neighbor := neighbor_face_no }

/-- Hooks that contribute nothing. -/
def zero_hooks : AssemblyHooks :=
  { assemble_cell_terms_explicit := fun _ => zeroVec
    assemble_boundary_term_explicit := fun _ _ _ => zeroVec
    assemble_face_term_explicit := fun _ _ _ => (zeroVec, zeroVec)
    assemble_cell_terms_implicit := fun _ => zeroVec
    assemble_boundary_term_implicit := fun _ _ _ => zeroVec
    assemble_face_term_implicit := fun _ _ _ => (zeroVec, zeroVec) }

/-- Parameters with every switch off. -/
def default_parameters : AllParameters :=
  { use_periodic_bc := false, add_artificial_dissipation := false,
    use_manufactured_source_term := false }

/-! The two-dimensional mesh of the examples: the unit square `A` (level 0, index 0) and to
its right the square `B` (level 0, index 1), refined once into `B0` (lower left), `B1`
(lower right), `B2` (upper left), `B3` (upper right), which are on level 1 with indices 0
to 3. Faces are numbered left 0, right 1, bottom 2, top 3. The active cells are
`A, B0, B1, B2, B3`, with one degree of freedom each. -/

/-- The coarse cell `A`. -/
def cell_A : CellAccessor :=
  { index := 0, level := 0, dof_indices := fun _ => 0, extent_in_direction := fun _ => 1 }

/-- The refined (inactive) cell `B`. -/
def cell_B : CellAccessor :=
  { index := 1, level := 0, dof_indices := fun _ => 0, extent_in_direction := fun _ => 1 }

/-- The child `k` of `B`. -/
def cell_B_child (k : Nat) : CellAccessor :=
  { index := k, level := 1, dof_indices := fun _ => k + 1,
    extent_in_direction := fun _ => 1 / 2 }

/-- Faces of `A` in the mesh whose outer boundary is not periodic. -/
def faces_A : Nat → FaceView
  | 0 => boundary_face 0
  | 1 => refined_face cell_B 2 (fun k => cell_B_child (2 * k)) 0
  | _ => boundary_face 0

/-- Faces of the children of `B`; `right k` is the right face of the children 1 and 3. -/
def faces_B_child (right : FaceView) : Nat → Nat → FaceView
  | 0, 0 => interior_face cell_A 1 true
  | 0, 1 => interior_face (cell_B_child 1) 0 false
  | 0, 2 => boundary_face 0
  | 0, _ => interior_face (cell_B_child 2) 2 false
  | 1, 0 => interior_face (cell_B_child 0) 1 false
  | 1, 1 => right
  | 1, 2 => boundary_face 0
  | 1, _ => interior_face (cell_B_child 3) 2 false
  | 2, 0 => interior_face cell_A 1 true
  | 2, 1 => interior_face (cell_B_child 3) 0 false
  | 2, 2 => interior_face (cell_B_child 0) 3 false
  | 2, _ => boundary_face 0
  | _, 0 => interior_face (cell_B_child 2) 1 false
  | _, 1 => right
  | _, 2 => interior_face (cell_B_child 1) 3 false
  | _, _ => boundary_face 0

/-- The active cells of the mesh with a non-periodic outer boundary. -/
def hanging_mesh : List ActiveCell :=
  ⟨cell_A, faces_A⟩ ::
    (List.range 4).map (fun k => ⟨cell_B_child k, faces_B_child (boundary_face 0) k⟩)

/-- The interfaces of `hanging_mesh`. -/
def hanging_mesh_interfaces : List Interface :=
  [Interface.boundary cell_A.id,
   Interface.hanging cell_A.id [(cell_B_child 0).id, (cell_B_child 2).id],
   Interface.boundary cell_A.id,
   Interface.boundary cell_A.id,
   Interface.interior (cell_B_child 0).id (cell_B_child 1).id,
   Interface.boundary (cell_B_child 0).id,
   Interface.interior (cell_B_child 0).id (cell_B_child 2).id,
   Interface.boundary (cell_B_child 1).id,
   Interface.boundary (cell_B_child 1).id,
   Interface.interior (cell_B_child 1).id (cell_B_child 3).id,
   Interface.interior (cell_B_child 2).id (cell_B_child 3).id,
   Interface.boundary (cell_B_child 2).id,
   Interface.boundary (cell_B_child 3).id,
   Interface.boundary (cell_B_child 3).id]

/-- The left cell `L`. -/
def cell_L : CellAccessor :=
  { index := 0, level := 0, dof_indices := fun i => i,
    extent_in_direction := fun _ => 1 / 2 }

/-- The right cell `R`. -/
def cell_R : CellAccessor :=
  { index := 1, level := 0, dof_indices := fun i => 2 + i,
    extent_in_direction := fun _ => 1 / 2 }

/-- Faces of `L`. -/
def faces_L : Nat → FaceView
  | 0 => boundary_face 0
  | _ => interior_face cell_R 0 false

/-- Faces of `R`. -/
def faces_R : Nat → FaceView
  | 0 => interior_face cell_L 1 false
  | _ => boundary_face 1

/-- The active cells of the one-dimensional mesh. -/
def line_mesh : List ActiveCell := [⟨cell_L, faces_L⟩, ⟨cell_R, faces_R⟩]

/-- Parameters with `use_periodic_bc` set. -/
def periodic_bc_parameters : AllParameters :=
  { use_periodic_bc := true, add_artificial_dissipation := false,
    use_manufactured_source_term := false }

/-- Hooks whose face kernel contributes `10 * (k + 1)` to the exterior side of sub-face `k`
and nothing else. -/
def subface_hooks : AssemblyHooks :=
  { zero_hooks with
    assemble_face_term_explicit := fun fe_values_int _ _ =>
      match fe_values_int.subface_no with
      | some k => (zeroVec, fun _ => 10 * ((k : ℚ) + 1))
      | none => (zeroVec, zeroVec) }

/-! ## Example kernels -/

/-- Linear advection with unit speed and without physical dissipation; the artificial
dissipative flux is `- coeff * grad u`, and the boundary condition prescribes the state 2. -/
def advection_physics : PhysicsBase :=
  { convective_flux := fun u s _ => u s
    dissipative_flux := fun _ _ _ _ => 0
    artificial_dissipative_flux := fun coeff _ g s d => - (coeff * g s d)
    source_term := fun _ _ _ => 0
    boundary_face_values := fun _ _ _ _ g => (fun _ => 2, g) }

/-- The central convective flux along the first direction. -/
def central_flux : NumericalFluxConvective :=
  { evaluate_flux := fun soln_int soln_ext normal s => (soln_int s + soln_ext s) / 2 * normal 0 }

/-- The central solution flux with a penalty on the jump as auxiliary flux. -/
def central_diss_flux : NumericalFluxDissipative :=
  { evaluate_solution_flux := fun soln_int soln_ext _ s => (soln_int s + soln_ext s) / 2
    evaluate_auxiliary_flux := fun _ _ soln_int soln_ext _ _ _ penalty _ s =>
      penalty * (soln_int s - soln_ext s) }

/-- An element with one degree of freedom of component 0, whose shape function has value 1
and reference gradient 1 at every point. -/
def one_dof_fe : FESystem :=
  { dofs_per_cell := 1, system_to_component_index := fun _ => 0, shape_value := fun _ _ => 1,
    shape_grad := fun _ _ _ => 1 }

/-- The values of `one_dof_fe` at one quadrature point with `JxW = 1` and normal 1. -/
def one_dof_fe_values : FEValues :=
  { n_quadrature_points := 1, dofs_per_cell := 1, fe_system_to_component_index := fun _ => 0,
    shape_value_component := fun _ _ _ => 1, shape_grad_component := fun _ _ _ _ => 1,
    JxW := fun _ => 1, normal_vector := fun _ _ => 1, quadrature_point := fun _ _ => 0 }

/-- A quadrature with one point and weight 1. -/
def one_point_quadrature : Quadrature :=
  { size := 1, point := fun _ _ => 0, weight := fun _ => 1 }

/-- Parameters with artificial dissipation enabled. -/
def artificial_dissipation_parameters : AllParameters :=
  { use_periodic_bc := false, add_artificial_dissipation := true,
    use_manufactured_source_term := false }

/-- A one-dimensional volume-kernel input with artificial dissipation of coefficient 3,
solution coefficient 1 and unit metric terms. -/
def volume_example : VolumeInput :=
  { dim := 1, nstate := 1, all_parameters := artificial_dissipation_parameters,
    artificial_dissipation_coeff := 3, soln_coeff := fun _ => 1, coords_coeff := fun _ => 0,
    local_dual := fun _ => 0, fe_soln := one_dof_fe, fe_metric := one_dof_fe,
    quadrature := one_point_quadrature, physics := advection_physics,
    compute_metric_derivatives := true, fe_values_vol := one_dof_fe_values,
    metric := { jac_det := fun _ => 1, jac_inv_tran := fun _ _ _ => 1 } }

/-- A one-dimensional boundary-kernel input with artificial dissipation of coefficient 3,
solution coefficient 1, penalty 2 and unit metric terms. -/
def boundary_example : BoundaryInput :=
  { dim := 1, nstate := 1, all_parameters := artificial_dissipation_parameters,
    artificial_dissipation_coeff := 3, soln_coeff := fun _ => 1, coords_coeff := fun _ => 0,
    local_dual := fun _ => 0, boundary_id := 0, physics := advection_physics,
    conv_num_flux := central_flux, diss_num_flux := central_diss_flux,
    fe_values_boundary := one_dof_fe_values, penalty := 2, fe_soln := one_dof_fe,
    fe_metric := one_dof_fe, face_quadrature := one_point_quadrature,
    compute_metric_derivatives := true,
    metric := { jac_inv_tran := fun _ _ _ => 1, surface_jac_det := fun _ => 1,
                normals := fun _ _ => 1 } }

/-- A one-dimensional explicit boundary-kernel input. -/
def boundary_explicit_example : BoundaryExplicitInput :=
  { dim := 1, nstate := 1, all_parameters := default_parameters,
    artificial_dissipation_coeff := 0, soln_coeff_int := fun _ => 1, boundary_id := 0,
    physics := advection_physics, conv_num_flux := central_flux,
    diss_num_flux := central_diss_flux, fe_values_boundary := one_dof_fe_values, penalty := 2 }

/-- A one-dimensional face-kernel input between a cell with surface Jacobian 1 and a cell
with surface Jacobian 1/2. -/
def face_example : FaceInput :=
  { dim := 1, nstate := 1, all_parameters := default_parameters,
    artificial_dissipation_coeff_int := 0, artificial_dissipation_coeff_ext := 0,
    soln_coeff_int := fun _ => 1, soln_coeff_ext := fun _ => 3, dual_int := fun _ => 0,
    dual_ext := fun _ => 0, physics := advection_physics, conv_num_flux := central_flux,
    diss_num_flux := central_diss_flux, fe_values_int := one_dof_fe_values,
    fe_values_ext := one_dof_fe_values, penalty := 2, fe_int := one_dof_fe,
    fe_ext := one_dof_fe, face_quadrature := one_point_quadrature,
    face_quadrature_int := one_point_quadrature, face_quadrature_ext := one_point_quadrature,
    metric_int := { jac_inv_tran := fun _ _ _ => 1, surface_jac_det := fun _ => 1,
                    normal_normalized := fun _ _ => 1 },
    metric_ext := { jac_inv_tran := fun _ _ _ => 2, surface_jac_det := fun _ => 1 / 2,
                    normal_normalized := fun _ _ => -1 } }

/-- The face values of a degree-0 element with two components at the left face of its
cell (outward normal -1): degrees of freedom 0 and 1 with components 0 and 1, each shape
function being 1 in its own component. -/
def degree_zero_face_values : FEValues :=
  { n_quadrature_points := 1, dofs_per_cell := 2, fe_system_to_component_index := fun i => i,
    shape_value_component := fun idof _ c => if c = idof then 1 else 0,
    shape_grad_component := fun _ _ _ _ => 0,
    JxW := fun _ => 1, normal_vector := fun _ _ => -1, quadrature_point := fun _ _ => 0 }

/-- The face values of a degree-1 element with two components in one dimension at the
right face of its cell (outward normal 1): degrees of freedom 0 to 3 with components
0, 0, 1, 1; at that face the second (right) shape function of each component is 1 and the
first is 0. -/
def degree_one_face_values : FEValues :=
  { n_quadrature_points := 1, dofs_per_cell := 4,
    fe_system_to_component_index := fun i => i / 2,
    shape_value_component := fun idof _ c => if c = idof / 2 ∧ idof % 2 = 1 then 1 else 0,
    shape_grad_component := fun _ _ _ _ => 0,
    JxW := fun _ => 1, normal_vector := fun _ _ => 1, quadrature_point := fun _ _ => 0 }

/-- An explicit face-kernel input between a degree-0 interior cell and the degree-1
exterior cell to its left, with two state components, interior state (4, 0), exterior
state (6, 0) and penalty 0. -/
def face_explicit_hp_example : FaceExplicitInput :=
  { dim := 1, nstate := 2, all_parameters := default_parameters,
    artificial_dissipation_coeff_int := 0, artificial_dissipation_coeff_ext := 0,
    soln_coeff_int := fun i => if i = 0 then 4 else 0,
    soln_coeff_ext := fun i => if i = 1 then 6 else 0,
    physics := advection_physics, conv_num_flux := central_flux,
    diss_num_flux := central_diss_flux, fe_values_int := degree_zero_face_values,
    fe_values_ext := degree_one_face_values, penalty := 0 }

/-! ## Example geometries -/

/-- The geometry element of a one-dimensional cell of degree 1: two dofs of component 0
with the shape functions `1 - xi` and `xi`. -/
def line_fe_metric : FESystem :=
  { dofs_per_cell := 2, system_to_component_index := fun _ => 0,
    shape_value := fun i p => if i = 0 then 1 - p 0 else p 0,
    shape_grad := fun i _ d => if d = 0 then (if i = 0 then -1 else 1) else 0 }

/-- The scalar element of `line_fe_metric`, with the unit support points 0 and 1. -/
def line_fe_lagrange_grid : FiniteElement :=
  { n_unit_support_points := 2, unit_support_points := fun i _ => if i = 0 then 0 else 1,
    shape_grad := fun i _ d => if d = 0 then (if i = 0 then -1 else 1) else 0 }

/-- The midpoint rule on the unit interval. -/
def midpoint_quadrature : Quadrature :=
  { size := 1, point := fun _ _ => 1 / 2, weight := fun _ => 1 }

/-- The geometry coefficients of an inverted cell: the reference point 0 is mapped to 1 and
the reference point 1 to 0. -/
def inverted_line_coords : Vec := fun idof => if idof = 0 then 1 else 0

/-- The bilinear shape function of vertex `v` of the unit square (vertices in
lexicographic order) at the point `p`. -/
def bilinear_shape_value (v : Nat) (p : Point) : ℚ :=
  (if v % 2 = 0 then 1 - p 0 else p 0) * (if v / 2 = 0 then 1 - p 1 else p 1)

/-- The gradient of the bilinear shape function of vertex `v` at the point `p`. -/
def bilinear_shape_grad (v : Nat) (p : Point) : Tensor1 :=
  fun d =>
    if d = 0 then (if v % 2 = 0 then -1 else 1) * (if v / 2 = 0 then 1 - p 1 else p 1)
    else if d = 1 then (if v % 2 = 0 then 1 - p 0 else p 0) * (if v / 2 = 0 then -1 else 1)
    else 0

/-- The geometry element of a two-dimensional cell of degree 1: eight dofs, dof `i` being
the bilinear shape function of vertex `i / 2` in component `i % 2`. -/
def square_fe_metric : FESystem :=
  { dofs_per_cell := 8, system_to_component_index := fun i => i % 2,
    shape_value := fun i p => bilinear_shape_value (i / 2) p,
    shape_grad := fun i p => bilinear_shape_grad (i / 2) p }

/-- The scalar element of `square_fe_metric`, with the four vertices of the unit square as
unit support points. -/
def square_fe_lagrange_grid : FiniteElement :=
  { n_unit_support_points := 4,
    unit_support_points := fun v d =>
      if d = 0 then (if v % 2 = 0 then 0 else 1) else if d = 1 then (if v / 2 = 0 then 0 else 1)
      else 0,
    shape_grad := bilinear_shape_grad }

/-- The midpoint rule on the unit square. -/
def square_midpoint_quadrature : Quadrature :=
  { size := 1, point := fun _ _ => 1 / 2, weight := fun _ => 1 }

/-- The geometry coefficients of an inverted cell: the unit square mapped by
`(xi, eta) -> (1 - xi, eta)`. -/
def inverted_square_coords : Vec :=
  fun idof =>
    let v := idof / 2
    if idof % 2 = 0 then (if v % 2 = 0 then 1 else 0) else (if v / 2 = 0 then 0 else 1)

/-- An engine with solution 1 everywhere and zero per-cell arrays. -/
def engine_example : DGWeakState :=
  { all_parameters := default_parameters, solution := fun _ => 1, dual := fun _ => 0,
    right_hand_side := fun _ => 0, artificial_dissipation_coeffs := fun _ => 0,
    cell_volume := fun _ => 0, max_dt_cell := fun _ => 0 }

/-- An input of the explicit volume kernel for the cell of index 0: one quadrature point
with `JxW = 1`, and a CFL function that returns the cell radius. -/
def volume_explicit_example : VolumeExplicitInput :=
  { dim := 1, nstate := 1, current_cell_index := 0, fe_values_vol := one_dof_fe_values,
    soln_dof_indices_int := fun i => i, cell_index := 0, cell_degree := 0, diameter := 1,
    pde_physics_double := advection_physics,
    evaluate_CFL := fun _ _ cell_radius _ => cell_radius }

/-! ## Example number type and strategies -/

namespace Templated

variable {R : Type} [CommRing R] [Algebra ℚ R]

/-- The physics `advection_physics` in the number type `R`. -/
def advection_physics : PhysicsBase R :=
  { convective_flux := fun u s _ => u s
    dissipative_flux := fun _ _ _ _ => 0
    artificial_dissipative_flux := fun coeff _ g s d => - (coeff * g s d)
    source_term := fun _ _ _ => 0
    boundary_face_values := fun _ _ _ _ g => (fun _ => 2, g) }

/-- The flux `central_flux` in the number type `R`. -/
def central_flux : NumericalFluxConvective R :=
  { evaluate_flux := fun soln_int soln_ext normal s =>
      algebraMap ℚ R (1 / 2) * (soln_int s + soln_ext s) * normal 0 }

/-- The flux `central_diss_flux` in the number type `R`. -/
def central_diss_flux : NumericalFluxDissipative R :=
  { evaluate_solution_flux := fun soln_int soln_ext _ s =>
      algebraMap ℚ R (1 / 2) * (soln_int s + soln_ext s)
    evaluate_auxiliary_flux := fun _ _ soln_int soln_ext _ _ _ penalty _ s =>
      algebraMap ℚ R penalty * (soln_int s - soln_ext s) }

end Templated

/-- A square root of plain reals for the examples: three steps of Newton's iteration from
the start value 1, which is exact at 1. -/
def newton_sqrt (q : ℚ) : ℚ :=
  forLoop 3 (fun _ x => (x + q / x) / 2) 1

/-- The quotient, the square root and the comparison of the dual numbers over the
rationals: the value of each is computed from the values of the operands, and the
derivative part by the rules of differentiation. -/
instance dual_operations : Templated.RealOperations (DualNumber ℚ) where
  div a b :=
    TrivSqZeroExt.inl (TrivSqZeroExt.fst a / TrivSqZeroExt.fst b)
      + TrivSqZeroExt.inr
          ((TrivSqZeroExt.snd a * TrivSqZeroExt.fst b - TrivSqZeroExt.fst a * TrivSqZeroExt.snd b)
            / (TrivSqZeroExt.fst b * TrivSqZeroExt.fst b))
  sqrt a :=
    TrivSqZeroExt.inl (newton_sqrt (TrivSqZeroExt.fst a))
      + TrivSqZeroExt.inr (TrivSqZeroExt.snd a / (2 * newton_sqrt (TrivSqZeroExt.fst a)))
  greater a b := decide (TrivSqZeroExt.fst a > TrivSqZeroExt.fst b)

/-- The value projection of the dual numbers: the first component. -/
def dual_value : Templated.ValueProjection (DualNumber ℚ) newton_sqrt :=
  { value := TrivSqZeroExt.fstHom ℚ ℚ ℚ
    value_div := fun a b => by
      simp [Templated.RealOperations.div]
    value_sqrt := fun a => by
      simp [Templated.RealOperations.sqrt]
    greater_eq := fun _ _ => rfl }

/-- A one-dimensional grid of degree 1 with the nodes 0, 1, 2, 1: the cell with the metric
dofs 0 and 1 is the interval from 0 to 1, and the cell with the metric dofs 2 and 3 is
inverted, its reference point 0 being mapped to 2 and its reference point 1 to 1. -/
def high_order_grid_example : HighOrderGrid :=
  { fe_system := line_fe_metric, fe_lagrange_grid := line_fe_lagrange_grid,
    volume_nodes := fun i => if i = 0 then 0 else if i = 2 then 2 else 1 }

/-- The arguments of a volume wrapper on the cell from 0 to 1, with one degree of freedom
and the midpoint rule. -/
def volume_wrapper_example : VolumeWrapperInput :=
  { dim := 1, nstate := 1, current_cell_index := 0, fe_values_vol := one_dof_fe_values,
    fe_soln := one_dof_fe, quadrature := midpoint_quadrature,
    metric_dof_indices := fun i => i, soln_dof_indices := fun i => i }

/-- The quadrature of a face of a one-dimensional cell: the end point `p` of the unit
interval with weight 1. -/
def end_point_quadrature (p : ℚ) : Quadrature :=
  { size := 1, point := fun _ _ => p, weight := fun _ => 1 }

/-- The arguments of a face wrapper on the face between the cell from 0 to 1, seen through
its right face, and the inverted cell, seen through its left face; neither side is a
sub-face. -/
def face_wrapper_example : FaceWrapperInput :=
  { dim := 1, nstate := 1, current_cell_index := 0, neighbor_cell_index := 1,
    face_subface_int := (1, -1), face_subface_ext := (0, -1),
    fe_values_int := one_dof_fe_values, fe_values_ext := one_dof_fe_values, penalty := 1,
    fe_int := one_dof_fe, fe_ext := one_dof_fe, face_quadrature := one_point_quadrature,
    face_quadrature_int := end_point_quadrature 1,
    face_quadrature_ext := end_point_quadrature 0,
    metric_dof_indices_int := fun i => i, metric_dof_indices_ext := fun i => i + 2,
    soln_dof_indices_int := fun i => i, soln_dof_indices_ext := fun i => i + 1 }

/-! ## Example kernels that read the solution -/

/-- Kernels whose volume term contributes the solution at the dofs of the cell and whose
boundary and face terms contribute the penalty times that solution. -/
def solution_hooks (solution : Vec) : AssemblyHooks :=
  { assemble_cell_terms_explicit := fun cell => fun i => solution (cell.dof_indices i)
    assemble_boundary_term_explicit := fun _ h penalty =>
      fun i => penalty * solution (h.cell.dof_indices i)
    assemble_face_term_explicit := fun h_int h_ext penalty =>
      (fun i => penalty * (solution (h_ext.cell.dof_indices i)
          - solution (h_int.cell.dof_indices i)),
       fun i => penalty * (solution (h_int.cell.dof_indices i)
          - solution (h_ext.cell.dof_indices i)))
    assemble_cell_terms_implicit := fun cell => fun i => solution (cell.dof_indices i)
    assemble_boundary_term_implicit := fun _ h penalty =>
      fun i => penalty * solution (h.cell.dof_indices i)
    assemble_face_term_implicit := fun h_int h_ext penalty =>
      (fun i => penalty * (solution (h_ext.cell.dof_indices i)
          - solution (h_int.cell.dof_indices i)),
       fun i => penalty * (solution (h_int.cell.dof_indices i)
          - solution (h_ext.cell.dof_indices i))) }

/-- An engine whose residual and matrix hold values of an earlier pass. -/
def used_engine : DGBaseMembers :=
  { solution := fun i => (i : ℚ) + 1, right_hand_side := fun _ => 7,
    system_matrix := fun _ _ => 3 }

/-- An engine with the same solution and other values in the residual and the matrix. -/
def fresh_engine : DGBaseMembers :=
  { solution := fun i => (i : ℚ) + 1, right_hand_side := fun _ => 0,
    system_matrix := fun _ _ => 0 }

/-! The conforming two-dimensional mesh that is periodic in the first direction: the unit
squares `P` (index 0) and `Q` (index 1) side by side, the left face of `P` paired with the
right face of `Q`, and walls at the bottom and at the top. -/

/-- The left cell `P`. -/
def cell_P : CellAccessor :=
  { index := 0, level := 0, dof_indices := fun _ => 0, extent_in_direction := fun _ => 1 }

/-- The right cell `Q`. -/
def cell_Q : CellAccessor :=
  { index := 1, level := 0, dof_indices := fun _ => 1, extent_in_direction := fun _ => 1 }

/-- Faces of `P`. -/
def faces_P : Nat → FaceView
  | 0 => periodic_face cell_Q 1 false
  | 1 => interior_face cell_Q 0 false
  | _ => boundary_face 0

/-- Faces of `Q`. -/
def faces_Q : Nat → FaceView
  | 0 => interior_face cell_P 1 false
  | 1 => periodic_face cell_P 0 false
  | _ => boundary_face 0

/-- The active cells of the periodic strip. -/
def periodic_strip_mesh : List ActiveCell := [⟨cell_P, faces_P⟩, ⟨cell_Q, faces_Q⟩]

/-- The state of a pass when it reaches the first face of the first cell. -/
def first_face_state : AssemblyState :=
  { right_hand_side := zeroVec, n_cell_visited := 1, n_face_visited := 0,
    current_cell_rhs := zeroVec, kernel_calls := [KernelCall.cell_terms 0] }

/-- The geometry coefficients of a curved cell: the unit square with its upper right vertex
moved to `(2, 2)`, so that the map is bilinear and not affine. -/
def skewed_square_coords : Vec :=
  fun idof =>
    let v := idof / 2
    if idof % 2 = 0 then (if v = 1 then 1 else if v = 3 then 2 else 0)
    else (if v = 2 then 1 else if v = 3 then 2 else 0)

/-- The trilinear shape function of vertex `v` of the unit cube (vertices in lexicographic
order) at the point `p`. -/
def trilinear_shape_value (v : Nat) (p : Point) : ℚ :=
  (if v % 2 = 0 then 1 - p 0 else p 0) * (if v / 2 % 2 = 0 then 1 - p 1 else p 1)
    * (if v / 4 = 0 then 1 - p 2 else p 2)

/-- The gradient of the trilinear shape function of vertex `v` at the point `p`. -/
def trilinear_shape_grad (v : Nat) (p : Point) : Tensor1 :=
  fun d =>
    if d = 0 then
      (if v % 2 = 0 then -1 else 1) * (if v / 2 % 2 = 0 then 1 - p 1 else p 1)
        * (if v / 4 = 0 then 1 - p 2 else p 2)
    else if d = 1 then
      (if v % 2 = 0 then 1 - p 0 else p 0) * (if v / 2 % 2 = 0 then -1 else 1)
        * (if v / 4 = 0 then 1 - p 2 else p 2)
    else if d = 2 then
      (if v % 2 = 0 then 1 - p 0 else p 0) * (if v / 2 % 2 = 0 then 1 - p 1 else p 1)
        * (if v / 4 = 0 then -1 else 1)
    else 0

/-- The geometry element of a three-dimensional cell of degree 1: 24 dofs, dof `i` being
the trilinear shape function of vertex `i / 3` in component `i % 3`. -/
def cube_fe_metric : FESystem :=
  { dofs_per_cell := 24, system_to_component_index := fun i => i % 3,
    shape_value := fun i p => trilinear_shape_value (i / 3) p,
    shape_grad := fun i p => trilinear_shape_grad (i / 3) p }

/-- The scalar element of `cube_fe_metric`, with the eight vertices of the unit cube as
unit support points. -/
def cube_fe_lagrange_grid : FiniteElement :=
  { n_unit_support_points := 8,
    unit_support_points := fun v d =>
      if d = 0 then (if v % 2 = 0 then 0 else 1)
      else if d = 1 then (if v / 2 % 2 = 0 then 0 else 1)
      else if d = 2 then (if v / 4 = 0 then 0 else 1)
      else 0,
    shape_grad := trilinear_shape_grad }

/-- The midpoint rule on the unit cube. -/
def cube_midpoint_quadrature : Quadrature :=
  { size := 1, point := fun _ _ => 1 / 2, weight := fun _ => 1 }

/-- The matrix of the affine map `(xi, eta, zeta) -> (2 xi + eta + 1, eta, zeta)`. -/
def sheared_cube_matrix : Nat → Nat → ℚ :=
  fun d e => if d = 0 ∧ e = 0 then 2 else if d = 0 ∧ e = 1 then 1 else if d = e then 1 else 0

/-- The translation of the affine map `(xi, eta, zeta) -> (2 xi + eta + 1, eta, zeta)`. -/
def sheared_cube_translation : Nat → ℚ :=
  fun d => if d = 0 then 1 else 0

/-- The geometry coefficients of the unit cube mapped by
`(xi, eta, zeta) -> (2 xi + eta + 1, eta, zeta)`: the images of the vertices. -/
def sheared_cube_coords : Vec :=
  fun idof =>
    let v := idof / 3
    let xi : ℚ := if v % 2 = 0 then 0 else 1
    let eta : ℚ := if v / 2 % 2 = 0 then 0 else 1
    let zeta : ℚ := if v / 4 = 0 then 0 else 1
    if idof % 3 = 0 then 2 * xi + eta + 1 else if idof % 3 = 1 then eta else zeta

theorem forLoop_zero {σ : Type} (body : Nat → σ → σ) (init : σ) : forLoop 0 body init = init :=
  rfl

theorem forLoop_succ {σ : Type} (n : Nat) (body : Nat → σ → σ) (init : σ) :
    forLoop (n + 1) body init = body n (forLoop n body init) := by
  simp [forLoop, List.range_succ, List.foldl_append]

/-- A quantity to which every iteration adds `g i` grows by the sum of `g` over the loop. -/
theorem forLoop_measure {σ : Type} (m : σ → Nat) (g : Nat → Nat) (body : Nat → σ → σ)
    (hbody : ∀ i s, m (body i s) = m s + g i) (n : Nat) (init : σ) :
    m (forLoop n body init) = m init + ((List.range n).map g).sum := by
  induction n with
  | zero => simp [forLoop_zero]
  | succ k ih =>
    rw [forLoop_succ, hbody, ih, List.range_succ, List.map_append, List.sum_append]
    simp [Nat.add_assoc]

theorem forLoop_trace {σ α : Type} (m : σ → List α) (g : Nat → List α) (body : Nat → σ → σ)
    (hbody : ∀ i s, m (body i s) = m s ++ g i) (n : Nat) (init : σ) :
    m (forLoop n body init) = m init ++ (List.range n).flatMap g := by
  induction n with
  | zero => simp [forLoop_zero]
  | succ k ih =>
    rw [forLoop_succ, hbody, ih, List.range_succ, List.flatMap_append]
    simp

theorem forLoop_invariant {σ α : Type} (m : σ → α) (body : Nat → σ → σ)
    (hbody : ∀ i s, m (body i s) = m s) (n : Nat) (init : σ) :
    m (forLoop n body init) = m init := by
  induction n with
  | zero => rfl
  | succ k ih => rw [forLoop_succ, hbody, ih]

/-! ### The face counter -/

theorem finer_neighbor_case_n_face_visited
    (face_term : FaceHandle → FaceHandle → ℚ → Vec × Vec)
    (degree_current dofs_per_cell cell_no : Nat) (current_cell : CellAccessor) (iface : Nat)
    (f : FaceView) (st : AssemblyState) :
    (finer_neighbor_case face_term degree_current dofs_per_cell cell_no current_cell iface f
      st).n_face_visited = st.n_face_visited + f.number_of_children := by
  unfold finer_neighbor_case
  have h := forLoop_measure (fun s : AssemblyState × Vec => s.1.n_face_visited) (fun _ => 1)
    (subface_step face_term degree_current dofs_per_cell cell_no current_cell iface f)
    (fun i s => rfl) f.number_of_children (st, zeroVec)
  simpa using h

/-- C1: for two distinct cells A and B (a cell is identified by its level and index) that
face each other with neither coarser than the other, the ownership test of
`assemble_residual` holds in exactly one of the two orientations, and the owner is the
cell with the smaller index, or on equal indices the cell at the shallower level. -/
theorem ownership_test_exactly_one_side (A B : CellAccessor)
    (hAB : (A.level, A.index) ≠ (B.level, B.index)) :
    ((ownership_test false A B = true ∧ ownership_test false B A = false) ∨
      (ownership_test false A B = false ∧ ownership_test false B A = true)) ∧
    (ownership_test false A B = true ↔
      (A.index < B.index ∨ (A.index = B.index ∧ A.level < B.level))) ∧
    (ownership_test false B A = true ↔
      (B.index < A.index ∨ (B.index = A.index ∧ B.level < A.level))) := by
  have hne : A.level ≠ B.level ∨ A.index ≠ B.index := by
    by_contra hcon
    push_neg at hcon
    exact hAB (by rw [hcon.1, hcon.2])
  simp only [ownership_test, lower_index_does_work, Bool.not_false, Bool.true_and,
    Bool.or_eq_true, Bool.and_eq_true, decide_eq_true_eq, Bool.or_eq_false_iff,
    Bool.and_eq_false_iff, decide_eq_false_iff_not, gt_iff_lt]
  refine ⟨?_, ?_, ?_⟩
  · rcases lt_trichotomy A.index B.index with h | h | h
    · left
      refine ⟨Or.inl h, ?_, ?_⟩ <;> omega
    · rcases lt_trichotomy A.level B.level with h2 | h2 | h2
      · left
        refine ⟨Or.inr ⟨h.symm, h2⟩, ?_, ?_⟩ <;> omega
      · rcases hne with h3 | h3 <;> contradiction
      · right
        refine ⟨⟨?_, ?_⟩, Or.inr ⟨h, h2⟩⟩ <;> omega
    · right
      refine ⟨⟨?_, ?_⟩, Or.inl h⟩ <;> omega
  · constructor
    · rintro (h | ⟨h, h2⟩)
      · exact Or.inl h
      · exact Or.inr ⟨h.symm, h2⟩
    · rintro (h | ⟨h, h2⟩)
      · exact Or.inl h
      · exact Or.inr ⟨h.symm, h2⟩
  · constructor
    · rintro (h | ⟨h, h2⟩)
      · exact Or.inl h
      · exact Or.inr ⟨h.symm, h2⟩
    · rintro (h | ⟨h, h2⟩)
      · exact Or.inl h
      · exact Or.inr ⟨h.symm, h2⟩

/-! ### Interfaces -/

theorem accumulate_one (b c : Vec) : accumulate 1 b c = addAt b 0 (c 0) := rfl

theorem scatter_one (r : Vec) (idx : Nat → Nat) (l : Vec) :
    scatter 1 r idx l = addAt r (idx 0) (l 0) := rfl

/-- The scatter of a face with two children, for any face kernel: the buffer scattered to
the second fine neighbour is the sum of the exterior contributions of both sub-faces. -/
theorem finer_neighbor_case_two_subfaces
    (face_term : FaceHandle → FaceHandle → ℚ → Vec × Vec)
    (degree_current dofs_per_cell cell_no : Nat) (current_cell : CellAccessor) (iface : Nat)
    (f : FaceView) (st : AssemblyState) (h2 : f.number_of_children = 2) :
    (finer_neighbor_case face_term degree_current dofs_per_cell cell_no current_cell iface f
      st).right_hand_side
      = scatter dofs_per_cell
          (scatter dofs_per_cell st.right_hand_side (f.neighbor_child_on_subface 0).dof_indices
            (accumulate dofs_per_cell zeroVec
              (face_term ⟨current_cell, iface, some 0⟩
                ⟨f.neighbor_child_on_subface 0, f.neighbor_face_no, none⟩
                (face_penalty degree_current current_cell iface (f.neighbor_child_on_subface 0)
                  f.neighbor_face_no)).2))
          (f.neighbor_child_on_subface 1).dof_indices
          (accumulate dofs_per_cell
            (accumulate dofs_per_cell zeroVec
              (face_term ⟨current_cell, iface, some 0⟩
                ⟨f.neighbor_child_on_subface 0, f.neighbor_face_no, none⟩
                (face_penalty degree_current current_cell iface (f.neighbor_child_on_subface 0)
                  f.neighbor_face_no)).2)
            (face_term ⟨current_cell, iface, some 1⟩
              ⟨f.neighbor_child_on_subface 1, f.neighbor_face_no, none⟩
              (face_penalty degree_current current_cell iface (f.neighbor_child_on_subface 1)
                f.neighbor_face_no)).2) := by
  unfold finer_neighbor_case
  rw [h2]
  rfl

/-- C3 (failing input): on the mesh of the coarse cell `A` and the children of `B`, with a
face kernel that contributes 10 to the exterior side of sub-face 0 and 20 to the exterior
side of sub-face 1 and nothing else, `assemble_residual` adds 10 at the degree of freedom of
the first fine neighbour `B0` (index 1) and 30, not 20, at the degree of freedom of the
second fine neighbour `B2` (index 3): the buffer `neighbor_cell_rhs` still holds the
contribution of sub-face 0 when it is scattered for sub-face 1. -/
theorem hanging_face_scatter_carries_previous_subface :
    (subface_hooks.assemble_face_term_explicit ⟨cell_A, 1, some 0⟩ ⟨cell_B_child 0, 0, none⟩
      (face_penalty 1 cell_A 1 (cell_B_child 0) 0)).2 0 = 10 ∧
    (subface_hooks.assemble_face_term_explicit ⟨cell_A, 1, some 1⟩ ⟨cell_B_child 2, 0, none⟩
      (face_penalty 1 cell_A 1 (cell_B_child 2) 0)).2 0 = 20 ∧
    (assemble_residual 2 default_parameters subface_hooks 1 1 hanging_mesh
      zeroVec).right_hand_side 1 = 10 ∧
    (assemble_residual 2 default_parameters subface_hooks 1 1 hanging_mesh
      zeroVec).right_hand_side 3 = 30 := by
  refine ⟨?_, ?_, ?_, ?_⟩
  · simp [subface_hooks]
  · simp [subface_hooks]
    norm_num
  · simp [assemble_residual, hanging_mesh, assemble_residual_cell, faces_per_cell, forLoop,
      List.range_succ, assemble_residual_face, faces_A, faces_B_child, boundary_face,
      refined_face, interior_face, finer_neighbor_case, subface_step, face_call,
      accumulate_one, scatter_one, addAt, zeroVec, subface_hooks, zero_hooks,
      default_parameters, ownership_test, lower_index_does_work, cell_A, cell_B_child, cell_B,
      FaceView.neighbor_or_periodic_neighbor, invalid_cell]
  · simp [assemble_residual, hanging_mesh, assemble_residual_cell, faces_per_cell, forLoop,
      List.range_succ, assemble_residual_face, faces_A, faces_B_child, boundary_face,
      refined_face, interior_face, finer_neighbor_case, subface_step, face_call,
      accumulate_one, scatter_one, addAt, zeroVec, subface_hooks, zero_hooks,
      default_parameters, ownership_test, lower_index_does_work, cell_A, cell_B_child, cell_B,
      FaceView.neighbor_or_periodic_neighbor, invalid_cell]
    norm_num

/-! ### Kernel calls -/

theorem finer_neighbor_case_kernel_calls
    (face_term : FaceHandle → FaceHandle → ℚ → Vec × Vec)
    (degree_current dofs_per_cell cell_no : Nat) (current_cell : CellAccessor) (iface : Nat)
    (f : FaceView) (st : AssemblyState) :
    (finer_neighbor_case face_term degree_current dofs_per_cell cell_no current_cell iface f
      st).kernel_calls = st.kernel_calls ++
        (List.range f.number_of_children).map (fun subface_no =>
          face_term_call degree_current cell_no current_cell iface (some subface_no)
            (f.neighbor_child_on_subface subface_no) f.neighbor_face_no) := by
  unfold finer_neighbor_case
  have h := forLoop_trace (fun s : AssemblyState × Vec => s.1.kernel_calls)
    (fun subface_no => [face_term_call degree_current cell_no current_cell iface
      (some subface_no) (f.neighbor_child_on_subface subface_no) f.neighbor_face_no])
    (subface_step face_term degree_current dofs_per_cell cell_no current_cell iface f)
    (fun i s => rfl) f.number_of_children (st, zeroVec)
  simp only [] at h ⊢
  rw [h]
  congr 1
  induction f.number_of_children with
  | zero => rfl
  | succ k ih => simp [List.range_succ, List.flatMap_append, ih]

theorem finer_neighbor_case_n_cell_visited
    (face_term : FaceHandle → FaceHandle → ℚ → Vec × Vec)
    (degree_current dofs_per_cell cell_no : Nat) (current_cell : CellAccessor) (iface : Nat)
    (f : FaceView) (st : AssemblyState) :
    (finer_neighbor_case face_term degree_current dofs_per_cell cell_no current_cell iface f
      st).n_cell_visited = st.n_cell_visited := by
  unfold finer_neighbor_case
  exact forLoop_invariant (fun s : AssemblyState × Vec => s.1.n_cell_visited)
    (subface_step face_term degree_current dofs_per_cell cell_no current_cell iface f)
    (fun i s => rfl) f.number_of_children (st, zeroVec)

theorem assemble_residual_face_kernel_calls (dim : Nat) (all_parameters : AllParameters)
    (hooks : AssemblyHooks) (degree_current dofs_per_cell cell_no : Nat)
    (current_cell : ActiveCell) (iface : Nat) (st : AssemblyState) :
    (assemble_residual_face dim all_parameters hooks degree_current dofs_per_cell cell_no
      current_cell iface st).kernel_calls
      = st.kernel_calls ++ assemble_residual_face_calls dim all_parameters degree_current
          cell_no current_cell iface := by
  unfold assemble_residual_face assemble_residual_face_calls
  dsimp only
  split_ifs <;>
    simp_all [finer_neighbor_case_kernel_calls, face_call, face_term_call]

theorem assemble_residual_face_n_cell_visited (dim : Nat) (all_parameters : AllParameters)
    (hooks : AssemblyHooks) (degree_current dofs_per_cell cell_no : Nat)
    (current_cell : ActiveCell) (iface : Nat) (st : AssemblyState) :
    (assemble_residual_face dim all_parameters hooks degree_current dofs_per_cell cell_no
      current_cell iface st).n_cell_visited = st.n_cell_visited := by
  unfold assemble_residual_face
  dsimp only
  split_ifs <;> simp_all [finer_neighbor_case_n_cell_visited, face_call]

theorem assemble_residual_dRdW_face_kernel_calls (all_parameters : AllParameters)
    (hooks : AssemblyHooks) (degree_current dofs_per_cell cell_no : Nat)
    (current_cell : ActiveCell) (iface : Nat) (st : AssemblyState) :
    (assemble_residual_dRdW_face all_parameters hooks degree_current dofs_per_cell cell_no
      current_cell iface st).kernel_calls
      = st.kernel_calls ++ assemble_residual_dRdW_face_calls all_parameters degree_current
          cell_no current_cell iface := by
  unfold assemble_residual_dRdW_face assemble_residual_dRdW_face_calls
  dsimp only
  split_ifs <;>
    simp_all [finer_neighbor_case_kernel_calls, face_call, face_term_call]

theorem assemble_residual_dRdW_face_n_cell_visited (all_parameters : AllParameters)
    (hooks : AssemblyHooks) (degree_current dofs_per_cell cell_no : Nat)
    (current_cell : ActiveCell) (iface : Nat) (st : AssemblyState) :
    (assemble_residual_dRdW_face all_parameters hooks degree_current dofs_per_cell cell_no
      current_cell iface st).n_cell_visited = st.n_cell_visited := by
  unfold assemble_residual_dRdW_face
  dsimp only
  split_ifs <;> simp_all [finer_neighbor_case_n_cell_visited, face_call]

theorem flatMap_range_single {α : Type} (n i : Nat) (g : Nat → List α)
    (h : ∀ j, j ≠ i → g j = []) :
    (List.range n).flatMap g = if i < n then g i else [] := by
  induction n with
  | zero => simp
  | succ k ih =>
    rw [List.range_succ, List.flatMap_append, ih]
    by_cases hik : i < k
    · have hne : k ≠ i := by omega
      simp [hik, h k hne, Nat.lt_succ_of_lt hik]
    · by_cases hek : i = k
      · subst hek
        simp
      · have hne : k ≠ i := fun h' => hek h'.symm
        have : ¬ i < k + 1 := by omega
        simp [hik, h k hne, this]

theorem boundary_calls_of_append (k i : Nat) (l₁ l₂ : List KernelCall) :
    boundary_calls_of k i (l₁ ++ l₂) = boundary_calls_of k i l₁ ++ boundary_calls_of k i l₂ := by
  simp [boundary_calls_of]

theorem boundary_calls_of_face_term_calls (k i : Nat) {α : Type} (l : List α)
    (g : α → KernelCall) (hg : ∀ x, (g x).is_boundary_call_of k i = false) :
    boundary_calls_of k i (l.map g) = [] := by
  simp [boundary_calls_of, List.filter_eq_nil_iff, hg]

theorem assemble_residual_face_calls_other (dim : Nat) (all_parameters : AllParameters)
    (degree_current k i cell_no : Nat) (current_cell : ActiveCell) (iface : Nat)
    (h : cell_no ≠ k ∨ iface ≠ i) :
    boundary_calls_of k i (assemble_residual_face_calls dim all_parameters degree_current
      cell_no current_cell iface) = [] := by
  unfold assemble_residual_face_calls
  dsimp only
  split_ifs
  · rfl
  · rcases h with h | h <;>
      simp [boundary_calls_of, KernelCall.is_boundary_call_of, h]
  · rfl
  · rfl
  · exact boundary_calls_of_face_term_calls k i _ _ (fun _ => rfl)
  · rfl
  · rfl

theorem assemble_residual_dRdW_face_calls_other (all_parameters : AllParameters)
    (degree_current k i cell_no : Nat) (current_cell : ActiveCell) (iface : Nat)
    (h : cell_no ≠ k ∨ iface ≠ i) :
    boundary_calls_of k i (assemble_residual_dRdW_face_calls all_parameters degree_current
      cell_no current_cell iface) = [] := by
  unfold assemble_residual_dRdW_face_calls
  dsimp only
  split_ifs
  · rfl
  · rcases h with h | h <;>
      simp [boundary_calls_of, KernelCall.is_boundary_call_of, h]
  · exact boundary_calls_of_face_term_calls k i _ _ (fun _ => rfl)
  · rfl
  · rfl

theorem assemble_residual_cell_n_cell_visited (dim : Nat) (all_parameters : AllParameters)
    (hooks : AssemblyHooks) (degree_current dofs_per_cell : Nat) (st : AssemblyState)
    (current_cell : ActiveCell) :
    (assemble_residual_cell dim all_parameters hooks degree_current dofs_per_cell st
      current_cell).n_cell_visited = st.n_cell_visited + 1 := by
  unfold assemble_residual_cell
  dsimp only
  rw [forLoop_invariant (fun s : AssemblyState => s.n_cell_visited) _
    (fun i s => assemble_residual_face_n_cell_visited dim all_parameters hooks degree_current
      dofs_per_cell _ current_cell i s)]

theorem assemble_residual_cell_boundary_calls (dim : Nat) (all_parameters : AllParameters)
    (hooks : AssemblyHooks) (degree_current dofs_per_cell k i : Nat) (st : AssemblyState)
    (current_cell : ActiveCell) :
    boundary_calls_of k i (assemble_residual_cell dim all_parameters hooks degree_current
      dofs_per_cell st current_cell).kernel_calls
      = boundary_calls_of k i st.kernel_calls ++
          (if st.n_cell_visited = k ∧ i < faces_per_cell dim then
            boundary_calls_of k i (assemble_residual_face_calls dim all_parameters
              degree_current k current_cell i)
           else []) := by
  unfold assemble_residual_cell
  dsimp only
  rw [forLoop_trace (fun s : AssemblyState => boundary_calls_of k i s.kernel_calls)
    (fun iface => boundary_calls_of k i (assemble_residual_face_calls dim all_parameters
      degree_current st.n_cell_visited current_cell iface)) _
    (fun j s => by
      dsimp only
      rw [assemble_residual_face_kernel_calls, boundary_calls_of_append])]
  dsimp only
  rw [boundary_calls_of_append]
  have h0 : boundary_calls_of k i [KernelCall.cell_terms st.n_cell_visited] = [] := rfl
  rw [h0, List.append_nil]
  congr 1
  by_cases hk : st.n_cell_visited = k
  · rw [flatMap_range_single (faces_per_cell dim) i _
      (fun j hj => assemble_residual_face_calls_other dim all_parameters degree_current k i _
        current_cell j (Or.inr hj))]
    simp [hk]
  · rw [flatMap_range_single (faces_per_cell dim) i _
      (fun j _ => assemble_residual_face_calls_other dim all_parameters degree_current k i _
        current_cell j (Or.inl hk))]
    rw [assemble_residual_face_calls_other dim all_parameters degree_current k i _
        current_cell i (Or.inl hk)]
    simp [hk]

theorem foldl_assemble_residual_cell_boundary_calls (dim : Nat)
    (all_parameters : AllParameters) (hooks : AssemblyHooks)
    (degree_current dofs_per_cell k i : Nat) (active_cells : List ActiveCell)
    (st : AssemblyState) :
    boundary_calls_of k i (active_cells.foldl
      (assemble_residual_cell dim all_parameters hooks degree_current dofs_per_cell)
      st).kernel_calls
      = boundary_calls_of k i st.kernel_calls ++
          (match active_cells[k - st.n_cell_visited]? with
           | some c =>
              if st.n_cell_visited ≤ k ∧ i < faces_per_cell dim then
                boundary_calls_of k i (assemble_residual_face_calls dim all_parameters
                  degree_current k c i)
              else []
           | none => []) := by
  induction active_cells generalizing st with
  | nil => simp
  | cons c cs ih =>
    rw [List.foldl_cons, ih, assemble_residual_cell_boundary_calls,
      assemble_residual_cell_n_cell_visited, List.append_assoc]
    congr 1
    rcases Nat.lt_trichotomy st.n_cell_visited k with hlt | heq | hgt
    · have h1 : ¬ st.n_cell_visited = k := by omega
      have h2 : k - st.n_cell_visited = (k - (st.n_cell_visited + 1)) + 1 := by omega
      have h3 : st.n_cell_visited + 1 ≤ k := by omega
      have h4 : st.n_cell_visited ≤ k := by omega
      rw [h2, List.getElem?_cons_succ]
      simp [h1, h3, h4]
    · subst heq
      have h2 : st.n_cell_visited - (st.n_cell_visited + 1) = 0 := by omega
      simp [h2]
      cases cs <;> simp
    · have h1 : ¬ st.n_cell_visited = k := by omega
      have h3 : ¬ st.n_cell_visited + 1 ≤ k := by omega
      have h4 : ¬ st.n_cell_visited ≤ k := by omega
      simp [h1, h3, h4]
      split <;> split <;> rfl

theorem assemble_residual_dRdW_cell_n_cell_visited (dim : Nat) (all_parameters : AllParameters)
    (hooks : AssemblyHooks) (degree_current dofs_per_cell : Nat) (st : AssemblyState)
    (current_cell : ActiveCell) :
    (assemble_residual_dRdW_cell dim all_parameters hooks degree_current dofs_per_cell st
      current_cell).n_cell_visited = st.n_cell_visited + 1 := by
  unfold assemble_residual_dRdW_cell
  dsimp only
  rw [forLoop_invariant (fun s : AssemblyState => s.n_cell_visited) _
    (fun i s => assemble_residual_dRdW_face_n_cell_visited all_parameters hooks degree_current
      dofs_per_cell _ current_cell i s)]

theorem assemble_residual_dRdW_cell_boundary_calls (dim : Nat) (all_parameters : AllParameters)
    (hooks : AssemblyHooks) (degree_current dofs_per_cell k i : Nat) (st : AssemblyState)
    (current_cell : ActiveCell) :
    boundary_calls_of k i (assemble_residual_dRdW_cell dim all_parameters hooks degree_current
      dofs_per_cell st current_cell).kernel_calls
      = boundary_calls_of k i st.kernel_calls ++
          (if st.n_cell_visited = k ∧ i < faces_per_cell dim then
            boundary_calls_of k i (assemble_residual_dRdW_face_calls all_parameters
              degree_current k current_cell i)
           else []) := by
  unfold assemble_residual_dRdW_cell
  dsimp only
  rw [forLoop_trace (fun s : AssemblyState => boundary_calls_of k i s.kernel_calls)
    (fun iface => boundary_calls_of k i (assemble_residual_dRdW_face_calls all_parameters
      degree_current st.n_cell_visited current_cell iface)) _
    (fun j s => by
      dsimp only
      rw [assemble_residual_dRdW_face_kernel_calls, boundary_calls_of_append])]
  dsimp only
  rw [boundary_calls_of_append]
  have h0 : boundary_calls_of k i [KernelCall.cell_terms st.n_cell_visited] = [] := rfl
  rw [h0, List.append_nil]
  congr 1
  by_cases hk : st.n_cell_visited = k
  · rw [flatMap_range_single (faces_per_cell dim) i _
      (fun j hj => assemble_residual_dRdW_face_calls_other all_parameters degree_current k i _
        current_cell j (Or.inr hj))]
    simp [hk]
  · rw [flatMap_range_single (faces_per_cell dim) i _
      (fun j _ => assemble_residual_dRdW_face_calls_other all_parameters degree_current k i _
        current_cell j (Or.inl hk))]
    rw [assemble_residual_dRdW_face_calls_other all_parameters degree_current k i _
        current_cell i (Or.inl hk)]
    simp [hk]

theorem foldl_assemble_residual_dRdW_cell_boundary_calls (dim : Nat)
    (all_parameters : AllParameters) (hooks : AssemblyHooks)
    (degree_current dofs_per_cell k i : Nat) (active_cells : List ActiveCell)
    (st : AssemblyState) :
    boundary_calls_of k i (active_cells.foldl
      (assemble_residual_dRdW_cell dim all_parameters hooks degree_current dofs_per_cell)
      st).kernel_calls
      = boundary_calls_of k i st.kernel_calls ++
          (match active_cells[k - st.n_cell_visited]? with
           | some c =>
              if st.n_cell_visited ≤ k ∧ i < faces_per_cell dim then
                boundary_calls_of k i (assemble_residual_dRdW_face_calls all_parameters
                  degree_current k c i)
              else []
           | none => []) := by
  induction active_cells generalizing st with
  | nil => simp
  | cons c cs ih =>
    rw [List.foldl_cons, ih, assemble_residual_dRdW_cell_boundary_calls,
      assemble_residual_dRdW_cell_n_cell_visited, List.append_assoc]
    congr 1
    rcases Nat.lt_trichotomy st.n_cell_visited k with hlt | heq | hgt
    · have h1 : ¬ st.n_cell_visited = k := by omega
      have h2 : k - st.n_cell_visited = (k - (st.n_cell_visited + 1)) + 1 := by omega
      have h3 : st.n_cell_visited + 1 ≤ k := by omega
      have h4 : st.n_cell_visited ≤ k := by omega
      rw [h2, List.getElem?_cons_succ]
      simp [h1, h3, h4]
    · subst heq
      have h2 : st.n_cell_visited - (st.n_cell_visited + 1) = 0 := by omega
      simp [h2]
      cases cs <;> simp
    · have h1 : ¬ st.n_cell_visited = k := by omega
      have h3 : ¬ st.n_cell_visited + 1 ≤ k := by omega
      have h4 : ¬ st.n_cell_visited ≤ k := by omega
      simp [h1, h3, h4]
      split <;> split <;> rfl

/-- The boundary-kernel calls of `assemble_residual` for face `iface` of the cell at
position `k` are those of the visit of that face. -/
theorem assemble_residual_boundary_calls (dim : Nat) (all_parameters : AllParameters)
    (hooks : AssemblyHooks) (degree_current dofs_per_cell : Nat)
    (active_cells : List ActiveCell) (rhs0 : Vec) (k iface : Nat) (c : ActiveCell)
    (hc : active_cells[k]? = some c) (hi : iface < faces_per_cell dim) :
    boundary_calls_of k iface (assemble_residual dim all_parameters hooks degree_current
      dofs_per_cell active_cells rhs0).kernel_calls
      = boundary_calls_of k iface (assemble_residual_face_calls dim all_parameters
          degree_current k c iface) := by
  unfold assemble_residual
  dsimp only
  rw [foldl_assemble_residual_cell_boundary_calls]
  simp [hc, hi, boundary_calls_of]

/-- The boundary-kernel calls of `assemble_residual_dRdW` for face `iface` of the cell at
position `k` are those of the visit of that face. -/
theorem assemble_residual_dRdW_boundary_calls (dim : Nat) (all_parameters : AllParameters)
    (hooks : AssemblyHooks) (degree_current dofs_per_cell : Nat)
    (active_cells : List ActiveCell) (rhs0 : Vec) (k iface : Nat) (c : ActiveCell)
    (hc : active_cells[k]? = some c) (hi : iface < faces_per_cell dim) :
    boundary_calls_of k iface (assemble_residual_dRdW dim all_parameters hooks degree_current
      dofs_per_cell active_cells rhs0).kernel_calls
      = boundary_calls_of k iface (assemble_residual_dRdW_face_calls all_parameters
          degree_current k c iface) := by
  unfold assemble_residual_dRdW
  dsimp only
  rw [foldl_assemble_residual_dRdW_cell_boundary_calls]
  simp [hc, hi, boundary_calls_of]

/-- Witness of C1: the cells `B0` and `B1`, on level 1 with indices 0 and 1. -/
theorem ownership_test_exactly_one_side_witness :
    (((cell_B_child 0).level, (cell_B_child 0).index)
      ≠ ((cell_B_child 1).level, (cell_B_child 1).index)) ∧
    (((ownership_test false (cell_B_child 0) (cell_B_child 1) = true ∧
        ownership_test false (cell_B_child 1) (cell_B_child 0) = false) ∨
      (ownership_test false (cell_B_child 0) (cell_B_child 1) = false ∧
        ownership_test false (cell_B_child 1) (cell_B_child 0) = true)) ∧
    (ownership_test false (cell_B_child 0) (cell_B_child 1) = true ↔
      ((cell_B_child 0).index < (cell_B_child 1).index ∨
        ((cell_B_child 0).index = (cell_B_child 1).index ∧
          (cell_B_child 0).level < (cell_B_child 1).level))) ∧
    (ownership_test false (cell_B_child 1) (cell_B_child 0) = true ↔
      ((cell_B_child 1).index < (cell_B_child 0).index ∨
        ((cell_B_child 1).index = (cell_B_child 0).index ∧
          (cell_B_child 1).level < (cell_B_child 0).level)))) :=
  ⟨by decide, ownership_test_exactly_one_side (cell_B_child 0) (cell_B_child 1) (by decide)⟩

/-! ### Sums computed by loops -/

/-- A rational quantity to which every iteration adds `g i` grows by the sum of `g`. -/
theorem forLoop_sum {σ : Type} (m : σ → ℚ) (g : Nat → ℚ) (body : Nat → σ → σ)
    (hbody : ∀ i s, m (body i s) = m s + g i) (n : Nat) (init : σ) :
    m (forLoop n body init) = m init + ∑ i ∈ Finset.range n, g i := by
  induction n with
  | zero => simp [forLoop_zero]
  | succ k ih =>
    rw [forLoop_succ, hbody, ih, Finset.sum_range_succ]
    ring

/-- A loop whose iteration `i` adds `T i` to entry `i` of a vector of the state and leaves
the other entries alone adds `T k` to every entry `k` below the bound. -/
theorem forLoop_entrywise {σ : Type} (p : σ → Vec) (T : Nat → ℚ) (body : Nat → σ → σ)
    (hown : ∀ i s, p (body i s) i = p s i + T i)
    (hframe : ∀ i s j, j ≠ i → p (body i s) j = p s j) (n : Nat) (init : σ) (k : Nat) :
    p (forLoop n body init) k = p init k + if k < n then T k else 0 := by
  induction n with
  | zero => simp [forLoop_zero]
  | succ m ih =>
    rw [forLoop_succ]
    by_cases hk : k = m
    · subst hk
      rw [hown, ih]
      simp
    · rw [hframe _ _ _ hk, ih]
      by_cases hlt : k < m
      · simp [hlt, Nat.lt_succ_of_lt hlt]
      · have : ¬ k < m + 1 := by omega
        simp [hlt, this]

/-- A loop whose iteration `i` sets entry `i` of a vector of the state to `T i` and leaves
the other entries alone sets every entry `k` below the bound to `T k`. -/
theorem forLoop_entrywise_set {σ : Type} (p : σ → Vec) (T : Nat → ℚ) (body : Nat → σ → σ)
    (hown : ∀ i s, p (body i s) i = T i)
    (hframe : ∀ i s j, j ≠ i → p (body i s) j = p s j) (n : Nat) (init : σ) (k : Nat) :
    p (forLoop n body init) k = if k < n then T k else p init k := by
  induction n with
  | zero => simp [forLoop_zero]
  | succ m ih =>
    rw [forLoop_succ]
    by_cases hk : k = m
    · subst hk
      rw [hown]
      simp
    · rw [hframe _ _ _ hk, ih]
      by_cases hlt : k < m
      · simp [hlt, Nat.lt_succ_of_lt hlt]
      · have : ¬ k < m + 1 := by omega
        simp [hlt, this]

theorem setAt_same (v : Vec) (k : Nat) (x : ℚ) : setAt v k x k = x := by
  simp [setAt]

theorem setAt_other (v : Vec) (k j : Nat) (x : ℚ) (h : j ≠ k) : setAt v k x j = v j := by
  simp [setAt, h]

theorem addAt_same (v : Vec) (k : Nat) (x : ℚ) : addAt v k x k = v k + x := by
  simp [addAt]

theorem addAt_other (v : Vec) (k j : Nat) (x : ℚ) (h : j ≠ k) : addAt v k x j = v j := by
  simp [addAt, h]

theorem forLoop_setAt_zero (n : Nat) :
    forLoop n (fun itest rhs => setAt rhs itest 0) zeroVec = zeroVec := by
  induction n with
  | zero => rfl
  | succ k ih =>
    rw [forLoop_succ, ih]
    funext j
    simp [setAt, zeroVec]

/-- The scalar product of two tensors is the sum of the products of their components. -/
theorem dot_eq_sum (dim : Nat) (a b : Tensor1) :
    dot dim a b = ∑ d ∈ Finset.range dim, a d * b d := by
  unfold dot
  rw [forLoop_sum (fun acc : ℚ => acc) (fun d => a d * b d) _ (fun _ _ => rfl)]
  simp

/-- The interpolated state: component `s` is the sum over the degrees of freedom of
component `s` of coefficient times shape value. -/
theorem interpolate_solution_eq_sum (n_soln_dofs : Nat) (comp : Nat → Nat) (soln_coeff : Vec)
    (op : Nat → ℚ) (s : Nat) :
    interpolate_solution n_soln_dofs comp soln_coeff op s
      = ∑ idof ∈ Finset.range n_soln_dofs,
          if comp idof = s then soln_coeff idof * op idof else 0 := by
  unfold interpolate_solution
  rw [forLoop_sum (fun soln : State => soln s)
    (fun idof => if comp idof = s then soln_coeff idof * op idof else 0)]
  · simp
  · intro i soln
    by_cases h : comp i = s
    · subst h
      simp [addAt]
    · have h2 : s ≠ comp i := fun h3 => h h3.symm
      simp [addAt, h, h2]

/-- The loop `flux[s] += extra[s]` over `s < nstate`, entry by entry. -/
theorem add_flux_apply (nstate : Nat) (flux extra : ArrayTensor1) (s d : Nat) :
    add_flux nstate flux extra s d = flux s d + if s < nstate then extra s d else 0 := by
  unfold add_flux
  rw [forLoop_sum (fun g : ArrayTensor1 => g s d)
    (fun t => if s = t then extra s d else 0)]
  · congr 1
    by_cases h : s < nstate
    · rw [Finset.sum_ite_eq]
      simp [h]
    · rw [Finset.sum_ite_eq]
      simp [h]
  · intro i g
    by_cases h : s = i <;> simp [h]

/-- The dissipative flux of a jump is the physics dissipative flux plus, when artificial
dissipation is enabled, the artificial dissipative flux. -/
theorem diss_flux_of_jump_apply (nstate : Nat) (all_parameters : AllParameters)
    (physics : PhysicsBase) (coeff : ℚ) (soln : State) (jump : ArrayTensor1) (s d : Nat) :
    diss_flux_of_jump nstate all_parameters physics coeff soln jump s d
      = physics.dissipative_flux soln jump s d
        + if all_parameters.add_artificial_dissipation = true ∧ s < nstate then
            physics.artificial_dissipative_flux coeff soln jump s d
          else 0 := by
  unfold diss_flux_of_jump
  by_cases h : all_parameters.add_artificial_dissipation = true
  · simp only [h, if_true, true_and]
    rw [add_flux_apply]
  · simp [h]

/-! ### Volume kernel -/

/-- The volume kernel returns the weak-form integral of its own fluxes and source. -/
theorem assemble_volume_term_rhs (x : VolumeInput) (itest : Nat)
    (hitest : itest < x.fe_soln.dofs_per_cell) :
    (assemble_volume_term x).1 itest
      = volume_term_formula x x.conv_phys_flux_at_q x.diss_phys_flux_at_q x.source_at_q itest := by
  unfold assemble_volume_term
  dsimp only
  rw [forLoop_setAt_zero]
  rw [forLoop_entrywise (fun s : Vec × ℚ => s.1)
    (fun itest => ∑ iquad ∈ Finset.range x.quadrature.size,
      ((∑ d ∈ Finset.range x.dim,
          (x.grad d itest iquad
              * x.conv_phys_flux_at_q iquad (x.fe_soln.system_to_component_index itest) d
              * (x.metric.jac_det iquad * x.quadrature.weight iquad)
            + x.grad d itest iquad
              * x.diss_phys_flux_at_q iquad (x.fe_soln.system_to_component_index itest) d
              * (x.metric.jac_det iquad * x.quadrature.weight iquad)))
        + (if x.all_parameters.use_manufactured_source_term then
            x.interp itest iquad
              * x.source_at_q iquad (x.fe_soln.system_to_component_index itest)
              * (x.metric.jac_det iquad * x.quadrature.weight iquad)
           else 0)))]
  · simp only [zeroVec, zero_add, hitest, if_true, volume_term_formula]
    apply Finset.sum_congr rfl
    intro q _
    by_cases hs : x.all_parameters.use_manufactured_source_term = true
    · rw [if_pos hs, add_mul, Finset.sum_mul]
      congr 1
      apply Finset.sum_congr rfl
      intro d _
      ring
    · rw [if_neg hs, add_mul, Finset.sum_mul]
      have h0 : x.source_at_q q = fun _ => 0 := by
        unfold VolumeInput.source_at_q
        simp [hs]
      rw [h0]
      simp only [mul_zero, zero_mul, add_zero]
      apply Finset.sum_congr rfl
      intro d _
      ring
  · intro i s
    dsimp only
    rw [forLoop_sum (fun v : Vec => v i)]
    intro iquad v
    dsimp only
    split_ifs with hs
    · rw [setAt_same, forLoop_sum (fun v : Vec => v i)]
      · ring
      · intro d w
        simp only [setAt_same]
        ring
    · rw [forLoop_sum (fun v : Vec => v i)]
      · ring
      · intro d w
        simp only [setAt_same]
        ring
  · intro i s j hj
    dsimp only
    rw [forLoop_invariant (fun v : Vec => v j)]
    intro iquad v
    dsimp only
    split_ifs with hs
    · rw [setAt_other _ _ _ _ hj, forLoop_invariant (fun v : Vec => v j)]
      intro d w
      simp only [setAt_other _ _ _ _ hj]
    · rw [forLoop_invariant (fun v : Vec => v j)]
      intro d w
      simp only [setAt_other _ _ _ _ hj]

/-- The dissipative flux of the volume kernel, entry by entry. -/
theorem diss_phys_flux_at_q_apply (x : VolumeInput) (q s d : Nat) :
    x.diss_phys_flux_at_q q s d
      = x.physics.dissipative_flux (x.soln_at_q q) (x.soln_grad_at_q q) s d
        + if x.all_parameters.add_artificial_dissipation = true ∧ s < x.nstate then
            x.physics.artificial_dissipative_flux x.artificial_dissipation_coeff (x.soln_at_q q)
              (x.soln_grad_at_q q) s d
          else 0 := by
  unfold VolumeInput.diss_phys_flux_at_q VolumeInput.artificial_diss_coeff
  by_cases h : x.all_parameters.add_artificial_dissipation = true
  · simp only [h, if_true, true_and]
    rw [add_flux_apply]
  · simp [h]

/-! ### Boundary kernel -/

/-- The boundary kernel returns the face integral of its own fluxes. -/
theorem assemble_boundary_term_rhs (x : BoundaryInput) (itest : Nat)
    (hitest : itest < x.fe_soln.dofs_per_cell) :
    (assemble_boundary_term x).1 itest = boundary_term_formula x x.diss_flux_jump_int itest := by
  unfold assemble_boundary_term
  dsimp only
  rw [forLoop_setAt_zero]
  rw [forLoop_entrywise_set (fun s : Vec × ℚ => s.1)
    (fun itest => boundary_term_formula x x.diss_flux_jump_int itest)]
  · simp [hitest]
  · intro i s
    dsimp only
    rw [setAt_same, forLoop_sum (fun v : ℚ => v)
      (fun q =>
        (- (x.interp i q * x.conv_num_flux_dot_n q
              (x.fe_values_boundary.fe_system_to_component_index i))
          - x.interp i q * x.diss_auxi_num_flux_dot_n q
              (x.fe_values_boundary.fe_system_to_component_index i)
          + ∑ d ∈ Finset.range x.dim, x.grad d i q * x.diss_flux_jump_int q
              (x.fe_values_boundary.fe_system_to_component_index i) d)
        * (x.surface_jac_det q * x.face_quadrature.weight q))]
    · simp [boundary_term_formula]
    · intro q v
      dsimp only
      rw [forLoop_sum (fun v : ℚ => v)
        (fun d => x.grad d i q * x.diss_flux_jump_int q
            (x.fe_values_boundary.fe_system_to_component_index i) d
          * (x.surface_jac_det q * x.face_quadrature.weight q)) _ (fun _ _ => rfl)]
      rw [add_mul, Finset.sum_mul]
      ring
  · intro i s j hj
    dsimp only
    rw [setAt_other _ _ _ _ hj]

/-! ### Face kernel -/

theorem face_term_int_tests_rhs_int (x : FaceInput) (q : Nat) (out : FaceOutput) (k : Nat) :
    (face_term_int_tests x q out).rhs_int k
      = out.rhs_int k
        + if k < x.fe_int.dofs_per_cell then x.integrand_int k q * x.JxW_iquad q else 0 := by
  unfold face_term_int_tests
  rw [forLoop_entrywise (fun o : FaceOutput => o.rhs_int)
    (fun i => x.integrand_int i q * x.JxW_iquad q)]
  · intro i s
    dsimp only
    rw [addAt_same, forLoop_sum (fun v : ℚ => v)
      (fun d => x.grad_int d i q * x.diss_flux_jump_int q
          (x.fe_int.system_to_component_index i) d
        * (x.surface_jac_det q * x.face_quadrature_int.weight q)) _ (fun _ _ => rfl)]
    simp only [FaceInput.integrand_int, FaceInput.JxW_iquad]
    rw [sub_mul, sub_mul, Finset.sum_mul]
    ring
  · intro i s j hj
    dsimp only
    rw [addAt_other _ _ _ _ hj]

theorem face_term_int_tests_rhs_ext (x : FaceInput) (q : Nat) (out : FaceOutput) :
    (face_term_int_tests x q out).rhs_ext = out.rhs_ext := by
  unfold face_term_int_tests
  rw [forLoop_invariant (fun o : FaceOutput => o.rhs_ext)]
  intro i s
  rfl

theorem face_term_ext_tests_rhs_ext (x : FaceInput) (q : Nat) (out : FaceOutput) (k : Nat) :
    (face_term_ext_tests x q out).rhs_ext k
      = out.rhs_ext k
        + if k < x.fe_ext.dofs_per_cell then x.integrand_ext k q * x.JxW_iquad q else 0 := by
  unfold face_term_ext_tests
  rw [forLoop_entrywise (fun o : FaceOutput => o.rhs_ext)
    (fun i => x.integrand_ext i q * x.JxW_iquad q)]
  · intro i s
    dsimp only
    rw [addAt_same, forLoop_sum (fun v : ℚ => v)
      (fun d => x.grad_ext d i q * x.diss_flux_jump_ext q
          (x.fe_ext.system_to_component_index i) d
        * (x.surface_jac_det q * x.face_quadrature_int.weight q)) _ (fun _ _ => rfl)]
    simp only [FaceInput.integrand_ext, FaceInput.JxW_iquad]
    rw [sub_mul, sub_mul, Finset.sum_mul]
    ring
  · intro i s j hj
    dsimp only
    rw [addAt_other _ _ _ _ hj]

theorem face_term_ext_tests_rhs_int (x : FaceInput) (q : Nat) (out : FaceOutput) :
    (face_term_ext_tests x q out).rhs_int = out.rhs_int := by
  unfold face_term_ext_tests
  rw [forLoop_invariant (fun o : FaceOutput => o.rhs_int)]
  intro i s
  rfl

/-- The interior output of the face kernel is the sum over the quadrature points of the
interior integrand times the weight `JxW_iquad`. -/
theorem assemble_face_term_rhs_int (x : FaceInput) (i : Nat) (hi : i < x.fe_int.dofs_per_cell) :
    (assemble_face_term x).rhs_int i
      = ∑ q ∈ Finset.range x.face_quadrature.size, x.integrand_int i q * x.JxW_iquad q := by
  unfold assemble_face_term
  dsimp only
  rw [forLoop_setAt_zero, forLoop_setAt_zero]
  rw [forLoop_sum (fun o : FaceOutput => o.rhs_int i)
    (fun q => x.integrand_int i q * x.JxW_iquad q)]
  · simp [zeroVec]
  · intro q s
    dsimp only
    rw [face_term_ext_tests_rhs_int, face_term_int_tests_rhs_int, if_pos hi]

/-- The exterior output of the face kernel is the sum over the quadrature points of the
exterior integrand times the weight `JxW_iquad`. -/
theorem assemble_face_term_rhs_ext (x : FaceInput) (j : Nat) (hj : j < x.fe_ext.dofs_per_cell) :
    (assemble_face_term x).rhs_ext j
      = ∑ q ∈ Finset.range x.face_quadrature.size, x.integrand_ext j q * x.JxW_iquad q := by
  unfold assemble_face_term
  dsimp only
  rw [forLoop_setAt_zero, forLoop_setAt_zero]
  rw [forLoop_sum (fun o : FaceOutput => o.rhs_ext j)
    (fun q => x.integrand_ext j q * x.JxW_iquad q)]
  · simp [zeroVec]
  · intro q s
    dsimp only
    rw [face_term_ext_tests_rhs_ext, face_term_int_tests_rhs_ext, if_pos hj]

/-- The selected surface Jacobian is the smaller of the two. -/
theorem surface_jac_det_eq_min (x : FaceInput) (q : Nat) :
    x.surface_jac_det q = min (x.surface_jac_det_int q) (x.surface_jac_det_ext q) := by
  unfold FaceInput.surface_jac_det
  split_ifs with h
  · rw [min_eq_right (le_of_lt h)]
  · rw [min_eq_left (not_lt.mp h)]

/-- Conservation of `assemble_face_term`: when the physics has no dissipative flux and
artificial dissipation is off, an interior and an exterior test function of the same
component with equal values at the face quadrature points receive opposite
contributions. -/
theorem assemble_face_term_conservation (x : FaceInput) (i j : Nat)
    (hi : i < x.fe_int.dofs_per_cell) (hj : j < x.fe_ext.dofs_per_cell)
    (hdiss : ∀ u g s d, x.physics.dissipative_flux u g s d = 0)
    (hart : x.all_parameters.add_artificial_dissipation = false)
    (hcomp : x.fe_int.system_to_component_index i = x.fe_ext.system_to_component_index j)
    (hval : ∀ q, q < x.face_quadrature.size → x.interp_int i q = x.interp_ext j q) :
    (assemble_face_term x).rhs_ext j = - (assemble_face_term x).rhs_int i := by
  rw [assemble_face_term_rhs_int x i hi, assemble_face_term_rhs_ext x j hj,
    ← Finset.sum_neg_distrib]
  apply Finset.sum_congr rfl
  intro q hq
  have hq2 : q < x.face_quadrature.size := Finset.mem_range.mp hq
  have h1 : ∀ s d, x.diss_flux_jump_int q s d = 0 := by
    intro s d
    unfold FaceInput.diss_flux_jump_int
    rw [diss_flux_of_jump_apply, hdiss]
    simp [hart]
  have h2 : ∀ s d, x.diss_flux_jump_ext q s d = 0 := by
    intro s d
    unfold FaceInput.diss_flux_jump_ext
    rw [diss_flux_of_jump_apply, hdiss]
    simp [hart]
  simp only [FaceInput.integrand_int, FaceInput.integrand_ext, h1, h2, mul_zero,
    Finset.sum_const_zero, hcomp, hval q hq2]
  ring

/-! ### Explicit kernels -/

/-- A loop that adds `T i` to entry `i` of a zero vector leaves `T k` in every entry `k`
below the bound. -/
theorem forLoop_addAt (n : Nat) (T : Nat → ℚ) (k : Nat) :
    forLoop n (fun i (v : Vec) => addAt v i (T i)) zeroVec k = if k < n then T k else 0 := by
  rw [forLoop_entrywise (fun v : Vec => v) T _ (fun i s => addAt_same _ _ _)
    (fun i s j hj => addAt_other _ _ _ _ hj)]
  simp [zeroVec]

/-- The explicit boundary kernel contributes the face integral of its own fluxes. -/
theorem assemble_boundary_term_explicit_rhs (x : BoundaryExplicitInput) (itest : Nat)
    (hitest : itest < x.fe_values_boundary.dofs_per_cell) :
    assemble_boundary_term_explicit x itest
      = ∑ q ∈ Finset.range x.fe_values_boundary.n_quadrature_points,
          (- (x.fe_values_boundary.shape_value_component itest q
                (x.fe_values_boundary.fe_system_to_component_index itest)
              * x.conv_num_flux_dot_n q (x.fe_values_boundary.fe_system_to_component_index itest))
            - x.fe_values_boundary.shape_value_component itest q
                (x.fe_values_boundary.fe_system_to_component_index itest)
              * x.diss_auxi_num_flux_dot_n q
                (x.fe_values_boundary.fe_system_to_component_index itest)
            + ∑ d ∈ Finset.range x.dim,
                x.fe_values_boundary.shape_grad_component itest q
                  (x.fe_values_boundary.fe_system_to_component_index itest) d
                * x.diss_flux_jump_int q
                  (x.fe_values_boundary.fe_system_to_component_index itest) d)
          * x.fe_values_boundary.JxW q := by
  unfold assemble_boundary_term_explicit
  dsimp only
  rw [forLoop_addAt, if_pos hitest]
  rw [forLoop_sum (fun v : ℚ => v) _ _ (fun q v => by
    dsimp only
    rw [dot_eq_sum, sub_sub, add_comm_sub]
    )]
  simp only [zero_add]
  apply Finset.sum_congr rfl
  intro q _
  ring

/-- The explicit face kernel contributes to the interior side the face integral of its
fluxes, weighted by `JxW_int`. -/
theorem assemble_face_term_explicit_rhs_int (x : FaceExplicitInput) (i : Nat)
    (hi : i < x.fe_values_int.dofs_per_cell) :
    (assemble_face_term_explicit x).1 i
      = ∑ q ∈ Finset.range x.fe_values_ext.n_quadrature_points,
          (- (x.fe_values_int.shape_value_component i q
                (x.fe_values_int.fe_system_to_component_index i)
              * x.conv_num_flux_dot_n q (x.fe_values_int.fe_system_to_component_index i))
            - x.fe_values_int.shape_value_component i q
                (x.fe_values_int.fe_system_to_component_index i)
              * x.diss_auxi_num_flux_dot_n q (x.fe_values_int.fe_system_to_component_index i)
            + ∑ d ∈ Finset.range x.dim,
                x.fe_values_int.shape_grad_component i q
                  (x.fe_values_int.fe_system_to_component_index i) d
                * x.diss_flux_jump_int q (x.fe_values_int.fe_system_to_component_index i) d)
          * x.fe_values_int.JxW q := by
  unfold assemble_face_term_explicit
  dsimp only
  rw [forLoop_addAt, if_pos hi]
  rw [forLoop_sum (fun v : ℚ => v) _ _ (fun q v => by
    dsimp only
    rw [dot_eq_sum, sub_sub, add_comm_sub]
    )]
  simp only [zero_add]
  apply Finset.sum_congr rfl
  intro q _
  ring

/-- The explicit face kernel contributes to the exterior side the face integral of the
flipped fluxes; the state component of the exterior test function `j` is looked up in the
interior element (weak_dg.cpp line 837). -/
theorem assemble_face_term_explicit_rhs_ext (x : FaceExplicitInput) (j : Nat)
    (hj : j < x.fe_values_ext.dofs_per_cell) :
    (assemble_face_term_explicit x).2 j
      = ∑ q ∈ Finset.range x.fe_values_ext.n_quadrature_points,
          (x.fe_values_ext.shape_value_component j q
                (x.fe_values_int.fe_system_to_component_index j)
              * x.conv_num_flux_dot_n q (x.fe_values_int.fe_system_to_component_index j)
            + x.fe_values_ext.shape_value_component j q
                (x.fe_values_int.fe_system_to_component_index j)
              * x.diss_auxi_num_flux_dot_n q (x.fe_values_int.fe_system_to_component_index j)
            + ∑ d ∈ Finset.range x.dim,
                x.fe_values_ext.shape_grad_component j q
                  (x.fe_values_int.fe_system_to_component_index j) d
                * x.diss_flux_jump_ext q (x.fe_values_int.fe_system_to_component_index j) d)
          * x.fe_values_int.JxW q := by
  unfold assemble_face_term_explicit
  dsimp only
  rw [forLoop_addAt, if_pos hj]
  rw [forLoop_sum (fun v : ℚ => v) _ _ (fun q v => by
    dsimp only
    rw [dot_eq_sum, sub_sub, add_comm_sub]
    )]
  simp only [zero_add]
  apply Finset.sum_congr rfl
  intro q _
  ring

/-- Conservation of `assemble_face_term_explicit` when both sides use the same component
numbering for the exterior test function: without dissipative flux and artificial
dissipation, an interior and an exterior test function of the same component with equal
values at the face quadrature points receive opposite contributions. -/
theorem assemble_face_term_explicit_conservation (x : FaceExplicitInput) (i j : Nat)
    (hi : i < x.fe_values_int.dofs_per_cell) (hj : j < x.fe_values_ext.dofs_per_cell)
    (hsame : x.fe_values_int.fe_system_to_component_index j
      = x.fe_values_ext.fe_system_to_component_index j)
    (hdiss : ∀ u g s d, x.physics.dissipative_flux u g s d = 0)
    (hart : x.all_parameters.add_artificial_dissipation = false)
    (hcomp : x.fe_values_int.fe_system_to_component_index i
      = x.fe_values_ext.fe_system_to_component_index j)
    (hval : ∀ q, q < x.fe_values_ext.n_quadrature_points →
      x.fe_values_int.shape_value_component i q (x.fe_values_int.fe_system_to_component_index i)
        = x.fe_values_ext.shape_value_component j q
            (x.fe_values_ext.fe_system_to_component_index j)) :
    (assemble_face_term_explicit x).2 j = - (assemble_face_term_explicit x).1 i := by
  rw [assemble_face_term_explicit_rhs_int x i hi, assemble_face_term_explicit_rhs_ext x j hj,
    ← Finset.sum_neg_distrib]
  apply Finset.sum_congr rfl
  intro q hq
  have hq2 : q < x.fe_values_ext.n_quadrature_points := Finset.mem_range.mp hq
  have h1 : ∀ s d, x.diss_flux_jump_int q s d = 0 := by
    intro s d
    unfold FaceExplicitInput.diss_flux_jump_int
    rw [diss_flux_of_jump_apply, hdiss]
    simp [hart]
  have h2 : ∀ s d, x.diss_flux_jump_ext q s d = 0 := by
    intro s d
    unfold FaceExplicitInput.diss_flux_jump_ext
    rw [diss_flux_of_jump_apply, hdiss]
    simp [hart]
  have hval2 := hval q hq2
  rw [hcomp] at hval2
  simp only [h1, h2, mul_zero, Finset.sum_const_zero, hsame, hcomp, hval2]
  ring

/-! ### Claims on the kernels -/

/-- C5 (failing input): `assemble_face_term_explicit` between a degree-0 interior cell
(components 0, 1) and a degree-1 exterior cell (components 0, 0, 1, 1), with interior state
(4, 0), exterior state (6, 0), no dissipative flux and no artificial dissipation. The
interior test function 0 and the exterior test function 1 both have component 0 and value
1 at the face quadrature point, yet the interior contribution is 5 and the exterior
contribution is 0 instead of -5: line 837 looks the component of the exterior test
function up in the interior element, which gives component 1. -/
theorem assemble_face_term_explicit_wrong_component :
    (face_explicit_hp_example.fe_values_int.fe_system_to_component_index 0
      = face_explicit_hp_example.fe_values_ext.fe_system_to_component_index 1) ∧
    (∀ q, q < face_explicit_hp_example.fe_values_ext.n_quadrature_points →
      face_explicit_hp_example.fe_values_int.shape_value_component 0 q
          (face_explicit_hp_example.fe_values_int.fe_system_to_component_index 0)
        = face_explicit_hp_example.fe_values_ext.shape_value_component 1 q
          (face_explicit_hp_example.fe_values_ext.fe_system_to_component_index 1)) ∧
    (∀ u g s d, face_explicit_hp_example.physics.dissipative_flux u g s d = 0) ∧
    face_explicit_hp_example.all_parameters.add_artificial_dissipation = false ∧
    (assemble_face_term_explicit face_explicit_hp_example).1 0 = 5 ∧
    (assemble_face_term_explicit face_explicit_hp_example).2 1 = 0 := by
  refine ⟨rfl, ?_, fun _ _ _ _ => rfl, rfl, ?_, ?_⟩
  · intro q _
    simp [face_explicit_hp_example, degree_zero_face_values, degree_one_face_values]
  · simp [assemble_face_term_explicit, face_explicit_hp_example, forLoop, List.range_succ,
      zeroVec, FaceExplicitInput.conv_num_flux_dot_n,
      FaceExplicitInput.diss_auxi_num_flux_dot_n, FaceExplicitInput.diss_flux_jump_int,
      FaceExplicitInput.diss_flux_jump_ext, FaceExplicitInput.diss_soln_num_flux,
      FaceExplicitInput.soln_int, FaceExplicitInput.soln_ext, FaceExplicitInput.soln_grad_int,
      FaceExplicitInput.soln_grad_ext, FaceExplicitInput.normal_int,
      FaceExplicitInput.normal_ext, FaceExplicitInput.artificial_diss_coeff_int,
      FaceExplicitInput.artificial_diss_coeff_ext, interpolate_solution, interpolate_gradient,
      add_flux, diss_flux_of_jump, soln_jump, dot, addAt, degree_zero_face_values,
      degree_one_face_values, advection_physics, central_flux, central_diss_flux,
      default_parameters]
    norm_num
  · simp [assemble_face_term_explicit, face_explicit_hp_example, forLoop, List.range_succ,
      zeroVec, FaceExplicitInput.conv_num_flux_dot_n,
      FaceExplicitInput.diss_auxi_num_flux_dot_n, FaceExplicitInput.diss_flux_jump_int,
      FaceExplicitInput.diss_flux_jump_ext, FaceExplicitInput.diss_soln_num_flux,
      FaceExplicitInput.soln_int, FaceExplicitInput.soln_ext, FaceExplicitInput.soln_grad_int,
      FaceExplicitInput.soln_grad_ext, FaceExplicitInput.normal_int,
      FaceExplicitInput.normal_ext, FaceExplicitInput.artificial_diss_coeff_int,
      FaceExplicitInput.artificial_diss_coeff_ext, interpolate_solution, interpolate_gradient,
      add_flux, diss_flux_of_jump, soln_jump, dot, addAt, degree_zero_face_values,
      degree_one_face_values, advection_physics, central_flux, central_diss_flux,
      default_parameters]

/-- C6: in `assemble_face_term` the interior-side and the exterior-side contributions are
integrated at every quadrature point with one and the same weight, the smaller of the two
surface Jacobians times the interior face quadrature weight: each output is the sum over
the quadrature points of its integrand, which contains no Jacobian, times that weight. -/
theorem assemble_face_term_common_weight (x : FaceInput) (i j : Nat)
    (hi : i < x.fe_int.dofs_per_cell) (hj : j < x.fe_ext.dofs_per_cell) :
    (assemble_face_term x).rhs_int i
      = ∑ q ∈ Finset.range x.face_quadrature.size,
          x.integrand_int i q
            * (min (x.surface_jac_det_int q) (x.surface_jac_det_ext q)
                * x.face_quadrature_int.weight q) ∧
    (assemble_face_term x).rhs_ext j
      = ∑ q ∈ Finset.range x.face_quadrature.size,
          x.integrand_ext j q
            * (min (x.surface_jac_det_int q) (x.surface_jac_det_ext q)
                * x.face_quadrature_int.weight q) := by
  rw [assemble_face_term_rhs_int x i hi, assemble_face_term_rhs_ext x j hj]
  simp only [FaceInput.JxW_iquad, surface_jac_det_eq_min, and_self]

/-- Witness of C6: the face between a cell with surface Jacobian 1 and a cell with
surface Jacobian 1/2. -/
theorem assemble_face_term_common_weight_witness :
    (0 < face_example.fe_int.dofs_per_cell ∧ 0 < face_example.fe_ext.dofs_per_cell) ∧
    ((assemble_face_term face_example).rhs_int 0
      = ∑ q ∈ Finset.range face_example.face_quadrature.size,
          face_example.integrand_int 0 q
            * (min (face_example.surface_jac_det_int q) (face_example.surface_jac_det_ext q)
                * face_example.face_quadrature_int.weight q) ∧
    (assemble_face_term face_example).rhs_ext 0
      = ∑ q ∈ Finset.range face_example.face_quadrature.size,
          face_example.integrand_ext 0 q
            * (min (face_example.surface_jac_det_int q) (face_example.surface_jac_det_ext q)
                * face_example.face_quadrature_int.weight q)) :=
  ⟨⟨by decide, by decide⟩,
    assemble_face_term_common_weight face_example 0 0 (by decide) (by decide)⟩

/-- C7: in the boundary kernels the convective numerical flux at every quadrature point is
`evaluate_flux` of the interior trace state and the exterior state returned by
`boundary_face_values` at that point, for `assemble_boundary_term` (`x`) and for
`assemble_boundary_term_explicit` (`y`); the interior trace state is the interpolation of
the solution coefficients, and it is this flux that enters the returned right-hand
side. -/
theorem boundary_kernel_convective_flux (x : BoundaryInput) (y : BoundaryExplicitInput)
    (itest jtest : Nat) (hitest : itest < x.fe_soln.dofs_per_cell)
    (hjtest : jtest < y.fe_values_boundary.dofs_per_cell) :
    (∀ q, x.conv_num_flux_dot_n q
      = x.conv_num_flux.evaluate_flux (x.soln_int q)
          (x.physics.boundary_face_values x.boundary_id (x.real_quad_pts q) (x.normals q)
            (x.soln_int q) (x.soln_grad_int q)).1
          (x.normals q)) ∧
    (∀ q s, x.soln_int q s
      = ∑ idof ∈ Finset.range x.fe_soln.dofs_per_cell,
          if x.fe_values_boundary.fe_system_to_component_index idof = s then
            x.soln_coeff idof * x.fe_soln.shape_value idof (x.face_quadrature.point q)
          else 0) ∧
    (assemble_boundary_term x).1 itest
      = ∑ q ∈ Finset.range x.fe_values_boundary.n_quadrature_points,
          (- (x.interp itest q
                * x.conv_num_flux.evaluate_flux (x.soln_int q)
                    (x.physics.boundary_face_values x.boundary_id (x.real_quad_pts q)
                      (x.normals q) (x.soln_int q) (x.soln_grad_int q)).1
                    (x.normals q) (x.fe_values_boundary.fe_system_to_component_index itest))
            - x.interp itest q * x.diss_auxi_num_flux_dot_n q
                (x.fe_values_boundary.fe_system_to_component_index itest)
            + ∑ d ∈ Finset.range x.dim, x.grad d itest q * x.diss_flux_jump_int q
                (x.fe_values_boundary.fe_system_to_component_index itest) d)
          * (x.surface_jac_det q * x.face_quadrature.weight q) ∧
    (∀ q, y.conv_num_flux_dot_n q
      = y.conv_num_flux.evaluate_flux (y.soln_int q)
          (y.physics.boundary_face_values y.boundary_id (y.fe_values_boundary.quadrature_point q)
            (y.fe_values_boundary.normal_vector q) (y.soln_int q) (y.soln_grad_int q)).1
          (y.fe_values_boundary.normal_vector q)) ∧
    (∀ q s, y.soln_int q s
      = ∑ idof ∈ Finset.range y.fe_values_boundary.dofs_per_cell,
          if y.fe_values_boundary.fe_system_to_component_index idof = s then
            y.soln_coeff_int idof * y.fe_values_boundary.shape_value_component idof q
              (y.fe_values_boundary.fe_system_to_component_index idof)
          else 0) ∧
    assemble_boundary_term_explicit y jtest
      = ∑ q ∈ Finset.range y.fe_values_boundary.n_quadrature_points,
          (- (y.fe_values_boundary.shape_value_component jtest q
                (y.fe_values_boundary.fe_system_to_component_index jtest)
              * y.conv_num_flux.evaluate_flux (y.soln_int q)
                  (y.physics.boundary_face_values y.boundary_id
                    (y.fe_values_boundary.quadrature_point q)
                    (y.fe_values_boundary.normal_vector q) (y.soln_int q)
                    (y.soln_grad_int q)).1
                  (y.fe_values_boundary.normal_vector q)
                  (y.fe_values_boundary.fe_system_to_component_index jtest))
            - y.fe_values_boundary.shape_value_component jtest q
                (y.fe_values_boundary.fe_system_to_component_index jtest)
              * y.diss_auxi_num_flux_dot_n q
                (y.fe_values_boundary.fe_system_to_component_index jtest)
            + ∑ d ∈ Finset.range y.dim,
                y.fe_values_boundary.shape_grad_component jtest q
                  (y.fe_values_boundary.fe_system_to_component_index jtest) d
                * y.diss_flux_jump_int q
                  (y.fe_values_boundary.fe_system_to_component_index jtest) d)
          * y.fe_values_boundary.JxW q := by
  refine ⟨fun _ => rfl, ?_, ?_, fun _ => rfl, ?_, ?_⟩
  · intro q s
    unfold BoundaryInput.soln_int
    rw [interpolate_solution_eq_sum]
    rfl
  · rw [assemble_boundary_term_rhs x itest hitest]
    rfl
  · intro q s
    unfold BoundaryExplicitInput.soln_int
    rw [interpolate_solution_eq_sum]
  · rw [assemble_boundary_term_explicit_rhs y jtest hjtest]
    rfl

/-- C8 (as amended): for every test function `itest` with component `istate`,
`assemble_volume_term` returns
`rhs[itest] = sum_q (sum_d gradient_operator[d][itest][q] * (F_conv[q][istate][d] +
F_diss[q][istate][d]) + interpolation_operator[itest][q] * S[q][istate]) * jac_det[q] *
weight[q]`, where `F_conv` is the physics convective flux at the interpolated state,
`F_diss` is the physics dissipative flux plus, when artificial dissipation is enabled, the
physics artificial dissipative flux with the coefficient of the cell, and `S` is the
physics source term when the manufactured source term is enabled and zero otherwise; the
convective and dissipative terms enter with a plus sign. -/
theorem assemble_volume_term_formula (x : VolumeInput) (itest : Nat)
    (hitest : itest < x.fe_soln.dofs_per_cell) :
    (assemble_volume_term x).1 itest
      = volume_term_formula x
          (fun q => x.physics.convective_flux (x.soln_at_q q))
          (fun q s d =>
            x.physics.dissipative_flux (x.soln_at_q q) (x.soln_grad_at_q q) s d
              + if x.all_parameters.add_artificial_dissipation = true ∧ s < x.nstate then
                  x.physics.artificial_dissipative_flux x.artificial_dissipation_coeff
                    (x.soln_at_q q) (x.soln_grad_at_q q) s d
                else 0)
          (fun q s =>
            if x.all_parameters.use_manufactured_source_term = true then
              x.physics.source_term
                (interpolate_point x.fe_metric x.coords_coeff (x.quadrature.point q))
                (x.soln_at_q q) s
            else 0)
          itest := by
  rw [assemble_volume_term_rhs x itest hitest]
  unfold volume_term_formula
  dsimp only
  apply Finset.sum_congr rfl
  intro q _
  have hS : x.source_at_q q (x.fe_soln.system_to_component_index itest)
      = if x.all_parameters.use_manufactured_source_term = true then
          x.physics.source_term
            (interpolate_point x.fe_metric x.coords_coeff (x.quadrature.point q))
            (x.soln_at_q q) (x.fe_soln.system_to_component_index itest)
        else 0 := by
    unfold VolumeInput.source_at_q
    split_ifs <;> rfl
  rw [hS]
  congr 2
  apply Finset.sum_congr rfl
  intro d _
  rw [diss_phys_flux_at_q_apply]
  rfl

/-- Witness of C8 (as amended): the one-dimensional example with artificial dissipation. -/
theorem assemble_volume_term_formula_witness :
    0 < volume_example.fe_soln.dofs_per_cell ∧
    (assemble_volume_term volume_example).1 0
      = volume_term_formula volume_example
          (fun q => volume_example.physics.convective_flux (volume_example.soln_at_q q))
          (fun q s d =>
            volume_example.physics.dissipative_flux (volume_example.soln_at_q q)
                (volume_example.soln_grad_at_q q) s d
              + if volume_example.all_parameters.add_artificial_dissipation = true
                    ∧ s < volume_example.nstate then
                  volume_example.physics.artificial_dissipative_flux
                    volume_example.artificial_dissipation_coeff
                    (volume_example.soln_at_q q) (volume_example.soln_grad_at_q q) s d
                else 0)
          (fun q s =>
            if volume_example.all_parameters.use_manufactured_source_term = true then
              volume_example.physics.source_term
                (interpolate_point volume_example.fe_metric volume_example.coords_coeff
                  (volume_example.quadrature.point q))
                (volume_example.soln_at_q q) s
            else 0)
          0 :=
  ⟨by decide, assemble_volume_term_formula volume_example 0 (by decide)⟩

/-- C8 (counterexample): with artificial dissipation enabled (coefficient 3, artificial
flux `- coeff * grad u`) the volume kernel returns -2 for the one-dimensional example,
while the formula with the physics dissipative flux alone as `F_diss` gives 1. -/
theorem assemble_volume_term_adds_artificial_dissipation :
    (assemble_volume_term volume_example).1 0 = -2 ∧
    volume_term_formula volume_example
      (fun q => volume_example.physics.convective_flux (volume_example.soln_at_q q))
      (fun q => volume_example.physics.dissipative_flux (volume_example.soln_at_q q)
        (volume_example.soln_grad_at_q q))
      volume_example.source_at_q 0 = 1 := by
  constructor
  · simp [assemble_volume_term, volume_example, forLoop, List.range_succ, setAt, zeroVec,
      VolumeInput.grad, VolumeInput.interp, VolumeInput.conv_phys_flux_at_q,
      VolumeInput.diss_phys_flux_at_q, VolumeInput.source_at_q, VolumeInput.soln_at_q,
      VolumeInput.soln_grad_at_q, VolumeInput.artificial_diss_coeff, gradient_operator,
      interpolation_operator, vmult, interpolate_solution, interpolate_gradient, add_flux,
      addAt, one_dof_fe, one_point_quadrature, advection_physics,
      artificial_dissipation_parameters]
    norm_num
  · simp [volume_term_formula, volume_example, forLoop, List.range_succ,
      VolumeInput.grad, VolumeInput.interp, VolumeInput.source_at_q, VolumeInput.soln_at_q,
      VolumeInput.soln_grad_at_q, gradient_operator,
      interpolation_operator, vmult, interpolate_solution, interpolate_gradient,
      addAt, one_dof_fe, one_point_quadrature, advection_physics,
      artificial_dissipation_parameters]

/-- C9 (as amended): for every test function `itest` with component `istate`,
`assemble_boundary_term` returns
`rhs[itest] = sum_q (- phi_itest(q) F*_conv[q][istate] - phi_itest(q) F*_aux[q][istate] +
sum_d grad phi_itest(q)[d] * flux_jump[q][istate][d]) * surface_jac_det[q] * weight[q]`,
where `flux_jump` is the physics dissipative flux of the jump `(u* - u_int) n` plus, when
artificial dissipation is enabled, the physics artificial dissipative flux of that jump
with the coefficient of the cell. -/
theorem assemble_boundary_term_formula (x : BoundaryInput) (itest : Nat)
    (hitest : itest < x.fe_soln.dofs_per_cell) :
    (assemble_boundary_term x).1 itest
      = boundary_term_formula x
          (fun q s d =>
            x.physics.dissipative_flux (x.soln_int q)
                (soln_jump x.dim x.nstate (x.diss_soln_num_flux q) (x.soln_int q) (x.normals q))
                s d
              + if x.all_parameters.add_artificial_dissipation = true ∧ s < x.nstate then
                  x.physics.artificial_dissipative_flux x.artificial_dissipation_coeff
                    (x.soln_int q)
                    (soln_jump x.dim x.nstate (x.diss_soln_num_flux q) (x.soln_int q)
                      (x.normals q)) s d
                else 0)
          itest := by
  rw [assemble_boundary_term_rhs x itest hitest]
  unfold boundary_term_formula
  dsimp only
  apply Finset.sum_congr rfl
  intro q _
  congr 2
  apply Finset.sum_congr rfl
  intro d _
  congr 1
  unfold BoundaryInput.diss_flux_jump_int BoundaryInput.artificial_diss_coeff
  rw [diss_flux_of_jump_apply]
  by_cases h : x.all_parameters.add_artificial_dissipation = true
  · simp [h]
  · simp [h]

/-- Witness of C9 (as amended): the one-dimensional example with artificial dissipation. -/
theorem assemble_boundary_term_formula_witness :
    0 < boundary_example.fe_soln.dofs_per_cell ∧
    (assemble_boundary_term boundary_example).1 0
      = boundary_term_formula boundary_example
          (fun q s d =>
            boundary_example.physics.dissipative_flux (boundary_example.soln_int q)
                (soln_jump boundary_example.dim boundary_example.nstate
                  (boundary_example.diss_soln_num_flux q) (boundary_example.soln_int q)
                  (boundary_example.normals q))
                s d
              + if boundary_example.all_parameters.add_artificial_dissipation = true
                    ∧ s < boundary_example.nstate then
                  boundary_example.physics.artificial_dissipative_flux
                    boundary_example.artificial_dissipation_coeff
                    (boundary_example.soln_int q)
                    (soln_jump boundary_example.dim boundary_example.nstate
                      (boundary_example.diss_soln_num_flux q) (boundary_example.soln_int q)
                      (boundary_example.normals q)) s d
                else 0)
          0 :=
  ⟨by decide, assemble_boundary_term_formula boundary_example 0 (by decide)⟩

/-- C9 (counterexample): with artificial dissipation enabled (coefficient 3, artificial
flux `- coeff * grad u`) the boundary kernel returns -5/2 for the one-dimensional example,
while the formula with the physics dissipative flux of the jump alone as `flux_jump` gives
1/2. -/
theorem assemble_boundary_term_adds_artificial_dissipation :
    (assemble_boundary_term boundary_example).1 0 = -5 / 2 ∧
    boundary_term_formula boundary_example
      (fun q => boundary_example.physics.dissipative_flux (boundary_example.soln_int q)
        (soln_jump boundary_example.dim boundary_example.nstate
          (boundary_example.diss_soln_num_flux q) (boundary_example.soln_int q)
          (boundary_example.normals q)))
      0 = 1 / 2 := by
  constructor
  · simp [assemble_boundary_term, boundary_example, forLoop, List.range_succ, setAt, zeroVec,
      BoundaryInput.grad, BoundaryInput.interp, BoundaryInput.conv_num_flux_dot_n,
      BoundaryInput.diss_auxi_num_flux_dot_n, BoundaryInput.diss_flux_jump_int,
      BoundaryInput.diss_soln_num_flux, BoundaryInput.boundary_values, BoundaryInput.soln_int,
      BoundaryInput.soln_grad_int, BoundaryInput.normals, BoundaryInput.surface_jac_det,
      BoundaryInput.real_quad_pts, BoundaryInput.artificial_diss_coeff,
      gradient_operator, interpolation_operator, vmult, interpolate_solution,
      interpolate_gradient, interpolate_point, add_flux, diss_flux_of_jump, soln_jump,
      addAt, one_dof_fe, one_dof_fe_values, one_point_quadrature, advection_physics,
      central_flux, central_diss_flux, artificial_dissipation_parameters]
    norm_num
  · simp [boundary_term_formula, boundary_example, forLoop, List.range_succ,
      BoundaryInput.grad, BoundaryInput.interp, BoundaryInput.conv_num_flux_dot_n,
      BoundaryInput.diss_auxi_num_flux_dot_n,
      BoundaryInput.diss_soln_num_flux, BoundaryInput.boundary_values, BoundaryInput.soln_int,
      BoundaryInput.soln_grad_int, BoundaryInput.normals, BoundaryInput.surface_jac_det,
      BoundaryInput.real_quad_pts, BoundaryInput.artificial_diss_coeff,
      gradient_operator, interpolation_operator, vmult, interpolate_solution,
      interpolate_gradient, interpolate_point, soln_jump,
      addAt, one_dof_fe, one_dof_fe_values, one_point_quadrature, advection_physics,
      central_flux, central_diss_flux, artificial_dissipation_parameters]
    norm_num

/-! ### Mode dispatch -/

/-- C10: for every triple of flags each of the three dispatchers makes exactly one wrapper
call: the taped wrapper with the Hessian type iff `compute_d2R`, the taped wrapper with the
Jacobian type iff not `compute_d2R` and (`compute_dRdW` or `compute_dRdX`), the residual
wrapper iff no flag is set; and the three dispatchers make the same call. -/
theorem mode_dispatch_exactly_one_path (compute_dRdW compute_dRdX compute_d2R : Bool) :
    (assemble_volume_term_derivatives compute_dRdW compute_dRdX compute_d2R).length = 1 ∧
    (assemble_boundary_term_derivatives compute_dRdW compute_dRdX compute_d2R).length = 1 ∧
    (assemble_face_term_derivatives compute_dRdW compute_dRdX compute_d2R).length = 1 ∧
    (assemble_volume_term_derivatives compute_dRdW compute_dRdX compute_d2R
        = [WrapperCall.codi_taped_derivatives NumberType.codi_HessianComputationType]
      ↔ compute_d2R = true) ∧
    (assemble_volume_term_derivatives compute_dRdW compute_dRdX compute_d2R
        = [WrapperCall.codi_taped_derivatives NumberType.codi_JacobianComputationType]
      ↔ (compute_d2R = false ∧ (compute_dRdW = true ∨ compute_dRdX = true))) ∧
    (assemble_volume_term_derivatives compute_dRdW compute_dRdX compute_d2R
        = [WrapperCall.residual]
      ↔ (compute_dRdW = false ∧ compute_dRdX = false ∧ compute_d2R = false)) ∧
    assemble_boundary_term_derivatives compute_dRdW compute_dRdX compute_d2R
      = assemble_volume_term_derivatives compute_dRdW compute_dRdX compute_d2R ∧
    assemble_face_term_derivatives compute_dRdW compute_dRdX compute_d2R
      = assemble_volume_term_derivatives compute_dRdW compute_dRdX compute_d2R := by
  cases compute_dRdW <;> cases compute_dRdX <;> cases compute_d2R <;> decide

/-- Witness of C7: the one-dimensional boundary examples. -/
theorem boundary_kernel_convective_flux_witness :
    (0 < boundary_example.fe_soln.dofs_per_cell
      ∧ 0 < boundary_explicit_example.fe_values_boundary.dofs_per_cell) ∧
    ((∀ q, boundary_example.conv_num_flux_dot_n q
        = boundary_example.conv_num_flux.evaluate_flux (boundary_example.soln_int q)
            (boundary_example.physics.boundary_face_values boundary_example.boundary_id
                (boundary_example.real_quad_pts q) (boundary_example.normals q)
              (boundary_example.soln_int q) (boundary_example.soln_grad_int q)).1
            (boundary_example.normals q)) ∧
      (∀ q s, boundary_example.soln_int q s
        = ∑ idof ∈ Finset.range boundary_example.fe_soln.dofs_per_cell,
            if boundary_example.fe_values_boundary.fe_system_to_component_index idof = s then
              boundary_example.soln_coeff idof * boundary_example.fe_soln.shape_value idof
                  (boundary_example.face_quadrature.point q)
            else 0) ∧
      (assemble_boundary_term boundary_example).1 0
        = ∑ q ∈ Finset.range boundary_example.fe_values_boundary.n_quadrature_points,
            (- (boundary_example.interp 0 q
                  * boundary_example.conv_num_flux.evaluate_flux (boundary_example.soln_int q)
                      (boundary_example.physics.boundary_face_values boundary_example.boundary_id
                          (boundary_example.real_quad_pts q)
                        (boundary_example.normals q) (boundary_example.soln_int q)
                            (boundary_example.soln_grad_int q)).1
                      (boundary_example.normals q)
                          (boundary_example.fe_values_boundary.fe_system_to_component_index 0))
              - boundary_example.interp 0 q * boundary_example.diss_auxi_num_flux_dot_n q
                  (boundary_example.fe_values_boundary.fe_system_to_component_index 0)
              + ∑ d ∈ Finset.range boundary_example.dim, boundary_example.grad d 0 q *
                  boundary_example.diss_flux_jump_int q
                  (boundary_example.fe_values_boundary.fe_system_to_component_index 0) d)
            * (boundary_example.surface_jac_det q * boundary_example.face_quadrature.weight q) ∧
      (∀ q, boundary_explicit_example.conv_num_flux_dot_n q
        = boundary_explicit_example.conv_num_flux.evaluate_flux
            (boundary_explicit_example.soln_int q)
            (boundary_explicit_example.physics.boundary_face_values
                boundary_explicit_example.boundary_id
                    (boundary_explicit_example.fe_values_boundary.quadrature_point q)
              (boundary_explicit_example.fe_values_boundary.normal_vector q)
                  (boundary_explicit_example.soln_int q) (boundary_explicit_example.soln_grad_int
                      q)).1
            (boundary_explicit_example.fe_values_boundary.normal_vector q)) ∧
      (∀ q s, boundary_explicit_example.soln_int q s
        = ∑ idof ∈ Finset.range boundary_explicit_example.fe_values_boundary.dofs_per_cell,
            if boundary_explicit_example.fe_values_boundary.fe_system_to_component_index idof = s
                then
              boundary_explicit_example.soln_coeff_int idof *
                  boundary_explicit_example.fe_values_boundary.shape_value_component idof q
                (boundary_explicit_example.fe_values_boundary.fe_system_to_component_index idof)
            else 0) ∧
      assemble_boundary_term_explicit boundary_explicit_example 0
        = ∑ q ∈ Finset.range boundary_explicit_example.fe_values_boundary.n_quadrature_points,
            (- (boundary_explicit_example.fe_values_boundary.shape_value_component 0 q
                  (boundary_explicit_example.fe_values_boundary.fe_system_to_component_index 0)
                * boundary_explicit_example.conv_num_flux.evaluate_flux
                    (boundary_explicit_example.soln_int q)
                    (boundary_explicit_example.physics.boundary_face_values
                        boundary_explicit_example.boundary_id
                      (boundary_explicit_example.fe_values_boundary.quadrature_point q)
                      (boundary_explicit_example.fe_values_boundary.normal_vector q)
                          (boundary_explicit_example.soln_int q)
                      (boundary_explicit_example.soln_grad_int q)).1
                    (boundary_explicit_example.fe_values_boundary.normal_vector q)
                    (boundary_explicit_example.fe_values_boundary.fe_system_to_component_index 0))
              - boundary_explicit_example.fe_values_boundary.shape_value_component 0 q
                  (boundary_explicit_example.fe_values_boundary.fe_system_to_component_index 0)
                * boundary_explicit_example.diss_auxi_num_flux_dot_n q
                  (boundary_explicit_example.fe_values_boundary.fe_system_to_component_index 0)
              + ∑ d ∈ Finset.range boundary_explicit_example.dim,
                  boundary_explicit_example.fe_values_boundary.shape_grad_component 0 q
                    (boundary_explicit_example.fe_values_boundary.fe_system_to_component_index 0)
                        d
                  * boundary_explicit_example.diss_flux_jump_int q
                    (boundary_explicit_example.fe_values_boundary.fe_system_to_component_index 0)
                        d)
            * boundary_explicit_example.fe_values_boundary.JxW q) :=
  ⟨⟨by decide, by decide⟩,
    boundary_kernel_convective_flux boundary_example boundary_explicit_example 0 0
      (by decide) (by decide)⟩

/-! ### Derivative index layout -/

/-- C15: for every flag combination and all dof counts whose sum is an `unsigned int`,
`automatic_differentiation_indexing_1` returns `w_start = 0` and `x_start = w_end`; the
state range has length `n_soln_dofs` when `compute_dRdW` or `compute_d2R` is set and length
0 otherwise, the geometry range has length `n_metric_dofs` when `compute_dRdX` or
`compute_d2R` is set and length 0 otherwise; and when only the geometry Jacobian is
requested the geometry indices start at 0 and `x_end = n_metric_dofs`. -/
theorem automatic_differentiation_indexing_1_layout
    (compute_dRdW compute_dRdX compute_d2R : Bool) (n_soln_dofs n_metric_dofs : Nat)
    (hfit : n_soln_dofs + n_metric_dofs < 2 ^ 32) :
    (let r := automatic_differentiation_indexing_1 compute_dRdW compute_dRdX compute_d2R
      n_soln_dofs n_metric_dofs
    r.w_start = 0 ∧ r.x_start = r.w_end
      ∧ r.w_end = r.w_start + (if compute_dRdW || compute_d2R then n_soln_dofs else 0)
      ∧ r.x_end = r.x_start + (if compute_dRdX || compute_d2R then n_metric_dofs else 0)
      ∧ (compute_dRdX = true → compute_dRdW = false → compute_d2R = false →
          r.x_start = 0 ∧ r.x_end = n_metric_dofs)) := by
  cases compute_dRdW <;> cases compute_dRdX <;> cases compute_d2R <;>
    (simp [automatic_differentiation_indexing_1, unsigned_add] <;> omega)

theorem automatic_differentiation_indexing_1_layout_witness :
    2 + 3 < 2 ^ 32 ∧
    (let r := automatic_differentiation_indexing_1 false true false 2 3
    r.w_start = 0 ∧ r.x_start = r.w_end
      ∧ r.w_end = r.w_start + (if false || false then 2 else 0)
      ∧ r.x_end = r.x_start + (if true || false then 3 else 0)
      ∧ (true = true → false = false → false = false → r.x_start = 0 ∧ r.x_end = 3)) :=
  ⟨by norm_num, automatic_differentiation_indexing_1_layout false true false 2 3 (by norm_num)⟩

/-- C14: for every flag combination and all dof counts whose sum is an `unsigned int`,
`automatic_differentiation_indexing_2` returns four half-open ranges in the order
state-int, state-ext, geometry-int, geometry-ext that start at 0 and are contiguous and
pairwise disjoint; each state range has the length of its side's solution dofs when
`compute_dRdW` or `compute_d2R` is set and length 0 otherwise, and both geometry ranges
have length `n_metric_dofs` when `compute_dRdX` or `compute_d2R` is set and length 0
otherwise. -/
theorem automatic_differentiation_indexing_2_layout
    (compute_dRdW compute_dRdX compute_d2R : Bool)
    (n_soln_dofs_int n_soln_dofs_ext n_metric_dofs : Nat)
    (hfit : n_soln_dofs_int + n_soln_dofs_ext + n_metric_dofs + n_metric_dofs < 2 ^ 32) :
    (let r := automatic_differentiation_indexing_2 compute_dRdW compute_dRdX compute_d2R
      n_soln_dofs_int n_soln_dofs_ext n_metric_dofs
    (r.w_int_start = 0 ∧ r.w_int_end = r.w_ext_start ∧ r.w_ext_end = r.x_int_start
        ∧ r.x_int_end = r.x_ext_start)
      ∧ (r.w_int_end = r.w_int_start + (if compute_dRdW || compute_d2R then n_soln_dofs_int else 0)
        ∧ r.w_ext_end = r.w_ext_start + (if compute_dRdW || compute_d2R then n_soln_dofs_ext else 0)
        ∧ r.x_int_end = r.x_int_start + (if compute_dRdX || compute_d2R then n_metric_dofs else 0)
        ∧ r.x_ext_end = r.x_ext_start + (if compute_dRdX || compute_d2R then n_metric_dofs else 0))
      ∧ (Disjoint (index_range r.w_int_start r.w_int_end) (index_range r.w_ext_start r.w_ext_end)
        ∧ Disjoint (index_range r.w_int_start r.w_int_end) (index_range r.x_int_start r.x_int_end)
        ∧ Disjoint (index_range r.w_int_start r.w_int_end) (index_range r.x_ext_start r.x_ext_end)
        ∧ Disjoint (index_range r.w_ext_start r.w_ext_end) (index_range r.x_int_start r.x_int_end)
        ∧ Disjoint (index_range r.w_ext_start r.w_ext_end) (index_range r.x_ext_start r.x_ext_end)
        ∧ Disjoint (index_range r.x_int_start r.x_int_end) (index_range r.x_ext_start r.x_ext_end))) := by
  intro r
  have hchain : (r.w_int_start = 0 ∧ r.w_int_end = r.w_ext_start ∧ r.w_ext_end = r.x_int_start
        ∧ r.x_int_end = r.x_ext_start)
      ∧ (r.w_int_end = r.w_int_start + (if compute_dRdW || compute_d2R then n_soln_dofs_int else 0)
        ∧ r.w_ext_end = r.w_ext_start + (if compute_dRdW || compute_d2R then n_soln_dofs_ext else 0)
        ∧ r.x_int_end = r.x_int_start + (if compute_dRdX || compute_d2R then n_metric_dofs else 0)
        ∧ r.x_ext_end = r.x_ext_start + (if compute_dRdX || compute_d2R then n_metric_dofs else 0)) := by
    cases compute_dRdW <;> cases compute_dRdX <;> cases compute_d2R <;>
      (simp [r, automatic_differentiation_indexing_2, unsigned_add] <;> omega)
  refine ⟨hchain.1, hchain.2, ?_⟩
  obtain ⟨⟨c0, c1, c2, c3⟩, l1, l2, l3, l4⟩ := hchain
  simp only [index_range, Finset.disjoint_left, Finset.mem_Ico]
  refine ⟨?_, ?_, ?_, ?_, ?_, ?_⟩ <;> intro i hi hj <;> omega

theorem automatic_differentiation_indexing_2_layout_witness :
    2 + 4 + 3 + 3 < 2 ^ 32 ∧
    (let r := automatic_differentiation_indexing_2 false false true 2 4 3
    (r.w_int_start = 0 ∧ r.w_int_end = r.w_ext_start ∧ r.w_ext_end = r.x_int_start
        ∧ r.x_int_end = r.x_ext_start)
      ∧ (r.w_int_end = r.w_int_start + (if false || true then 2 else 0)
        ∧ r.w_ext_end = r.w_ext_start + (if false || true then 4 else 0)
        ∧ r.x_int_end = r.x_int_start + (if false || true then 3 else 0)
        ∧ r.x_ext_end = r.x_ext_start + (if false || true then 3 else 0))
      ∧ (Disjoint (index_range r.w_int_start r.w_int_end) (index_range r.w_ext_start r.w_ext_end)
        ∧ Disjoint (index_range r.w_int_start r.w_int_end) (index_range r.x_int_start r.x_int_end)
        ∧ Disjoint (index_range r.w_int_start r.w_int_end) (index_range r.x_ext_start r.x_ext_end)
        ∧ Disjoint (index_range r.w_ext_start r.w_ext_end) (index_range r.x_int_start r.x_int_end)
        ∧ Disjoint (index_range r.w_ext_start r.w_ext_end) (index_range r.x_ext_start r.x_ext_end)
        ∧ Disjoint (index_range r.x_int_start r.x_int_end) (index_range r.x_ext_start r.x_ext_end))) :=
  ⟨by norm_num, automatic_differentiation_indexing_2_layout false false true 2 4 3 (by norm_num)⟩

/-! ### Factory -/

/-- C20: `create_discontinuous_galerkin` returns an engine if and only if the PDE type is
advection, advection_vector, diffusion, convection_diffusion, burgers_inviscid or euler,
for either value of `use_weak_form`; for every other PDE type it returns no engine; and an
engine it returns is a weak-form engine exactly when `use_weak_form` is set. -/
theorem create_discontinuous_galerkin_supported (dim : Nat)
    (pde_type : PartialDifferentialEquation) (use_weak_form : Bool) (degree : Nat) :
    ((create_discontinuous_galerkin dim pde_type use_weak_form degree).isSome = true
        ↔ supported_pde_type pde_type)
      ∧ (¬ supported_pde_type pde_type →
          create_discontinuous_galerkin dim pde_type use_weak_form degree = none)
      ∧ (∀ dg, create_discontinuous_galerkin dim pde_type use_weak_form degree = some dg →
          dg.is_weak = use_weak_form) := by
  cases use_weak_form <;> cases pde_type <;>
    simp [create_discontinuous_galerkin, supported_pde_type, DGBase.is_weak]

theorem create_discontinuous_galerkin_supported_witness :
    ((create_discontinuous_galerkin 2 PartialDifferentialEquation.euler true 3).isSome = true
        ↔ supported_pde_type PartialDifferentialEquation.euler)
      ∧ (¬ supported_pde_type PartialDifferentialEquation.euler →
          create_discontinuous_galerkin 2 PartialDifferentialEquation.euler true 3 = none)
      ∧ (∀ dg, create_discontinuous_galerkin 2 PartialDifferentialEquation.euler true 3 = some dg →
          dg.is_weak = true) :=
  create_discontinuous_galerkin_supported 2 PartialDifferentialEquation.euler true 3

/-! ### Taped wrappers -/

theorem forLoop_registerOutput (f : Nat → TapeVariable) (n : Nat) (th : TapeHelper) :
    forLoop n (fun itest (th : TapeHelper) => th.registerOutput (f itest)) th
      = { th with outputs := th.outputs ++ (List.range n).map f } := by
  induction n with
  | zero => simp [forLoop_zero]
  | succ k ih => rw [forLoop_succ, ih]; simp [TapeHelper.registerOutput, List.range_succ]

theorem forLoop_registerInput_outputs (c : Prop) [Decidable c] (f : Nat → TapeVariable)
    (n : Nat) (th : TapeHelper) :
    (forLoop n (fun idof (th : TapeHelper) => if c then th.registerInput (f idof) else th)
      th).outputs = th.outputs := by
  apply forLoop_invariant (fun th : TapeHelper => th.outputs)
  intro i s
  by_cases hc : c <;> simp [TapeHelper.registerInput, hc]

theorem forLoop_registerInput_outputs_always (f : Nat → TapeVariable) (n : Nat)
    (th : TapeHelper) :
    (forLoop n (fun idof (th : TapeHelper) => th.registerInput (f idof)) th).outputs
      = th.outputs := by
  apply forLoop_invariant (fun th : TapeHelper => th.outputs)
  intro i s
  simp [TapeHelper.registerInput]

/-- With a first-order flag set, the outputs of the volume wrapper are the entries of
`rhs`, whatever `compute_d2R` is. -/
theorem assemble_volume_codi_taped_derivatives_outputs_first_order
    (compute_dRdW compute_dRdX compute_d2R : Bool) (n_soln_dofs n_metric_dofs : Nat)
    (h : (compute_dRdW || compute_dRdX) = true) :
    (assemble_volume_codi_taped_derivatives_tape compute_dRdW compute_dRdX compute_d2R
      n_soln_dofs n_metric_dofs).outputs = (List.range n_soln_dofs).map TapeVariable.rhs := by
  simp only [assemble_volume_codi_taped_derivatives_tape, h, if_true]
  rw [forLoop_registerOutput]
  simp [forLoop_registerInput_outputs, forLoop_registerInput_outputs_always]

/-- With `compute_d2R` the only flag set, the single output of the volume wrapper is
`dual_dot_residual` and `i_dependent` is its index. -/
theorem assemble_volume_codi_taped_derivatives_outputs_second_order
    (n_soln_dofs n_metric_dofs : Nat) :
    (assemble_volume_codi_taped_derivatives_tape false false true n_soln_dofs
        n_metric_dofs).outputs = [TapeVariable.dual_dot_residual]
      ∧ assemble_volume_codi_taped_derivatives_i_dependent false false n_soln_dofs = 0 := by
  simp [assemble_volume_codi_taped_derivatives_tape,
    assemble_volume_codi_taped_derivatives_i_dependent, TapeHelper.registerOutput,
    forLoop_registerInput_outputs, forLoop_registerInput_outputs_always]

theorem assemble_boundary_codi_taped_derivatives_outputs_first_order
    (compute_dRdW compute_dRdX compute_d2R : Bool) (n_soln_dofs n_metric_dofs : Nat)
    (h : (compute_dRdW || compute_dRdX) = true) :
    (assemble_boundary_codi_taped_derivatives_tape compute_dRdW compute_dRdX compute_d2R
      n_soln_dofs n_metric_dofs).outputs = (List.range n_soln_dofs).map TapeVariable.rhs := by
  simp only [assemble_boundary_codi_taped_derivatives_tape, h, if_true]
  rw [forLoop_registerOutput]
  simp [forLoop_registerInput_outputs, forLoop_registerInput_outputs_always]

theorem assemble_boundary_codi_taped_derivatives_outputs_second_order
    (n_soln_dofs n_metric_dofs : Nat) :
    (assemble_boundary_codi_taped_derivatives_tape false false true n_soln_dofs
        n_metric_dofs).outputs = [TapeVariable.dual_dot_residual]
      ∧ assemble_boundary_codi_taped_derivatives_i_dependent false false n_soln_dofs = 0 := by
  simp [assemble_boundary_codi_taped_derivatives_tape,
    assemble_boundary_codi_taped_derivatives_i_dependent, TapeHelper.registerOutput,
    forLoop_registerInput_outputs, forLoop_registerInput_outputs_always]

theorem assemble_face_codi_taped_derivatives_outputs_first_order
    (compute_dRdW compute_dRdX compute_d2R : Bool)
    (n_soln_dofs_int n_soln_dofs_ext n_metric_dofs : Nat)
    (h : (compute_dRdW || compute_dRdX) = true) :
    (assemble_face_codi_taped_derivatives_tape compute_dRdW compute_dRdX compute_d2R
      n_soln_dofs_int n_soln_dofs_ext n_metric_dofs).outputs
      = (List.range n_soln_dofs_int).map TapeVariable.rhs_int
        ++ (List.range n_soln_dofs_ext).map TapeVariable.rhs_ext := by
  simp only [assemble_face_codi_taped_derivatives_tape, h, if_true]
  rw [forLoop_registerOutput, forLoop_registerOutput]
  simp [forLoop_registerInput_outputs, forLoop_registerInput_outputs_always]

theorem assemble_face_codi_taped_derivatives_outputs_second_order
    (n_soln_dofs_int n_soln_dofs_ext n_metric_dofs : Nat) :
    (assemble_face_codi_taped_derivatives_tape false false true n_soln_dofs_int n_soln_dofs_ext
        n_metric_dofs).outputs = [TapeVariable.dual_dot_residual]
      ∧ assemble_face_codi_taped_derivatives_i_dependent false false n_soln_dofs_int
          n_soln_dofs_ext = 0 := by
  simp [assemble_face_codi_taped_derivatives_tape,
    assemble_face_codi_taped_derivatives_i_dependent, TapeHelper.registerOutput,
    forLoop_registerInput_outputs, forLoop_registerInput_outputs_always]

/-- C11: with `compute_dRdW` and `compute_d2R` both set, two solution dofs per cell and one
geometry dof, each taped wrapper registers the entries of `rhs` as its only outputs, does
not register `dual_dot_residual`, and reads the Hessian at the output index `i_dependent`
that is the number of registered outputs, which is the index of no output. -/
theorem second_order_output_not_registered :
    (let th := assemble_volume_codi_taped_derivatives_tape true false true 2 1
     let i_dependent := assemble_volume_codi_taped_derivatives_i_dependent true false 2
     th.outputs = [TapeVariable.rhs 0, TapeVariable.rhs 1]
       ∧ TapeVariable.dual_dot_residual ∉ th.outputs
       ∧ i_dependent = 2 ∧ th.outputs.get? i_dependent = none)
    ∧ (let th := assemble_boundary_codi_taped_derivatives_tape true false true 2 1
     let i_dependent := assemble_boundary_codi_taped_derivatives_i_dependent true false 2
     th.outputs = [TapeVariable.rhs 0, TapeVariable.rhs 1]
       ∧ TapeVariable.dual_dot_residual ∉ th.outputs
       ∧ i_dependent = 2 ∧ th.outputs.get? i_dependent = none)
    ∧ (let th := assemble_face_codi_taped_derivatives_tape true false true 2 2 1
     let i_dependent := assemble_face_codi_taped_derivatives_i_dependent true false 2 2
     th.outputs = [TapeVariable.rhs_int 0, TapeVariable.rhs_int 1, TapeVariable.rhs_ext 0,
         TapeVariable.rhs_ext 1]
       ∧ TapeVariable.dual_dot_residual ∉ th.outputs
       ∧ i_dependent = 4 ∧ th.outputs.get? i_dependent = none) := by
  decide

/-! ### Hessian scatter -/

theorem scattered_entries_append (l₁ l₂ : List HessianAdd) :
    scattered_entries (l₁ ++ l₂) = scattered_entries l₁ ++ scattered_entries l₂ := by
  simp [scattered_entries]

theorem mem_scattered_entries_forLoop (g : Nat → List HessianAdd)
    (body : Nat → List HessianAdd → List HessianAdd) (hbody : ∀ i s, body i s = s ++ g i)
    (n : Nat) (init : List HessianAdd) (e : HessianEntry) :
    e ∈ scattered_entries (forLoop n body init)
      ↔ e ∈ scattered_entries init ∨ ∃ i, i < n ∧ e ∈ scattered_entries (g i) := by
  have h := forLoop_trace (fun s : List HessianAdd => s) g body hbody n init
  simp only at h
  rw [h, scattered_entries_append, List.mem_append]
  simp [scattered_entries, List.mem_flatMap]
  constructor
  · rintro (h | ⟨c, ⟨i, hi, hc⟩, he⟩)
    · exact Or.inl h
    · exact Or.inr ⟨i, hi, c, hc, he⟩
  · rintro (h | ⟨i, hi, c, hc, he⟩)
    · exact Or.inl h
    · exact Or.inr ⟨c, ⟨i, hi, hc⟩, he⟩

theorem mem_entries_iff (matrix : HessianMatrix) (row n : Nat) (cols : Nat → Nat)
    (i_dependent i_dx start buffer_size : Nat) (e : HessianEntry) :
    e ∈ HessianAdd.entries ⟨matrix, row, dof_indices_vector n cols, i_dependent, i_dx,
        derivative_indices n start, buffer_size⟩
      ↔ ∃ j, j < n ∧ e = ⟨matrix, row, cols j, i_dependent, i_dx, unsigned_add j start⟩ := by
  simp only [HessianAdd.entries, dof_indices_vector, derivative_indices, List.zip_map',
    List.map_map, List.mem_map, List.mem_range, Function.comp]
  constructor
  · rintro ⟨j, hj, rfl⟩; exact ⟨j, hj, rfl⟩
  · rintro ⟨j, hj, rfl⟩; exact ⟨j, hj, rfl⟩

/-- The entries added by the `add` calls of one loop over the rows of a block are the
entries of the block, when the derivative indices of the block are `unsigned int` values. -/
theorem mem_block_iff (matrix : HessianMatrix) (i_dependent n_rows : Nat) (rows : Nat → Nat)
    (i_start n_cols : Nat) (cols : Nat → Nat) (j_start buffer_size : Nat)
    (hi : i_start + n_rows ≤ 2 ^ 32) (hj : j_start + n_cols ≤ 2 ^ 32) (e : HessianEntry) :
    (∃ i, i < n_rows ∧ e ∈ HessianAdd.entries ⟨matrix, rows i, dof_indices_vector n_cols cols,
        i_dependent, unsigned_add i i_start, derivative_indices n_cols j_start, buffer_size⟩)
      ↔ is_block_entry matrix i_dependent n_rows rows i_start n_cols cols j_start e := by
  simp only [mem_entries_iff, is_block_entry]
  constructor
  · rintro ⟨i, hi', j, hj', rfl⟩
    refine ⟨i, hi', j, hj', ?_⟩
    have h1 : unsigned_add i i_start = i_start + i := by
      unfold unsigned_add; rw [Nat.mod_eq_of_lt (by omega)]; omega
    have h2 : unsigned_add j j_start = j_start + j := by
      unfold unsigned_add; rw [Nat.mod_eq_of_lt (by omega)]; omega
    rw [h1, h2]
  · rintro ⟨i, hi', j, hj', rfl⟩
    refine ⟨i, hi', j, hj', ?_⟩
    have h1 : unsigned_add i i_start = i_start + i := by
      unfold unsigned_add; rw [Nat.mod_eq_of_lt (by omega)]; omega
    have h2 : unsigned_add j j_start = j_start + j := by
      unfold unsigned_add; rw [Nat.mod_eq_of_lt (by omega)]; omega
    rw [h1, h2]

theorem indexing_1_second_order (compute_dRdW compute_dRdX : Bool)
    (n_soln_dofs n_metric_dofs : Nat) (hfit : n_soln_dofs + n_metric_dofs < 2 ^ 32) :
    automatic_differentiation_indexing_1 compute_dRdW compute_dRdX true n_soln_dofs n_metric_dofs
      = ⟨0, n_soln_dofs, n_soln_dofs, n_soln_dofs + n_metric_dofs⟩ := by
  simp [automatic_differentiation_indexing_1, unsigned_add]
  omega

theorem volume_hessian_entries (compute_dRdW compute_dRdX : Bool)
    (n_soln_dofs n_metric_dofs : Nat) (soln_dof_indices metric_dof_indices : Nat → Nat)
    (hfit : n_soln_dofs + n_metric_dofs < 2 ^ 32) (e : HessianEntry) :
    e ∈ scattered_entries (assemble_volume_codi_taped_derivatives_hessian compute_dRdW
        compute_dRdX true n_soln_dofs n_metric_dofs soln_dof_indices metric_dof_indices)
      ↔ cell_hessian_blocks
          (assemble_volume_codi_taped_derivatives_i_dependent compute_dRdW compute_dRdX
            n_soln_dofs)
          n_soln_dofs n_metric_dofs soln_dof_indices metric_dof_indices e := by
  simp only [assemble_volume_codi_taped_derivatives_hessian,
    indexing_1_second_order _ _ _ _ hfit, if_true, cell_hessian_blocks]
  rw [mem_scattered_entries_forLoop (fun idof => [_]) _ (fun i s => rfl),
    mem_scattered_entries_forLoop (fun idof => [_, _]) _
      (fun i s => by rw [List.append_assoc]; rfl)]
  simp only [scattered_entries, List.flatMap_nil, List.not_mem_nil, false_or, List.flatMap_cons,
    List.mem_append, List.append_nil]
  rw [← mem_block_iff HessianMatrix.d2RdWdW _ n_soln_dofs soln_dof_indices 0 n_soln_dofs
      soln_dof_indices 0 n_soln_dofs (by omega) (by omega),
    ← mem_block_iff HessianMatrix.d2RdWdX _ n_soln_dofs soln_dof_indices 0 n_metric_dofs
      metric_dof_indices n_soln_dofs n_metric_dofs (by omega) (by omega),
    ← mem_block_iff HessianMatrix.d2RdXdX _ n_metric_dofs metric_dof_indices n_soln_dofs
      n_metric_dofs metric_dof_indices n_soln_dofs n_metric_dofs (by omega) (by omega)]
  constructor
  · rintro (⟨i, hi, h | h⟩ | ⟨i, hi, h⟩)
    · exact Or.inl ⟨i, hi, h⟩
    · exact Or.inr (Or.inl ⟨i, hi, h⟩)
    · exact Or.inr (Or.inr ⟨i, hi, h⟩)
  · rintro (⟨i, hi, h⟩ | ⟨i, hi, h⟩ | ⟨i, hi, h⟩)
    · exact Or.inl ⟨i, hi, Or.inl h⟩
    · exact Or.inl ⟨i, hi, Or.inr h⟩
    · exact Or.inr ⟨i, hi, h⟩

theorem boundary_hessian_entries (compute_dRdW compute_dRdX : Bool)
    (n_soln_dofs n_metric_dofs : Nat) (soln_dof_indices metric_dof_indices : Nat → Nat)
    (hfit : n_soln_dofs + n_metric_dofs < 2 ^ 32) (e : HessianEntry) :
    e ∈ scattered_entries (assemble_boundary_codi_taped_derivatives_hessian compute_dRdW
        compute_dRdX true n_soln_dofs n_metric_dofs soln_dof_indices metric_dof_indices)
      ↔ cell_hessian_blocks
          (assemble_boundary_codi_taped_derivatives_i_dependent compute_dRdW compute_dRdX
            n_soln_dofs)
          n_soln_dofs n_metric_dofs soln_dof_indices metric_dof_indices e :=
  volume_hessian_entries compute_dRdW compute_dRdX n_soln_dofs n_metric_dofs soln_dof_indices
    metric_dof_indices hfit e

theorem indexing_2_second_order (compute_dRdW compute_dRdX : Bool)
    (n_soln_dofs_int n_soln_dofs_ext n_metric_dofs : Nat)
    (hfit : n_soln_dofs_int + n_soln_dofs_ext + n_metric_dofs + n_metric_dofs < 2 ^ 32) :
    automatic_differentiation_indexing_2 compute_dRdW compute_dRdX true n_soln_dofs_int
        n_soln_dofs_ext n_metric_dofs
      = ⟨0, n_soln_dofs_int, n_soln_dofs_int, n_soln_dofs_int + n_soln_dofs_ext,
          n_soln_dofs_int + n_soln_dofs_ext, n_soln_dofs_int + n_soln_dofs_ext + n_metric_dofs,
          n_soln_dofs_int + n_soln_dofs_ext + n_metric_dofs,
          n_soln_dofs_int + n_soln_dofs_ext + n_metric_dofs + n_metric_dofs⟩ := by
  simp [automatic_differentiation_indexing_2, unsigned_add]
  omega

theorem face_hessian_entries (compute_dRdW compute_dRdX : Bool)
    (n_soln_dofs_int n_soln_dofs_ext n_metric_dofs : Nat)
    (soln_dof_indices_int soln_dof_indices_ext metric_dof_indices_int
      metric_dof_indices_ext : Nat → Nat)
    (hfit : n_soln_dofs_int + n_soln_dofs_ext + n_metric_dofs + n_metric_dofs < 2 ^ 32)
    (e : HessianEntry) :
    e ∈ scattered_entries (assemble_face_codi_taped_derivatives_hessian compute_dRdW
        compute_dRdX true n_soln_dofs_int n_soln_dofs_ext n_metric_dofs soln_dof_indices_int
        soln_dof_indices_ext metric_dof_indices_int metric_dof_indices_ext)
      ↔ face_hessian_blocks
          (assemble_face_codi_taped_derivatives_i_dependent compute_dRdW compute_dRdX
            n_soln_dofs_int n_soln_dofs_ext)
          n_soln_dofs_int n_soln_dofs_ext n_metric_dofs soln_dof_indices_int
          soln_dof_indices_ext metric_dof_indices_int metric_dof_indices_ext e := by
  simp only [assemble_face_codi_taped_derivatives_hessian,
    indexing_2_second_order _ _ _ _ _ hfit, if_true, face_hessian_blocks]
  rw [mem_scattered_entries_forLoop (fun idof => [_, _]) _
        (fun i s => by rw [List.append_assoc]; rfl),
    mem_scattered_entries_forLoop (fun idof => [_, _, _, _]) _
        (fun i s => by rw [List.append_assoc, List.append_assoc, List.append_assoc]; rfl),
    mem_scattered_entries_forLoop (fun idof => [_, _]) _
        (fun i s => by rw [List.append_assoc]; rfl),
    mem_scattered_entries_forLoop (fun idof => [_, _, _, _]) _
        (fun i s => by rw [List.append_assoc, List.append_assoc, List.append_assoc]; rfl)]
  simp only [scattered_entries, List.flatMap_nil, List.not_mem_nil, false_or, List.flatMap_cons,
    List.mem_append, List.append_nil]
  have hb := fun (matrix : HessianMatrix) (n_rows : Nat) (rows : Nat → Nat) (i_start n_cols : Nat)
      (cols : Nat → Nat) (j_start buffer_size : Nat) (hi : i_start + n_rows ≤ 2 ^ 32)
      (hj : j_start + n_cols ≤ 2 ^ 32) =>
    (mem_block_iff matrix
      (assemble_face_codi_taped_derivatives_i_dependent compute_dRdW compute_dRdX
        n_soln_dofs_int n_soln_dofs_ext)
      n_rows rows i_start n_cols cols j_start buffer_size hi hj e).symm
  rw [hb HessianMatrix.d2RdWdW n_soln_dofs_int soln_dof_indices_int 0 n_soln_dofs_int
      soln_dof_indices_int 0 n_soln_dofs_int (by omega) (by omega),
    hb HessianMatrix.d2RdWdW n_soln_dofs_int soln_dof_indices_int 0 n_soln_dofs_ext
      soln_dof_indices_ext n_soln_dofs_int n_soln_dofs_int (by omega) (by omega),
    hb HessianMatrix.d2RdWdW n_soln_dofs_ext soln_dof_indices_ext n_soln_dofs_int n_soln_dofs_int
      soln_dof_indices_int 0 n_soln_dofs_ext (by omega) (by omega),
    hb HessianMatrix.d2RdWdW n_soln_dofs_ext soln_dof_indices_ext n_soln_dofs_int n_soln_dofs_ext
      soln_dof_indices_ext n_soln_dofs_int n_soln_dofs_ext (by omega) (by omega),
    hb HessianMatrix.d2RdWdX n_soln_dofs_int soln_dof_indices_int 0 n_metric_dofs
      metric_dof_indices_int (n_soln_dofs_int + n_soln_dofs_ext) n_metric_dofs (by omega)
      (by omega),
    hb HessianMatrix.d2RdWdX n_soln_dofs_int soln_dof_indices_int 0 n_metric_dofs
      metric_dof_indices_ext (n_soln_dofs_int + n_soln_dofs_ext + n_metric_dofs) n_metric_dofs
      (by omega) (by omega),
    hb HessianMatrix.d2RdWdX n_soln_dofs_ext soln_dof_indices_ext n_soln_dofs_int n_metric_dofs
      metric_dof_indices_int (n_soln_dofs_int + n_soln_dofs_ext) n_metric_dofs (by omega)
      (by omega),
    hb HessianMatrix.d2RdWdX n_soln_dofs_ext soln_dof_indices_ext n_soln_dofs_int n_metric_dofs
      metric_dof_indices_ext (n_soln_dofs_int + n_soln_dofs_ext + n_metric_dofs) n_metric_dofs
      (by omega) (by omega),
    hb HessianMatrix.d2RdXdX n_metric_dofs metric_dof_indices_int
      (n_soln_dofs_int + n_soln_dofs_ext) n_metric_dofs metric_dof_indices_int
      (n_soln_dofs_int + n_soln_dofs_ext) n_metric_dofs (by omega) (by omega),
    hb HessianMatrix.d2RdXdX n_metric_dofs metric_dof_indices_int
      (n_soln_dofs_int + n_soln_dofs_ext) n_metric_dofs metric_dof_indices_ext
      (n_soln_dofs_int + n_soln_dofs_ext + n_metric_dofs) n_metric_dofs (by omega) (by omega),
    hb HessianMatrix.d2RdXdX n_metric_dofs metric_dof_indices_ext
      (n_soln_dofs_int + n_soln_dofs_ext + n_metric_dofs) n_metric_dofs metric_dof_indices_int
      (n_soln_dofs_int + n_soln_dofs_ext) n_metric_dofs (by omega) (by omega),
    hb HessianMatrix.d2RdXdX n_metric_dofs metric_dof_indices_ext
      (n_soln_dofs_int + n_soln_dofs_ext + n_metric_dofs) n_metric_dofs metric_dof_indices_ext
      (n_soln_dofs_int + n_soln_dofs_ext + n_metric_dofs) n_metric_dofs (by omega) (by omega)]
  simp only [and_or_left, exists_or]
  refine Iff.of_eq ?_
  ac_rfl

/-- C13 (counterexample): in second-order mode, with two solution dofs (numbered 10, 11; on
the exterior side 12, 13) and two geometry dofs (numbered 20, 21; 22, 23), the geometry-state
block of the Hessian has entries, and no wrapper adds one of them to a global structure. -/
theorem geometry_state_block_not_scattered :
    (¬ ∃ e ∈ scattered_entries (assemble_volume_codi_taped_derivatives_hessian false false true
          2 2 (fun i => 10 + i) (fun i => 20 + i)),
        e.is_geometry_state 0 2 2 4 [10, 11] [20, 21])
    ∧ (¬ ∃ e ∈ scattered_entries (assemble_boundary_codi_taped_derivatives_hessian false false
          true 2 2 (fun i => 10 + i) (fun i => 20 + i)),
        e.is_geometry_state 0 2 2 4 [10, 11] [20, 21])
    ∧ (¬ ∃ e ∈ scattered_entries (assemble_face_codi_taped_derivatives_hessian false false true
          2 2 2 (fun i => 10 + i) (fun i => 12 + i) (fun i => 20 + i) (fun i => 22 + i)),
        e.is_geometry_state 0 4 4 8 [10, 11, 12, 13] [20, 21, 22, 23]) := by
  decide

/-- C13 (amended): in second-order mode each taped wrapper scatters three blocks of the
Hessian of `dual_dot_residual` and nothing else: the entries it adds are exactly the
state-state entries, added to `d2RdWdW`, the state-geometry entries, added to `d2RdWdX`, and
the geometry-geometry entries, added to `d2RdXdX` (for the face wrapper, for each pair of
sides); the geometry-state block is not among them. -/
theorem hessian_scatter_three_blocks (compute_dRdW compute_dRdX : Bool)
    (n_soln_dofs n_soln_dofs_ext n_metric_dofs : Nat)
    (soln_dof_indices soln_dof_indices_ext metric_dof_indices metric_dof_indices_ext : Nat → Nat)
    (hfit : n_soln_dofs + n_soln_dofs_ext + n_metric_dofs + n_metric_dofs < 2 ^ 32)
    (e : HessianEntry) :
    (e ∈ scattered_entries (assemble_volume_codi_taped_derivatives_hessian compute_dRdW
          compute_dRdX true n_soln_dofs n_metric_dofs soln_dof_indices metric_dof_indices)
        ↔ cell_hessian_blocks
            (assemble_volume_codi_taped_derivatives_i_dependent compute_dRdW compute_dRdX
              n_soln_dofs)
            n_soln_dofs n_metric_dofs soln_dof_indices metric_dof_indices e)
    ∧ (e ∈ scattered_entries (assemble_boundary_codi_taped_derivatives_hessian compute_dRdW
          compute_dRdX true n_soln_dofs n_metric_dofs soln_dof_indices metric_dof_indices)
        ↔ cell_hessian_blocks
            (assemble_boundary_codi_taped_derivatives_i_dependent compute_dRdW compute_dRdX
              n_soln_dofs)
            n_soln_dofs n_metric_dofs soln_dof_indices metric_dof_indices e)
    ∧ (e ∈ scattered_entries (assemble_face_codi_taped_derivatives_hessian compute_dRdW
          compute_dRdX true n_soln_dofs n_soln_dofs_ext n_metric_dofs soln_dof_indices
          soln_dof_indices_ext metric_dof_indices metric_dof_indices_ext)
        ↔ face_hessian_blocks
            (assemble_face_codi_taped_derivatives_i_dependent compute_dRdW compute_dRdX
              n_soln_dofs n_soln_dofs_ext)
            n_soln_dofs n_soln_dofs_ext n_metric_dofs soln_dof_indices soln_dof_indices_ext
            metric_dof_indices metric_dof_indices_ext e)
    ∧ (e ∈ scattered_entries (assemble_volume_codi_taped_derivatives_hessian compute_dRdW
          compute_dRdX true n_soln_dofs n_metric_dofs soln_dof_indices metric_dof_indices)
        → ¬ ((n_soln_dofs ≤ e.i_dx ∧ e.i_dx < n_soln_dofs + n_metric_dofs)
              ∧ e.j_dx < n_soln_dofs))
    ∧ (e ∈ scattered_entries (assemble_boundary_codi_taped_derivatives_hessian compute_dRdW
          compute_dRdX true n_soln_dofs n_metric_dofs soln_dof_indices metric_dof_indices)
        → ¬ ((n_soln_dofs ≤ e.i_dx ∧ e.i_dx < n_soln_dofs + n_metric_dofs)
              ∧ e.j_dx < n_soln_dofs))
    ∧ (e ∈ scattered_entries (assemble_face_codi_taped_derivatives_hessian compute_dRdW
          compute_dRdX true n_soln_dofs n_soln_dofs_ext n_metric_dofs soln_dof_indices
          soln_dof_indices_ext metric_dof_indices metric_dof_indices_ext)
        → ¬ ((n_soln_dofs + n_soln_dofs_ext ≤ e.i_dx
                ∧ e.i_dx < n_soln_dofs + n_soln_dofs_ext + n_metric_dofs + n_metric_dofs)
              ∧ e.j_dx < n_soln_dofs + n_soln_dofs_ext)) := by
  have hv := volume_hessian_entries compute_dRdW compute_dRdX n_soln_dofs n_metric_dofs
    soln_dof_indices metric_dof_indices (by omega) e
  have hb := boundary_hessian_entries compute_dRdW compute_dRdX n_soln_dofs n_metric_dofs
    soln_dof_indices metric_dof_indices (by omega) e
  have hf := face_hessian_entries compute_dRdW compute_dRdX n_soln_dofs n_soln_dofs_ext
    n_metric_dofs soln_dof_indices soln_dof_indices_ext metric_dof_indices
    metric_dof_indices_ext hfit e
  refine ⟨hv, hb, hf, ?_, ?_, ?_⟩
  · intro h
    rcases hv.mp h with h | h | h <;> obtain ⟨i, hi, j, hj, rfl⟩ := h <;> dsimp only <;> omega
  · intro h
    rcases hb.mp h with h | h | h <;> obtain ⟨i, hi, j, hj, rfl⟩ := h <;> dsimp only <;> omega
  · intro h
    rcases hf.mp h with (h | h | h | h) | (h | h | h | h) | (h | h | h | h) <;>
      obtain ⟨i, hi, j, hj, rfl⟩ := h <;> dsimp only <;> omega

theorem hessian_scatter_three_blocks_witness :
    2 + 3 + 4 + 4 < 2 ^ 32 ∧
    (((HessianEntry.mk HessianMatrix.d2RdWdX 10 21 0 0 3) ∈ scattered_entries (assemble_volume_codi_taped_derivatives_hessian false
          false true 2 4 (fun i => 10 + i) (fun i => 20 + i))
        ↔ cell_hessian_blocks
            (assemble_volume_codi_taped_derivatives_i_dependent false false
              2)
            2 4 (fun i => 10 + i) (fun i => 20 + i) (HessianEntry.mk HessianMatrix.d2RdWdX 10 21 0 0 3))
    ∧ ((HessianEntry.mk HessianMatrix.d2RdWdX 10 21 0 0 3) ∈ scattered_entries (assemble_boundary_codi_taped_derivatives_hessian false
          false true 2 4 (fun i => 10 + i) (fun i => 20 + i))
        ↔ cell_hessian_blocks
            (assemble_boundary_codi_taped_derivatives_i_dependent false false
              2)
            2 4 (fun i => 10 + i) (fun i => 20 + i) (HessianEntry.mk HessianMatrix.d2RdWdX 10 21 0 0 3))
    ∧ ((HessianEntry.mk HessianMatrix.d2RdWdX 10 21 0 0 3) ∈ scattered_entries (assemble_face_codi_taped_derivatives_hessian false
          false true 2 3 4 (fun i => 10 + i)
          (fun i => 12 + i) (fun i => 20 + i) (fun i => 24 + i))
        ↔ face_hessian_blocks
            (assemble_face_codi_taped_derivatives_i_dependent false false
              2 3)
            2 3 4 (fun i => 10 + i) (fun i => 12 + i)
            (fun i => 20 + i) (fun i => 24 + i) (HessianEntry.mk HessianMatrix.d2RdWdX 10 21 0 0 3))
    ∧ ((HessianEntry.mk HessianMatrix.d2RdWdX 10 21 0 0 3) ∈ scattered_entries (assemble_volume_codi_taped_derivatives_hessian false
          false true 2 4 (fun i => 10 + i) (fun i => 20 + i))
        → ¬ ((2 ≤ (HessianEntry.mk HessianMatrix.d2RdWdX 10 21 0 0 3).i_dx ∧ (HessianEntry.mk HessianMatrix.d2RdWdX 10 21 0 0 3).i_dx < 2 + 4)
              ∧ (HessianEntry.mk HessianMatrix.d2RdWdX 10 21 0 0 3).j_dx < 2))
    ∧ ((HessianEntry.mk HessianMatrix.d2RdWdX 10 21 0 0 3) ∈ scattered_entries (assemble_boundary_codi_taped_derivatives_hessian false
          false true 2 4 (fun i => 10 + i) (fun i => 20 + i))
        → ¬ ((2 ≤ (HessianEntry.mk HessianMatrix.d2RdWdX 10 21 0 0 3).i_dx ∧ (HessianEntry.mk HessianMatrix.d2RdWdX 10 21 0 0 3).i_dx < 2 + 4)
              ∧ (HessianEntry.mk HessianMatrix.d2RdWdX 10 21 0 0 3).j_dx < 2))
    ∧ ((HessianEntry.mk HessianMatrix.d2RdWdX 10 21 0 0 3) ∈ scattered_entries (assemble_face_codi_taped_derivatives_hessian false
          false true 2 3 4 (fun i => 10 + i)
          (fun i => 12 + i) (fun i => 20 + i) (fun i => 24 + i))
        → ¬ ((2 + 3 ≤ (HessianEntry.mk HessianMatrix.d2RdWdX 10 21 0 0 3).i_dx
                ∧ (HessianEntry.mk HessianMatrix.d2RdWdX 10 21 0 0 3).i_dx < 2 + 3 + 4 + 4)
              ∧ (HessianEntry.mk HessianMatrix.d2RdWdX 10 21 0 0 3).j_dx < 2 + 3))) :=
  ⟨by norm_num, hessian_scatter_three_blocks false false 2 3 4 (fun i => 10 + i) (fun i => 12 + i)
    (fun i => 20 + i) (fun i => 24 + i) (by norm_num)
    (HessianEntry.mk HessianMatrix.d2RdWdX 10 21 0 0 3)⟩

/-! ### The adjoint-weighted residual -/

/-- A loop whose iteration `i` changes only entry `i` of a vector of the state and adds
`dual i` times the new entry to a scalar of the state leaves in the scalar the sum of
`dual i` times the entries. -/
theorem forLoop_dual_dot {σ : Type} (p : σ → Vec) (m : σ → ℚ) (dual : Vec)
    (body : Nat → σ → σ)
    (hm : ∀ i s, m (body i s) = m s + dual i * p (body i s) i)
    (hframe : ∀ i s j, j ≠ i → p (body i s) j = p s j) (n : Nat) (init : σ)
    (h0 : m init = 0) :
    m (forLoop n body init) = ∑ i ∈ Finset.range n, dual i * p (forLoop n body init) i := by
  induction n with
  | zero => simp [forLoop_zero, h0]
  | succ k ih =>
    rw [forLoop_succ, hm, ih, Finset.sum_range_succ]
    congr 1
    apply Finset.sum_congr rfl
    intro i hi
    have hne : i ≠ k := by
      have := Finset.mem_range.mp hi
      omega
    rw [hframe _ _ _ hne]

/-- A loop whose iterations below the bound keep a quantity keeps it. -/
theorem forLoop_invariant_lt {σ α : Type} (m : σ → α) (body : Nat → σ → σ) (n : Nat)
    (hbody : ∀ i s, i < n → m (body i s) = m s) (init : σ) :
    m (forLoop n body init) = m init := by
  induction n with
  | zero => rfl
  | succ k ih =>
    rw [forLoop_succ, hbody _ _ (Nat.lt_succ_self k)]
    exact ih (fun i s hi => hbody i s (Nat.lt_succ_of_lt hi))

theorem sum_addAt (n : Nat) (dual v : Vec) (k : Nat) (r : ℚ) (hk : k < n) :
    ∑ i ∈ Finset.range n, dual i * addAt v k r i
      = (∑ i ∈ Finset.range n, dual i * v i) + dual k * r := by
  have h : ∀ i, dual i * addAt v k r i = dual i * v i + if i = k then dual k * r else 0 := by
    intro i
    by_cases hik : i = k
    · subst hik; simp [addAt]; ring
    · simp [addAt, hik]
  simp only [h, Finset.sum_add_distrib]
  rw [Finset.sum_ite_eq' (Finset.range n) k (fun _ => dual k * r)]
  simp [hk]

theorem face_term_int_tests_dual_defect (x : FaceInput) (q : Nat) (out : FaceOutput) :
    (face_term_int_tests x q out).dual_defect x = out.dual_defect x := by
  unfold face_term_int_tests
  apply forLoop_invariant_lt (fun o : FaceOutput => o.dual_defect x)
  intro i s hi
  simp only [FaceOutput.dual_defect]
  rw [sum_addAt _ _ _ _ _ hi]
  ring

theorem face_term_ext_tests_dual_defect (x : FaceInput) (q : Nat) (out : FaceOutput) :
    (face_term_ext_tests x q out).dual_defect x = out.dual_defect x := by
  unfold face_term_ext_tests
  apply forLoop_invariant_lt (fun o : FaceOutput => o.dual_defect x)
  intro i s hi
  simp only [FaceOutput.dual_defect]
  rw [sum_addAt _ _ _ _ _ hi]
  ring

theorem assemble_volume_term_dual_dot (x : VolumeInput) :
    (assemble_volume_term x).2
      = ∑ itest ∈ Finset.range x.fe_soln.dofs_per_cell,
          x.local_dual itest * (assemble_volume_term x).1 itest := by
  unfold assemble_volume_term
  dsimp only
  apply forLoop_dual_dot (fun s : Vec × ℚ => s.1) (fun s : Vec × ℚ => s.2) x.local_dual
  · intro i s
    rfl
  · intro i s j hj
    dsimp only
    rw [forLoop_invariant (fun v : Vec => v j)]
    intro iquad v
    dsimp only
    split_ifs with hs
    · rw [setAt_other _ _ _ _ hj, forLoop_invariant (fun v : Vec => v j)]
      intro d w
      simp only [setAt_other _ _ _ _ hj]
    · rw [forLoop_invariant (fun v : Vec => v j)]
      intro d w
      simp only [setAt_other _ _ _ _ hj]
  · rfl

theorem assemble_boundary_term_dual_dot (x : BoundaryInput) :
    (assemble_boundary_term x).2
      = ∑ itest ∈ Finset.range x.fe_soln.dofs_per_cell,
          x.local_dual itest * (assemble_boundary_term x).1 itest := by
  unfold assemble_boundary_term
  dsimp only
  apply forLoop_dual_dot (fun s : Vec × ℚ => s.1) (fun s : Vec × ℚ => s.2) x.local_dual
  · intro i s
    dsimp only
    rw [setAt_same]
  · intro i s j hj
    dsimp only
    rw [setAt_other _ _ _ _ hj]
  · rfl

theorem assemble_face_term_dual_dot (x : FaceInput) :
    (assemble_face_term x).dual_dot_residual
      = (∑ i ∈ Finset.range x.fe_int.dofs_per_cell,
            x.dual_int i * (assemble_face_term x).rhs_int i)
        + ∑ j ∈ Finset.range x.fe_ext.dofs_per_cell,
            x.dual_ext j * (assemble_face_term x).rhs_ext j := by
  have h : (assemble_face_term x).dual_defect x = 0 := by
    unfold assemble_face_term
    dsimp only
    rw [forLoop_invariant (fun o : FaceOutput => o.dual_defect x)]
    · rw [forLoop_setAt_zero, forLoop_setAt_zero]
      simp [FaceOutput.dual_defect, zeroVec]
    · intro q s
      rw [face_term_ext_tests_dual_defect, face_term_int_tests_dual_defect]
  unfold FaceOutput.dual_defect at h
  linarith

/-- C12: on return from `assemble_volume_term` and from `assemble_boundary_term`,
`dual_dot_residual` is the sum over the test functions of `local_dual[itest] * rhs[itest]`;
on return from `assemble_face_term` it is the sum of `dual_int[i] * rhs_int[i]` over the
interior test functions plus the sum of `dual_ext[j] * rhs_ext[j]` over the exterior ones. -/
theorem dual_dot_residual_is_weighted_sum (xv : VolumeInput) (xb : BoundaryInput)
    (xf : FaceInput) :
    (assemble_volume_term xv).2
        = ∑ itest ∈ Finset.range xv.fe_soln.dofs_per_cell,
            xv.local_dual itest * (assemble_volume_term xv).1 itest
    ∧ (assemble_boundary_term xb).2
        = ∑ itest ∈ Finset.range xb.fe_soln.dofs_per_cell,
            xb.local_dual itest * (assemble_boundary_term xb).1 itest
    ∧ (assemble_face_term xf).dual_dot_residual
        = (∑ i ∈ Finset.range xf.fe_int.dofs_per_cell,
              xf.dual_int i * (assemble_face_term xf).rhs_int i)
          + ∑ j ∈ Finset.range xf.fe_ext.dofs_per_cell,
              xf.dual_ext j * (assemble_face_term xf).rhs_ext j :=
  ⟨assemble_volume_term_dual_dot xv, assemble_boundary_term_dual_dot xb,
    assemble_face_term_dual_dot xf⟩

/-! ### Metric terms -/

/-- The determinants of `determinant_ArrayTensor` are the determinants of the arrays of
gradients, entry by entry. -/
theorem determinant_ArrayTensor_apply (dim n : Nat) (coords_gradients : Nat → Nat → Nat → ℚ)
    (i : Nat) :
    determinant_ArrayTensor dim n coords_gradients i
      = if i < n then determinant dim (coords_gradients i) else 0 := by
  unfold determinant_ArrayTensor
  by_cases hd : dim = 1 ∨ dim = 2 ∨ dim = 3
  · rw [forLoop_entrywise_set (fun v : Vec => v) (fun i => determinant dim (coords_gradients i))]
    · rfl
    · intro k s
      rcases hd with h | h | h <;> subst h <;> simp [setAt, determinant]
      ring
    · intro k s j hj
      rcases hd with h | h | h <;> subst h <;> simp [setAt, hj]
  · have h1 : dim ≠ 1 := fun h => hd (Or.inl h)
    have h2 : dim ≠ 2 := fun h => hd (Or.inr (Or.inl h))
    have h3 : dim ≠ 3 := fun h => hd (Or.inr (Or.inr h))
    rw [forLoop_invariant (fun v : Vec => v)]
    · simp [zeroVec, determinant, h1, h2, h3]
    · intro k s
      simp [h1, h2, h3]

/-- The determinants that `evaluate_covariant_metric_jacobian` returns are the determinants
of the gradients of the geometry at the quadrature points. -/
theorem evaluate_covariant_metric_jacobian_determinants (dim : Nat) (quadrature : Quadrature)
    (coords_coeff : Vec) (fe_metric : FESystem) (fe_lagrange_grid : FiniteElement)
    (covariant_metric_jacobian : Nat → Nat → Nat → ℚ) (iquad : Nat)
    (hiquad : iquad < quadrature.size) :
    (evaluate_covariant_metric_jacobian dim quadrature coords_coeff fe_metric fe_lagrange_grid
        covariant_metric_jacobian).jacobian_determinants iquad
      = determinant dim (evaluate_finite_element_gradients dim dim quadrature.size
          quadrature.point coords_coeff fe_metric iquad) := by
  simp only [evaluate_covariant_metric_jacobian]
  rw [determinant_ArrayTensor_apply, if_pos hiquad]

/-- In more than one dimension the metric step of the volume kernel goes on with the
outputs of `evaluate_covariant_metric_jacobian`. -/
theorem assemble_volume_term_metric_terms_jac_det (dim : Nat) (quadrature : Quadrature)
    (coords_coeff : Vec) (fe_metric : FESystem) (fe_lagrange_grid : FiniteElement)
    (compute_metric_derivatives : Bool) (fe_values_vol : FEValues) (iquad : Nat)
    (hdim : dim ≠ 1) (hiquad : iquad < quadrature.size) :
    (assemble_volume_term_metric_terms dim quadrature coords_coeff fe_metric fe_lagrange_grid
        compute_metric_derivatives fe_values_vol).jac_det iquad
      = determinant dim (evaluate_finite_element_gradients dim dim quadrature.size
          quadrature.point coords_coeff fe_metric iquad) := by
  simp only [assemble_volume_term_metric_terms, hdim, ne_eq, not_false_eq_true, if_true]
  exact evaluate_covariant_metric_jacobian_determinants dim quadrature coords_coeff fe_metric
    fe_lagrange_grid _ iquad hiquad

/-- C18 (counterexample): on the unit square mapped by `(xi, eta) -> (1 - xi, eta)` the
Jacobian determinant at the quadrature point is `-1`, and `evaluate_covariant_metric_jacobian`
and the metric step of the volume kernel return metric terms for it: the determinant `-1`
and the inverse-transpose Jacobian with diagonal `-1`, `1`. -/
theorem inverted_element_metric_terms_returned :
    (evaluate_covariant_metric_jacobian 2 square_midpoint_quadrature inverted_square_coords
        square_fe_metric square_fe_lagrange_grid (fun _ _ _ => 0)).jacobian_determinants 0 = -1
    ∧ (evaluate_covariant_metric_jacobian 2 square_midpoint_quadrature inverted_square_coords
        square_fe_metric square_fe_lagrange_grid
        (fun _ _ _ => 0)).covariant_metric_jacobian 0 0 0 = -1
    ∧ (evaluate_covariant_metric_jacobian 2 square_midpoint_quadrature inverted_square_coords
        square_fe_metric square_fe_lagrange_grid
        (fun _ _ _ => 0)).covariant_metric_jacobian 0 1 1 = 1
    ∧ (assemble_volume_term_metric_terms 2 square_midpoint_quadrature inverted_square_coords
        square_fe_metric square_fe_lagrange_grid true one_dof_fe_values).jac_det 0 = -1
    ∧ (assemble_volume_term_metric_terms 2 square_midpoint_quadrature inverted_square_coords
        square_fe_metric square_fe_lagrange_grid true one_dof_fe_values).jac_inv_tran 0 0 0
        = -1 := by
  refine ⟨?_, ?_, ?_, ?_, ?_⟩
  · simp [evaluate_covariant_metric_jacobian, determinant_ArrayTensor, forLoop,
      evaluate_finite_element_gradients, square_midpoint_quadrature, inverted_square_coords,
      square_fe_metric, bilinear_shape_grad, setAt, set_entry3, zeroVec, List.range_succ]
    norm_num
  · simp [evaluate_covariant_metric_jacobian, determinant_ArrayTensor, forLoop,
      evaluate_finite_element_gradients, evaluate_finite_element_values,
      covariant_metric_jacobian_2, square_midpoint_quadrature, inverted_square_coords,
      clear_tensor, set_entry2, square_fe_metric, square_fe_lagrange_grid, bilinear_shape_grad,
      bilinear_shape_value, setAt, set_entry3, zeroVec, List.range_succ]
    norm_num
  · simp [evaluate_covariant_metric_jacobian, determinant_ArrayTensor, forLoop,
      evaluate_finite_element_gradients, evaluate_finite_element_values,
      covariant_metric_jacobian_2, square_midpoint_quadrature, inverted_square_coords,
      clear_tensor, set_entry2, square_fe_metric, square_fe_lagrange_grid, bilinear_shape_grad,
      bilinear_shape_value, setAt, set_entry3, zeroVec, List.range_succ]
    norm_num
  · simp [assemble_volume_term_metric_terms, evaluate_covariant_metric_jacobian,
      determinant_ArrayTensor, forLoop,
      evaluate_finite_element_gradients, square_midpoint_quadrature, inverted_square_coords,
      square_fe_metric, bilinear_shape_grad, setAt, set_entry3, zeroVec, List.range_succ]
    norm_num
  · simp [assemble_volume_term_metric_terms, evaluate_covariant_metric_jacobian,
      determinant_ArrayTensor, forLoop,
      evaluate_finite_element_gradients, evaluate_finite_element_values,
      covariant_metric_jacobian_2, square_midpoint_quadrature, inverted_square_coords,
      clear_tensor, set_entry2, square_fe_metric, square_fe_lagrange_grid, bilinear_shape_grad,
      bilinear_shape_value, setAt, set_entry3, zeroVec, List.range_succ]
    norm_num

/-- In one dimension the metric term that `evaluate_covariant_metric_jacobian` returns is
the inverse of the determinant. -/
theorem evaluate_covariant_metric_jacobian_inverse_1 (quadrature : Quadrature)
    (coords_coeff : Vec) (fe_metric : FESystem) (fe_lagrange_grid : FiniteElement)
    (covariant_metric_jacobian : Nat → Nat → Nat → ℚ) (iquad : Nat)
    (hiquad : iquad < quadrature.size) :
    (evaluate_covariant_metric_jacobian 1 quadrature coords_coeff fe_metric fe_lagrange_grid
        covariant_metric_jacobian).covariant_metric_jacobian iquad 0 0
      = 1 / determinant 1 (evaluate_finite_element_gradients 1 1 quadrature.size
          quadrature.point coords_coeff fe_metric iquad) := by
  simp only [evaluate_covariant_metric_jacobian, if_true, OfNat.one_ne_ofNat, if_false]
  rw [forLoop_entrywise_set (fun c : Nat → Nat → Nat → ℚ => fun k => c k 0 0)
    (fun k => 1 / determinant_ArrayTensor 1 quadrature.size
      (evaluate_finite_element_gradients 1 1 quadrature.size quadrature.point coords_coeff
        fe_metric) k)]
  · rw [if_pos hiquad, determinant_ArrayTensor_apply, if_pos hiquad]
  · intro k c
    simp [set_entry3]
  · intro k c j hj
    simp [set_entry3, hj]

/-- C18 (amended): the metric evaluation makes no check of the Jacobian determinant. At
every quadrature point, and for every geometry, the determinant that
`evaluate_covariant_metric_jacobian` returns is the determinant of the gradient of the
geometry at that point, whatever its sign; in one dimension the metric term it returns is
the inverse of that determinant; and in more than one dimension the metric step of the
volume kernel goes on with that determinant. -/
theorem metric_evaluation_returns_every_determinant (dim : Nat) (quadrature : Quadrature)
    (coords_coeff : Vec) (fe_metric : FESystem) (fe_lagrange_grid : FiniteElement)
    (covariant_metric_jacobian : Nat → Nat → Nat → ℚ) (compute_metric_derivatives : Bool)
    (fe_values_vol : FEValues) (iquad : Nat) (hiquad : iquad < quadrature.size) :
    (evaluate_covariant_metric_jacobian dim quadrature coords_coeff fe_metric fe_lagrange_grid
        covariant_metric_jacobian).jacobian_determinants iquad
      = determinant dim (evaluate_finite_element_gradients dim dim quadrature.size
          quadrature.point coords_coeff fe_metric iquad)
    ∧ (dim = 1 →
        (evaluate_covariant_metric_jacobian dim quadrature coords_coeff fe_metric
            fe_lagrange_grid covariant_metric_jacobian).covariant_metric_jacobian iquad 0 0
          = 1 / determinant dim (evaluate_finite_element_gradients dim dim quadrature.size
              quadrature.point coords_coeff fe_metric iquad))
    ∧ (dim ≠ 1 →
        (assemble_volume_term_metric_terms dim quadrature coords_coeff fe_metric
            fe_lagrange_grid compute_metric_derivatives fe_values_vol).jac_det iquad
          = determinant dim (evaluate_finite_element_gradients dim dim quadrature.size
              quadrature.point coords_coeff fe_metric iquad)) := by
  refine ⟨evaluate_covariant_metric_jacobian_determinants dim quadrature coords_coeff fe_metric
      fe_lagrange_grid covariant_metric_jacobian iquad hiquad, ?_,
    fun hdim => assemble_volume_term_metric_terms_jac_det dim quadrature coords_coeff fe_metric
      fe_lagrange_grid compute_metric_derivatives fe_values_vol iquad hdim hiquad⟩
  intro hdim
  subst hdim
  exact evaluate_covariant_metric_jacobian_inverse_1 quadrature coords_coeff fe_metric
    fe_lagrange_grid covariant_metric_jacobian iquad hiquad

theorem metric_evaluation_returns_every_determinant_witness :
    (evaluate_covariant_metric_jacobian 1 midpoint_quadrature inverted_line_coords line_fe_metric
        line_fe_lagrange_grid (fun _ _ _ => 0)).jacobian_determinants 0
      = determinant 1 (evaluate_finite_element_gradients 1 1 midpoint_quadrature.size
          midpoint_quadrature.point inverted_line_coords line_fe_metric 0)
    ∧ (evaluate_covariant_metric_jacobian 1 midpoint_quadrature inverted_line_coords line_fe_metric
        line_fe_lagrange_grid (fun _ _ _ => 0)).covariant_metric_jacobian 0 0 0
      = 1 / determinant 1 (evaluate_finite_element_gradients 1 1 midpoint_quadrature.size
          midpoint_quadrature.point inverted_line_coords line_fe_metric 0) :=
  ⟨(metric_evaluation_returns_every_determinant 1 midpoint_quadrature inverted_line_coords
      line_fe_metric line_fe_lagrange_grid (fun _ _ _ => 0) true one_dof_fe_values 0
      (by decide)).1,
    (metric_evaluation_returns_every_determinant 1 midpoint_quadrature inverted_line_coords
      line_fe_metric line_fe_lagrange_grid (fun _ _ _ => 0) true one_dof_fe_values 0
      (by decide)).2.1 rfl⟩

/-! ### Consistency checks of the face kernel -/

/-- A loop that stops with `none` at the first iteration whose check fails returns `none`
when some check fails, and otherwise the result of the loop without checks. -/
theorem forLoop_option {σ : Type} (bad : Nat → Prop) [DecidablePred bad] (f : Nat → σ → σ)
    (n : Nat) (init : σ) :
    forLoop n
        (fun i (s : Option σ) => s.bind (fun s => if bad i then none else some (f i s)))
        (some init)
      = if ∃ i, i < n ∧ bad i then none else some (forLoop n f init) := by
  induction n with
  | zero => simp [forLoop_zero]
  | succ k ih =>
    rw [forLoop_succ, ih, forLoop_succ]
    by_cases h : ∃ i, i < k ∧ bad i
    · obtain ⟨i, hi, hb⟩ := h
      have h2 : ∃ i, i < k + 1 ∧ bad i := ⟨i, Nat.lt_succ_of_lt hi, hb⟩
      simp [if_pos (⟨i, hi, hb⟩ : ∃ i, i < k ∧ bad i), if_pos h2]
    · rw [if_neg h]
      by_cases hk : bad k
      · have h2 : ∃ i, i < k + 1 ∧ bad i := ⟨k, Nat.lt_succ_self k, hk⟩
        simp [hk, if_pos h2]
      · have h2 : ¬ ∃ i, i < k + 1 ∧ bad i := by
          rintro ⟨i, hi, hb⟩
          by_cases hik : i = k
          · exact hk (hik ▸ hb)
          · exact h ⟨i, by omega, hb⟩
        simp [hk, if_neg h2]

/-- The face kernel with assertions aborts exactly when it is instantiated with plain
reals, assertions are compiled in and an assertion fails at some quadrature point; in
every other case it returns the outputs of `assemble_face_term`. -/
theorem assemble_face_term_with_assertions_eq (real2 : NumberType) (NDEBUG : Bool)
    (x : FaceInput) (face_subface_int face_subface_ext : Nat × Int) :
    assemble_face_term_with_assertions real2 NDEBUG x face_subface_int face_subface_ext
      = if ∃ iquad, iquad < x.face_quadrature.size
            ∧ (x.compute_metric_derivatives = true ∧ real2 = NumberType.real ∧ NDEBUG = false
              ∧ x.assertion_fails face_subface_int face_subface_ext iquad = true) then
          none
        else some (assemble_face_term x) := by
  unfold assemble_face_term_with_assertions assemble_face_term
  dsimp only
  exact forLoop_option
    (fun iquad => x.compute_metric_derivatives = true ∧ real2 = NumberType.real ∧ NDEBUG = false
      ∧ x.assertion_fails face_subface_int face_subface_ext iquad = true)
    (fun iquad out => face_term_ext_tests x iquad (face_term_int_tests x iquad out)) _ _

/-- The squared norm of the sum of the two normals, as a sum over the directions. -/
theorem diff_norm_squared_eq_sum (x : FaceInput) (iquad : Nat) :
    x.diff_norm_squared iquad
      = ∑ d ∈ Finset.range x.dim,
          (x.normal_normalized_int iquad d + x.normal_normalized_ext iquad d)
            * (x.normal_normalized_int iquad d + x.normal_normalized_ext iquad d) := by
  unfold FaceInput.diff_norm_squared
  rw [forLoop_sum (fun acc : ℚ => acc)
    (fun d => (x.normal_normalized_int iquad d + x.normal_normalized_ext iquad d)
      * (x.normal_normalized_int iquad d + x.normal_normalized_ext iquad d)) _ (fun _ _ => rfl)]
  simp

/-- A component of the sum of the two normals above `1e-10` in absolute value makes the
assertion on the normals fail. -/
theorem assertion_fails_of_component (x : FaceInput)
    (face_subface_int face_subface_ext : Nat × Int) (iquad d : Nat) (hd : d < x.dim)
    (h : |x.normal_normalized_int iquad d + x.normal_normalized_ext iquad d| > 1 / 10 ^ 10) :
    x.assertion_fails face_subface_int face_subface_ext iquad = true := by
  have hsq : x.diff_norm_squared iquad > (1 / 10 ^ 10) ^ 2 := by
    rw [diff_norm_squared_eq_sum]
    have h1 : (x.normal_normalized_int iquad d + x.normal_normalized_ext iquad d)
        * (x.normal_normalized_int iquad d + x.normal_normalized_ext iquad d)
        ≤ ∑ d ∈ Finset.range x.dim,
          (x.normal_normalized_int iquad d + x.normal_normalized_ext iquad d)
            * (x.normal_normalized_int iquad d + x.normal_normalized_ext iquad d) :=
      Finset.single_le_sum
        (f := fun d => (x.normal_normalized_int iquad d + x.normal_normalized_ext iquad d)
          * (x.normal_normalized_int iquad d + x.normal_normalized_ext iquad d))
        (fun i _ => mul_self_nonneg _) (Finset.mem_range.mpr hd)
    have h2 : (1 / 10 ^ 10 : ℚ) ^ 2
        < (x.normal_normalized_int iquad d + x.normal_normalized_ext iquad d)
          * (x.normal_normalized_int iquad d + x.normal_normalized_ext iquad d) := by
      rw [← abs_mul_abs_self (x.normal_normalized_int iquad d + x.normal_normalized_ext iquad d),
        pow_two]
      have hpos : (0 : ℚ) < 1 / 10 ^ 10 := by norm_num
      exact mul_lt_mul'' h h (le_of_lt hpos) (le_of_lt hpos)
    exact lt_of_lt_of_le h2 h1
  unfold FaceInput.assertion_fails
  simp only [Bool.or_eq_true, Bool.and_eq_true, decide_eq_true_eq, List.any_eq_true,
    List.mem_range, Bool.not_eq_true', decide_eq_false_iff_not, not_lt]
  exact Or.inr ⟨hsq, d, hd, le_of_lt h⟩

/-- Surface Jacobians of a conforming face that differ by `1e-12` or more make the
assertion on the Jacobians fail. -/
theorem assertion_fails_of_jacobians (x : FaceInput)
    (face_subface_int face_subface_ext : Nat × Int) (iquad : Nat)
    (hint : face_subface_int.2 = -1) (hext : face_subface_ext.2 = -1)
    (h : |x.surface_jac_det_int iquad - x.surface_jac_det_ext iquad| ≥ 1 / 10 ^ 12) :
    x.assertion_fails face_subface_int face_subface_ext iquad = true := by
  unfold FaceInput.assertion_fails
  simp only [Bool.or_eq_true, Bool.and_eq_true, decide_eq_true_eq, Bool.not_eq_true',
    decide_eq_false_iff_not, not_lt]
  exact Or.inl ⟨⟨hint, hext⟩, h⟩

/-- C19 (counterexample): in first-order and in second-order mode, with assertions compiled
in, on a conforming face whose two surface Jacobians are 1 and 1/2 at the quadrature point,
the face kernel does not abort: it returns its contribution. -/
theorem face_consistency_unchecked_in_derivative_modes :
    ((1, -1) : Nat × Int).2 = -1 ∧ ((0, -1) : Nat × Int).2 = -1
    ∧ 0 < face_example.face_quadrature.size
    ∧ |face_example.surface_jac_det_int 0 - face_example.surface_jac_det_ext 0| ≥ 1 / 10 ^ 12
    ∧ assemble_face_term_with_assertions NumberType.codi_JacobianComputationType false
        face_example (1, -1) (0, -1) = some (assemble_face_term face_example)
    ∧ assemble_face_term_with_assertions NumberType.codi_HessianComputationType false
        face_example (1, -1) (0, -1) = some (assemble_face_term face_example) := by
  refine ⟨rfl, rfl, by decide, ?_, ?_, ?_⟩
  · simp [FaceInput.surface_jac_det_int, FaceInput.surface_jac_det_ext,
      FaceInput.compute_metric_derivatives, face_example]
    norm_num [abs_of_pos]
  · rw [assemble_face_term_with_assertions_eq, if_neg]
    rintro ⟨iquad, _, _, h, _⟩
    exact absurd h (by decide)
  · rw [assemble_face_term_with_assertions_eq, if_neg]
    rintro ⟨iquad, _, _, h, _⟩
    exact absurd h (by decide)

/-- C19 (amended): in `assemble_face_term` instantiated with plain reals and compiled with
assertions, the call aborts when, at some quadrature point, the two surface Jacobians of a
conforming face (no sub-face on either side) differ by `1e-12` or more, or a component of
the sum of the normalized interior and exterior normals is above `1e-10` in absolute
value; instantiated with a differentiable type (first-order and second-order modes), or
compiled without assertions, the kernel makes no check and returns its contribution. -/
theorem face_consistency_assertions (real2 : NumberType) (NDEBUG : Bool) (x : FaceInput)
    (face_subface_int face_subface_ext : Nat × Int) :
    (real2 = NumberType.real → NDEBUG = false →
        face_subface_int.2 = -1 → face_subface_ext.2 = -1 →
        (∃ iquad, iquad < x.face_quadrature.size
          ∧ |x.surface_jac_det_int iquad - x.surface_jac_det_ext iquad| ≥ 1 / 10 ^ 12) →
        assemble_face_term_with_assertions real2 NDEBUG x face_subface_int face_subface_ext
          = none)
    ∧ (real2 = NumberType.real → NDEBUG = false →
        (∃ iquad, iquad < x.face_quadrature.size ∧ ∃ d, d < x.dim
          ∧ |x.normal_normalized_int iquad d + x.normal_normalized_ext iquad d| > 1 / 10 ^ 10) →
        assemble_face_term_with_assertions real2 NDEBUG x face_subface_int face_subface_ext
          = none)
    ∧ (real2 ≠ NumberType.real →
        assemble_face_term_with_assertions real2 NDEBUG x face_subface_int face_subface_ext
          = some (assemble_face_term x))
    ∧ (NDEBUG = true →
        assemble_face_term_with_assertions real2 NDEBUG x face_subface_int face_subface_ext
          = some (assemble_face_term x)) := by
  refine ⟨?_, ?_, ?_, ?_⟩
  · rintro hreal hdebug hint hext ⟨iquad, hq, hj⟩
    rw [assemble_face_term_with_assertions_eq, if_pos]
    exact ⟨iquad, hq, rfl, hreal, hdebug,
      assertion_fails_of_jacobians x _ _ iquad hint hext hj⟩
  · rintro hreal hdebug ⟨iquad, hq, d, hd, hn⟩
    rw [assemble_face_term_with_assertions_eq, if_pos]
    exact ⟨iquad, hq, rfl, hreal, hdebug, assertion_fails_of_component x _ _ iquad d hd hn⟩
  · intro hreal
    rw [assemble_face_term_with_assertions_eq, if_neg]
    rintro ⟨iquad, _, _, h, _⟩
    exact hreal h
  · intro hdebug
    rw [assemble_face_term_with_assertions_eq, if_neg]
    rintro ⟨iquad, _, _, _, h, _⟩
    rw [hdebug] at h
    exact absurd h (by decide)

theorem face_consistency_assertions_witness :
    assemble_face_term_with_assertions NumberType.real false face_example (1, -1) (0, -1) = none :=
  (face_consistency_assertions NumberType.real false face_example (1, -1) (0, -1)).1 rfl rfl rfl
    rfl ⟨0, by decide, by
      simp [FaceInput.surface_jac_det_int, FaceInput.surface_jac_det_ext,
        FaceInput.compute_metric_derivatives, face_example]
      norm_num [abs_of_pos]⟩

/-! ### Engine state -/

/-- C17 (counterexample): a call of `assemble_volume_term_explicit` for the cell of index 0
changes two per-cell arrays of the engine: `cell_volume[0]` goes from 0 to 1 and
`max_dt_cell[0]` from 0 to 1/2. -/
theorem assemble_volume_term_explicit_writes_cell_arrays :
    engine_example.cell_volume 0 = 0
    ∧ (assemble_volume_term_explicit engine_example volume_explicit_example).1.cell_volume 0 = 1
    ∧ engine_example.max_dt_cell 0 = 0
    ∧ (assemble_volume_term_explicit engine_example volume_explicit_example).1.max_dt_cell 0
        = 1 / 2 := by
  refine ⟨rfl, ?_, rfl, ?_⟩
  · simp [assemble_volume_term_explicit, VolumeExplicitInput.cell_volume, setAt, forLoop,
      volume_explicit_example, one_dof_fe_values, List.range_succ]
  · simp [assemble_volume_term_explicit, VolumeExplicitInput.max_dt,
      VolumeExplicitInput.cell_volume, setAt, forLoop, volume_explicit_example,
      one_dof_fe_values, List.range_succ]

/-- C17 (amended): a call of a boundary or face kernel or of the generic volume kernel
changes no state of the engine; a call of `assemble_volume_term_explicit` stores the sum of
the values `JxW` in `cell_volume[cell_index]` and the CFL time step in
`max_dt_cell[cell_index]` and changes no other entry of these two arrays and no other
member of the engine. -/
theorem kernel_calls_frame (engine : DGWeakState) (current_cell_index neighbor_cell_index : Nat)
    (soln_dof_indices_int soln_dof_indices_ext : Nat → Nat) (xv : VolumeExplicitInput)
    (xb : BoundaryExplicitInput) (xf : FaceExplicitInput) (yv : VolumeInput)
    (yb : BoundaryInput) (yf : FaceInput) :
    ((assemble_volume_term_explicit engine xv).1
        = { engine with
            cell_volume := setAt engine.cell_volume xv.cell_index
              (∑ iquad ∈ Finset.range xv.fe_values_vol.n_quadrature_points,
                xv.fe_values_vol.JxW iquad)
            max_dt_cell := setAt engine.max_dt_cell xv.cell_index (xv.max_dt engine) })
    ∧ (∀ cell, cell ≠ xv.cell_index →
        (assemble_volume_term_explicit engine xv).1.cell_volume cell = engine.cell_volume cell
        ∧ (assemble_volume_term_explicit engine xv).1.max_dt_cell cell
            = engine.max_dt_cell cell)
    ∧ (assemble_boundary_term_explicit_on engine current_cell_index soln_dof_indices_int xb).1
        = engine
    ∧ (assemble_face_term_explicit_on engine current_cell_index neighbor_cell_index
        soln_dof_indices_int soln_dof_indices_ext xf).1 = engine
    ∧ (assemble_volume_term_on engine current_cell_index yv).1 = engine
    ∧ (assemble_boundary_term_on engine current_cell_index yb).1 = engine
    ∧ (assemble_face_term_on engine current_cell_index neighbor_cell_index yf).1 = engine := by
  have hvol : xv.cell_volume
      = ∑ iquad ∈ Finset.range xv.fe_values_vol.n_quadrature_points,
          xv.fe_values_vol.JxW iquad := by
    unfold VolumeExplicitInput.cell_volume
    rw [forLoop_sum (fun v : ℚ => v) (fun iquad => xv.fe_values_vol.JxW iquad) _
      (fun _ _ => rfl)]
    simp
  refine ⟨?_, ?_, rfl, rfl, rfl, rfl, rfl⟩
  · simp only [assemble_volume_term_explicit, hvol]
  · intro cell hcell
    simp only [assemble_volume_term_explicit]
    exact ⟨setAt_other _ _ _ _ hcell, setAt_other _ _ _ _ hcell⟩

/-! ### The kernels as templates -/

/-- A map that commutes with the body of a loop commutes with the loop. -/
theorem forLoop_map {σ τ : Type} (f : σ → τ) (body : Nat → σ → σ) (body' : Nat → τ → τ)
    (h : ∀ i s, f (body i s) = body' i (f s)) (n : Nat) (init : σ) (init' : τ)
    (h0 : f init = init') :
    f (forLoop n body init) = forLoop n body' init' := by
  subst h0
  induction n with
  | zero => rfl
  | succ k ih => rw [forLoop_succ, forLoop_succ, h, ih]

section TemplatedAlgebra

variable {R : Type} [CommRing R] [Algebra ℚ R] (value : R →ₐ[ℚ] ℚ)

theorem value_algebraMap (c : ℚ) : value (algebraMap ℚ R c) = c := by
  rw [AlgHom.commutes]
  rfl

theorem value_setAt (v : Nat → R) (k : Nat) (x : R) (j : Nat) :
    value (Templated.setAt v k x j) = setAt (fun i => value (v i)) k (value x) j := by
  unfold Templated.setAt setAt
  split_ifs <;> rfl

theorem value_addAt (v : Nat → R) (k : Nat) (x : R) (j : Nat) :
    value (Templated.addAt v k x j) = addAt (fun i => value (v i)) k (value x) j := by
  unfold Templated.addAt addAt
  split_ifs
  · rw [map_add]
  · rfl

theorem value_interpolate_gradient (dim n_soln_dofs : Nat) (comp : Nat → Nat)
    (soln_coeff : Nat → R) (op : Nat → Nat → R) (s d : Nat) :
    value (Templated.interpolate_gradient dim n_soln_dofs comp soln_coeff op s d)
      = interpolate_gradient dim n_soln_dofs comp (fun idof => value (soln_coeff idof))
          (fun d idof => value (op d idof)) s d := by
  unfold Templated.interpolate_gradient interpolate_gradient
  exact congrFun (congrFun (forLoop_map (fun (g : Nat → Nat → R) (s d : Nat) => value (g s d)) _ _
    (by
      intro i g
      exact forLoop_map (fun (g : Nat → Nat → R) (s d : Nat) => value (g s d)) _ _
        (by
          intro e g
          funext s d
          simp only [apply_ite value, map_add, map_mul])
        dim _ _ rfl)
    n_soln_dofs _ _ (by funext s d; simp)) s) d

theorem value_add_flux (nstate : Nat) (flux extra : Nat → Nat → R) (s d : Nat) :
    value (Templated.add_flux nstate flux extra s d)
      = add_flux nstate (fun s d => value (flux s d)) (fun s d => value (extra s d)) s d := by
  unfold Templated.add_flux add_flux
  exact congrFun (congrFun (forLoop_map (fun (g : Nat → Nat → R) (s d : Nat) => value (g s d)) _ _
    (by
      intro t g
      funext s d
      simp only [apply_ite value, map_add])
    nstate _ _ rfl) s) d

theorem value_soln_jump (dim nstate : Nat) (u_star u n : Nat → R) (s d : Nat) :
    value (Templated.soln_jump dim nstate u_star u n s d)
      = soln_jump dim nstate (fun s => value (u_star s)) (fun s => value (u s))
          (fun d => value (n d)) s d := by
  unfold Templated.soln_jump soln_jump
  split_ifs
  · rw [map_mul, map_sub]
  · exact map_zero value

theorem advection_physics_commutes :
    (Templated.advection_physics : Templated.PhysicsBase R).commutes value advection_physics := by
  refine ⟨?_, ?_, ?_, ?_, ?_, ?_⟩ <;> intros <;>
    simp [Templated.advection_physics, advection_physics, map_ofNat]

theorem value_interpolate_solution (n_soln_dofs : Nat) (comp : Nat → Nat) (soln_coeff : Nat → R)
    (op : Nat → ℚ) (s : Nat) :
    value (Templated.interpolate_solution n_soln_dofs comp soln_coeff op s)
      = interpolate_solution n_soln_dofs comp (fun idof => value (soln_coeff idof)) op s := by
  unfold Templated.interpolate_solution interpolate_solution
  exact congrFun (forLoop_map (fun (soln : Nat → R) (s : Nat) => value (soln s)) _ _
    (by
      intro i soln
      funext s
      simp only [value_addAt, map_mul, value_algebraMap])
    n_soln_dofs _ _ (by funext s; simp)) s

theorem value_vmult (dim : Nat) (A : Nat → Nat → R) (x : Tensor1) (row : Nat) :
    value (Templated.vmult dim A x row) = vmult dim (fun r c => value (A r c)) x row := by
  unfold Templated.vmult vmult
  split_ifs
  · exact forLoop_map (fun y : R => value y) _ _
      (by intro col y; simp only [map_add, map_mul, value_algebraMap]) dim _ _ (map_zero value)
  · exact map_zero value

theorem value_interpolate_point (fe_metric : FESystem) (coords_coeff : Nat → R)
    (unit_quad_pt : Point) (d : Nat) :
    value (Templated.interpolate_point fe_metric coords_coeff unit_quad_pt d)
      = interpolate_point fe_metric (fun idof => value (coords_coeff idof)) unit_quad_pt d := by
  unfold Templated.interpolate_point interpolate_point
  exact congrFun (forLoop_map (fun (pt : Nat → R) (d : Nat) => value (pt d)) _ _
    (by
      intro i pt
      funext d
      simp only [value_addAt, map_mul, value_algebraMap])
    fe_metric.dofs_per_cell _ _ (by funext d; simp)) d

theorem value_diss_flux_of_jump (nstate : Nat) (all_parameters : AllParameters)
    (physics_ad : Templated.PhysicsBase R) (physics : PhysicsBase)
    (hphys : physics_ad.commutes value physics) (c : R) (u : Nat → R) (jump : Nat → Nat → R)
    (s d : Nat) :
    value (Templated.diss_flux_of_jump nstate all_parameters physics_ad c u jump s d)
      = diss_flux_of_jump nstate all_parameters physics (value c) (fun s => value (u s))
          (fun s d => value (jump s d)) s d := by
  unfold Templated.diss_flux_of_jump diss_flux_of_jump
  dsimp only
  split_ifs
  · rw [value_add_flux]
    congr 1
    · funext s d
      rw [hphys.2.1]
    · funext s d
      rw [hphys.2.2.1]
  · rw [hphys.2.1]

theorem value_local_coefficients (n : Nat) (global : Nat → ℚ) :
    (fun idof => value (forLoop n
        (fun idof (coeff : Nat → R) => Templated.setAt coeff idof (algebraMap ℚ R (global idof)))
        (fun _ => 0) idof))
      = forLoop n (fun idof coeff => setAt coeff idof (global idof)) zeroVec :=
  forLoop_map (fun (coeff : Nat → R) (i : Nat) => value (coeff i)) _ _
    (by intro i coeff; funext j; simp only [value_setAt, value_algebraMap]) n _ _
    (by funext j; simp [zeroVec])

theorem central_flux_commutes :
    (Templated.central_flux : Templated.NumericalFluxConvective R).commutes value
      central_flux := by
  intro a b n s
  simp only [Templated.central_flux, central_flux, map_mul, map_add, value_algebraMap]
  ring

theorem central_diss_flux_commutes :
    (Templated.central_diss_flux : Templated.NumericalFluxDissipative R).commutes value
      central_diss_flux := by
  refine ⟨?_, ?_⟩
  · intro a b n s
    simp only [Templated.central_diss_flux, central_diss_flux, map_mul, map_add,
      value_algebraMap]
    ring
  · intro c1 c2 a b ga gb n penalty on_boundary s
    simp only [Templated.central_diss_flux, central_diss_flux, map_mul, map_sub,
      value_algebraMap]

theorem value_gradient_operator (dim : Nat) (compute_metric_derivatives : Bool)
    (fe_soln : FESystem) (unit_quad_pts : Nat → Point) (jac_inv_tran : Nat → Nat → Nat → R)
    (jac_det : Nat → ℚ) (fe_values : FEValues) (d idof iquad : Nat) :
    value (Templated.gradient_operator dim compute_metric_derivatives fe_soln unit_quad_pts
        jac_inv_tran fe_values d idof iquad)
      = gradient_operator dim compute_metric_derivatives fe_soln unit_quad_pts
          ⟨jac_det, fun q r c => value (jac_inv_tran q r c)⟩ fe_values d idof iquad := by
  unfold Templated.gradient_operator gradient_operator
  split_ifs
  · exact value_vmult value _ _ _ _
  · exact value_algebraMap value _

end TemplatedAlgebra

section TemplatedValue

variable {R : Type} [CommRing R] [Algebra ℚ R] [Templated.RealOperations R] (value : R →ₐ[ℚ] ℚ)

theorem value_volume_artificial_diss_coeff (physics : PhysicsBase) (x : Templated.VolumeInput R) :
    value x.artificial_diss_coeff = (x.value value physics).artificial_diss_coeff := by
  unfold Templated.VolumeInput.artificial_diss_coeff VolumeInput.artificial_diss_coeff
  simp only [Templated.VolumeInput.value]
  split_ifs
  · exact value_algebraMap value _
  · exact map_zero value

theorem value_volume_grad (physics : PhysicsBase) (x : Templated.VolumeInput R)
    (d idof iquad : Nat) :
    value (x.grad d idof iquad) = (x.value value physics).grad d idof iquad := by
  unfold Templated.VolumeInput.grad VolumeInput.grad
  exact value_gradient_operator value _ _ _ _ _ _ _ _ _ _

theorem value_volume_soln_at_q (physics : PhysicsBase) (x : Templated.VolumeInput R)
    (iquad s : Nat) :
    value (x.soln_at_q iquad s) = (x.value value physics).soln_at_q iquad s := by
  unfold Templated.VolumeInput.soln_at_q VolumeInput.soln_at_q
  exact value_interpolate_solution value _ _ _ _ _

theorem value_volume_soln_grad_at_q (physics : PhysicsBase) (x : Templated.VolumeInput R)
    (iquad s d : Nat) :
    value (x.soln_grad_at_q iquad s d) = (x.value value physics).soln_grad_at_q iquad s d := by
  unfold Templated.VolumeInput.soln_grad_at_q VolumeInput.soln_grad_at_q
  rw [value_interpolate_gradient]
  have h : (fun d idof => value (x.grad d idof iquad))
      = fun d idof => (x.value value physics).grad d idof iquad := by
    funext d idof
    exact value_volume_grad value physics x d idof iquad
  rw [h]
  rfl

theorem value_volume_conv_phys_flux_at_q (physics : PhysicsBase) (x : Templated.VolumeInput R)
    (hphys : x.physics.commutes value physics) (iquad s d : Nat) :
    value (x.conv_phys_flux_at_q iquad s d)
      = (x.value value physics).conv_phys_flux_at_q iquad s d := by
  unfold Templated.VolumeInput.conv_phys_flux_at_q VolumeInput.conv_phys_flux_at_q
  rw [hphys.1]
  have h : (fun s => value (x.soln_at_q iquad s)) = (x.value value physics).soln_at_q iquad := by
    funext s
    exact value_volume_soln_at_q value physics x iquad s
  rw [h]
  rfl

theorem value_volume_diss_phys_flux_at_q (physics : PhysicsBase) (x : Templated.VolumeInput R)
    (hphys : x.physics.commutes value physics) (iquad s d : Nat) :
    value (x.diss_phys_flux_at_q iquad s d)
      = (x.value value physics).diss_phys_flux_at_q iquad s d := by
  have h1 : (fun s => value (x.soln_at_q iquad s)) = (x.value value physics).soln_at_q iquad := by
    funext s
    exact value_volume_soln_at_q value physics x iquad s
  have h2 : (fun s d => value (x.soln_grad_at_q iquad s d))
      = (x.value value physics).soln_grad_at_q iquad := by
    funext s d
    exact value_volume_soln_grad_at_q value physics x iquad s d
  unfold Templated.VolumeInput.diss_phys_flux_at_q VolumeInput.diss_phys_flux_at_q
  dsimp only
  have hp : (x.value value physics).physics = physics := rfl
  have ha : (x.value value physics).all_parameters = x.all_parameters := rfl
  have hn : (x.value value physics).nstate = x.nstate := rfl
  rw [hp, ha, hn]
  split_ifs
  · rw [value_add_flux]
    congr 1
    · funext s d
      rw [hphys.2.1, h1, h2]
    · funext s d
      rw [hphys.2.2.1, h1, h2, value_volume_artificial_diss_coeff value physics]
  · rw [hphys.2.1, h1, h2]

theorem value_volume_source_at_q (physics : PhysicsBase) (x : Templated.VolumeInput R)
    (hphys : x.physics.commutes value physics) (iquad s : Nat) :
    value (x.source_at_q iquad s) = (x.value value physics).source_at_q iquad s := by
  have h1 : (fun s => value (x.soln_at_q iquad s)) = (x.value value physics).soln_at_q iquad := by
    funext s
    exact value_volume_soln_at_q value physics x iquad s
  unfold Templated.VolumeInput.source_at_q VolumeInput.source_at_q
  dsimp only
  have hp : (x.value value physics).physics = physics := rfl
  have ha : (x.value value physics).all_parameters = x.all_parameters := rfl
  rw [hp, ha]
  split_ifs
  · rw [hphys.2.2.2.1, h1]
    congr 2
    funext d
    exact value_interpolate_point value _ _ _ _
  · exact map_zero value

/-- The kernel `assemble_volume_term` as the loop of its bodies. -/
theorem assemble_volume_term_eq_steps (x : VolumeInput) :
    assemble_volume_term x
      = forLoop x.fe_soln.dofs_per_cell (fun itest (s : Vec × ℚ) => x.test_step itest s)
          (forLoop x.fe_soln.dofs_per_cell (fun itest rhs => setAt rhs itest 0) zeroVec, 0) :=
  rfl

theorem value_volume_direction_step (physics : PhysicsBase) (x : Templated.VolumeInput R)
    (hphys : x.physics.commutes value physics) (itest iquad d : Nat) (rhs : Nat → R) :
    (fun i => value (x.direction_step itest iquad d rhs i))
      = (x.value value physics).direction_step itest iquad d (fun i => value (rhs i)) := by
  funext i
  unfold Templated.VolumeInput.direction_step VolumeInput.direction_step
  simp only [value_setAt, map_add, map_mul, value_algebraMap, value_volume_grad value physics,
    value_volume_conv_phys_flux_at_q value physics x hphys,
    value_volume_diss_phys_flux_at_q value physics x hphys]
  rfl

theorem value_volume_quadrature_step (physics : PhysicsBase) (x : Templated.VolumeInput R)
    (hphys : x.physics.commutes value physics) (itest iquad : Nat) (rhs : Nat → R) :
    (fun i => value (x.quadrature_step itest iquad rhs i))
      = (x.value value physics).quadrature_step itest iquad (fun i => value (rhs i)) := by
  have hin : (fun i => value (forLoop x.dim
        (fun d (rhs : Nat → R) => x.direction_step itest iquad d rhs) rhs i))
      = forLoop (x.value value physics).dim
          (fun d (rhs : Vec) => (x.value value physics).direction_step itest iquad d rhs)
          (fun i => value (rhs i)) :=
    forLoop_map (fun (rhs : Nat → R) (i : Nat) => value (rhs i)) _ _
      (fun d rhs => value_volume_direction_step value physics x hphys itest iquad d rhs)
      x.dim rhs _ rfl
  unfold Templated.VolumeInput.quadrature_step VolumeInput.quadrature_step
  dsimp only
  have ha : (x.value value physics).all_parameters = x.all_parameters := rfl
  rw [ha]
  have hin_i := fun i => congrFun hin i
  split_ifs with hs
  · funext i
    simp only [value_setAt, map_add, map_mul, value_algebraMap,
      value_volume_source_at_q value physics x hphys, hin_i]
    rfl
  · exact hin

theorem value_volume_test_step (physics : PhysicsBase) (x : Templated.VolumeInput R)
    (hphys : x.physics.commutes value physics) (itest : Nat) (s : (Nat → R) × R) :
    ((fun i => value ((x.test_step itest s).1 i), value (x.test_step itest s).2) : Vec × ℚ)
      = (x.value value physics).test_step itest (fun i => value (s.1 i), value s.2) := by
  have hin : (fun i => value (forLoop x.quadrature.size
        (fun iquad (rhs : Nat → R) => x.quadrature_step itest iquad rhs) s.1 i))
      = forLoop (x.value value physics).quadrature.size
          (fun iquad (rhs : Vec) => (x.value value physics).quadrature_step itest iquad rhs)
          (fun i => value (s.1 i)) :=
    forLoop_map (fun (rhs : Nat → R) (i : Nat) => value (rhs i)) _ _
      (fun iquad rhs => value_volume_quadrature_step value physics x hphys itest iquad rhs)
      x.quadrature.size s.1 _ rfl
  unfold Templated.VolumeInput.test_step VolumeInput.test_step
  simp only [Prod.mk.injEq, map_add, map_mul, value_algebraMap]
  exact ⟨hin, by rw [← congrFun hin itest]; rfl⟩

/-- The value projection of the outputs of the volume kernel template is the output of the
plain volume kernel on the value projection of the inputs. -/
theorem value_assemble_volume_term (physics : PhysicsBase) (x : Templated.VolumeInput R)
    (hphys : x.physics.commutes value physics) :
    ((fun itest => value ((Templated.assemble_volume_term x).1 itest),
        value (Templated.assemble_volume_term x).2) : Vec × ℚ)
      = assemble_volume_term (x.value value physics) := by
  rw [assemble_volume_term_eq_steps]
  unfold Templated.assemble_volume_term
  exact forLoop_map
    (fun (s : (Nat → R) × R) => ((fun i => value (s.1 i), value s.2) : Vec × ℚ)) _ _
    (fun itest s => value_volume_test_step value physics x hphys itest s)
    x.fe_soln.dofs_per_cell _ _
    (by
      simp only [Prod.mk.injEq, map_zero, and_true]
      exact forLoop_map (fun (rhs : Nat → R) (i : Nat) => value (rhs i)) _ _
        (by intro i rhs; funext j; simp only [value_setAt, map_zero]) _ _ _
        (by funext j; simp [zeroVec]))

end TemplatedValue

section TemplatedBoundary

variable {R : Type} [CommRing R] [Algebra ℚ R] [Templated.RealOperations R] (value : R →ₐ[ℚ] ℚ)

/-- The kernel `assemble_boundary_term` as the loop of its bodies. -/
theorem assemble_boundary_term_eq_steps (x : BoundaryInput) :
    assemble_boundary_term x
      = forLoop x.fe_soln.dofs_per_cell (fun itest (s : Vec × ℚ) => x.test_step itest s)
          (forLoop x.fe_soln.dofs_per_cell (fun itest rhs => setAt rhs itest 0) zeroVec, 0) :=
  rfl

theorem value_boundary_artificial_diss_coeff (physics : PhysicsBase)
    (conv_num_flux : NumericalFluxConvective) (diss_num_flux : NumericalFluxDissipative)
    (x : Templated.BoundaryInput R) :
    value x.artificial_diss_coeff
      = (x.value value physics conv_num_flux diss_num_flux).artificial_diss_coeff := by
  unfold Templated.BoundaryInput.artificial_diss_coeff BoundaryInput.artificial_diss_coeff
  simp only [Templated.BoundaryInput.value]
  split_ifs
  · exact value_algebraMap value _
  · exact map_zero value

theorem value_boundary_real_quad_pts (physics : PhysicsBase)
    (conv_num_flux : NumericalFluxConvective) (diss_num_flux : NumericalFluxDissipative)
    (x : Templated.BoundaryInput R) (iquad : Nat) :
    (fun d => value (x.real_quad_pts iquad d))
      = (x.value value physics conv_num_flux diss_num_flux).real_quad_pts iquad := by
  funext d
  unfold Templated.BoundaryInput.real_quad_pts BoundaryInput.real_quad_pts
  simp only [Templated.BoundaryInput.value]
  split_ifs
  · exact value_interpolate_point value _ _ _ _
  · exact value_algebraMap value _

theorem value_boundary_surface_jac_det (physics : PhysicsBase)
    (conv_num_flux : NumericalFluxConvective) (diss_num_flux : NumericalFluxDissipative)
    (x : Templated.BoundaryInput R) (iquad : Nat) :
    value (x.surface_jac_det iquad)
      = (x.value value physics conv_num_flux diss_num_flux).surface_jac_det iquad := by
  unfold Templated.BoundaryInput.surface_jac_det BoundaryInput.surface_jac_det
  simp only [Templated.BoundaryInput.value]
  split_ifs
  · rfl
  · exact value_algebraMap value _

theorem value_boundary_normals (physics : PhysicsBase)
    (conv_num_flux : NumericalFluxConvective) (diss_num_flux : NumericalFluxDissipative)
    (x : Templated.BoundaryInput R) (iquad : Nat) :
    (fun d => value (x.normals iquad d))
      = (x.value value physics conv_num_flux diss_num_flux).normals iquad := by
  funext d
  unfold Templated.BoundaryInput.normals BoundaryInput.normals
  simp only [Templated.BoundaryInput.value]
  split_ifs
  · rfl
  · exact value_algebraMap value _

theorem value_boundary_grad (physics : PhysicsBase)
    (conv_num_flux : NumericalFluxConvective) (diss_num_flux : NumericalFluxDissipative)
    (x : Templated.BoundaryInput R) (d idof iquad : Nat) :
    value (x.grad d idof iquad)
      = (x.value value physics conv_num_flux diss_num_flux).grad d idof iquad := by
  unfold Templated.BoundaryInput.grad BoundaryInput.grad
  exact value_gradient_operator value _ _ _ _ _ _ _ _ _ _

theorem value_boundary_soln_int (physics : PhysicsBase)
    (conv_num_flux : NumericalFluxConvective) (diss_num_flux : NumericalFluxDissipative)
    (x : Templated.BoundaryInput R) (iquad : Nat) :
    (fun s => value (x.soln_int iquad s))
      = (x.value value physics conv_num_flux diss_num_flux).soln_int iquad := by
  funext s
  unfold Templated.BoundaryInput.soln_int BoundaryInput.soln_int
  exact value_interpolate_solution value _ _ _ _ _

theorem value_boundary_soln_grad_int (physics : PhysicsBase)
    (conv_num_flux : NumericalFluxConvective) (diss_num_flux : NumericalFluxDissipative)
    (x : Templated.BoundaryInput R) (iquad : Nat) :
    (fun s d => value (x.soln_grad_int iquad s d))
      = (x.value value physics conv_num_flux diss_num_flux).soln_grad_int iquad := by
  funext s d
  unfold Templated.BoundaryInput.soln_grad_int BoundaryInput.soln_grad_int
  rw [value_interpolate_gradient]
  have h : (fun d idof => value (x.grad d idof iquad))
      = fun d idof => (x.value value physics conv_num_flux diss_num_flux).grad d idof iquad := by
    funext d idof
    exact value_boundary_grad value physics conv_num_flux diss_num_flux x d idof iquad
  rw [h]
  rfl

theorem value_boundary_values_1 (physics : PhysicsBase)
    (conv_num_flux : NumericalFluxConvective) (diss_num_flux : NumericalFluxDissipative)
    (x : Templated.BoundaryInput R) (hphys : x.physics.commutes value physics) (iquad : Nat) :
    (fun s => value ((x.boundary_values iquad).1 s))
      = ((x.value value physics conv_num_flux diss_num_flux).boundary_values iquad).1 := by
  funext s
  unfold Templated.BoundaryInput.boundary_values BoundaryInput.boundary_values
  rw [hphys.2.2.2.2.1, value_boundary_real_quad_pts value physics conv_num_flux diss_num_flux,
    value_boundary_normals value physics conv_num_flux diss_num_flux,
    value_boundary_soln_int value physics conv_num_flux diss_num_flux,
    value_boundary_soln_grad_int value physics conv_num_flux diss_num_flux]
  rfl

theorem value_boundary_values_2 (physics : PhysicsBase)
    (conv_num_flux : NumericalFluxConvective) (diss_num_flux : NumericalFluxDissipative)
    (x : Templated.BoundaryInput R) (hphys : x.physics.commutes value physics) (iquad : Nat) :
    (fun s d => value ((x.boundary_values iquad).2 s d))
      = ((x.value value physics conv_num_flux diss_num_flux).boundary_values iquad).2 := by
  funext s d
  unfold Templated.BoundaryInput.boundary_values BoundaryInput.boundary_values
  rw [hphys.2.2.2.2.2, value_boundary_real_quad_pts value physics conv_num_flux diss_num_flux,
    value_boundary_normals value physics conv_num_flux diss_num_flux,
    value_boundary_soln_int value physics conv_num_flux diss_num_flux,
    value_boundary_soln_grad_int value physics conv_num_flux diss_num_flux]
  rfl

theorem value_boundary_conv_num_flux_dot_n (physics : PhysicsBase)
    (conv_num_flux : NumericalFluxConvective) (diss_num_flux : NumericalFluxDissipative)
    (x : Templated.BoundaryInput R) (hphys : x.physics.commutes value physics)
    (hconv : x.conv_num_flux.commutes value conv_num_flux) (iquad s : Nat) :
    value (x.conv_num_flux_dot_n iquad s)
      = (x.value value physics conv_num_flux diss_num_flux).conv_num_flux_dot_n iquad s := by
  unfold Templated.BoundaryInput.conv_num_flux_dot_n BoundaryInput.conv_num_flux_dot_n
  rw [hconv, value_boundary_normals value physics conv_num_flux diss_num_flux,
    value_boundary_soln_int value physics conv_num_flux diss_num_flux,
    value_boundary_values_1 value physics conv_num_flux diss_num_flux x hphys]
  rfl

theorem value_boundary_diss_soln_num_flux (physics : PhysicsBase)
    (conv_num_flux : NumericalFluxConvective) (diss_num_flux : NumericalFluxDissipative)
    (x : Templated.BoundaryInput R) (hphys : x.physics.commutes value physics)
    (hdiss : x.diss_num_flux.commutes value diss_num_flux) (iquad : Nat) :
    (fun s => value (x.diss_soln_num_flux iquad s))
      = (x.value value physics conv_num_flux diss_num_flux).diss_soln_num_flux iquad := by
  funext s
  unfold Templated.BoundaryInput.diss_soln_num_flux BoundaryInput.diss_soln_num_flux
  rw [hdiss.1, value_boundary_normals value physics conv_num_flux diss_num_flux,
    value_boundary_values_1 value physics conv_num_flux diss_num_flux x hphys]
  rfl

theorem value_boundary_diss_flux_jump_int (physics : PhysicsBase)
    (conv_num_flux : NumericalFluxConvective) (diss_num_flux : NumericalFluxDissipative)
    (x : Templated.BoundaryInput R) (hphys : x.physics.commutes value physics)
    (hdiss : x.diss_num_flux.commutes value diss_num_flux) (iquad s d : Nat) :
    value (x.diss_flux_jump_int iquad s d)
      = (x.value value physics conv_num_flux diss_num_flux).diss_flux_jump_int iquad s d := by
  unfold Templated.BoundaryInput.diss_flux_jump_int BoundaryInput.diss_flux_jump_int
  rw [value_diss_flux_of_jump value _ _ _ physics hphys]
  have hj : (fun s d => value (Templated.soln_jump x.dim x.nstate (x.diss_soln_num_flux iquad)
        (x.soln_int iquad) (x.normals iquad) s d))
      = soln_jump x.dim x.nstate (fun s => value (x.diss_soln_num_flux iquad s))
          (fun s => value (x.soln_int iquad s)) (fun d => value (x.normals iquad d)) := by
    funext s d
    exact value_soln_jump value _ _ _ _ _ _ _
  rw [hj, value_boundary_artificial_diss_coeff value physics conv_num_flux diss_num_flux,
    value_boundary_normals value physics conv_num_flux diss_num_flux,
    value_boundary_soln_int value physics conv_num_flux diss_num_flux,
    value_boundary_diss_soln_num_flux value physics conv_num_flux diss_num_flux x hphys hdiss]
  rfl

theorem value_boundary_diss_auxi_num_flux_dot_n (physics : PhysicsBase)
    (conv_num_flux : NumericalFluxConvective) (diss_num_flux : NumericalFluxDissipative)
    (x : Templated.BoundaryInput R) (hphys : x.physics.commutes value physics)
    (hdiss : x.diss_num_flux.commutes value diss_num_flux) (iquad s : Nat) :
    value (x.diss_auxi_num_flux_dot_n iquad s)
      = (x.value value physics conv_num_flux diss_num_flux).diss_auxi_num_flux_dot_n iquad s := by
  unfold Templated.BoundaryInput.diss_auxi_num_flux_dot_n BoundaryInput.diss_auxi_num_flux_dot_n
  rw [hdiss.2, value_boundary_artificial_diss_coeff value physics conv_num_flux diss_num_flux,
    value_boundary_normals value physics conv_num_flux diss_num_flux,
    value_boundary_soln_int value physics conv_num_flux diss_num_flux,
    value_boundary_soln_grad_int value physics conv_num_flux diss_num_flux,
    value_boundary_values_1 value physics conv_num_flux diss_num_flux x hphys,
    value_boundary_values_2 value physics conv_num_flux diss_num_flux x hphys]
  rfl

theorem value_boundary_quadrature_step (physics : PhysicsBase)
    (conv_num_flux : NumericalFluxConvective) (diss_num_flux : NumericalFluxDissipative)
    (x : Templated.BoundaryInput R) (hphys : x.physics.commutes value physics)
    (hconv : x.conv_num_flux.commutes value conv_num_flux)
    (hdiss : x.diss_num_flux.commutes value diss_num_flux) (itest iquad : Nat) (rhs_val : R) :
    value (x.quadrature_step itest iquad rhs_val)
      = (x.value value physics conv_num_flux diss_num_flux).quadrature_step itest iquad
          (value rhs_val) := by
  unfold Templated.BoundaryInput.quadrature_step BoundaryInput.quadrature_step
  dsimp only
  refine forLoop_map (fun y : R => value y) _ _ ?_ x.dim _ _ ?_
  · intro d y
    simp only [map_add, map_mul, value_algebraMap,
      value_boundary_grad value physics conv_num_flux diss_num_flux,
      value_boundary_surface_jac_det value physics conv_num_flux diss_num_flux,
      value_boundary_diss_flux_jump_int value physics conv_num_flux diss_num_flux x hphys hdiss]
    rfl
  · simp only [map_sub, map_mul, value_algebraMap,
      value_boundary_surface_jac_det value physics conv_num_flux diss_num_flux,
      value_boundary_conv_num_flux_dot_n value physics conv_num_flux diss_num_flux x hphys hconv,
      value_boundary_diss_auxi_num_flux_dot_n value physics conv_num_flux diss_num_flux x hphys
        hdiss]
    rfl

theorem value_boundary_test_step (physics : PhysicsBase)
    (conv_num_flux : NumericalFluxConvective) (diss_num_flux : NumericalFluxDissipative)
    (x : Templated.BoundaryInput R) (hphys : x.physics.commutes value physics)
    (hconv : x.conv_num_flux.commutes value conv_num_flux)
    (hdiss : x.diss_num_flux.commutes value diss_num_flux) (itest : Nat) (s : (Nat → R) × R) :
    ((fun i => value ((x.test_step itest s).1 i), value (x.test_step itest s).2) : Vec × ℚ)
      = (x.value value physics conv_num_flux diss_num_flux).test_step itest
          (fun i => value (s.1 i), value s.2) := by
  have hin : value (forLoop x.fe_values_boundary.n_quadrature_points
        (fun iquad rhs_val => x.quadrature_step itest iquad rhs_val) (0 : R))
      = forLoop (x.value value physics conv_num_flux diss_num_flux).fe_values_boundary.n_quadrature_points
          (fun iquad rhs_val =>
            (x.value value physics conv_num_flux diss_num_flux).quadrature_step itest iquad rhs_val)
          (0 : ℚ) :=
    forLoop_map (fun y : R => value y) _ _
      (fun iquad y => value_boundary_quadrature_step value physics conv_num_flux diss_num_flux x
        hphys hconv hdiss itest iquad y)
      x.fe_values_boundary.n_quadrature_points _ _ (map_zero value)
  unfold Templated.BoundaryInput.test_step BoundaryInput.test_step
  simp only [Prod.mk.injEq, map_add, map_mul, value_algebraMap, hin]
  refine ⟨?_, rfl⟩
  funext i
  rw [value_setAt, hin]

/-- The value projection of the outputs of the boundary kernel template is the output of
the plain boundary kernel on the value projection of the inputs. -/
theorem value_assemble_boundary_term (physics : PhysicsBase)
    (conv_num_flux : NumericalFluxConvective) (diss_num_flux : NumericalFluxDissipative)
    (x : Templated.BoundaryInput R) (hphys : x.physics.commutes value physics)
    (hconv : x.conv_num_flux.commutes value conv_num_flux)
    (hdiss : x.diss_num_flux.commutes value diss_num_flux) :
    ((fun itest => value ((Templated.assemble_boundary_term x).1 itest),
        value (Templated.assemble_boundary_term x).2) : Vec × ℚ)
      = assemble_boundary_term (x.value value physics conv_num_flux diss_num_flux) := by
  rw [assemble_boundary_term_eq_steps]
  unfold Templated.assemble_boundary_term
  exact forLoop_map
    (fun (s : (Nat → R) × R) => ((fun i => value (s.1 i), value s.2) : Vec × ℚ)) _ _
    (fun itest s => value_boundary_test_step value physics conv_num_flux diss_num_flux x hphys
      hconv hdiss itest s)
    x.fe_soln.dofs_per_cell _ _
    (by
      simp only [Prod.mk.injEq, map_zero, and_true]
      exact forLoop_map (fun (rhs : Nat → R) (i : Nat) => value (rhs i)) _ _
        (by intro i rhs; funext j; simp only [value_setAt, map_zero]) _ _ _
        (by funext j; simp [zeroVec]))

end TemplatedBoundary

section TemplatedFace

variable {R : Type} [CommRing R] [Algebra ℚ R] [Templated.RealOperations R] (value : R →ₐ[ℚ] ℚ)

/-- The interior loop of `assemble_face_term` in terms of `rhs_int_at`. -/
theorem face_term_int_tests_eq_steps (x : FaceInput) (iquad : Nat) (out : FaceOutput) :
    face_term_int_tests x iquad out
      = forLoop x.fe_int.dofs_per_cell
          (fun itest_int (out : FaceOutput) =>
            { out with
              rhs_int := addAt out.rhs_int itest_int (x.rhs_int_at iquad itest_int)
              dual_dot_residual :=
                out.dual_dot_residual + x.dual_int itest_int * x.rhs_int_at iquad itest_int })
          out :=
  rfl

/-- The exterior loop of `assemble_face_term` in terms of `rhs_ext_at`. -/
theorem face_term_ext_tests_eq_steps (x : FaceInput) (iquad : Nat) (out : FaceOutput) :
    face_term_ext_tests x iquad out
      = forLoop x.fe_ext.dofs_per_cell
          (fun itest_ext (out : FaceOutput) =>
            { out with
              rhs_ext := addAt out.rhs_ext itest_ext (x.rhs_ext_at iquad itest_ext)
              dual_dot_residual :=
                out.dual_dot_residual + x.dual_ext itest_ext * x.rhs_ext_at iquad itest_ext })
          out :=
  rfl

variable (physics : PhysicsBase) (conv_num_flux : NumericalFluxConvective)
  (diss_num_flux : NumericalFluxDissipative) (x : Templated.FaceInput R)

theorem value_face_artificial_diss_coeff_int :
    value x.artificial_diss_coeff_int = (x.value value physics conv_num_flux diss_num_flux).artificial_diss_coeff_int := by
  unfold Templated.FaceInput.artificial_diss_coeff_int FaceInput.artificial_diss_coeff_int
  simp only [Templated.FaceInput.value]
  split_ifs
  · exact value_algebraMap value _
  · exact map_zero value

theorem value_face_artificial_diss_coeff_ext :
    value x.artificial_diss_coeff_ext = (x.value value physics conv_num_flux diss_num_flux).artificial_diss_coeff_ext := by
  unfold Templated.FaceInput.artificial_diss_coeff_ext FaceInput.artificial_diss_coeff_ext
  simp only [Templated.FaceInput.value]
  split_ifs
  · exact value_algebraMap value _
  · exact map_zero value

theorem value_face_surface_jac_det_int (iquad : Nat) :
    value (x.surface_jac_det_int iquad) = (x.value value physics conv_num_flux diss_num_flux).surface_jac_det_int iquad := rfl

theorem value_face_surface_jac_det_ext (iquad : Nat) :
    value (x.surface_jac_det_ext iquad) = (x.value value physics conv_num_flux diss_num_flux).surface_jac_det_ext iquad := rfl

theorem value_face_normal_normalized_int (iquad : Nat) :
    (fun d => value (x.normal_normalized_int iquad d)) = (x.value value physics conv_num_flux diss_num_flux).normal_normalized_int iquad := rfl

theorem value_face_normal_normalized_ext (iquad : Nat) :
    (fun d => value (x.normal_normalized_ext iquad d)) = (x.value value physics conv_num_flux diss_num_flux).normal_normalized_ext iquad := rfl

theorem value_face_surface_jac_det
    (hgt : ∀ a b : R, Templated.RealOperations.greater a b = decide (value a > value b)) (iquad : Nat) :
    value (x.surface_jac_det iquad) = (x.value value physics conv_num_flux diss_num_flux).surface_jac_det iquad := by
  unfold Templated.FaceInput.surface_jac_det FaceInput.surface_jac_det
  rw [hgt, value_face_surface_jac_det_int value physics conv_num_flux diss_num_flux, value_face_surface_jac_det_ext value physics conv_num_flux diss_num_flux]
  simp only [decide_eq_true_eq]
  split_ifs
  · exact value_face_surface_jac_det_ext value physics conv_num_flux diss_num_flux x iquad
  · exact value_face_surface_jac_det_int value physics conv_num_flux diss_num_flux x iquad

theorem value_face_grad_int (d idof iquad : Nat) :
    value (x.grad_int d idof iquad) = (x.value value physics conv_num_flux diss_num_flux).grad_int d idof iquad := by
  unfold Templated.FaceInput.grad_int FaceInput.grad_int
  exact value_gradient_operator value _ _ _ _ _ _ _ _ _ _

theorem value_face_grad_ext (d idof iquad : Nat) :
    value (x.grad_ext d idof iquad) = (x.value value physics conv_num_flux diss_num_flux).grad_ext d idof iquad := by
  unfold Templated.FaceInput.grad_ext FaceInput.grad_ext
  exact value_gradient_operator value _ _ _ _ _ _ _ _ _ _

theorem value_face_soln_int (iquad : Nat) :
    (fun s => value (x.soln_int iquad s)) = (x.value value physics conv_num_flux diss_num_flux).soln_int iquad := by
  funext s
  unfold Templated.FaceInput.soln_int FaceInput.soln_int
  exact value_interpolate_solution value _ _ _ _ _

theorem value_face_soln_ext (iquad : Nat) :
    (fun s => value (x.soln_ext iquad s)) = (x.value value physics conv_num_flux diss_num_flux).soln_ext iquad := by
  funext s
  unfold Templated.FaceInput.soln_ext FaceInput.soln_ext
  exact value_interpolate_solution value _ _ _ _ _

theorem value_face_soln_grad_int (iquad : Nat) :
    (fun s d => value (x.soln_grad_int iquad s d)) = (x.value value physics conv_num_flux diss_num_flux).soln_grad_int iquad := by
  funext s d
  unfold Templated.FaceInput.soln_grad_int FaceInput.soln_grad_int
  rw [value_interpolate_gradient]
  have h : (fun d idof => value (x.grad_int d idof iquad))
      = fun d idof => (x.value value physics conv_num_flux diss_num_flux).grad_int d idof iquad := by
    funext d idof
    exact value_face_grad_int value physics conv_num_flux diss_num_flux x d idof iquad
  rw [h]
  rfl

theorem value_face_soln_grad_ext (iquad : Nat) :
    (fun s d => value (x.soln_grad_ext iquad s d)) = (x.value value physics conv_num_flux diss_num_flux).soln_grad_ext iquad := by
  funext s d
  unfold Templated.FaceInput.soln_grad_ext FaceInput.soln_grad_ext
  rw [value_interpolate_gradient]
  have h : (fun d idof => value (x.grad_ext d idof iquad))
      = fun d idof => (x.value value physics conv_num_flux diss_num_flux).grad_ext d idof iquad := by
    funext d idof
    exact value_face_grad_ext value physics conv_num_flux diss_num_flux x d idof iquad
  rw [h]
  rfl

theorem value_face_conv_num_flux_dot_n (hconv : x.conv_num_flux.commutes value conv_num_flux)
    (iquad s : Nat) :
    value (x.conv_num_flux_dot_n iquad s) = (x.value value physics conv_num_flux diss_num_flux).conv_num_flux_dot_n iquad s := by
  unfold Templated.FaceInput.conv_num_flux_dot_n FaceInput.conv_num_flux_dot_n
  rw [hconv, value_face_normal_normalized_int value physics conv_num_flux diss_num_flux, value_face_soln_int value physics conv_num_flux diss_num_flux,
    value_face_soln_ext value physics conv_num_flux diss_num_flux]
  rfl

theorem value_face_diss_soln_num_flux (hdiss : x.diss_num_flux.commutes value diss_num_flux)
    (iquad : Nat) :
    (fun s => value (x.diss_soln_num_flux iquad s)) = (x.value value physics conv_num_flux diss_num_flux).diss_soln_num_flux iquad := by
  funext s
  unfold Templated.FaceInput.diss_soln_num_flux FaceInput.diss_soln_num_flux
  rw [hdiss.1, value_face_normal_normalized_int value physics conv_num_flux diss_num_flux, value_face_soln_int value physics conv_num_flux diss_num_flux,
    value_face_soln_ext value physics conv_num_flux diss_num_flux]
  rfl

theorem value_face_diss_flux_jump_int (hphys : x.physics.commutes value physics)
    (hdiss : x.diss_num_flux.commutes value diss_num_flux) (iquad s d : Nat) :
    value (x.diss_flux_jump_int iquad s d) = (x.value value physics conv_num_flux diss_num_flux).diss_flux_jump_int iquad s d := by
  unfold Templated.FaceInput.diss_flux_jump_int FaceInput.diss_flux_jump_int
  rw [value_diss_flux_of_jump value _ _ _ physics hphys]
  have hj : (fun s d => value (Templated.soln_jump x.dim x.nstate (x.diss_soln_num_flux iquad)
        (x.soln_int iquad) (x.normal_normalized_int iquad) s d))
      = soln_jump x.dim x.nstate (fun s => value (x.diss_soln_num_flux iquad s))
          (fun s => value (x.soln_int iquad s))
          (fun d => value (x.normal_normalized_int iquad d)) := by
    funext s d
    exact value_soln_jump value _ _ _ _ _ _ _
  rw [hj, value_face_artificial_diss_coeff_int value physics conv_num_flux diss_num_flux, value_face_normal_normalized_int value physics conv_num_flux diss_num_flux,
    value_face_soln_int value physics conv_num_flux diss_num_flux, value_face_diss_soln_num_flux value physics conv_num_flux diss_num_flux x hdiss]
  rfl

theorem value_face_diss_flux_jump_ext (hphys : x.physics.commutes value physics)
    (hdiss : x.diss_num_flux.commutes value diss_num_flux) (iquad s d : Nat) :
    value (x.diss_flux_jump_ext iquad s d) = (x.value value physics conv_num_flux diss_num_flux).diss_flux_jump_ext iquad s d := by
  unfold Templated.FaceInput.diss_flux_jump_ext FaceInput.diss_flux_jump_ext
  rw [value_diss_flux_of_jump value _ _ _ physics hphys]
  have hj : (fun s d => value (Templated.soln_jump x.dim x.nstate (x.diss_soln_num_flux iquad)
        (x.soln_ext iquad) (x.normal_normalized_ext iquad) s d))
      = soln_jump x.dim x.nstate (fun s => value (x.diss_soln_num_flux iquad s))
          (fun s => value (x.soln_ext iquad s))
          (fun d => value (x.normal_normalized_ext iquad d)) := by
    funext s d
    exact value_soln_jump value _ _ _ _ _ _ _
  rw [hj, value_face_artificial_diss_coeff_ext value physics conv_num_flux diss_num_flux, value_face_normal_normalized_ext value physics conv_num_flux diss_num_flux,
    value_face_soln_ext value physics conv_num_flux diss_num_flux, value_face_diss_soln_num_flux value physics conv_num_flux diss_num_flux x hdiss]
  rfl

theorem value_face_diss_auxi_num_flux_dot_n
    (hdiss : x.diss_num_flux.commutes value diss_num_flux) (iquad s : Nat) :
    value (x.diss_auxi_num_flux_dot_n iquad s) = (x.value value physics conv_num_flux diss_num_flux).diss_auxi_num_flux_dot_n iquad s := by
  unfold Templated.FaceInput.diss_auxi_num_flux_dot_n FaceInput.diss_auxi_num_flux_dot_n
  rw [hdiss.2, value_face_artificial_diss_coeff_int value physics conv_num_flux diss_num_flux,
    value_face_artificial_diss_coeff_ext value physics conv_num_flux diss_num_flux, value_face_normal_normalized_int value physics conv_num_flux diss_num_flux,
    value_face_soln_int value physics conv_num_flux diss_num_flux, value_face_soln_ext value physics conv_num_flux diss_num_flux, value_face_soln_grad_int value physics conv_num_flux diss_num_flux,
    value_face_soln_grad_ext value physics conv_num_flux diss_num_flux]
  rfl

theorem value_face_rhs_int_at (hphys : x.physics.commutes value physics)
    (hconv : x.conv_num_flux.commutes value conv_num_flux)
    (hdiss : x.diss_num_flux.commutes value diss_num_flux)
    (hgt : ∀ a b : R, Templated.RealOperations.greater a b = decide (value a > value b)) (iquad itest_int : Nat) :
    value (x.rhs_int_at iquad itest_int) = (x.value value physics conv_num_flux diss_num_flux).rhs_int_at iquad itest_int := by
  unfold Templated.FaceInput.rhs_int_at FaceInput.rhs_int_at
  dsimp only
  refine forLoop_map (fun y : R => value y) _ _ ?_ x.dim _ _ ?_
  · intro d y
    simp only [map_add, map_mul, value_algebraMap, value_face_grad_int value physics conv_num_flux diss_num_flux,
      value_face_surface_jac_det value physics conv_num_flux diss_num_flux x hgt,
      value_face_diss_flux_jump_int value physics conv_num_flux diss_num_flux x hphys hdiss]
    rfl
  · simp only [map_sub, map_mul, map_zero, value_algebraMap,
      value_face_surface_jac_det value physics conv_num_flux diss_num_flux x hgt,
      value_face_conv_num_flux_dot_n value physics conv_num_flux diss_num_flux x hconv,
      value_face_diss_auxi_num_flux_dot_n value physics conv_num_flux diss_num_flux x hdiss]
    rfl

theorem value_face_rhs_ext_at (hphys : x.physics.commutes value physics)
    (hconv : x.conv_num_flux.commutes value conv_num_flux)
    (hdiss : x.diss_num_flux.commutes value diss_num_flux)
    (hgt : ∀ a b : R, Templated.RealOperations.greater a b = decide (value a > value b)) (iquad itest_ext : Nat) :
    value (x.rhs_ext_at iquad itest_ext) = (x.value value physics conv_num_flux diss_num_flux).rhs_ext_at iquad itest_ext := by
  unfold Templated.FaceInput.rhs_ext_at FaceInput.rhs_ext_at
  dsimp only
  refine forLoop_map (fun y : R => value y) _ _ ?_ x.dim _ _ ?_
  · intro d y
    simp only [map_add, map_mul, value_algebraMap, value_face_grad_ext value physics conv_num_flux diss_num_flux,
      value_face_surface_jac_det value physics conv_num_flux diss_num_flux x hgt,
      value_face_diss_flux_jump_ext value physics conv_num_flux diss_num_flux x hphys hdiss]
    rfl
  · simp only [map_sub, map_mul, map_neg, map_zero, value_algebraMap,
      value_face_surface_jac_det value physics conv_num_flux diss_num_flux x hgt,
      value_face_conv_num_flux_dot_n value physics conv_num_flux diss_num_flux x hconv,
      value_face_diss_auxi_num_flux_dot_n value physics conv_num_flux diss_num_flux x hdiss]
    rfl

theorem value_face_term_int_tests (hphys : x.physics.commutes value physics)
    (hconv : x.conv_num_flux.commutes value conv_num_flux)
    (hdiss : x.diss_num_flux.commutes value diss_num_flux)
    (hgt : ∀ a b : R, Templated.RealOperations.greater a b = decide (value a > value b)) (iquad : Nat)
    (out : Templated.FaceOutput R) :
    (Templated.face_term_int_tests x iquad out).value value
      = face_term_int_tests (x.value value physics conv_num_flux diss_num_flux) iquad (out.value value) := by
  rw [face_term_int_tests_eq_steps]
  unfold Templated.face_term_int_tests
  refine forLoop_map (fun out : Templated.FaceOutput R => out.value value) _ _ ?_
    x.fe_int.dofs_per_cell _ _ rfl
  intro itest_int out
  have hr := value_face_rhs_int_at value physics conv_num_flux diss_num_flux x hphys hconv hdiss hgt iquad itest_int
  simp only [Templated.FaceOutput.value, FaceOutput.mk.injEq, map_add, map_mul, value_algebraMap,
    hr]
  refine ⟨?_, trivial, rfl⟩
  funext i
  rw [value_addAt, hr]

theorem value_face_term_ext_tests (hphys : x.physics.commutes value physics)
    (hconv : x.conv_num_flux.commutes value conv_num_flux)
    (hdiss : x.diss_num_flux.commutes value diss_num_flux)
    (hgt : ∀ a b : R, Templated.RealOperations.greater a b = decide (value a > value b)) (iquad : Nat)
    (out : Templated.FaceOutput R) :
    (Templated.face_term_ext_tests x iquad out).value value
      = face_term_ext_tests (x.value value physics conv_num_flux diss_num_flux) iquad (out.value value) := by
  rw [face_term_ext_tests_eq_steps]
  unfold Templated.face_term_ext_tests
  refine forLoop_map (fun out : Templated.FaceOutput R => out.value value) _ _ ?_
    x.fe_ext.dofs_per_cell _ _ rfl
  intro itest_ext out
  have hr := value_face_rhs_ext_at value physics conv_num_flux diss_num_flux x hphys hconv hdiss hgt iquad itest_ext
  simp only [Templated.FaceOutput.value, FaceOutput.mk.injEq, map_add, map_mul, value_algebraMap,
    hr]
  refine ⟨trivial, ?_, rfl⟩
  funext i
  rw [value_addAt, hr]

/-- The value projection of the outputs of the face kernel template is the output of the
plain face kernel on the value projection of the inputs. -/
theorem value_assemble_face_term (hphys : x.physics.commutes value physics)
    (hconv : x.conv_num_flux.commutes value conv_num_flux)
    (hdiss : x.diss_num_flux.commutes value diss_num_flux)
    (hgt : ∀ a b : R, Templated.RealOperations.greater a b = decide (value a > value b)) :
    (Templated.assemble_face_term x).value value = assemble_face_term (x.value value physics conv_num_flux diss_num_flux) := by
  unfold Templated.assemble_face_term assemble_face_term
  refine forLoop_map (fun out : Templated.FaceOutput R => out.value value) _ _ ?_
    x.face_quadrature.size _ _ ?_
  · intro iquad out
    dsimp only
    rw [value_face_term_ext_tests value physics conv_num_flux diss_num_flux x hphys hconv hdiss hgt,
      value_face_term_int_tests value physics conv_num_flux diss_num_flux x hphys hconv hdiss hgt]
  · simp only [Templated.FaceOutput.value, FaceOutput.mk.injEq, map_zero, and_true]
    constructor
    · exact forLoop_map (fun (rhs : Nat → R) (i : Nat) => value (rhs i)) _ _
        (by intro i rhs; funext j; simp only [value_setAt, map_zero]) _ _ _
        (by funext j; simp [zeroVec])
    · exact forLoop_map (fun (rhs : Nat → R) (i : Nat) => value (rhs i)) _ _
        (by intro i rhs; funext j; simp only [value_setAt, map_zero]) _ _ _
        (by funext j; simp [zeroVec])

end TemplatedFace

/-! ### The metric terms as templates -/

section TemplatedMetric

variable {R : Type} [CommRing R] [Algebra ℚ R] [Templated.RealOperations R] {sqrt : ℚ → ℚ}
  (V : Templated.ValueProjection R sqrt)

theorem value_set_entry2 (a : Nat → Nat → R) (i j : Nat) (x : R) :
    (fun i' j' => V.value (Templated.set_entry2 a i j x i' j'))
      = set_entry2 (fun i' j' => V.value (a i' j')) i j (V.value x) := by
  funext i' j'
  simp only [Templated.set_entry2, set_entry2, apply_ite V.value]

theorem value_set_entry3 (a : Nat → Nat → Nat → R) (i j k : Nat) (x : R) :
    (fun i' j' k' => V.value (Templated.set_entry3 a i j k x i' j' k'))
      = set_entry3 (fun i' j' k' => V.value (a i' j' k')) i j k (V.value x) := by
  funext i' j' k'
  simp only [Templated.set_entry3, set_entry3, apply_ite V.value]

theorem value_clear_tensor (a : Nat → Nat → Nat → R) (i : Nat) :
    (fun i' j' k' => V.value (Templated.clear_tensor a i i' j' k'))
      = clear_tensor (fun i' j' k' => V.value (a i' j' k')) i := by
  funext i' j' k'
  simp only [Templated.clear_tensor, clear_tensor, apply_ite V.value, map_zero]

theorem value_add_entry3 (a : Nat → Nat → Nat → R) (i j k : Nat) (x : R) :
    (fun i' j' k' => V.value (Templated.add_entry3 a i j k x i' j' k'))
      = add_entry3 (fun i' j' k' => V.value (a i' j' k')) i j k (V.value x) := by
  funext i' j' k'
  simp only [Templated.add_entry3, add_entry3, apply_ite V.value, map_add]

theorem value_scale_tensor (a : Nat → Nat → Nat → R) (i : Nat) (c : R) :
    (fun i' j' k' => V.value (Templated.scale_tensor a i c i' j' k'))
      = scale_tensor (fun i' j' k' => V.value (a i' j' k')) i (V.value c) := by
  funext i' j' k'
  simp only [Templated.scale_tensor, scale_tensor, apply_ite V.value, map_mul]

theorem value_setAt_fun (v : Nat → R) (k : Nat) (x : R) :
    (fun j => V.value (Templated.setAt v k x j))
      = setAt (fun i => V.value (v i)) k (V.value x) := by
  funext j
  exact value_setAt V.value v k x j

theorem value_grid_values (n : Nat) (f : Nat → R) :
    (fun igrid => V.value (Templated.grid_values n f igrid))
      = grid_values n (fun igrid => V.value (f igrid)) := by
  unfold Templated.grid_values grid_values
  exact forLoop_map (fun (T : Nat → R) igrid => V.value (T igrid)) _ _
    (by intro igrid T; exact value_setAt_fun V T igrid (f igrid)) n _ _
    (by funext igrid; simp [zeroVec])

theorem value_evaluate_finite_element_values (n_components n_pts : Nat)
    (unit_points : Nat → Point) (coefficients : Nat → R) (finite_element : FESystem) :
    (fun i c => V.value (Templated.evaluate_finite_element_values n_components n_pts
        unit_points coefficients finite_element i c))
      = evaluate_finite_element_values n_components n_pts unit_points
          (fun idof => V.value (coefficients idof)) finite_element := by
  unfold Templated.evaluate_finite_element_values evaluate_finite_element_values
  exact forLoop_map (fun (a : Nat → Nat → R) i c => V.value (a i c)) _ _
    (by
      intro ipoint values
      refine forLoop_map (fun (a : Nat → Nat → R) i c => V.value (a i c)) _ _ ?_ _ _ _ ?_
      · intro idof values
        funext i c
        simp only [Templated.set_entry2, set_entry2, apply_ite V.value, map_add, map_mul,
          value_algebraMap V.value]
      · exact forLoop_map (fun (a : Nat → Nat → R) i c => V.value (a i c)) _ _
          (by
            intro icomp values
            funext i c
            simp only [Templated.set_entry2, set_entry2, apply_ite V.value, map_zero])
          _ _ _ rfl)
    n_pts _ _ (by funext i c; simp)

theorem value_evaluate_finite_element_gradients (dim n_components n_pts : Nat)
    (unit_points : Nat → Point) (coefficients : Nat → R) (finite_element : FESystem) :
    (fun i c d => V.value (Templated.evaluate_finite_element_gradients dim n_components n_pts
        unit_points coefficients finite_element i c d))
      = evaluate_finite_element_gradients dim n_components n_pts unit_points
          (fun idof => V.value (coefficients idof)) finite_element := by
  unfold Templated.evaluate_finite_element_gradients evaluate_finite_element_gradients
  exact forLoop_map (fun (a : Nat → Nat → Nat → R) i c d => V.value (a i c d)) _ _
    (by
      intro ipoint gradients
      refine forLoop_map (fun (a : Nat → Nat → Nat → R) i c d => V.value (a i c d)) _ _ ?_
        _ _ _ ?_
      · intro idof gradients
        exact forLoop_map (fun (a : Nat → Nat → Nat → R) i c d => V.value (a i c d)) _ _
          (by
            intro d gradients
            funext i c e
            simp only [Templated.set_entry3, set_entry3, apply_ite V.value, map_add, map_mul,
              value_algebraMap V.value])
          _ _ _ rfl
      · exact forLoop_map (fun (a : Nat → Nat → Nat → R) i c d => V.value (a i c d)) _ _
          (by
            intro icomp gradients
            funext i c d
            simp only [apply_ite V.value, map_zero])
          _ _ _ rfl)
    n_pts _ _ (by funext i c d; simp)

theorem value_evaluate_metric_jacobian (dim n_pts : Nat) (points : Nat → Point)
    (coords_coeff : Nat → R) (fe_metric : FESystem) :
    (fun i r c => V.value (Templated.evaluate_metric_jacobian dim n_pts points coords_coeff
        fe_metric i r c))
      = evaluate_metric_jacobian dim n_pts points (fun idof => V.value (coords_coeff idof))
          fe_metric := by
  unfold Templated.evaluate_metric_jacobian evaluate_metric_jacobian
  rw [← value_evaluate_finite_element_gradients V]
  exact forLoop_map (fun (a : Nat → Nat → Nat → R) i c d => V.value (a i c d)) _ _
    (by
      intro ipoint metric_jacobian
      exact forLoop_map (fun (a : Nat → Nat → Nat → R) i c d => V.value (a i c d)) _ _
        (by
          intro row metric_jacobian
          exact forLoop_map (fun (a : Nat → Nat → Nat → R) i c d => V.value (a i c d)) _ _
            (by
              intro col metric_jacobian
              exact value_set_entry3 V _ _ _ _ _)
            _ _ _ rfl)
        _ _ _ rfl)
    n_pts _ _ (by funext i c d; simp)

theorem value_determinant_ArrayTensor (dim n : Nat) (coords_gradients : Nat → Nat → Nat → R) :
    (fun i => V.value (Templated.determinant_ArrayTensor dim n coords_gradients i))
      = determinant_ArrayTensor dim n (fun i c d => V.value (coords_gradients i c d)) := by
  unfold Templated.determinant_ArrayTensor determinant_ArrayTensor
  exact forLoop_map (fun (a : Nat → R) i => V.value (a i)) _ _
    (by
      intro i determinants
      funext j
      dsimp only
      split_ifs <;>
        simp only [value_setAt V.value, map_add, map_sub, map_mul])
    n _ _ (by funext i; simp [zeroVec])

theorem value_determinant (dim : Nat) (t : Nat → Nat → R) :
    V.value (Templated.determinant dim t) = determinant dim (fun i j => V.value (t i j)) := by
  unfold Templated.determinant determinant
  simp only [apply_ite V.value, map_add, map_sub, map_mul, map_zero]

theorem value_invert (dim : Nat) (t : Nat → Nat → R) :
    (fun i j => V.value (Templated.invert dim t i j))
      = invert dim (fun i j => V.value (t i j)) := by
  funext i j
  unfold Templated.invert invert
  dsimp only
  split_ifs <;>
    simp only [apply_ite V.value, map_mul, map_neg, map_sub, V.value_div, map_one, map_zero,
      value_determinant V]

theorem value_transpose (t : Nat → Nat → R) :
    (fun i j => V.value (Templated.transpose t i j))
      = transpose (fun i j => V.value (t i j)) := rfl

theorem value_norm (dim : Nat) (x : Nat → R) :
    V.value (Templated.norm dim x) = norm sqrt dim (fun d => V.value (x d)) := by
  unfold Templated.norm norm
  rw [V.value_sqrt]
  congr 1
  exact forLoop_map (fun y : R => V.value y) _ _
    (by intro row val; simp only [map_add, map_mul]) dim _ _ (map_zero V.value)


theorem value_grid_values_apply (n : Nat) (f : Nat → R) (igrid : Nat) :
    V.value (Templated.grid_values n f igrid)
      = grid_values n (fun igrid => V.value (f igrid)) igrid :=
  congrFun (value_grid_values V n f) igrid

theorem value_covariant_metric_jacobian_2 (n_quad_pts n_grid_pts : Nat)
    (unit_quad_pts : Nat → Point) (fe_lagrange_grid : FiniteElement) (coords : Nat → Nat → R)
    (jacobian_determinants : Nat → R) (covariant_metric_jacobian : Nat → Nat → Nat → R) :
    (fun i r c => V.value (Templated.covariant_metric_jacobian_2 n_quad_pts n_grid_pts
        unit_quad_pts fe_lagrange_grid coords jacobian_determinants covariant_metric_jacobian
        i r c))
      = covariant_metric_jacobian_2 n_quad_pts n_grid_pts unit_quad_pts fe_lagrange_grid
          (fun i d => V.value (coords i d)) (fun i => V.value (jacobian_determinants i))
          (fun i r c => V.value (covariant_metric_jacobian i r c)) := by
  unfold Templated.covariant_metric_jacobian_2 covariant_metric_jacobian_2
  simp only []
  have hd := forLoop_map (fun (a : Nat → Nat → Nat → R) i r c => V.value (a i r c))
    (fun iquad (dphys_dref_quad : Nat → Nat → Nat → R) =>
      forLoop n_grid_pts
        (fun igrid (dphys_dref_quad : Nat → Nat → Nat → R) =>
          forLoop 2
            (fun dphys (dphys_dref_quad : Nat → Nat → Nat → R) =>
              forLoop 2
                (fun dref (dphys_dref_quad : Nat → Nat → Nat → R) =>
                  Templated.set_entry3 dphys_dref_quad iquad dphys dref
                    (dphys_dref_quad iquad dphys dref
                      + coords igrid dphys * algebraMap ℚ R
                          (fe_lagrange_grid.shape_grad igrid (unit_quad_pts iquad) dref)))
                dphys_dref_quad)
            dphys_dref_quad)
        (Templated.clear_tensor dphys_dref_quad iquad))
    (fun iquad (dphys_dref_quad : Nat → Nat → Nat → ℚ) =>
      forLoop n_grid_pts
        (fun igrid (dphys_dref_quad : Nat → Nat → Nat → ℚ) =>
          forLoop 2
            (fun dphys (dphys_dref_quad : Nat → Nat → Nat → ℚ) =>
              forLoop 2
                (fun dref (dphys_dref_quad : Nat → Nat → Nat → ℚ) =>
                  set_entry3 dphys_dref_quad iquad dphys dref
                    (dphys_dref_quad iquad dphys dref
                      + V.value (coords igrid dphys)
                          * fe_lagrange_grid.shape_grad igrid (unit_quad_pts iquad) dref))
                dphys_dref_quad)
            dphys_dref_quad)
        (clear_tensor dphys_dref_quad iquad))
    (by
      intro iquad dphys_dref_quad
      refine forLoop_map (fun (a : Nat → Nat → Nat → R) i r c => V.value (a i r c)) _ _ ?_
        _ _ _ (value_clear_tensor V _ _)
      intro igrid dphys_dref_quad
      refine forLoop_map (fun (a : Nat → Nat → Nat → R) i r c => V.value (a i r c)) _ _ ?_
        _ _ _ rfl
      intro dphys dphys_dref_quad
      refine forLoop_map (fun (a : Nat → Nat → Nat → R) i r c => V.value (a i r c)) _ _ ?_
        _ _ _ rfl
      intro dref dphys_dref_quad
      funext i r c
      simp only [Templated.set_entry3, set_entry3, apply_ite V.value, map_add, map_mul,
        value_algebraMap V.value])
    n_quad_pts (fun _ _ _ => 0) (fun _ _ _ => 0) (by funext i r c; simp)
  rw [← hd]
  exact forLoop_map (fun (a : Nat → Nat → Nat → R) i r c => V.value (a i r c)) _ _
    (by
      intro iquad covariant_metric_jacobian
      funext i r c
      simp only [Templated.set_entry3, set_entry3, Templated.clear_tensor, clear_tensor,
        apply_ite V.value, map_mul, map_neg, map_zero, V.value_div, map_one])
    n_quad_pts _ _ rfl

theorem value_covariant_metric_jacobian_3 (n_quad_pts n_grid_pts : Nat)
    (unit_quad_pts : Nat → Point) (fe_lagrange_grid : FiniteElement) (coords : Nat → Nat → R)
    (coords_gradients : Nat → Nat → Nat → R) (jacobian_determinants : Nat → R)
    (covariant_metric_jacobian : Nat → Nat → Nat → R) :
    (fun i r c => V.value (Templated.covariant_metric_jacobian_3 n_quad_pts n_grid_pts
        unit_quad_pts fe_lagrange_grid coords coords_gradients jacobian_determinants
        covariant_metric_jacobian i r c))
      = covariant_metric_jacobian_3 n_quad_pts n_grid_pts unit_quad_pts fe_lagrange_grid
          (fun i d => V.value (coords i d)) (fun i c d => V.value (coords_gradients i c d))
          (fun i => V.value (jacobian_determinants i))
          (fun i r c => V.value (covariant_metric_jacobian i r c)) := by
  unfold Templated.covariant_metric_jacobian_3 covariant_metric_jacobian_3
  simp only []
  exact forLoop_map (fun (a : Nat → Nat → Nat → R) i r c => V.value (a i r c)) _ _
    (by
      intro iquad covariant_metric_jacobian
      show (fun i r c => V.value (Templated.scale_tensor _ iquad _ i r c)) = _
      rw [value_scale_tensor V, V.value_div, map_one]
      refine congrArg
        (fun a => scale_tensor a iquad (1 / V.value (jacobian_determinants iquad))) ?_
      refine forLoop_map (fun (a : Nat → Nat → Nat → R) i r c => V.value (a i r c)) _ _ ?_
        _ _ _ (value_clear_tensor V _ _)
      intro igrid c
      funext i r c'
      simp only [Templated.add_entry3, add_entry3, apply_ite V.value, map_add, map_sub,
        map_mul, value_algebraMap V.value, value_grid_values_apply V])
    n_quad_pts _ _ rfl

theorem value_evaluate_covariant_metric_jacobian (dim : Nat) (quadrature : Quadrature)
    (coords_coeff : Nat → R) (fe_metric : FESystem) (fe_lagrange_grid : FiniteElement)
    (covariant_metric_jacobian : Nat → Nat → Nat → R) :
    ((fun i r c => V.value ((Templated.evaluate_covariant_metric_jacobian dim quadrature
        coords_coeff fe_metric fe_lagrange_grid covariant_metric_jacobian).covariant_metric_jacobian
        i r c))
      = (evaluate_covariant_metric_jacobian dim quadrature
          (fun idof => V.value (coords_coeff idof)) fe_metric fe_lagrange_grid
          (fun i r c => V.value (covariant_metric_jacobian i r c))).covariant_metric_jacobian)
    ∧ ((fun i => V.value ((Templated.evaluate_covariant_metric_jacobian dim quadrature
        coords_coeff fe_metric fe_lagrange_grid covariant_metric_jacobian).jacobian_determinants
        i))
      = (evaluate_covariant_metric_jacobian dim quadrature
          (fun idof => V.value (coords_coeff idof)) fe_metric fe_lagrange_grid
          (fun i r c => V.value (covariant_metric_jacobian i r c))).jacobian_determinants) := by
  unfold Templated.evaluate_covariant_metric_jacobian evaluate_covariant_metric_jacobian
  simp only []
  have hdet := value_determinant_ArrayTensor V dim quadrature.size
    (Templated.evaluate_finite_element_gradients dim dim quadrature.size quadrature.point
      coords_coeff fe_metric)
  rw [value_evaluate_finite_element_gradients V] at hdet
  refine ⟨?_, hdet⟩
  have h1 : (fun i r c => V.value ((if dim = 1 then
        forLoop quadrature.size
          (fun iquad (covariant_metric_jacobian : Nat → Nat → Nat → R) =>
            Templated.set_entry3 covariant_metric_jacobian iquad 0 0
              (Templated.RealOperations.div 1
                (Templated.determinant_ArrayTensor dim quadrature.size
                  (Templated.evaluate_finite_element_gradients dim dim quadrature.size
                    quadrature.point coords_coeff fe_metric) iquad)))
          covariant_metric_jacobian
      else covariant_metric_jacobian) i r c))
      = (if dim = 1 then
        forLoop quadrature.size
          (fun iquad (covariant_metric_jacobian : Nat → Nat → Nat → ℚ) =>
            set_entry3 covariant_metric_jacobian iquad 0 0
              (1 / determinant_ArrayTensor dim quadrature.size
                  (evaluate_finite_element_gradients dim dim quadrature.size
                    quadrature.point (fun idof => V.value (coords_coeff idof)) fe_metric) iquad))
          (fun i r c => V.value (covariant_metric_jacobian i r c))
      else fun i r c => V.value (covariant_metric_jacobian i r c)) := by
    split_ifs
    · rw [← hdet]
      exact forLoop_map (fun (a : Nat → Nat → Nat → R) i r c => V.value (a i r c)) _ _
        (by
          intro iquad covariant_metric_jacobian
          funext i r c
          simp only [Templated.set_entry3, set_entry3, apply_ite V.value, V.value_div,
            map_one])
        _ _ _ rfl
    · rfl
  rw [← h1, ← hdet, ← value_evaluate_finite_element_values V,
    ← value_evaluate_finite_element_gradients V]
  split_ifs <;>
    first
    | omega
    | rw [← value_covariant_metric_jacobian_3 V]
    | rw [← value_covariant_metric_jacobian_2 V]
    | rfl


theorem value_determinant_fun (dim : Nat) (a : Nat → Nat → Nat → R) (iquad : Nat) :
    V.value (Templated.determinant dim (a iquad))
      = determinant dim ((fun i r c => V.value (a i r c)) iquad) :=
  value_determinant V dim (a iquad)

theorem value_transpose_invert (dim : Nat) (a : Nat → Nat → Nat → R) (iquad : Nat) :
    (fun r c => V.value (Templated.transpose (Templated.invert dim (a iquad)) r c))
      = transpose (invert dim ((fun i r c => V.value (a i r c)) iquad)) := by
  rw [← value_invert V]
  rfl

theorem value_assemble_volume_term_metric_terms (dim : Nat) (quadrature : Quadrature)
    (coords_coeff : Nat → R) (fe_metric : FESystem) (fe_lagrange_grid : FiniteElement)
    (compute_metric_derivatives : Bool) (fe_values_vol : FEValues) :
    (Templated.assemble_volume_term_metric_terms dim quadrature coords_coeff fe_metric
        fe_lagrange_grid compute_metric_derivatives fe_values_vol).value V.value
      = assemble_volume_term_metric_terms dim quadrature
          (fun idof => V.value (coords_coeff idof)) fe_metric fe_lagrange_grid
          compute_metric_derivatives fe_values_vol := by
  have key : ∀ (LR : Templated.MetricTerms R) (LQ : MetricTerms), LR.value V.value = LQ →
      (if dim ≠ 1 then
          ({ jac_det := (Templated.evaluate_covariant_metric_jacobian dim quadrature
                coords_coeff fe_metric fe_lagrange_grid LR.jac_inv_tran).jacobian_determinants,
             jac_inv_tran := (Templated.evaluate_covariant_metric_jacobian dim quadrature
                coords_coeff fe_metric fe_lagrange_grid
                LR.jac_inv_tran).covariant_metric_jacobian } : Templated.MetricTerms R)
        else LR).value V.value
      = (if dim ≠ 1 then
          ({ jac_det := (evaluate_covariant_metric_jacobian dim quadrature
                (fun idof => V.value (coords_coeff idof)) fe_metric fe_lagrange_grid
                LQ.jac_inv_tran).jacobian_determinants,
             jac_inv_tran := (evaluate_covariant_metric_jacobian dim quadrature
                (fun idof => V.value (coords_coeff idof)) fe_metric fe_lagrange_grid
                LQ.jac_inv_tran).covariant_metric_jacobian } : MetricTerms)
        else LQ) := by
    intro LR LQ h
    subst h
    split_ifs
    · simp only [Templated.MetricTerms.value,
        (value_evaluate_covariant_metric_jacobian V _ _ _ _ _ _).1,
        (value_evaluate_covariant_metric_jacobian V _ _ _ _ _ _).2]
    · rfl
  have hmj := value_evaluate_metric_jacobian V dim quadrature.size quadrature.point
    coords_coeff fe_metric
  unfold Templated.assemble_volume_term_metric_terms assemble_volume_term_metric_terms
  simp only []
  refine key _ _ (forLoop_map (fun m : Templated.MetricTerms R => m.value V.value) _ _ ?_
    _ _ _ ?_)
  · intro i m
    cases compute_metric_derivatives
    · simp only [Bool.false_eq_true, if_false, Templated.MetricTerms.value,
        value_setAt V.value, value_algebraMap V.value]
    · simp only [if_true, Templated.MetricTerms.value, MetricTerms.mk.injEq]
      rw [← hmj]
      constructor
      · funext j
        rw [value_setAt V.value, value_determinant V]
      · funext i' r c
        by_cases hi : i' = i
        · simp only [hi, if_true]
          exact congrFun (congrFun (value_transpose_invert V dim _ i) r) c
        · simp only [hi, if_false]
  · simp only [Templated.MetricTerms.value, map_zero]
    rfl


theorem value_vmult_fun (dim : Nat) (A : Nat → Nat → R) (x : Tensor1) :
    (fun row => V.value (Templated.vmult dim A x row))
      = vmult dim (fun r c => V.value (A r c)) x := by
  funext row
  exact value_vmult V.value dim A x row

theorem value_set_surface (dim : Nat) (unit_normal : Tensor1) (iquad : Nat)
    (s : Templated.BoundaryMetricArrays R) :
    (Templated.BoundaryMetricArrays.set_surface dim unit_normal iquad s).value V.value
      = BoundaryMetricArrays.set_surface sqrt dim unit_normal iquad (s.value V.value) := by
  unfold Templated.BoundaryMetricArrays.set_surface BoundaryMetricArrays.set_surface
  simp only [Templated.BoundaryMetricArrays.value, BoundaryMetricArrays.mk.injEq, true_and]
  have hv := value_vmult_fun V dim (s.jac_inv_tran iquad) unit_normal
  constructor
  · funext j
    rw [value_setAt V.value, map_mul, value_norm V, hv]
  · rw [← hv]
    exact forLoop_map (fun (a : Nat → Nat → R) i d => V.value (a i d)) _ _
      (by
        intro d normals
        funext i e
        simp only [Templated.set_entry2, set_entry2, apply_ite V.value, V.value_div,
          value_norm V])
      dim _ _ rfl

theorem value_assemble_boundary_term_metric_terms (dim face_number : Nat)
    (face_quadrature : Quadrature) (coords_coeff : Nat → R) (fe_metric : FESystem)
    (fe_lagrange_grid : FiniteElement) (compute_metric_derivatives : Bool)
    (fe_values_boundary : FEValues) :
    (Templated.assemble_boundary_term_metric_terms dim face_number face_quadrature
        coords_coeff fe_metric fe_lagrange_grid compute_metric_derivatives
        fe_values_boundary).value V.value
      = assemble_boundary_term_metric_terms sqrt dim face_number face_quadrature
          (fun idof => V.value (coords_coeff idof)) fe_metric fe_lagrange_grid
          compute_metric_derivatives fe_values_boundary := by
  have key1 : ∀ (sR : Templated.BoundaryMetricArrays R) (sQ : BoundaryMetricArrays),
      sR.value V.value = sQ →
      (if dim ≠ 1 then
          ({ sR with
             jac_det := (Templated.evaluate_covariant_metric_jacobian dim face_quadrature
                coords_coeff fe_metric fe_lagrange_grid sR.jac_inv_tran).jacobian_determinants,
             jac_inv_tran := (Templated.evaluate_covariant_metric_jacobian dim face_quadrature
                coords_coeff fe_metric fe_lagrange_grid
                sR.jac_inv_tran).covariant_metric_jacobian } :
            Templated.BoundaryMetricArrays R)
        else sR).value V.value
      = (if dim ≠ 1 then
          ({ sQ with
             jac_det := (evaluate_covariant_metric_jacobian dim face_quadrature
                (fun idof => V.value (coords_coeff idof)) fe_metric fe_lagrange_grid
                sQ.jac_inv_tran).jacobian_determinants,
             jac_inv_tran := (evaluate_covariant_metric_jacobian dim face_quadrature
                (fun idof => V.value (coords_coeff idof)) fe_metric fe_lagrange_grid
                sQ.jac_inv_tran).covariant_metric_jacobian } : BoundaryMetricArrays)
        else sQ) := by
    intro sR sQ h
    subst h
    split_ifs
    · simp only [Templated.BoundaryMetricArrays.value,
        (value_evaluate_covariant_metric_jacobian V _ _ _ _ _ _).1,
        (value_evaluate_covariant_metric_jacobian V _ _ _ _ _ _).2]
    · rfl
  have key3 : ∀ (sR : Templated.BoundaryMetricArrays R) (sQ : BoundaryMetricArrays),
      sR.value V.value = sQ →
      Templated.BoundaryMetric.value V.value
          { jac_inv_tran := sR.jac_inv_tran, surface_jac_det := sR.surface_jac_det,
            normals := sR.normals }
        = { jac_inv_tran := sQ.jac_inv_tran, surface_jac_det := sQ.surface_jac_det,
            normals := sQ.normals } := by
    intro sR sQ h
    subst h
    rfl
  have hmj := value_evaluate_metric_jacobian V dim face_quadrature.size face_quadrature.point
    coords_coeff fe_metric
  unfold Templated.assemble_boundary_term_metric_terms assemble_boundary_term_metric_terms
  simp only []
  refine key3 _ _ (forLoop_map
    (fun s : Templated.BoundaryMetricArrays R => s.value V.value) _ _ ?_ _ _ _
    (key1 _ _ (forLoop_map
      (fun s : Templated.BoundaryMetricArrays R => s.value V.value) _ _ ?_ _ _ _ ?_)))
  · intro iquad s
    cases compute_metric_derivatives
    · rfl
    · simp only [if_true]
      exact value_set_surface V dim _ iquad s
  · intro iquad s
    cases compute_metric_derivatives
    · simp only [Bool.false_eq_true, if_false, Templated.BoundaryMetricArrays.value,
        BoundaryMetricArrays.mk.injEq, true_and]
      constructor
      · funext j
        rw [value_setAt V.value, value_algebraMap V.value]
      · funext i d
        by_cases hi : i = iquad
        · simp only [hi, if_true, value_algebraMap V.value]
        · simp only [hi, if_false]
    · simp only [if_true]
      rw [value_set_surface V, ← hmj]
      congr 1
      simp only [Templated.BoundaryMetricArrays.value, BoundaryMetricArrays.mk.injEq, true_and,
        and_true]
      constructor
      · funext j
        rw [value_setAt V.value, value_determinant V]
      · funext i' r c
        by_cases hi : i' = iquad
        · simp only [hi, if_true]
          exact congrFun (congrFun (value_transpose_invert V dim _ iquad) r) c
        · simp only [hi, if_false]
  · simp only [Templated.BoundaryMetricArrays.value, map_zero]
    rfl

theorem value_assemble_face_term_metric_terms (dim face_number n_face_quad_pts : Nat)
    (face_quadrature_side : Quadrature) (coords_coeff : Nat → R) (fe_metric : FESystem)
    (fe_lagrange_grid : FiniteElement) :
    (Templated.assemble_face_term_metric_terms dim face_number n_face_quad_pts
        face_quadrature_side coords_coeff fe_metric fe_lagrange_grid).value V.value
      = assemble_face_term_metric_terms sqrt dim face_number n_face_quad_pts
          face_quadrature_side (fun idof => V.value (coords_coeff idof)) fe_metric
          fe_lagrange_grid := by
  have key1 : ∀ (sR : Templated.FaceMetricArrays R) (sQ : FaceMetricArrays),
      sR.value V.value = sQ →
      (if dim ≠ 1 then
          ({ jacobian_determinant := (Templated.evaluate_covariant_metric_jacobian dim
                face_quadrature_side coords_coeff fe_metric fe_lagrange_grid
                sR.jacobian_transpose_inverse).jacobian_determinants,
             jacobian_transpose_inverse := (Templated.evaluate_covariant_metric_jacobian dim
                face_quadrature_side coords_coeff fe_metric fe_lagrange_grid
                sR.jacobian_transpose_inverse).covariant_metric_jacobian } :
            Templated.FaceMetricArrays R)
        else sR).value V.value
      = (if dim ≠ 1 then
          ({ jacobian_determinant := (evaluate_covariant_metric_jacobian dim
                face_quadrature_side (fun idof => V.value (coords_coeff idof)) fe_metric
                fe_lagrange_grid sQ.jacobian_transpose_inverse).jacobian_determinants,
             jacobian_transpose_inverse := (evaluate_covariant_metric_jacobian dim
                face_quadrature_side (fun idof => V.value (coords_coeff idof)) fe_metric
                fe_lagrange_grid sQ.jacobian_transpose_inverse).covariant_metric_jacobian } :
            FaceMetricArrays)
        else sQ) := by
    intro sR sQ h
    subst h
    split_ifs
    · simp only [Templated.FaceMetricArrays.value,
        (value_evaluate_covariant_metric_jacobian V _ _ _ _ _ _).1,
        (value_evaluate_covariant_metric_jacobian V _ _ _ _ _ _).2]
    · rfl
  have key3 : ∀ (sR : Templated.FaceMetricArrays R) (sQ : FaceMetricArrays),
      sR.value V.value = sQ →
      Templated.FaceMetric.value V.value
          { jac_inv_tran := sR.jacobian_transpose_inverse,
            surface_jac_det := fun iquad =>
              Templated.norm dim
                  (Templated.vmult dim (sR.jacobian_transpose_inverse iquad)
                    (unit_normal_vector face_number))
                * sR.jacobian_determinant iquad,
            normal_normalized := fun iquad d =>
              if d < dim then
                Templated.RealOperations.div
                  (Templated.vmult dim (sR.jacobian_transpose_inverse iquad)
                    (unit_normal_vector face_number) d)
                  (Templated.norm dim
                    (Templated.vmult dim (sR.jacobian_transpose_inverse iquad)
                      (unit_normal_vector face_number)))
              else 0 }
        = { jac_inv_tran := sQ.jacobian_transpose_inverse,
            surface_jac_det := fun iquad =>
              norm sqrt dim
                  (vmult dim (sQ.jacobian_transpose_inverse iquad)
                    (unit_normal_vector face_number))
                * sQ.jacobian_determinant iquad,
            normal_normalized := fun iquad d =>
              if d < dim then
                vmult dim (sQ.jacobian_transpose_inverse iquad)
                    (unit_normal_vector face_number) d
                  / norm sqrt dim
                    (vmult dim (sQ.jacobian_transpose_inverse iquad)
                      (unit_normal_vector face_number))
              else 0 } := by
    intro sR sQ h
    subst h
    simp only [Templated.FaceMetric.value, Templated.FaceMetricArrays.value,
      FaceMetric.mk.injEq, true_and]
    constructor
    · funext iquad
      rw [map_mul, value_norm V, value_vmult_fun V]
    · funext iquad d
      simp only [apply_ite V.value, V.value_div, value_norm V, value_vmult_fun V,
        value_vmult V.value, map_zero]
  have hmj := value_evaluate_metric_jacobian V dim face_quadrature_side.size
    face_quadrature_side.point coords_coeff fe_metric
  unfold Templated.assemble_face_term_metric_terms assemble_face_term_metric_terms
  simp only []
  refine key3 _ _ (key1 _ _ (forLoop_map
    (fun s : Templated.FaceMetricArrays R => s.value V.value) _ _ ?_ _ _ _ ?_))
  · intro iquad s
    rw [← hmj]
    simp only [Templated.FaceMetricArrays.value, FaceMetricArrays.mk.injEq]
    constructor
    · funext j
      rw [value_setAt V.value, value_determinant V]
    · funext i' r c
      by_cases hi : i' = iquad
      · simp only [hi, if_true]
        exact congrFun (congrFun (value_transpose_invert V dim _ iquad) r) c
      · simp only [hi, if_false]
  · simp only [Templated.FaceMetricArrays.value, map_zero]
    rfl

end TemplatedMetric

theorem assemble_face_residual_aborts_iff (sqrt : ℚ → ℚ) (NDEBUG : Bool)
    (engine : DGWeakState) (high_order_grid : HighOrderGrid)
    (c : FaceWrapperInput) (physics : PhysicsBase) (conv_num_flux : NumericalFluxConvective)
    (diss_num_flux : NumericalFluxDissipative) :
    assemble_face_residual_aborts sqrt NDEBUG engine high_order_grid c physics conv_num_flux
        diss_num_flux = true
      ↔ ∃ iquad, iquad < (assemble_face_residual_kernel_input sqrt engine high_order_grid c
            physics conv_num_flux diss_num_flux).face_quadrature.size
          ∧ ((assemble_face_residual_kernel_input sqrt engine high_order_grid c physics
              conv_num_flux diss_num_flux).compute_metric_derivatives = true
            ∧ NumberType.real = NumberType.real ∧ NDEBUG = false
            ∧ (assemble_face_residual_kernel_input sqrt engine high_order_grid c physics
              conv_num_flux diss_num_flux).assertion_fails c.face_subface_int
                c.face_subface_ext iquad = true) := by
  unfold assemble_face_residual_aborts
  simp only [Bool.and_eq_true, Bool.not_eq_true', List.any_eq_true, List.mem_range,
    FaceInput.compute_metric_derivatives, true_and]
  constructor
  · rintro ⟨hn, iquad, hlt, hf⟩
    exact ⟨iquad, hlt, hn, hf⟩
  · rintro ⟨iquad, hlt, hn, hf⟩
    exact ⟨hn, iquad, hlt, hf⟩

section TemplatedWrapperValues

variable {R : Type} [CommRing R] [Algebra ℚ R] [Templated.RealOperations R] {sqrt : ℚ → ℚ}
  (V : Templated.ValueProjection R sqrt)

/-- The values of the arguments and of the metric terms of the kernel call of the taped
volume wrapper are the arguments and the metric terms of the kernel call of the
residual-only wrapper. -/
theorem value_volume_kernel_input (engine : DGWeakState) (high_order_grid : HighOrderGrid)
    (c : VolumeWrapperInput) (physics_ad : Templated.PhysicsBase R) (physics : PhysicsBase) :
    (Templated.assemble_volume_codi_taped_derivatives_kernel_input engine high_order_grid c
        physics_ad).value V.value physics
      = assemble_volume_residual_kernel_input engine high_order_grid c physics := by
  have h := value_assemble_volume_term_metric_terms V c.dim c.quadrature
    (forLoop high_order_grid.fe_system.dofs_per_cell
      (fun idof (coords_coeff : Nat → R) =>
        Templated.setAt coords_coeff idof
          (algebraMap ℚ R (high_order_grid.volume_nodes (c.metric_dof_indices idof))))
      (fun _ => 0))
    high_order_grid.fe_system high_order_grid.fe_lagrange_grid true c.fe_values_vol
  rw [value_local_coefficients V.value] at h
  unfold Templated.assemble_volume_codi_taped_derivatives_kernel_input
    assemble_volume_residual_kernel_input
  simp only [Templated.VolumeInput.value, Templated.VolumeInput.metric,
    value_local_coefficients V.value]
  rw [← h]
  rfl

theorem value_boundary_kernel_input (engine : DGWeakState) (high_order_grid : HighOrderGrid)
    (c : BoundaryWrapperInput) (physics_ad : Templated.PhysicsBase R) (physics : PhysicsBase)
    (conv_num_flux_ad : Templated.NumericalFluxConvective R)
    (conv_num_flux : NumericalFluxConvective)
    (diss_num_flux_ad : Templated.NumericalFluxDissipative R)
    (diss_num_flux : NumericalFluxDissipative) :
    (Templated.assemble_boundary_codi_taped_derivatives_kernel_input engine high_order_grid c
        physics_ad conv_num_flux_ad diss_num_flux_ad).value V.value physics conv_num_flux
        diss_num_flux
      = assemble_boundary_residual_kernel_input sqrt engine high_order_grid c physics
          conv_num_flux diss_num_flux := by
  have h := value_assemble_boundary_term_metric_terms V c.dim c.face_number c.face_quadrature
    (forLoop high_order_grid.fe_system.dofs_per_cell
      (fun idof (coords_coeff : Nat → R) =>
        Templated.setAt coords_coeff idof
          (algebraMap ℚ R (high_order_grid.volume_nodes (c.metric_dof_indices idof))))
      (fun _ => 0))
    high_order_grid.fe_system high_order_grid.fe_lagrange_grid true c.fe_values_boundary
  rw [value_local_coefficients V.value] at h
  unfold Templated.assemble_boundary_codi_taped_derivatives_kernel_input
    assemble_boundary_residual_kernel_input
  simp only [Templated.BoundaryInput.value, Templated.BoundaryInput.metric,
    value_local_coefficients V.value]
  rw [← h]
  rfl

theorem value_face_kernel_input (engine : DGWeakState) (high_order_grid : HighOrderGrid)
    (c : FaceWrapperInput) (physics_ad : Templated.PhysicsBase R) (physics : PhysicsBase)
    (conv_num_flux_ad : Templated.NumericalFluxConvective R)
    (conv_num_flux : NumericalFluxConvective)
    (diss_num_flux_ad : Templated.NumericalFluxDissipative R)
    (diss_num_flux : NumericalFluxDissipative) :
    (Templated.assemble_face_codi_taped_derivatives_kernel_input engine high_order_grid c
        physics_ad conv_num_flux_ad diss_num_flux_ad).value V.value physics conv_num_flux
        diss_num_flux
      = assemble_face_residual_kernel_input sqrt engine high_order_grid c physics
          conv_num_flux diss_num_flux := by
  have hint := value_assemble_face_term_metric_terms V c.dim c.face_subface_int.1
    c.face_quadrature.size c.face_quadrature_int
    (forLoop high_order_grid.fe_system.dofs_per_cell
      (fun idof (coords_coeff : Nat → R) =>
        Templated.setAt coords_coeff idof
          (algebraMap ℚ R (high_order_grid.volume_nodes (c.metric_dof_indices_int idof))))
      (fun _ => 0))
    high_order_grid.fe_system high_order_grid.fe_lagrange_grid
  have hext := value_assemble_face_term_metric_terms V c.dim c.face_subface_ext.1
    c.face_quadrature.size c.face_quadrature_ext
    (forLoop high_order_grid.fe_system.dofs_per_cell
      (fun idof (coords_coeff : Nat → R) =>
        Templated.setAt coords_coeff idof
          (algebraMap ℚ R (high_order_grid.volume_nodes (c.metric_dof_indices_ext idof))))
      (fun _ => 0))
    high_order_grid.fe_system high_order_grid.fe_lagrange_grid
  rw [value_local_coefficients V.value] at hint hext
  unfold Templated.assemble_face_codi_taped_derivatives_kernel_input
    assemble_face_residual_kernel_input
  simp only [Templated.FaceInput.value, Templated.FaceInput.metric_int,
    Templated.FaceInput.metric_ext, value_local_coefficients V.value]
  rw [← hint, ← hext]
  rfl

theorem value_volume_wrapper_rhs (engine : DGWeakState) (high_order_grid : HighOrderGrid)
    (c : VolumeWrapperInput) (physics_ad : Templated.PhysicsBase R) (physics : PhysicsBase)
    (hphys : physics_ad.commutes V.value physics) (itest : Nat) :
    getValue_active V.value getValue_double ((Templated.assemble_volume_term
        (Templated.assemble_volume_codi_taped_derivatives_kernel_input engine high_order_grid c
          physics_ad)).1 itest)
      = getValue_double ((assemble_volume_term
          (assemble_volume_residual_kernel_input engine high_order_grid c physics)).1
            itest) := by
  have h := value_assemble_volume_term V.value physics
    (Templated.assemble_volume_codi_taped_derivatives_kernel_input engine high_order_grid c
      physics_ad) hphys
  rw [value_volume_kernel_input V] at h
  exact congrArg getValue_double (congrFun (congrArg Prod.fst h) itest)

theorem value_boundary_wrapper_rhs (engine : DGWeakState) (high_order_grid : HighOrderGrid)
    (c : BoundaryWrapperInput)
    (physics_ad : Templated.PhysicsBase R) (physics : PhysicsBase)
    (conv_num_flux_ad : Templated.NumericalFluxConvective R)
    (conv_num_flux : NumericalFluxConvective)
    (diss_num_flux_ad : Templated.NumericalFluxDissipative R)
    (diss_num_flux : NumericalFluxDissipative)
    (hphys : physics_ad.commutes V.value physics)
    (hconv : conv_num_flux_ad.commutes V.value conv_num_flux)
    (hdiss : diss_num_flux_ad.commutes V.value diss_num_flux) (itest : Nat) :
    getValue_active V.value getValue_double ((Templated.assemble_boundary_term
        (Templated.assemble_boundary_codi_taped_derivatives_kernel_input engine high_order_grid
          c physics_ad conv_num_flux_ad diss_num_flux_ad)).1 itest)
      = getValue_double ((assemble_boundary_term
          (assemble_boundary_residual_kernel_input sqrt engine high_order_grid c physics
            conv_num_flux diss_num_flux)).1 itest) := by
  have h := value_assemble_boundary_term V.value physics conv_num_flux diss_num_flux
    (Templated.assemble_boundary_codi_taped_derivatives_kernel_input engine high_order_grid c
      physics_ad conv_num_flux_ad diss_num_flux_ad) hphys hconv hdiss
  rw [value_boundary_kernel_input V] at h
  exact congrArg getValue_double (congrFun (congrArg Prod.fst h) itest)

theorem value_face_wrapper_out (engine : DGWeakState) (high_order_grid : HighOrderGrid)
    (c : FaceWrapperInput)
    (physics_ad : Templated.PhysicsBase R) (physics : PhysicsBase)
    (conv_num_flux_ad : Templated.NumericalFluxConvective R)
    (conv_num_flux : NumericalFluxConvective)
    (diss_num_flux_ad : Templated.NumericalFluxDissipative R)
    (diss_num_flux : NumericalFluxDissipative)
    (hphys : physics_ad.commutes V.value physics)
    (hconv : conv_num_flux_ad.commutes V.value conv_num_flux)
    (hdiss : diss_num_flux_ad.commutes V.value diss_num_flux) :
    (Templated.assemble_face_term
        (Templated.assemble_face_codi_taped_derivatives_kernel_input engine high_order_grid c
          physics_ad conv_num_flux_ad diss_num_flux_ad)).value V.value
      = assemble_face_term
          (assemble_face_residual_kernel_input sqrt engine high_order_grid c physics
            conv_num_flux diss_num_flux) := by
  have h := value_assemble_face_term V.value physics conv_num_flux diss_num_flux
    (Templated.assemble_face_codi_taped_derivatives_kernel_input engine high_order_grid c
      physics_ad conv_num_flux_ad diss_num_flux_ad) hphys hconv hdiss V.greater_eq
  rw [value_face_kernel_input V] at h
  exact h

/-- The taped face wrapper leaves the vectors that the residual-only face wrapper leaves
when it is not aborted. -/
theorem assemble_face_residual_eq (engine : DGWeakState) (high_order_grid : HighOrderGrid)
    (c : FaceWrapperInput)
    (physics_ad : Templated.PhysicsBase R) (physics : PhysicsBase)
    (conv_num_flux_ad : Templated.NumericalFluxConvective R)
    (conv_num_flux : NumericalFluxConvective)
    (diss_num_flux_ad : Templated.NumericalFluxDissipative R)
    (diss_num_flux : NumericalFluxDissipative)
    (hphys : physics_ad.commutes V.value physics)
    (hconv : conv_num_flux_ad.commutes V.value conv_num_flux)
    (hdiss : diss_num_flux_ad.commutes V.value diss_num_flux)
    (compute_dRdW compute_dRdX compute_d2R NDEBUG : Bool)
    (local_rhs_int_cell local_rhs_ext_cell : Vec) :
    assemble_face_residual sqrt NDEBUG engine high_order_grid c physics conv_num_flux
        diss_num_flux local_rhs_int_cell local_rhs_ext_cell
      = if assemble_face_residual_aborts sqrt NDEBUG engine high_order_grid c physics
            conv_num_flux diss_num_flux = true then
          none
        else
          some (Templated.assemble_face_codi_taped_derivatives
            (getValue_active V.value getValue_double) engine high_order_grid c physics_ad
            conv_num_flux_ad diss_num_flux_ad compute_dRdW compute_dRdX compute_d2R
            local_rhs_int_cell local_rhs_ext_cell).2 := by
  have hout := value_face_wrapper_out V engine high_order_grid c physics_ad physics
    conv_num_flux_ad conv_num_flux diss_num_flux_ad diss_num_flux hphys hconv hdiss
  unfold assemble_face_residual Templated.assemble_face_codi_taped_derivatives
  dsimp only
  rw [assemble_face_term_with_assertions_eq]
  by_cases hab : assemble_face_residual_aborts sqrt NDEBUG engine high_order_grid c physics
      conv_num_flux diss_num_flux = true
  · rw [if_pos hab, if_pos ((assemble_face_residual_aborts_iff _ _ _ _ _ _ _ _).1 hab)]
    rfl
  · rw [if_neg hab,
      if_neg (fun h => hab ((assemble_face_residual_aborts_iff _ _ _ _ _ _ _ _).2 h)),
      Option.map_some', ← hout]
    simp only [getValue_active, getValue_double, Templated.FaceOutput.value]

end TemplatedWrapperValues

/-- C16 (as amended; mode equivalence). Let `R` be a differentiable number type with its
value projection down to the underlying real, and let the physics and numerical-flux
strategies commute with that projection. Then for every engine state (solution, dual,
parameters), grid (geometry vector), cell or face and setting of the three flags, the
vector `local_rhs_cell` left by a taped wrapper, which reads the residual through
`getValue`, is the one left by the residual-only wrapper: for the volume and the boundary
wrapper always, and for the face wrapper whenever the residual-only call is not aborted by
the consistency assertions of the face kernel, which are made for plain reals only. Both
wrappers of a pair compute the metric terms from the geometry vector, each in its number
type. The function `getValue` is the identity on plain reals and, on a nested
differentiable value, the underlying real under the members `value()`. -/
theorem taped_wrappers_add_residual_values {R : Type} [CommRing R] [Algebra ℚ R]
    [Templated.RealOperations R] (sqrt : ℚ → ℚ) (V : Templated.ValueProjection R sqrt)
    (physics_ad : Templated.PhysicsBase R) (physics : PhysicsBase)
    (conv_num_flux_ad : Templated.NumericalFluxConvective R)
    (conv_num_flux : NumericalFluxConvective)
    (diss_num_flux_ad : Templated.NumericalFluxDissipative R)
    (diss_num_flux : NumericalFluxDissipative)
    (hphys : physics_ad.commutes V.value physics)
    (hconv : conv_num_flux_ad.commutes V.value conv_num_flux)
    (hdiss : diss_num_flux_ad.commutes V.value diss_num_flux)
    (engine : DGWeakState) (high_order_grid : HighOrderGrid)
    (compute_dRdW compute_dRdX compute_d2R : Bool) :
    (∀ (c : VolumeWrapperInput) (local_rhs_cell : Vec),
      (Templated.assemble_volume_codi_taped_derivatives
          (getValue_active V.value getValue_double) engine high_order_grid c physics_ad
          compute_dRdW compute_dRdX compute_d2R local_rhs_cell).2
        = assemble_volume_residual engine high_order_grid c physics local_rhs_cell)
    ∧ (∀ (c : BoundaryWrapperInput) (local_rhs_cell : Vec),
      (Templated.assemble_boundary_codi_taped_derivatives
          (getValue_active V.value getValue_double) engine high_order_grid c physics_ad
          conv_num_flux_ad diss_num_flux_ad compute_dRdW compute_dRdX compute_d2R
          local_rhs_cell).2
        = assemble_boundary_residual sqrt engine high_order_grid c physics conv_num_flux
            diss_num_flux local_rhs_cell)
    ∧ (∀ (c : FaceWrapperInput) (NDEBUG : Bool) (local_rhs_int_cell local_rhs_ext_cell : Vec),
      assemble_face_residual sqrt NDEBUG engine high_order_grid c physics conv_num_flux
          diss_num_flux local_rhs_int_cell local_rhs_ext_cell
        = if assemble_face_residual_aborts sqrt NDEBUG engine high_order_grid c physics
              conv_num_flux diss_num_flux = true then
            none
          else
            some (Templated.assemble_face_codi_taped_derivatives
              (getValue_active V.value getValue_double) engine high_order_grid c physics_ad
              conv_num_flux_ad diss_num_flux_ad compute_dRdW compute_dRdX compute_d2R
              local_rhs_int_cell local_rhs_ext_cell).2)
    ∧ (∀ x : ℚ, getValue_double x = x)
    ∧ (∀ (S T : Type) (value_outer : S → T) (value_inner : T → ℚ) (x : S),
      getValue_active value_outer (getValue_active value_inner getValue_double) x
        = value_inner (value_outer x)) := by
  refine ⟨?_, ?_, ?_, fun _ => rfl, fun _ _ _ _ _ => rfl⟩
  · intro c local_rhs_cell
    unfold Templated.assemble_volume_codi_taped_derivatives assemble_volume_residual
    simp only [value_volume_wrapper_rhs V engine high_order_grid c physics_ad physics hphys]
  · intro c local_rhs_cell
    unfold Templated.assemble_boundary_codi_taped_derivatives assemble_boundary_residual
    simp only [value_boundary_wrapper_rhs V engine high_order_grid c physics_ad physics
      conv_num_flux_ad conv_num_flux diss_num_flux_ad diss_num_flux hphys hconv hdiss]
  · intro c NDEBUG local_rhs_int_cell local_rhs_ext_cell
    exact assemble_face_residual_eq V engine high_order_grid c physics_ad physics
      conv_num_flux_ad conv_num_flux diss_num_flux_ad diss_num_flux hphys hconv hdiss
      compute_dRdW compute_dRdX compute_d2R NDEBUG local_rhs_int_cell local_rhs_ext_cell

/-- Witness of C16 (as amended): at the dual numbers over the rationals, with the advection
physics and the central fluxes, the taped volume wrapper and the residual-only volume
wrapper leave the same `local_rhs_cell` on the cell from 0 to 1 of the example grid. -/
theorem taped_wrappers_add_residual_values_witness :
    (Templated.advection_physics : Templated.PhysicsBase (DualNumber ℚ)).commutes
        dual_value.value advection_physics
    ∧ (Templated.central_flux : Templated.NumericalFluxConvective (DualNumber ℚ)).commutes
        dual_value.value central_flux
    ∧ (Templated.central_diss_flux : Templated.NumericalFluxDissipative (DualNumber ℚ)).commutes
        dual_value.value central_diss_flux
    ∧ (Templated.assemble_volume_codi_taped_derivatives
          (getValue_active dual_value.value getValue_double) engine_example
          high_order_grid_example volume_wrapper_example
          (Templated.advection_physics : Templated.PhysicsBase (DualNumber ℚ))
          true false false zeroVec).2
        = assemble_volume_residual engine_example high_order_grid_example
            volume_wrapper_example advection_physics zeroVec :=
  ⟨advection_physics_commutes _, central_flux_commutes _, central_diss_flux_commutes _,
    (taped_wrappers_add_residual_values newton_sqrt dual_value Templated.advection_physics
      advection_physics Templated.central_flux central_flux Templated.central_diss_flux
      central_diss_flux (advection_physics_commutes _) (central_flux_commutes _)
      (central_diss_flux_commutes _) engine_example high_order_grid_example true false
      false).1 volume_wrapper_example zeroVec⟩

/-- The surface Jacobians of the two sides of the example face: the interior side is the
cell from 0 to 1, and the exterior side is the inverted cell. -/
theorem face_wrapper_example_surface_jacobians :
    (assemble_face_residual_kernel_input newton_sqrt engine_example high_order_grid_example
        face_wrapper_example advection_physics central_flux
        central_diss_flux).surface_jac_det_int 0 = 1
    ∧ (assemble_face_residual_kernel_input newton_sqrt engine_example high_order_grid_example
        face_wrapper_example advection_physics central_flux
        central_diss_flux).surface_jac_det_ext 0 = -1 := by
  constructor <;>
    simp [assemble_face_residual_kernel_input, FaceInput.surface_jac_det_int,
      FaceInput.surface_jac_det_ext, FaceInput.compute_metric_derivatives,
      assemble_face_term_metric_terms, evaluate_metric_jacobian,
      evaluate_finite_element_gradients, determinant, invert, transpose, vmult, norm,
      unit_normal_vector, newton_sqrt, set_entry3, setAt, zeroVec, forLoop, List.range_succ,
      face_wrapper_example, high_order_grid_example, line_fe_metric, end_point_quadrature,
      one_point_quadrature]
  norm_num

/-- C16 (counterexample): on the face between the cell from 0 to 1 and an inverted cell,
whose surface Jacobians are 1 and -1, in a build with assertions the residual-only face
wrapper aborts on the consistency assertion of the face kernel and adds nothing, where the
taped face wrapper at the dual numbers returns: it leaves the vectors that the
residual-only wrapper leaves in a build without assertions. -/
theorem taped_face_wrapper_returns_where_residual_wrapper_aborts :
    face_wrapper_example.face_subface_int.2 = -1
    ∧ face_wrapper_example.face_subface_ext.2 = -1
    ∧ assemble_face_residual newton_sqrt false engine_example high_order_grid_example
        face_wrapper_example advection_physics central_flux central_diss_flux zeroVec zeroVec
      = none
    ∧ assemble_face_residual newton_sqrt true engine_example high_order_grid_example
        face_wrapper_example advection_physics central_flux central_diss_flux zeroVec zeroVec
      = some (Templated.assemble_face_codi_taped_derivatives
          (getValue_active dual_value.value getValue_double) engine_example
          high_order_grid_example face_wrapper_example
          (Templated.advection_physics : Templated.PhysicsBase (DualNumber ℚ))
          Templated.central_flux Templated.central_diss_flux true false false zeroVec
          zeroVec).2 := by
  have hab : ∀ NDEBUG : Bool,
      assemble_face_residual_aborts newton_sqrt NDEBUG engine_example high_order_grid_example
        face_wrapper_example advection_physics central_flux central_diss_flux = !NDEBUG := by
    intro NDEBUG
    cases NDEBUG
    · rw [Bool.not_false, assemble_face_residual_aborts_iff]
      refine ⟨0, by decide, rfl, rfl, rfl, ?_⟩
      refine assertion_fails_of_jacobians _ _ _ 0 rfl rfl ?_
      rw [face_wrapper_example_surface_jacobians.1, face_wrapper_example_surface_jacobians.2]
      norm_num
    · simp [assemble_face_residual_aborts]
  refine ⟨rfl, rfl, ?_, ?_⟩
  · rw [assemble_face_residual_eq dual_value engine_example high_order_grid_example
      face_wrapper_example Templated.advection_physics advection_physics
      Templated.central_flux central_flux Templated.central_diss_flux central_diss_flux
      (advection_physics_commutes _) (central_flux_commutes _) (central_diss_flux_commutes _)
      true false false false zeroVec zeroVec, hab false]
    rfl
  · rw [assemble_face_residual_eq dual_value engine_example high_order_grid_example
      face_wrapper_example Templated.advection_physics advection_physics
      Templated.central_flux central_flux Templated.central_diss_flux central_diss_flux
      (advection_physics_commutes _) (central_flux_commutes _) (central_diss_flux_commutes _)
      true false false true zeroVec zeroVec, hab true]
    rfl

/-! ### Penalty parameter -/

/-- The value `deg1sq` for a degree whose product `p (p + 1)` is an `unsigned int`. -/
theorem deg1sq_of_fit (degree_current : Nat)
    (hfit : degree_current * (degree_current + 1) < 2 ^ 32) :
    deg1sq degree_current
      = if degree_current = 0 then 1 else degree_current * (degree_current + 1) := by
  unfold deg1sq
  split_ifs with h0
  · rfl
  · have hpos : 0 < degree_current := Nat.pos_of_ne_zero h0
    have h1 : degree_current + 1 < 2 ^ 32 := by
      calc degree_current + 1 ≤ degree_current * (degree_current + 1) :=
            Nat.le_mul_of_pos_left _ hpos
        _ < 2 ^ 32 := hfit
    rw [Nat.mod_eq_of_lt h1, Nat.mod_eq_of_lt hfit]

/-- The penalty of every kernel call that `assemble_residual` makes for a face is the
boundary penalty of the current cell or the two-sided penalty of the current cell and the
neighbour of the call. -/
theorem assemble_residual_face_calls_penalty (dim : Nat) (all_parameters : AllParameters)
    (degree_current cell_no : Nat) (current_cell : ActiveCell) (iface : Nat)
    (call : KernelCall)
    (hcall : call ∈ assemble_residual_face_calls dim all_parameters degree_current cell_no
      current_cell iface) :
    (∃ boundary_id, call = KernelCall.boundary_term cell_no iface boundary_id
        (boundary_penalty degree_current current_cell.cell iface))
    ∨ (∃ subface_no neighbor_cell neighbor_face_no,
        call = KernelCall.face_term cell_no iface subface_no neighbor_cell.index
          neighbor_cell.level neighbor_face_no
          (face_penalty degree_current current_cell.cell iface neighbor_cell
            neighbor_face_no)) := by
  unfold assemble_residual_face_calls at hcall
  dsimp only at hcall
  split_ifs at hcall
  · simp at hcall
  · rw [List.mem_singleton] at hcall
    exact Or.inl ⟨_, hcall⟩
  · rw [List.mem_singleton] at hcall
    exact Or.inr ⟨_, _, _, hcall⟩
  · simp at hcall
  · rw [List.mem_map] at hcall
    obtain ⟨subface_no, _, h⟩ := hcall
    exact Or.inr ⟨_, _, _, h.symm⟩
  · rw [List.mem_singleton] at hcall
    exact Or.inr ⟨_, _, _, hcall⟩
  · simp at hcall

/-- C21 (penalty formula). For a polynomial degree `p` whose product `p (p + 1)` is an
`unsigned int` and cell extents `h` in the face-normal directions, the boundary penalty is
`p (p + 1) / h` for `p >= 1` and `1 / h` for `p = 0`, so `2 / h` for degree 1;
the penalty of a face between two cells (interior, periodic or hanging) is the arithmetic
mean of the boundary penalties of the two sides, which is
`0.5 * (p (p + 1) / h_current + p (p + 1) / h_neighbour)` for `p >= 1`, and it is unchanged
when the two sides are exchanged; and every kernel call that `assemble_residual` makes for
a face carries one of these two penalties. -/
theorem penalty_formula (degree_current : Nat) (current_cell neighbor_cell : CellAccessor)
    (iface neighbor_face_no : Nat)
    (hfit : degree_current * (degree_current + 1) < 2 ^ 32) :
    (1 ≤ degree_current →
      boundary_penalty degree_current current_cell iface
        = ((degree_current : ℚ) * ((degree_current : ℚ) + 1))
            / current_cell.extent_in_direction (unit_normal_direction iface))
    ∧ (degree_current = 0 →
      boundary_penalty degree_current current_cell iface
        = 1 / current_cell.extent_in_direction (unit_normal_direction iface))
    ∧ (degree_current = 1 →
      boundary_penalty degree_current current_cell iface
        = 2 / current_cell.extent_in_direction (unit_normal_direction iface))
    ∧ face_penalty degree_current current_cell iface neighbor_cell neighbor_face_no
        = (1 / 2) * (boundary_penalty degree_current current_cell iface
            + boundary_penalty degree_current neighbor_cell neighbor_face_no)
    ∧ (1 ≤ degree_current →
      face_penalty degree_current current_cell iface neighbor_cell neighbor_face_no
        = (1 / 2) * (((degree_current : ℚ) * ((degree_current : ℚ) + 1))
              / current_cell.extent_in_direction (unit_normal_direction iface)
            + ((degree_current : ℚ) * ((degree_current : ℚ) + 1))
              / neighbor_cell.extent_in_direction (unit_normal_direction neighbor_face_no)))
    ∧ face_penalty degree_current current_cell iface neighbor_cell neighbor_face_no
        = face_penalty degree_current neighbor_cell neighbor_face_no current_cell iface
    ∧ (∀ (dim : Nat) (all_parameters : AllParameters) (cell_no : Nat) (c : ActiveCell)
        (call : KernelCall),
        call ∈ assemble_residual_face_calls dim all_parameters degree_current cell_no c iface →
        (∃ boundary_id, call = KernelCall.boundary_term cell_no iface boundary_id
            (boundary_penalty degree_current c.cell iface))
        ∨ (∃ subface_no neighbor neighbor_face,
            call = KernelCall.face_term cell_no iface subface_no neighbor.index neighbor.level
              neighbor_face
              (face_penalty degree_current c.cell iface neighbor neighbor_face))) := by
  have hdeg := deg1sq_of_fit degree_current hfit
  have hpos : ∀ (h : 1 ≤ degree_current),
      (deg1sq degree_current : ℚ) = (degree_current : ℚ) * ((degree_current : ℚ) + 1) := by
    intro h
    have h0 : degree_current ≠ 0 := by omega
    rw [hdeg, if_neg h0]
    push_cast
    ring
  refine ⟨?_, ?_, ?_, rfl, ?_, ?_, ?_⟩
  · intro h
    simp only [boundary_penalty, hpos h]
  · intro h
    subst h
    simp [boundary_penalty, deg1sq]
  · intro h
    subst h
    simp only [boundary_penalty, hpos (le_refl 1)]
    norm_num
  · intro h
    simp only [face_penalty, hpos h]
  · simp only [face_penalty]
    ring
  · intro dim all_parameters cell_no c call hcall
    exact assemble_residual_face_calls_penalty dim all_parameters degree_current cell_no c
      iface call hcall

/-- Witness of C21: degree 1 on the cells `A` (extent 1) and `B0` (extent 1/2) of the
two-dimensional mesh. -/
theorem penalty_formula_witness :
    boundary_penalty 1 cell_A 1 = 2 / cell_A.extent_in_direction (unit_normal_direction 1)
    ∧ face_penalty 1 cell_A 1 (cell_B_child 0) 0
        = (1 / 2) * ((((1 : Nat) : ℚ) * (((1 : Nat) : ℚ) + 1))
              / cell_A.extent_in_direction (unit_normal_direction 1)
            + (((1 : Nat) : ℚ) * (((1 : Nat) : ℚ) + 1))
              / (cell_B_child 0).extent_in_direction (unit_normal_direction 0))
    ∧ face_penalty 1 cell_A 1 (cell_B_child 0) 0 = face_penalty 1 (cell_B_child 0) 0 cell_A 1 :=
  ⟨(penalty_formula 1 cell_A (cell_B_child 0) 1 0 (by decide)).2.2.1 rfl,
    (penalty_formula 1 cell_A (cell_B_child 0) 1 0 (by decide)).2.2.2.2.1 (le_refl 1),
    (penalty_formula 1 cell_A (cell_B_child 0) 1 0 (by decide)).2.2.2.2.2.1⟩

/-! ### Faces with children and coarser neighbours -/

/-- The loop `accumulate`, entry by entry. -/
theorem accumulate_apply (n : Nat) (buffer contribution : Vec) (i : Nat) :
    accumulate n buffer contribution i
      = buffer i + if i < n then contribution i else 0 := by
  unfold accumulate
  exact forLoop_entrywise (fun b : Vec => b) (fun i => contribution i) _
    (fun k b => by simp [addAt]) (fun k b j hj => by simp [addAt, hj]) n buffer i

/-- The buffer of the current cell after the loop over the sub-faces of a face with
children: every sub-face adds its interior-side contribution. -/
theorem finer_neighbor_case_current_cell_rhs
    (face_term : FaceHandle → FaceHandle → ℚ → Vec × Vec)
    (degree_current dofs_per_cell cell_no : Nat) (current_cell : CellAccessor) (iface : Nat)
    (f : FaceView) (st : AssemblyState) (i : Nat) (hi : i < dofs_per_cell) :
    (finer_neighbor_case face_term degree_current dofs_per_cell cell_no current_cell iface f
      st).current_cell_rhs i
      = st.current_cell_rhs i
        + ∑ subface_no ∈ Finset.range f.number_of_children,
            (face_term ⟨current_cell, iface, some subface_no⟩
              ⟨f.neighbor_child_on_subface subface_no, f.neighbor_face_no, none⟩
              (face_penalty degree_current current_cell iface
                (f.neighbor_child_on_subface subface_no) f.neighbor_face_no)).1 i := by
  unfold finer_neighbor_case
  exact forLoop_sum (fun s : AssemblyState × Vec => s.1.current_cell_rhs i)
    (fun subface_no =>
      (face_term ⟨current_cell, iface, some subface_no⟩
        ⟨f.neighbor_child_on_subface subface_no, f.neighbor_face_no, none⟩
        (face_penalty degree_current current_cell iface
          (f.neighbor_child_on_subface subface_no) f.neighbor_face_no)).1 i)
    (subface_step face_term degree_current dofs_per_cell cell_no current_cell iface f)
    (fun k s => by
      simp only [subface_step, face_call]
      rw [accumulate_apply, if_pos hi])
    f.number_of_children (st, zeroVec)

/-- C23 (hanging interfaces are owned by the coarser cell). For a face of the current cell
that is not on the boundary: when the face has `N` children, `assemble_residual` makes for
it the `N` face-kernel calls of its sub-faces, whatever the indices of the cells, counts
`N` faces, and adds to every entry of the local residual of the current cell the sum of
the `N` interior-side contributions; when the face has no children and the neighbour is
coarser, the visit of the face leaves every variable of the pass as it was: no kernel
call and no count. -/
theorem hanging_interface_owned_by_coarser_cell (dim : Nat) (all_parameters : AllParameters)
    (hooks : AssemblyHooks) (degree_current dofs_per_cell cell_no : Nat)
    (current_cell : ActiveCell) (iface : Nat) (st : AssemblyState)
    (hb : (current_cell.face iface).at_boundary = false) :
    ((current_cell.face iface).has_children = true →
      (assemble_residual_face dim all_parameters hooks degree_current dofs_per_cell cell_no
          current_cell iface st).kernel_calls
        = st.kernel_calls
          ++ (List.range (current_cell.face iface).number_of_children).map (fun subface_no =>
              face_term_call degree_current cell_no current_cell.cell iface (some subface_no)
                ((current_cell.face iface).neighbor_child_on_subface subface_no)
                (current_cell.face iface).neighbor_face_no)
      ∧ (assemble_residual_face dim all_parameters hooks degree_current dofs_per_cell cell_no
          current_cell iface st).n_face_visited
        = st.n_face_visited + (current_cell.face iface).number_of_children
      ∧ ∀ i, i < dofs_per_cell →
        (assemble_residual_face dim all_parameters hooks degree_current dofs_per_cell cell_no
          current_cell iface st).current_cell_rhs i
        = st.current_cell_rhs i
          + ∑ subface_no ∈ Finset.range (current_cell.face iface).number_of_children,
              (hooks.assemble_face_term_explicit ⟨current_cell.cell, iface, some subface_no⟩
                ⟨(current_cell.face iface).neighbor_child_on_subface subface_no,
                  (current_cell.face iface).neighbor_face_no, none⟩
                (face_penalty degree_current current_cell.cell iface
                  ((current_cell.face iface).neighbor_child_on_subface subface_no)
                  (current_cell.face iface).neighbor_face_no)).1 i)
    ∧ ((current_cell.face iface).has_children = false →
      (current_cell.face iface).neighbor_is_coarser = true →
      assemble_residual_face dim all_parameters hooks degree_current dofs_per_cell cell_no
        current_cell iface st = st) := by
  constructor
  · intro hc
    have hface : assemble_residual_face dim all_parameters hooks degree_current dofs_per_cell
        cell_no current_cell iface st
        = finer_neighbor_case hooks.assemble_face_term_explicit degree_current dofs_per_cell
            cell_no current_cell.cell iface (current_cell.face iface) st := by
      unfold assemble_residual_face
      simp [hb, hc]
    rw [hface]
    exact ⟨finer_neighbor_case_kernel_calls _ _ _ _ _ _ _ _,
      finer_neighbor_case_n_face_visited _ _ _ _ _ _ _ _,
      fun i hi => finer_neighbor_case_current_cell_rhs _ _ _ _ _ _ _ _ i hi⟩
  · intro hc hco
    unfold assemble_residual_face
    simp [hb, hc, hco, ownership_test]

/-- Witness of C23: the right face of the coarse cell `A` of the two-dimensional mesh,
which has two children. -/
theorem hanging_interface_owned_by_coarser_cell_witness :
    (assemble_residual_face 2 default_parameters subface_hooks 1 1 0 ⟨cell_A, faces_A⟩ 1
        { right_hand_side := zeroVec, n_cell_visited := 1, n_face_visited := 1,
          current_cell_rhs := zeroVec, kernel_calls := [] }).n_face_visited = 1 + 2 :=
  ((hanging_interface_owned_by_coarser_cell 2 default_parameters subface_hooks 1 1 0
    ⟨cell_A, faces_A⟩ 1
    { right_hand_side := zeroVec, n_cell_visited := 1, n_face_visited := 1,
      current_cell_rhs := zeroVec, kernel_calls := [] } rfl).1 rfl).2.1

/-! ### Registration order and index layout -/

theorem forLoop_skip {σ : Type} (n : Nat) (init : σ) :
    forLoop n (fun _ (s : σ) => s) init = init :=
  forLoop_invariant id _ (fun _ _ => rfl) n init

theorem forLoop_registerInput_inputs_always (f : Nat → TapeVariable) (n : Nat)
    (th : TapeHelper) :
    (forLoop n (fun idof (th : TapeHelper) => th.registerInput (f idof)) th).inputs
      = th.inputs ++ (List.range n).map f := by
  induction n with
  | zero => simp [forLoop_zero]
  | succ k ih =>
    rw [forLoop_succ]
    show (forLoop k _ th).inputs ++ [f k] = _
    rw [ih]
    simp [List.range_succ]

theorem forLoop_registerInput_inputs (c : Prop) [Decidable c] (f : Nat → TapeVariable)
    (n : Nat) (th : TapeHelper) :
    (forLoop n (fun idof (th : TapeHelper) => if c then th.registerInput (f idof) else th)
      th).inputs = th.inputs ++ if c then (List.range n).map f else [] := by
  by_cases hc : c
  · simp only [hc, if_true]
    exact forLoop_registerInput_inputs_always f n th
  · simp only [hc, if_false, List.append_nil]
    exact forLoop_invariant (fun th : TapeHelper => th.inputs) _ (fun _ _ => rfl) n th

theorem forLoop_registerOutput_inputs (f : Nat → TapeVariable) (n : Nat) (th : TapeHelper) :
    (forLoop n (fun itest (th : TapeHelper) => th.registerOutput (f itest)) th).inputs
      = th.inputs := by
  rw [forLoop_registerOutput]

theorem registerOutput_inputs (th : TapeHelper) (v : TapeVariable) :
    (th.registerOutput v).inputs = th.inputs := rfl

theorem registered_length (c : Bool) (n : Nat) (f : Nat → TapeVariable) :
    (registered c n f).length = if c then n else 0 := by
  unfold registered
  cases c <;> simp

/-- The entry `i` of a registered group that follows `before` in a list of inputs. -/
theorem getElem?_registered (before after : List TapeVariable) (n : Nat)
    (f : Nat → TapeVariable) (i : Nat) (hi : i < n) :
    (before ++ registered true n f ++ after)[before.length + i]? = some (f i) := by
  unfold registered
  rw [if_pos rfl, List.append_assoc, List.getElem?_append_right (Nat.le_add_right _ _),
    Nat.add_sub_cancel_left, List.getElem?_append_left (by simpa using hi)]
  simp [hi]

/-- The inputs of the volume wrapper: the solution coefficients, then the geometry
coefficients, each group when its flags ask for it. -/
theorem assemble_volume_codi_taped_derivatives_inputs
    (compute_dRdW compute_dRdX compute_d2R : Bool) (n_soln_dofs n_metric_dofs : Nat) :
    (assemble_volume_codi_taped_derivatives_tape compute_dRdW compute_dRdX compute_d2R
      n_soln_dofs n_metric_dofs).inputs
      = registered (compute_dRdW || compute_d2R) n_soln_dofs TapeVariable.soln_coeff
        ++ registered (compute_dRdX || compute_d2R) n_metric_dofs TapeVariable.coords_coeff := by
  unfold assemble_volume_codi_taped_derivatives_tape registered
  cases compute_dRdW <;> cases compute_dRdX <;> cases compute_d2R <;>
    simp [forLoop_registerInput_inputs_always, forLoop_registerOutput_inputs,
      registerOutput_inputs, forLoop_skip]

/-- The inputs of the boundary wrapper. -/
theorem assemble_boundary_codi_taped_derivatives_inputs
    (compute_dRdW compute_dRdX compute_d2R : Bool) (n_soln_dofs n_metric_dofs : Nat) :
    (assemble_boundary_codi_taped_derivatives_tape compute_dRdW compute_dRdX compute_d2R
      n_soln_dofs n_metric_dofs).inputs
      = registered (compute_dRdW || compute_d2R) n_soln_dofs TapeVariable.soln_coeff
        ++ registered (compute_dRdX || compute_d2R) n_metric_dofs TapeVariable.coords_coeff := by
  unfold assemble_boundary_codi_taped_derivatives_tape registered
  cases compute_dRdW <;> cases compute_dRdX <;> cases compute_d2R <;>
    simp [forLoop_registerInput_inputs_always, forLoop_registerOutput_inputs,
      registerOutput_inputs, forLoop_skip]

/-- The inputs of the face wrapper: interior and exterior solution coefficients, then
interior and exterior geometry coefficients. -/
theorem assemble_face_codi_taped_derivatives_inputs
    (compute_dRdW compute_dRdX compute_d2R : Bool)
    (n_soln_dofs_int n_soln_dofs_ext n_metric_dofs : Nat) :
    (assemble_face_codi_taped_derivatives_tape compute_dRdW compute_dRdX compute_d2R
      n_soln_dofs_int n_soln_dofs_ext n_metric_dofs).inputs
      = registered (compute_dRdW || compute_d2R) n_soln_dofs_int TapeVariable.soln_coeff_int
        ++ registered (compute_dRdW || compute_d2R) n_soln_dofs_ext TapeVariable.soln_coeff_ext
        ++ registered (compute_dRdX || compute_d2R) n_metric_dofs TapeVariable.coords_coeff_int
        ++ registered (compute_dRdX || compute_d2R) n_metric_dofs
            TapeVariable.coords_coeff_ext := by
  unfold assemble_face_codi_taped_derivatives_tape registered
  cases compute_dRdW <;> cases compute_dRdX <;> cases compute_d2R <;>
    simp [forLoop_registerInput_inputs_always, forLoop_registerOutput_inputs,
      registerOutput_inputs, forLoop_skip]

/-- The offsets of `automatic_differentiation_indexing_1` are the numbers of inputs that
the wrapper registers before each group. -/
theorem automatic_differentiation_indexing_1_offsets
    (compute_dRdW compute_dRdX compute_d2R : Bool) (n_soln_dofs n_metric_dofs : Nat)
    (hfit : n_soln_dofs + n_metric_dofs < 2 ^ 32) :
    (automatic_differentiation_indexing_1 compute_dRdW compute_dRdX compute_d2R
        n_soln_dofs n_metric_dofs).w_start = 0
      ∧ (automatic_differentiation_indexing_1 compute_dRdW compute_dRdX compute_d2R
          n_soln_dofs n_metric_dofs).x_start
          = (if (compute_dRdW || compute_d2R) = true then n_soln_dofs else 0)
      ∧ (automatic_differentiation_indexing_1 compute_dRdW compute_dRdX compute_d2R
          n_soln_dofs n_metric_dofs).x_end
          = (if (compute_dRdW || compute_d2R) = true then n_soln_dofs else 0)
            + (if (compute_dRdX || compute_d2R) = true then n_metric_dofs else 0) := by
  have h1 : n_soln_dofs % 2 ^ 32 = n_soln_dofs := Nat.mod_eq_of_lt (by omega)
  have h2 : n_metric_dofs % 2 ^ 32 = n_metric_dofs := Nat.mod_eq_of_lt (by omega)
  have h3 : (n_soln_dofs + n_metric_dofs) % 2 ^ 32 = n_soln_dofs + n_metric_dofs :=
    Nat.mod_eq_of_lt hfit
  cases compute_dRdW <;> cases compute_dRdX <;> cases compute_d2R <;>
    simp [automatic_differentiation_indexing_1, unsigned_add, h1, h2, h3] <;> omega

/-- The offsets of `automatic_differentiation_indexing_2` are the numbers of inputs that
the face wrapper registers before each group. -/
theorem automatic_differentiation_indexing_2_offsets
    (compute_dRdW compute_dRdX compute_d2R : Bool)
    (n_soln_dofs_int n_soln_dofs_ext n_metric_dofs : Nat)
    (hfit : n_soln_dofs_int + n_soln_dofs_ext + n_metric_dofs + n_metric_dofs < 2 ^ 32) :
    (automatic_differentiation_indexing_2 compute_dRdW compute_dRdX compute_d2R
        n_soln_dofs_int n_soln_dofs_ext n_metric_dofs).w_int_start = 0
      ∧ (automatic_differentiation_indexing_2 compute_dRdW compute_dRdX compute_d2R
          n_soln_dofs_int n_soln_dofs_ext n_metric_dofs).w_ext_start
          = (if (compute_dRdW || compute_d2R) = true then n_soln_dofs_int else 0)
      ∧ (automatic_differentiation_indexing_2 compute_dRdW compute_dRdX compute_d2R
          n_soln_dofs_int n_soln_dofs_ext n_metric_dofs).x_int_start
          = (if (compute_dRdW || compute_d2R) = true then n_soln_dofs_int else 0)
            + (if (compute_dRdW || compute_d2R) = true then n_soln_dofs_ext else 0)
      ∧ (automatic_differentiation_indexing_2 compute_dRdW compute_dRdX compute_d2R
          n_soln_dofs_int n_soln_dofs_ext n_metric_dofs).x_ext_start
          = (if (compute_dRdW || compute_d2R) = true then n_soln_dofs_int else 0)
            + (if (compute_dRdW || compute_d2R) = true then n_soln_dofs_ext else 0)
            + (if (compute_dRdX || compute_d2R) = true then n_metric_dofs else 0)
      ∧ (automatic_differentiation_indexing_2 compute_dRdW compute_dRdX compute_d2R
          n_soln_dofs_int n_soln_dofs_ext n_metric_dofs).x_ext_end
          = (if (compute_dRdW || compute_d2R) = true then n_soln_dofs_int else 0)
            + (if (compute_dRdW || compute_d2R) = true then n_soln_dofs_ext else 0)
            + (if (compute_dRdX || compute_d2R) = true then n_metric_dofs else 0)
            + (if (compute_dRdX || compute_d2R) = true then n_metric_dofs else 0) := by
  have h1 : n_soln_dofs_int % 2 ^ 32 = n_soln_dofs_int := Nat.mod_eq_of_lt (by omega)
  have h2 : (n_soln_dofs_int + n_soln_dofs_ext) % 2 ^ 32 = n_soln_dofs_int + n_soln_dofs_ext :=
    Nat.mod_eq_of_lt (by omega)
  have h3 : (n_soln_dofs_int + n_soln_dofs_ext + n_metric_dofs) % 2 ^ 32
      = n_soln_dofs_int + n_soln_dofs_ext + n_metric_dofs := Nat.mod_eq_of_lt (by omega)
  have h4 : (n_soln_dofs_int + n_soln_dofs_ext + n_metric_dofs + n_metric_dofs) % 2 ^ 32
      = n_soln_dofs_int + n_soln_dofs_ext + n_metric_dofs + n_metric_dofs :=
    Nat.mod_eq_of_lt hfit
  have h5 : n_metric_dofs % 2 ^ 32 = n_metric_dofs := Nat.mod_eq_of_lt (by omega)
  have h6 : (n_metric_dofs + n_metric_dofs) % 2 ^ 32 = n_metric_dofs + n_metric_dofs :=
    Nat.mod_eq_of_lt (by omega)
  cases compute_dRdW <;> cases compute_dRdX <;> cases compute_d2R <;>
    simp [automatic_differentiation_indexing_2, unsigned_add, h1, h2, h3, h4, h5, h6] <;>
    omega

/-- The positions of the two groups in a list of inputs made of two registered groups. -/
theorem registered_positions_2 (c1 c2 : Bool) (n1 n2 : Nat) (f1 f2 : Nat → TapeVariable) :
    (∀ i, i < n1 → c1 = true →
        (registered c1 n1 f1 ++ registered c2 n2 f2)[0 + i]? = some (f1 i))
      ∧ (∀ j, j < n2 → c2 = true →
        (registered c1 n1 f1 ++ registered c2 n2 f2)[(if c1 = true then n1 else 0) + j]?
          = some (f2 j))
      ∧ (registered c1 n1 f1 ++ registered c2 n2 f2).length
          = (if c1 = true then n1 else 0) + (if c2 = true then n2 else 0) := by
  refine ⟨?_, ?_, ?_⟩
  · intro i hi hc
    subst hc
    simpa using getElem?_registered [] (registered c2 n2 f2) n1 f1 i hi
  · intro j hj hc
    subst hc
    have h := getElem?_registered (registered c1 n1 f1) [] n2 f2 j hj
    rw [registered_length, List.append_nil] at h
    exact h
  · rw [List.length_append, registered_length, registered_length]

/-- The positions of the four groups in a list of inputs made of four registered groups. -/
theorem registered_positions_4 (c1 c2 : Bool) (n1 n2 n3 : Nat)
    (f1 f2 f3 f4 : Nat → TapeVariable) :
    (∀ i, i < n1 → c1 = true →
        (registered c1 n1 f1 ++ registered c1 n2 f2 ++ registered c2 n3 f3
          ++ registered c2 n3 f4)[0 + i]? = some (f1 i))
      ∧ (∀ i, i < n2 → c1 = true →
        (registered c1 n1 f1 ++ registered c1 n2 f2 ++ registered c2 n3 f3
          ++ registered c2 n3 f4)[(if c1 = true then n1 else 0) + i]? = some (f2 i))
      ∧ (∀ j, j < n3 → c2 = true →
        (registered c1 n1 f1 ++ registered c1 n2 f2 ++ registered c2 n3 f3
          ++ registered c2 n3 f4)[(if c1 = true then n1 else 0)
            + (if c1 = true then n2 else 0) + j]? = some (f3 j))
      ∧ (∀ j, j < n3 → c2 = true →
        (registered c1 n1 f1 ++ registered c1 n2 f2 ++ registered c2 n3 f3
          ++ registered c2 n3 f4)[(if c1 = true then n1 else 0)
            + (if c1 = true then n2 else 0) + (if c2 = true then n3 else 0) + j]?
          = some (f4 j))
      ∧ (registered c1 n1 f1 ++ registered c1 n2 f2 ++ registered c2 n3 f3
          ++ registered c2 n3 f4).length
          = (if c1 = true then n1 else 0) + (if c1 = true then n2 else 0)
            + (if c2 = true then n3 else 0) + (if c2 = true then n3 else 0) := by
  refine ⟨?_, ?_, ?_, ?_, ?_⟩
  · intro i hi hc
    subst hc
    have h := getElem?_registered []
      (registered true n2 f2 ++ registered c2 n3 f3 ++ registered c2 n3 f4) n1 f1 i hi
    simpa [List.append_assoc] using h
  · intro i hi hc
    subst hc
    have h := getElem?_registered (registered true n1 f1)
      (registered c2 n3 f3 ++ registered c2 n3 f4) n2 f2 i hi
    rw [registered_length] at h
    simpa [List.append_assoc] using h
  · intro j hj hc
    subst hc
    have h := getElem?_registered (registered c1 n1 f1 ++ registered c1 n2 f2)
      (registered true n3 f4) n3 f3 j hj
    rw [List.length_append, registered_length, registered_length] at h
    exact h
  · intro j hj hc
    subst hc
    have h := getElem?_registered
      (registered c1 n1 f1 ++ registered c1 n2 f2 ++ registered true n3 f3) [] n3 f4 j hj
    rw [List.length_append, List.length_append, registered_length, registered_length,
      registered_length, List.append_nil] at h
    exact h
  · simp only [List.length_append, registered_length]

/-- C24: tape registration agrees with the index layout. When the sizes fit the unsigned
index type, in each taped wrapper and for every flag combination the state coefficient `i`
is registered, if at all, as input number `w_start + i` and the geometry coefficient `j` as
input number `x_start + j` (in the face wrapper `w_int_start + i`, `w_ext_start + i`,
`x_int_start + j`, `x_ext_start + j`), the number of registered inputs is `x_end`
(`x_ext_end`), and with a first-order flag set the exterior residual `itest_ext` is output
number `n_soln_dofs_int + itest_ext` of the face wrapper. -/
theorem tape_registration_agrees_with_index_layout
    (compute_dRdW compute_dRdX compute_d2R : Bool)
    (n_soln_dofs_int n_soln_dofs_ext n_metric_dofs : Nat)
    (hfit : n_soln_dofs_int + n_soln_dofs_ext + n_metric_dofs + n_metric_dofs < 2 ^ 32) :
    ((∀ i, i < n_soln_dofs_int → (compute_dRdW || compute_d2R) = true →
        (assemble_volume_codi_taped_derivatives_tape compute_dRdW compute_dRdX compute_d2R
          n_soln_dofs_int n_metric_dofs).inputs[
            (automatic_differentiation_indexing_1 compute_dRdW compute_dRdX compute_d2R
              n_soln_dofs_int n_metric_dofs).w_start + i]? = some (TapeVariable.soln_coeff i))
      ∧ (∀ j, j < n_metric_dofs → (compute_dRdX || compute_d2R) = true →
        (assemble_volume_codi_taped_derivatives_tape compute_dRdW compute_dRdX compute_d2R
          n_soln_dofs_int n_metric_dofs).inputs[
            (automatic_differentiation_indexing_1 compute_dRdW compute_dRdX compute_d2R
              n_soln_dofs_int n_metric_dofs).x_start + j]?
          = some (TapeVariable.coords_coeff j))
      ∧ (assemble_volume_codi_taped_derivatives_tape compute_dRdW compute_dRdX compute_d2R
          n_soln_dofs_int n_metric_dofs).inputs.length
          = (automatic_differentiation_indexing_1 compute_dRdW compute_dRdX compute_d2R
              n_soln_dofs_int n_metric_dofs).x_end)
    ∧ ((∀ i, i < n_soln_dofs_int → (compute_dRdW || compute_d2R) = true →
        (assemble_boundary_codi_taped_derivatives_tape compute_dRdW compute_dRdX compute_d2R
          n_soln_dofs_int n_metric_dofs).inputs[
            (automatic_differentiation_indexing_1 compute_dRdW compute_dRdX compute_d2R
              n_soln_dofs_int n_metric_dofs).w_start + i]? = some (TapeVariable.soln_coeff i))
      ∧ (∀ j, j < n_metric_dofs → (compute_dRdX || compute_d2R) = true →
        (assemble_boundary_codi_taped_derivatives_tape compute_dRdW compute_dRdX compute_d2R
          n_soln_dofs_int n_metric_dofs).inputs[
            (automatic_differentiation_indexing_1 compute_dRdW compute_dRdX compute_d2R
              n_soln_dofs_int n_metric_dofs).x_start + j]?
          = some (TapeVariable.coords_coeff j))
      ∧ (assemble_boundary_codi_taped_derivatives_tape compute_dRdW compute_dRdX compute_d2R
          n_soln_dofs_int n_metric_dofs).inputs.length
          = (automatic_differentiation_indexing_1 compute_dRdW compute_dRdX compute_d2R
              n_soln_dofs_int n_metric_dofs).x_end)
    ∧ ((∀ i, i < n_soln_dofs_int → (compute_dRdW || compute_d2R) = true →
        (assemble_face_codi_taped_derivatives_tape compute_dRdW compute_dRdX compute_d2R
          n_soln_dofs_int n_soln_dofs_ext n_metric_dofs).inputs[
            (automatic_differentiation_indexing_2 compute_dRdW compute_dRdX compute_d2R
              n_soln_dofs_int n_soln_dofs_ext n_metric_dofs).w_int_start + i]?
          = some (TapeVariable.soln_coeff_int i))
      ∧ (∀ i, i < n_soln_dofs_ext → (compute_dRdW || compute_d2R) = true →
        (assemble_face_codi_taped_derivatives_tape compute_dRdW compute_dRdX compute_d2R
          n_soln_dofs_int n_soln_dofs_ext n_metric_dofs).inputs[
            (automatic_differentiation_indexing_2 compute_dRdW compute_dRdX compute_d2R
              n_soln_dofs_int n_soln_dofs_ext n_metric_dofs).w_ext_start + i]?
          = some (TapeVariable.soln_coeff_ext i))
      ∧ (∀ j, j < n_metric_dofs → (compute_dRdX || compute_d2R) = true →
        (assemble_face_codi_taped_derivatives_tape compute_dRdW compute_dRdX compute_d2R
          n_soln_dofs_int n_soln_dofs_ext n_metric_dofs).inputs[
            (automatic_differentiation_indexing_2 compute_dRdW compute_dRdX compute_d2R
              n_soln_dofs_int n_soln_dofs_ext n_metric_dofs).x_int_start + j]?
          = some (TapeVariable.coords_coeff_int j))
      ∧ (∀ j, j < n_metric_dofs → (compute_dRdX || compute_d2R) = true →
        (assemble_face_codi_taped_derivatives_tape compute_dRdW compute_dRdX compute_d2R
          n_soln_dofs_int n_soln_dofs_ext n_metric_dofs).inputs[
            (automatic_differentiation_indexing_2 compute_dRdW compute_dRdX compute_d2R
              n_soln_dofs_int n_soln_dofs_ext n_metric_dofs).x_ext_start + j]?
          = some (TapeVariable.coords_coeff_ext j))
      ∧ (assemble_face_codi_taped_derivatives_tape compute_dRdW compute_dRdX compute_d2R
          n_soln_dofs_int n_soln_dofs_ext n_metric_dofs).inputs.length
          = (automatic_differentiation_indexing_2 compute_dRdW compute_dRdX compute_d2R
              n_soln_dofs_int n_soln_dofs_ext n_metric_dofs).x_ext_end
      ∧ (∀ itest_ext, itest_ext < n_soln_dofs_ext → (compute_dRdW || compute_dRdX) = true →
        (assemble_face_codi_taped_derivatives_tape compute_dRdW compute_dRdX compute_d2R
          n_soln_dofs_int n_soln_dofs_ext n_metric_dofs).outputs[
            unsigned_add n_soln_dofs_int itest_ext]?
          = some (TapeVariable.rhs_ext itest_ext))) := by
  have hfit1 : n_soln_dofs_int + n_metric_dofs < 2 ^ 32 := by omega
  obtain ⟨hw, hx, he⟩ := automatic_differentiation_indexing_1_offsets compute_dRdW
    compute_dRdX compute_d2R n_soln_dofs_int n_metric_dofs hfit1
  obtain ⟨hwi, hwe, hxi, hxe, hee⟩ := automatic_differentiation_indexing_2_offsets
    compute_dRdW compute_dRdX compute_d2R n_soln_dofs_int n_soln_dofs_ext n_metric_dofs hfit
  refine ⟨?_, ?_, ?_⟩
  · rw [assemble_volume_codi_taped_derivatives_inputs, hw, hx, he]
    exact registered_positions_2 _ _ _ _ _ _
  · rw [assemble_boundary_codi_taped_derivatives_inputs, hw, hx, he]
    exact registered_positions_2 _ _ _ _ _ _
  · rw [assemble_face_codi_taped_derivatives_inputs, hwi, hwe, hxi, hxe, hee]
    obtain ⟨p1, p2, p3, p4, p5⟩ := registered_positions_4 (compute_dRdW || compute_d2R)
      (compute_dRdX || compute_d2R) n_soln_dofs_int n_soln_dofs_ext n_metric_dofs
      TapeVariable.soln_coeff_int TapeVariable.soln_coeff_ext TapeVariable.coords_coeff_int
      TapeVariable.coords_coeff_ext
    refine ⟨p1, p2, p3, p4, p5, ?_⟩
    intro itest_ext hi h1
    rw [assemble_face_codi_taped_derivatives_outputs_first_order _ _ _ _ _ _ h1]
    have hm : unsigned_add n_soln_dofs_int itest_ext = n_soln_dofs_int + itest_ext :=
      Nat.mod_eq_of_lt (by omega)
    rw [hm, List.getElem?_append_right (by simp), List.getElem?_map]
    simp [hi]

theorem tape_registration_agrees_with_index_layout_witness :
    (2 + 3 + 4 + 4 < 2 ^ 32)
      ∧ (assemble_face_codi_taped_derivatives_tape false false true 2 3 4).inputs[
          (automatic_differentiation_indexing_2 false false true 2 3 4).x_ext_start + 1]?
          = some (TapeVariable.coords_coeff_ext 1)
      ∧ (assemble_face_codi_taped_derivatives_tape true false false 2 3 4).inputs.length
          = (automatic_differentiation_indexing_2 true false false 2 3 4).x_ext_end
      ∧ (assemble_face_codi_taped_derivatives_tape true false false 2 3 4).outputs[
          unsigned_add 2 1]? = some (TapeVariable.rhs_ext 1) :=
  ⟨by norm_num,
    (tape_registration_agrees_with_index_layout false false true 2 3 4
      (by norm_num)).2.2.2.2.2.1 1 (by norm_num) rfl,
    (tape_registration_agrees_with_index_layout true false false 2 3 4
      (by norm_num)).2.2.2.2.2.2.1,
    (tape_registration_agrees_with_index_layout true false false 2 3 4
      (by norm_num)).2.2.2.2.2.2.2 1 (by norm_num) rfl⟩

/-! ### Determinants of the arrays of gradients -/

/-- C27: for every entry `i` below the length `n` of its input, and for `dim` equal to 1, 2
and 3, `determinant_ArrayTensor` returns the determinant of the `dim x dim` matrix whose
`(row, col)` entry is `coords_gradients[i][row][col]`; it writes the `n` entries of its
output and no other. -/
theorem determinant_ArrayTensor_is_matrix_determinant (n : Nat)
    (coords_gradients : Nat → Nat → Nat → ℚ) (i : Nat) (hi : i < n) :
    determinant_ArrayTensor 1 n coords_gradients i
        = Matrix.det (Matrix.of fun (row col : Fin 1) => coords_gradients i row.val col.val)
      ∧ determinant_ArrayTensor 2 n coords_gradients i
        = Matrix.det (Matrix.of fun (row col : Fin 2) => coords_gradients i row.val col.val)
      ∧ determinant_ArrayTensor 3 n coords_gradients i
        = Matrix.det (Matrix.of fun (row col : Fin 3) => coords_gradients i row.val col.val)
      ∧ (∀ dim k, n ≤ k → determinant_ArrayTensor dim n coords_gradients k = 0) := by
  refine ⟨?_, ?_, ?_, ?_⟩
  · rw [determinant_ArrayTensor_apply, if_pos hi, Matrix.det_fin_one]
    simp [determinant]
  · rw [determinant_ArrayTensor_apply, if_pos hi, Matrix.det_fin_two]
    simp [determinant]
    ring
  · rw [determinant_ArrayTensor_apply, if_pos hi, Matrix.det_fin_three]
    simp [determinant]
    ring
  · intro dim k hk
    rw [determinant_ArrayTensor_apply, if_neg (by omega)]

theorem determinant_ArrayTensor_is_matrix_determinant_witness :
    (0 < 1)
      ∧ determinant_ArrayTensor 2 1 (fun _ row col => if row = col then 2 else 1) 0
        = Matrix.det (Matrix.of fun (row col : Fin 2) =>
            (fun (_ row col : Nat) => if row = col then (2 : ℚ) else 1) 0 row.val col.val)
      ∧ determinant_ArrayTensor 2 1 (fun _ row col => if row = col then 2 else 1) 0 = 3 :=
  ⟨by norm_num,
    (determinant_ArrayTensor_is_matrix_determinant 1
      (fun _ row col => if row = col then 2 else 1) 0 (by norm_num)).2.1,
    by simp [determinant_ArrayTensor, forLoop, List.range_succ, setAt]; norm_num⟩

/-! ### Scratch buffers of the Hessian scatter -/

/-- C29: the Hessian part of `assemble_face_codi_taped_derivatives` uses the buffer `dWidW`
beyond its length when the two sides of the face have different numbers of solution
dofs. With one interior and two exterior solution dofs, the second `add` call (block
"dWint_dWext") comes after a loop that writes `dWidW[0]` and `dWidW[1]` while the buffer has
one entry, and passes two column indices with one value. With two interior and one exterior
solution dofs, the first `add` call after `dWidW.resize(n_soln_dofs_ext)` (block
"dWext_dWint", at position 10 of the list of calls) comes after a loop that writes two
entries of a buffer of length one, and passes two column indices with one value. -/
theorem hessian_buffer_shorter_than_columns :
    (assemble_face_codi_taped_derivatives_hessian false false true 1 2 1
        (fun i => 10 + i) (fun i => 20 + i) (fun i => 30 + i) (fun i => 40 + i))[1]?
        = some ⟨HessianMatrix.d2RdWdW, 10, [20, 21], 0, 0, [1, 2], 1⟩
      ∧ (assemble_face_codi_taped_derivatives_hessian false false true 2 1 1
        (fun i => 10 + i) (fun i => 20 + i) (fun i => 30 + i) (fun i => 40 + i))[10]?
        = some ⟨HessianMatrix.d2RdWdW, 20, [10, 11], 0, 2, [0, 1], 1⟩ := by
  constructor <;> decide

/-! ### The residual pass on the engine -/

theorem scatter_add_right_hand_side (n : Nat) (before right_hand_side : Vec)
    (dofs_indices : Nat → Nat) (local_rhs : Vec) :
    scatter n (fun i => before i + right_hand_side i) dofs_indices local_rhs
      = fun i => before i + scatter n right_hand_side dofs_indices local_rhs i := by
  unfold scatter
  induction n with
  | zero => rfl
  | succ k ih =>
    rw [forLoop_succ, forLoop_succ, ih]
    funext j
    unfold addAt
    split_ifs <;> ring

theorem face_call_add_right_hand_side (before : Vec)
    (face_term : FaceHandle → FaceHandle → ℚ → Vec × Vec)
    (degree_current dofs_per_cell cell_no : Nat) (current_cell : CellAccessor) (iface : Nat)
    (subface_no : Option Nat) (neighbor_cell : CellAccessor) (neighbor_face_no : Nat)
    (neighbor_cell_rhs : Vec) (st : AssemblyState) :
    face_call face_term degree_current dofs_per_cell cell_no current_cell iface subface_no
        neighbor_cell neighbor_face_no neighbor_cell_rhs (st.add_right_hand_side before)
      = ((face_call face_term degree_current dofs_per_cell cell_no current_cell iface
            subface_no neighbor_cell neighbor_face_no neighbor_cell_rhs
            st).1.add_right_hand_side before,
          (face_call face_term degree_current dofs_per_cell cell_no current_cell iface
            subface_no neighbor_cell neighbor_face_no neighbor_cell_rhs st).2) := by
  simp only [face_call, AssemblyState.add_right_hand_side, scatter_add_right_hand_side]

theorem finer_neighbor_case_add_right_hand_side (before : Vec)
    (face_term : FaceHandle → FaceHandle → ℚ → Vec × Vec)
    (degree_current dofs_per_cell cell_no : Nat) (current_cell : CellAccessor) (iface : Nat)
    (f : FaceView) (st : AssemblyState) :
    finer_neighbor_case face_term degree_current dofs_per_cell cell_no current_cell iface f
        (st.add_right_hand_side before)
      = (finer_neighbor_case face_term degree_current dofs_per_cell cell_no current_cell iface
          f st).add_right_hand_side before := by
  unfold finer_neighbor_case
  have h := forLoop_map
    (fun s : AssemblyState × Vec => (s.1.add_right_hand_side before, s.2))
    (subface_step face_term degree_current dofs_per_cell cell_no current_cell iface f)
    (subface_step face_term degree_current dofs_per_cell cell_no current_cell iface f)
    (fun i s => by
      simp only [subface_step]
      exact (face_call_add_right_hand_side before face_term degree_current dofs_per_cell
        cell_no current_cell iface (some i) (f.neighbor_child_on_subface i)
        f.neighbor_face_no s.2 { s.1 with n_face_visited := s.1.n_face_visited + 1 }).symm)
    f.number_of_children (st, zeroVec) (st.add_right_hand_side before, zeroVec) rfl
  exact (congrArg Prod.fst h).symm

theorem assemble_residual_face_add_right_hand_side (before : Vec) (dim : Nat)
    (all_parameters : AllParameters) (hooks : AssemblyHooks)
    (degree_current dofs_per_cell cell_no : Nat) (current_cell : ActiveCell) (iface : Nat)
    (st : AssemblyState) :
    assemble_residual_face dim all_parameters hooks degree_current dofs_per_cell cell_no
        current_cell iface (st.add_right_hand_side before)
      = (assemble_residual_face dim all_parameters hooks degree_current dofs_per_cell cell_no
          current_cell iface st).add_right_hand_side before := by
  unfold assemble_residual_face
  dsimp only
  split_ifs
  · rfl
  · rfl
  · exact congrArg Prod.fst (face_call_add_right_hand_side before _ _ _ _ _ _ _ _ _ _
      { st with n_face_visited := st.n_face_visited + 1 })
  · rfl
  · exact finer_neighbor_case_add_right_hand_side before _ _ _ _ _ _ _ st
  · exact congrArg Prod.fst (face_call_add_right_hand_side before _ _ _ _ _ _ _ _ _ _
      { st with n_face_visited := st.n_face_visited + 1 })
  · rfl

theorem assemble_residual_cell_add_right_hand_side (before : Vec) (dim : Nat)
    (all_parameters : AllParameters) (hooks : AssemblyHooks)
    (degree_current dofs_per_cell : Nat) (st : AssemblyState) (current_cell : ActiveCell) :
    assemble_residual_cell dim all_parameters hooks degree_current dofs_per_cell
        (st.add_right_hand_side before) current_cell
      = (assemble_residual_cell dim all_parameters hooks degree_current dofs_per_cell st
          current_cell).add_right_hand_side before := by
  unfold assemble_residual_cell
  dsimp only
  have h := forLoop_map (fun s : AssemblyState => s.add_right_hand_side before)
    (fun iface s => assemble_residual_face dim all_parameters hooks degree_current
      dofs_per_cell st.n_cell_visited current_cell iface s)
    (fun iface s => assemble_residual_face dim all_parameters hooks degree_current
      dofs_per_cell st.n_cell_visited current_cell iface s)
    (fun i s => (assemble_residual_face_add_right_hand_side before dim all_parameters hooks
      degree_current dofs_per_cell st.n_cell_visited current_cell i s).symm)
    (faces_per_cell dim)
    { right_hand_side := st.right_hand_side, n_cell_visited := st.n_cell_visited + 1,
      n_face_visited := st.n_face_visited,
      current_cell_rhs := accumulate dofs_per_cell zeroVec
        (hooks.assemble_cell_terms_explicit current_cell.cell),
      kernel_calls := st.kernel_calls ++ [KernelCall.cell_terms st.n_cell_visited] }
    _ rfl
  simp only [AssemblyState.add_right_hand_side] at h ⊢
  rw [← h]
  simp only [scatter_add_right_hand_side]

/-- Without the reset the cell loop accumulates: started on any content of
`right_hand_side`, it ends with that content plus the residual that it computes from
zero, and with the same counters and kernel calls. -/
theorem assemble_residual_cell_loop_accumulates (dim : Nat) (all_parameters : AllParameters)
    (hooks : AssemblyHooks) (degree_current dofs_per_cell : Nat)
    (active_cells : List ActiveCell) (right_hand_side_before : Vec) :
    assemble_residual_cell_loop dim all_parameters hooks degree_current dofs_per_cell
        active_cells right_hand_side_before
      = (assemble_residual_cell_loop dim all_parameters hooks degree_current dofs_per_cell
          active_cells zeroVec).add_right_hand_side right_hand_side_before := by
  unfold assemble_residual_cell_loop
  have key : ∀ (cells : List ActiveCell) (st : AssemblyState),
      cells.foldl (assemble_residual_cell dim all_parameters hooks degree_current
          dofs_per_cell) (st.add_right_hand_side right_hand_side_before)
        = (cells.foldl (assemble_residual_cell dim all_parameters hooks degree_current
            dofs_per_cell) st).add_right_hand_side right_hand_side_before := by
    intro cells
    induction cells with
    | nil => intro st; rfl
    | cons c cs ih =>
      intro st
      rw [List.foldl_cons, List.foldl_cons, assemble_residual_cell_add_right_hand_side, ih]
  rw [← key]
  simp [AssemblyState.add_right_hand_side, zeroVec]

/-- The residual that the call on the engine leaves is the residual of the pass with the
kernels of the solution. -/
theorem assemble_residual_on_right_hand_side (dim : Nat) (all_parameters : AllParameters)
    (kernels : Vec → AssemblyHooks) (degree_current dofs_per_cell : Nat)
    (active_cells : List ActiveCell) (engine : DGBaseMembers) (right_hand_side_before : Vec) :
    (assemble_residual_on dim all_parameters kernels degree_current dofs_per_cell active_cells
        engine).right_hand_side
      = (assemble_residual dim all_parameters (kernels engine.solution) degree_current
          dofs_per_cell active_cells right_hand_side_before).right_hand_side := rfl

/-- C30: `assemble_residual` overwrites rather than accumulates. The call assigns zero to
the system matrix and to the residual before the cell loop, so for two engines with the
same solution, whatever their residuals and matrices hold, it leaves the same residual and
the zero matrix; the residual is the one that the cell loop computes from zero, while the
cell loop alone adds to what it is started on; a second call on the result changes
nothing; and the solution is the one before the call. -/
theorem assemble_residual_overwrites (dim : Nat) (all_parameters : AllParameters)
    (kernels : Vec → AssemblyHooks) (degree_current dofs_per_cell : Nat)
    (active_cells : List ActiveCell) (engine other : DGBaseMembers)
    (hsolution : engine.solution = other.solution) :
    (assemble_residual_on dim all_parameters kernels degree_current dofs_per_cell active_cells
        engine).right_hand_side
        = (assemble_residual_on dim all_parameters kernels degree_current dofs_per_cell
            active_cells other).right_hand_side
      ∧ (assemble_residual_on dim all_parameters kernels degree_current dofs_per_cell
          active_cells engine).system_matrix = (fun _ _ => 0)
      ∧ (∀ i, (assemble_residual_cell_loop dim all_parameters (kernels engine.solution)
            degree_current dofs_per_cell active_cells engine.right_hand_side).right_hand_side i
          = engine.right_hand_side i
            + (assemble_residual_on dim all_parameters kernels degree_current dofs_per_cell
                active_cells engine).right_hand_side i)
      ∧ assemble_residual_on dim all_parameters kernels degree_current dofs_per_cell
          active_cells
          (assemble_residual_on dim all_parameters kernels degree_current dofs_per_cell
            active_cells engine)
        = assemble_residual_on dim all_parameters kernels degree_current dofs_per_cell
            active_cells engine
      ∧ (assemble_residual_on dim all_parameters kernels degree_current dofs_per_cell
          active_cells engine).solution = engine.solution := by
  refine ⟨?_, rfl, ?_, rfl, rfl⟩
  · simp only [assemble_residual_on, hsolution]
  · intro i
    rw [assemble_residual_cell_loop_accumulates]
    rfl

theorem assemble_residual_overwrites_witness :
    used_engine.solution = fresh_engine.solution
      ∧ used_engine.right_hand_side 0 ≠ fresh_engine.right_hand_side 0
      ∧ (assemble_residual_on 1 default_parameters solution_hooks 1 2 line_mesh
          used_engine).right_hand_side
        = (assemble_residual_on 1 default_parameters solution_hooks 1 2 line_mesh
            fresh_engine).right_hand_side
      ∧ assemble_residual_on 1 default_parameters solution_hooks 1 2 line_mesh
          (assemble_residual_on 1 default_parameters solution_hooks 1 2 line_mesh used_engine)
        = assemble_residual_on 1 default_parameters solution_hooks 1 2 line_mesh used_engine :=
  ⟨rfl, by simp [used_engine, fresh_engine],
    (assemble_residual_overwrites 1 default_parameters solution_hooks 1 2 line_mesh
      used_engine fresh_engine rfl).1,
    (assemble_residual_overwrites 1 default_parameters solution_hooks 1 2 line_mesh
      used_engine fresh_engine rfl).2.2.2.1⟩

/-! ### The two traversals -/

/-- Away from the domain boundary the two traversals take the same decision, and so they
do at a boundary face without periodic neighbour unless `use_periodic_bc` is set in more
than one dimension. -/
theorem assemble_residual_dRdW_face_calls_eq (dim : Nat) (all_parameters : AllParameters)
    (degree_current cell_no : Nat) (current_cell : ActiveCell) (iface : Nat)
    (h : (current_cell.face iface).at_boundary = false
      ∨ ((current_cell.face iface).has_periodic_neighbor = false
        ∧ (all_parameters.use_periodic_bc = false ∨ dim = 1))) :
    assemble_residual_dRdW_face_calls all_parameters degree_current cell_no current_cell iface
      = assemble_residual_face_calls dim all_parameters degree_current cell_no current_cell
          iface := by
  unfold assemble_residual_dRdW_face_calls assemble_residual_face_calls
    FaceView.neighbor_or_periodic_neighbor
  rcases h with h | ⟨h1, h2 | h2⟩
  · simp [h]
  · cases hb : (current_cell.face iface).at_boundary <;> simp [hb, h1, h2]
  · cases hb : (current_cell.face iface).at_boundary <;> simp [hb, h1, h2]

/-- C28: the derivative traversal does not follow the residual traversal at periodic faces
and at the test of `use_periodic_bc`. On the periodic strip, at the left face of `P`,
whose periodic neighbour is `Q`, `assemble_residual` makes the face-kernel call of the
owner `P` with neighbour `Q` and neighbour face 1, while `assemble_residual_dRdW` makes a
boundary-kernel call, or no call when `use_periodic_bc` is set; and at the bottom wall of
`P` with `use_periodic_bc` set `assemble_residual` makes the boundary-kernel call while
`assemble_residual_dRdW` makes none. -/
theorem derivative_traversal_differs_at_periodic_faces :
    ((assemble_residual_face 2 default_parameters zero_hooks 1 1 0 ⟨cell_P, faces_P⟩ 0
        first_face_state).kernel_calls
        = [KernelCall.cell_terms 0, KernelCall.face_term 0 0 none 1 0 1 2]
      ∧ (assemble_residual_dRdW_face default_parameters zero_hooks 1 1 0 ⟨cell_P, faces_P⟩ 0
        first_face_state).kernel_calls
        = [KernelCall.cell_terms 0, KernelCall.boundary_term 0 0 0 2])
    ∧ ((assemble_residual_face 2 periodic_bc_parameters zero_hooks 1 1 0 ⟨cell_P, faces_P⟩ 0
        first_face_state).kernel_calls
        = [KernelCall.cell_terms 0, KernelCall.face_term 0 0 none 1 0 1 2]
      ∧ (assemble_residual_dRdW_face periodic_bc_parameters zero_hooks 1 1 0
        ⟨cell_P, faces_P⟩ 0 first_face_state).kernel_calls = [KernelCall.cell_terms 0])
    ∧ ((assemble_residual_face 2 periodic_bc_parameters zero_hooks 1 1 0 ⟨cell_P, faces_P⟩ 2
        first_face_state).kernel_calls
        = [KernelCall.cell_terms 0, KernelCall.boundary_term 0 2 0 2]
      ∧ (assemble_residual_dRdW_face periodic_bc_parameters zero_hooks 1 1 0
        ⟨cell_P, faces_P⟩ 2 first_face_state).kernel_calls = [KernelCall.cell_terms 0]) := by
  simp only [assemble_residual_face_kernel_calls, assemble_residual_dRdW_face_kernel_calls]
  refine ⟨⟨?_, ?_⟩, ⟨?_, ?_⟩, ⟨?_, ?_⟩⟩ <;>
    simp [assemble_residual_face_calls, assemble_residual_dRdW_face_calls, faces_P,
      periodic_face, boundary_face, first_face_state, default_parameters,
      periodic_bc_parameters, ownership_test, lower_index_does_work, cell_P, cell_Q,
      face_term_call, face_penalty, boundary_penalty, deg1sq, unit_normal_direction] <;>
    norm_num

/-! ### Closed forms of the metric loops -/

/-- A loop whose iteration `i` changes row `i` of an array by `G i` and leaves the other
rows alone changes every row below the bound by its `G`. -/
theorem forLoop_rows {α : Type} (body : Nat → (Nat → α) → Nat → α) (G : Nat → α → α)
    (hrow : ∀ i s, body i s i = G i (s i)) (hframe : ∀ i s j, j ≠ i → body i s j = s j)
    (n : Nat) (init : Nat → α) (i : Nat) :
    forLoop n body init i = if i < n then G i (init i) else init i := by
  induction n with
  | zero => simp [forLoop_zero]
  | succ k ih =>
    rw [forLoop_succ]
    by_cases hik : i = k
    · subst hik
      rw [hrow, ih]
      simp
    · rw [hframe _ _ _ hik, ih]
      have h : (i < k + 1) ↔ (i < k) := by omega
      simp only [h]

theorem grid_values_apply (n : Nat) (f : Nat → ℚ) (igrid : Nat) :
    grid_values n f igrid = if igrid < n then f igrid else 0 := by
  unfold grid_values
  rw [forLoop_entrywise_set (fun v : Vec => v) f]
  · rfl
  · intro i s
    exact setAt_same _ _ _
  · intro i s j hj
    exact setAt_other _ _ _ _ hj

/-- The entries of `dphys_dref_quad`: the sums of line 357 over the grid points. -/
theorem dphys_dref_quad_apply (n_quad_pts n_grid_pts : Nat) (unit_quad_pts : Nat → Point)
    (fe_lagrange_grid : FiniteElement) (coords : Nat → Nat → ℚ) (iquad dphys dref : Nat)
    (hiquad : iquad < n_quad_pts) (hdphys : dphys < 2) (hdref : dref < 2) :
    dphys_dref_quad n_quad_pts n_grid_pts unit_quad_pts fe_lagrange_grid coords iquad dphys
        dref
      = ∑ igrid ∈ Finset.range n_grid_pts,
          coords igrid dphys * fe_lagrange_grid.shape_grad igrid (unit_quad_pts iquad) dref := by
  unfold dphys_dref_quad
  dsimp only
  rw [forLoop_rows _
    (fun iquad (_ : Nat → Nat → ℚ) =>
      forLoop n_grid_pts
        (fun igrid (row : Nat → Nat → ℚ) =>
          forLoop 2
            (fun dphys (row : Nat → Nat → ℚ) =>
              forLoop 2
                (fun dref (row : Nat → Nat → ℚ) =>
                  set_entry2 row dphys dref
                    (row dphys dref + coords igrid dphys
                      * fe_lagrange_grid.shape_grad igrid (unit_quad_pts iquad) dref))
                row)
            row)
        (fun _ _ => 0))]
  · rw [if_pos hiquad]
    have h := forLoop_sum (fun row : Nat → Nat → ℚ => row dphys dref)
      (fun igrid => coords igrid dphys
        * fe_lagrange_grid.shape_grad igrid (unit_quad_pts iquad) dref)
      (fun igrid (row : Nat → Nat → ℚ) =>
          forLoop 2
            (fun dphys (row : Nat → Nat → ℚ) =>
              forLoop 2
                (fun dref (row : Nat → Nat → ℚ) =>
                  set_entry2 row dphys dref
                    (row dphys dref + coords igrid dphys
                      * fe_lagrange_grid.shape_grad igrid (unit_quad_pts iquad) dref))
                row)
            row)
      (fun igrid row => by
        interval_cases dphys <;> interval_cases dref <;>
          simp [forLoop, List.range_succ, set_entry2])
      n_grid_pts (fun _ _ => 0)
    rw [h]
    simp
  · intro i s
    have h := forLoop_map (fun D : Nat → Nat → Nat → ℚ => D i)
      (fun igrid (D : Nat → Nat → Nat → ℚ) =>
          forLoop 2
            (fun dphys (D : Nat → Nat → Nat → ℚ) =>
              forLoop 2
                (fun dref (D : Nat → Nat → Nat → ℚ) =>
                  set_entry3 D i dphys dref
                    (D i dphys dref + coords igrid dphys
                      * fe_lagrange_grid.shape_grad igrid (unit_quad_pts i) dref))
                D)
            D)
      (fun igrid (row : Nat → Nat → ℚ) =>
          forLoop 2
            (fun dphys (row : Nat → Nat → ℚ) =>
              forLoop 2
                (fun dref (row : Nat → Nat → ℚ) =>
                  set_entry2 row dphys dref
                    (row dphys dref + coords igrid dphys
                      * fe_lagrange_grid.shape_grad igrid (unit_quad_pts i) dref))
                row)
            row)
      (fun igrid D => by
        funext a b
        simp [forLoop, List.range_succ, set_entry3, set_entry2])
      n_grid_pts (clear_tensor s i) (fun _ _ => 0)
      (by funext a b; simp [clear_tensor])
    exact h
  · intro i s j hj
    have h := forLoop_invariant (fun D : Nat → Nat → Nat → ℚ => D j)
      (fun igrid (D : Nat → Nat → Nat → ℚ) =>
          forLoop 2
            (fun dphys (D : Nat → Nat → Nat → ℚ) =>
              forLoop 2
                (fun dref (D : Nat → Nat → Nat → ℚ) =>
                  set_entry3 D i dphys dref
                    (D i dphys dref + coords igrid dphys
                      * fe_lagrange_grid.shape_grad igrid (unit_quad_pts i) dref))
                D)
            D)
      (fun igrid D => by
        funext a b
        simp [forLoop, List.range_succ, set_entry3, hj])
      n_grid_pts (clear_tensor s i)
    rw [h]
    funext a b
    simp [clear_tensor, hj]


/-- A loop whose iteration `i` sets entry `i` of a vector of the state to `T i` and leaves
the other entries alone sets every entry `k` below the bound to `T k`; the iterations are
those below the bound. -/
theorem forLoop_entrywise_set_lt {σ : Type} (p : σ → Vec) (T : Nat → ℚ) (body : Nat → σ → σ)
    (n : Nat) (hown : ∀ i, i < n → ∀ s, p (body i s) i = T i)
    (hframe : ∀ i s j, j ≠ i → p (body i s) j = p s j) (init : σ) (k : Nat) :
    p (forLoop n body init) k = if k < n then T k else p init k := by
  have key : ∀ m, m ≤ n → p (forLoop m body init) k = if k < m then T k else p init k := by
    intro m
    induction m with
    | zero => intro _; simp [forLoop_zero]
    | succ m ih =>
      intro hm
      rw [forLoop_succ]
      by_cases hk : k = m
      · subst hk
        rw [hown k (by omega)]
        simp
      · rw [hframe _ _ _ hk, ih (by omega)]
        by_cases hlt : k < m
        · simp [hlt, Nat.lt_succ_of_lt hlt]
        · have : ¬ k < m + 1 := by omega
          simp [hlt, this]
  exact key n (le_refl n)

theorem algebraMap_rat_self (x : ℚ) : algebraMap ℚ ℚ x = x := rfl

/-- The entries of the dimension-2 result: the metric terms at the quadrature point times
`invJ`. -/
theorem covariant_metric_jacobian_2_apply (n_quad_pts n_grid_pts : Nat)
    (unit_quad_pts : Nat → Point) (fe_lagrange_grid : FiniteElement) (coords : Nat → Nat → ℚ)
    (jacobian_determinants : Vec) (covariant_metric_jacobian : Nat → Nat → Nat → ℚ)
    (iquad n j : Nat) (hiquad : iquad < n_quad_pts) (hn : n < 2) (hj : j < 2) :
    covariant_metric_jacobian_2 n_quad_pts n_grid_pts unit_quad_pts fe_lagrange_grid coords
        jacobian_determinants covariant_metric_jacobian iquad n j
      = metric_term_2 n_grid_pts coords
          (fun igrid d => fe_lagrange_grid.shape_grad igrid (unit_quad_pts iquad) d) n j
        * (1 / jacobian_determinants iquad) := by
  have hcode : covariant_metric_jacobian_2 n_quad_pts n_grid_pts unit_quad_pts
      fe_lagrange_grid coords jacobian_determinants covariant_metric_jacobian
      = forLoop n_quad_pts
        (fun iquad (c : Nat → Nat → Nat → ℚ) =>
          set_entry3 (set_entry3 (set_entry3 (set_entry3 (clear_tensor c iquad) iquad 0 0
            (dphys_dref_quad n_quad_pts n_grid_pts unit_quad_pts fe_lagrange_grid coords
              iquad 1 1 * (1 / jacobian_determinants iquad))) iquad 0 1
            (- dphys_dref_quad n_quad_pts n_grid_pts unit_quad_pts fe_lagrange_grid coords
              iquad 1 0 * (1 / jacobian_determinants iquad))) iquad 1 0
            (- dphys_dref_quad n_quad_pts n_grid_pts unit_quad_pts fe_lagrange_grid coords
              iquad 0 1 * (1 / jacobian_determinants iquad))) iquad 1 1
            (dphys_dref_quad n_quad_pts n_grid_pts unit_quad_pts fe_lagrange_grid coords
              iquad 0 0 * (1 / jacobian_determinants iquad)))
        covariant_metric_jacobian := rfl
  rw [hcode, forLoop_entrywise_set_lt (fun c : Nat → Nat → Nat → ℚ => fun i => c i n j)
    (fun i => metric_term_2 n_grid_pts coords
          (fun igrid d => fe_lagrange_grid.shape_grad igrid (unit_quad_pts i) d) n j
        * (1 / jacobian_determinants i))]
  · rw [if_pos hiquad]
  · intro i hi s
    have h00 := dphys_dref_quad_apply n_quad_pts n_grid_pts unit_quad_pts fe_lagrange_grid
      coords i 0 0 hi (by norm_num) (by norm_num)
    have h01 := dphys_dref_quad_apply n_quad_pts n_grid_pts unit_quad_pts fe_lagrange_grid
      coords i 0 1 hi (by norm_num) (by norm_num)
    have h10 := dphys_dref_quad_apply n_quad_pts n_grid_pts unit_quad_pts fe_lagrange_grid
      coords i 1 0 hi (by norm_num) (by norm_num)
    have h11 := dphys_dref_quad_apply n_quad_pts n_grid_pts unit_quad_pts fe_lagrange_grid
      coords i 1 1 hi (by norm_num) (by norm_num)
    interval_cases n <;> interval_cases j <;>
      simp [set_entry3, metric_term_2, h00, h01, h10, h11, algebraMap_rat_self]
  · intro i s k hk
    simp [set_entry3, clear_tensor, hk]

/-- The entries of the dimension-3 result: the metric terms at the quadrature point times
`invJ`. -/
theorem covariant_metric_jacobian_3_apply (n_quad_pts n_grid_pts : Nat)
    (unit_quad_pts : Nat → Point) (fe_lagrange_grid : FiniteElement) (coords : Nat → Nat → ℚ)
    (coords_gradients : Nat → Nat → Nat → ℚ) (jacobian_determinants : Vec)
    (covariant_metric_jacobian : Nat → Nat → Nat → ℚ)
    (iquad n j : Nat) (hiquad : iquad < n_quad_pts) (hn : n < 3) (hj : j < 3) :
    covariant_metric_jacobian_3 n_quad_pts n_grid_pts unit_quad_pts fe_lagrange_grid coords
        coords_gradients jacobian_determinants covariant_metric_jacobian iquad n j
      = metric_term_3 n_grid_pts coords coords_gradients
          (fun igrid d => fe_lagrange_grid.shape_grad igrid (unit_quad_pts iquad) d) n j
        * (1 / jacobian_determinants iquad) := by
  unfold covariant_metric_jacobian_3
  dsimp only
  rw [forLoop_entrywise_set (fun c : Nat → Nat → Nat → ℚ => fun i => c i n j)
    (fun i => metric_term_3 n_grid_pts coords coords_gradients
          (fun igrid d => fe_lagrange_grid.shape_grad igrid (unit_quad_pts i) d) n j
        * (1 / jacobian_determinants i))]
  · rw [if_pos hiquad]
  · intro i s
    simp only [scale_tensor, if_true]
    congr 1
    unfold metric_term_3
    interval_cases n <;> interval_cases j <;>
    · rw [forLoop_sum (fun c : Nat → Nat → Nat → ℚ => c i _ _) _ _
        (fun igrid c => by simp [add_entry3]; rfl)]
      simp only [clear_tensor, if_true, zero_add]
      apply Finset.sum_congr rfl
      intro igrid higrid
      rw [Finset.mem_range] at higrid
      simp [grid_values_apply, higrid, curl_potential, algebraMap_rat_self]
  · intro i s k hk
    simp only [scale_tensor, if_neg hk]
    rw [forLoop_invariant (fun c : Nat → Nat → Nat → ℚ => c k n j) _
      (fun igrid c => by simp [add_entry3, hk])]
    simp [clear_tensor, hk]

/-! ### The metric identity -/

/-- Partial derivatives of a polynomial commute. -/
theorem pderiv_pderiv_comm (i j : ℕ) (p : MvPolynomial ℕ ℚ) :
    MvPolynomial.pderiv i (MvPolynomial.pderiv j p)
      = MvPolynomial.pderiv j (MvPolynomial.pderiv i p) := by
  have h : ⁅(MvPolynomial.pderiv i : Derivation ℚ (MvPolynomial ℕ ℚ) (MvPolynomial ℕ ℚ)),
      (MvPolynomial.pderiv j : Derivation ℚ (MvPolynomial ℕ ℚ) (MvPolynomial ℕ ℚ))⁆ = 0 := by
    apply MvPolynomial.derivation_ext
    intro k
    rw [Derivation.commutator_apply, MvPolynomial.pderiv_X, MvPolynomial.pderiv_X]
    have hc : ∀ (a b c : ℕ), MvPolynomial.pderiv a
        ((Pi.single b 1 : ℕ → MvPolynomial ℕ ℚ) c) = 0 := by
      intro a b c
      rw [Pi.single_apply]
      split_ifs <;> simp
    rw [hc, hc]
    simp
  have h2 := congrArg (fun D : Derivation ℚ (MvPolynomial ℕ ℚ) (MvPolynomial ℕ ℚ) => D p) h
  simp only [Derivation.commutator_apply] at h2
  exact sub_eq_zero.mp h2

theorem pderiv_mul_C (i : ℕ) (f : MvPolynomial ℕ ℚ) (a : ℚ) :
    MvPolynomial.pderiv i (f * MvPolynomial.C a) = MvPolynomial.pderiv i f * MvPolynomial.C a := by
  rw [mul_comm, MvPolynomial.pderiv_C_mul, mul_comm]

/-- The value of the dimension-2 metric term at a point is the metric term of the values
of the gradients at that point. -/
theorem eval_metric_term_2 (point : ℕ → ℚ) (n_grid_pts : Nat) (coords : Nat → Nat → ℚ)
    (shape_grad : Nat → Nat → MvPolynomial ℕ ℚ) (n j : Nat) :
    MvPolynomial.eval point (metric_term_2 n_grid_pts coords shape_grad n j)
      = metric_term_2 n_grid_pts coords
          (fun igrid d => MvPolynomial.eval point (shape_grad igrid d)) n j := by
  unfold metric_term_2
  dsimp only
  split_ifs <;>
    simp [map_sum, MvPolynomial.algebraMap_eq, algebraMap_rat_self]

/-- The value of the dimension-3 metric term at a point is the metric term of the values
of the gradients at that point. -/
theorem eval_metric_term_3 (point : ℕ → ℚ) (n_grid_pts : Nat) (coords : Nat → Nat → ℚ)
    (coords_gradients : Nat → Nat → Nat → ℚ)
    (shape_grad : Nat → Nat → MvPolynomial ℕ ℚ) (n j : Nat) :
    MvPolynomial.eval point (metric_term_3 n_grid_pts coords coords_gradients shape_grad n j)
      = metric_term_3 n_grid_pts coords coords_gradients
          (fun igrid d => MvPolynomial.eval point (shape_grad igrid d)) n j := by
  unfold metric_term_3
  simp [map_sum, MvPolynomial.algebraMap_eq, algebraMap_rat_self]

/-- The divergence of the dimension-2 metric terms of polynomial shape functions is
zero, for any values at the grid points. -/
theorem metric_term_2_divergence (n_grid_pts : Nat) (coords : Nat → Nat → ℚ)
    (shape : Nat → MvPolynomial ℕ ℚ) (n : Nat) :
    ∑ j ∈ Finset.range 2, MvPolynomial.pderiv j
        (metric_term_2 n_grid_pts coords
          (fun igrid d => MvPolynomial.pderiv d (shape igrid)) n j) = 0 := by
  unfold metric_term_2
  dsimp only
  by_cases h0 : n = 0
  · subst h0
    simp [Finset.sum_range_succ, map_sum, MvPolynomial.algebraMap_eq,
      MvPolynomial.pderiv_C_mul, pderiv_pderiv_comm 1 0]
  · by_cases h1 : n = 1
    · subst h1
      simp [Finset.sum_range_succ, map_sum, MvPolynomial.algebraMap_eq,
        MvPolynomial.pderiv_C_mul, pderiv_pderiv_comm 1 0]
    · simp [h0, h1]

/-- The divergence of the dimension-3 metric terms of polynomial shape functions is
zero, for any values at the grid points. -/
theorem metric_term_3_divergence (n_grid_pts : Nat) (coords : Nat → Nat → ℚ)
    (coords_gradients : Nat → Nat → Nat → ℚ) (shape : Nat → MvPolynomial ℕ ℚ) (n : Nat) :
    ∑ j ∈ Finset.range 3, MvPolynomial.pderiv j
        (metric_term_3 n_grid_pts coords coords_gradients
          (fun igrid d => MvPolynomial.pderiv d (shape igrid)) n j) = 0 := by
  unfold metric_term_3
  simp only [Finset.sum_range_succ, Finset.sum_range_zero, zero_add, map_sum, map_sub,
    MvPolynomial.algebraMap_eq, pderiv_mul_C]
  norm_num
  simp only [pderiv_pderiv_comm 1 0, pderiv_pderiv_comm 2 0, pderiv_pderiv_comm 2 1]
  ring

theorem evaluate_covariant_metric_jacobian_dim_2 (quadrature : Quadrature) (coords_coeff : Vec)
    (fe_metric : FESystem) (fe_lagrange_grid : FiniteElement)
    (covariant_metric_jacobian : Nat → Nat → Nat → ℚ) :
    (evaluate_covariant_metric_jacobian 2 quadrature coords_coeff fe_metric fe_lagrange_grid
        covariant_metric_jacobian).covariant_metric_jacobian
      = covariant_metric_jacobian_2 quadrature.size fe_lagrange_grid.n_unit_support_points
          quadrature.point fe_lagrange_grid
          (evaluate_finite_element_values 2 fe_lagrange_grid.n_unit_support_points
            fe_lagrange_grid.unit_support_points coords_coeff fe_metric)
          (evaluate_covariant_metric_jacobian 2 quadrature coords_coeff fe_metric
            fe_lagrange_grid covariant_metric_jacobian).jacobian_determinants
          covariant_metric_jacobian := rfl

theorem evaluate_covariant_metric_jacobian_dim_3 (quadrature : Quadrature) (coords_coeff : Vec)
    (fe_metric : FESystem) (fe_lagrange_grid : FiniteElement)
    (covariant_metric_jacobian : Nat → Nat → Nat → ℚ) :
    (evaluate_covariant_metric_jacobian 3 quadrature coords_coeff fe_metric fe_lagrange_grid
        covariant_metric_jacobian).covariant_metric_jacobian
      = covariant_metric_jacobian_3 quadrature.size fe_lagrange_grid.n_unit_support_points
          quadrature.point fe_lagrange_grid
          (evaluate_finite_element_values 3 fe_lagrange_grid.n_unit_support_points
            fe_lagrange_grid.unit_support_points coords_coeff fe_metric)
          (evaluate_finite_element_gradients 3 3 fe_lagrange_grid.n_unit_support_points
            fe_lagrange_grid.unit_support_points coords_coeff fe_metric)
          (evaluate_covariant_metric_jacobian 3 quadrature coords_coeff fe_metric
            fe_lagrange_grid covariant_metric_jacobian).jacobian_determinants
          covariant_metric_jacobian := rfl

/-- C22: the metric identity. Let the gradients of the shape functions of
`fe_lagrange_grid` be the derivatives of polynomials `shape igrid`. Then for every
geometry-coefficient vector, in dimension 2 and in dimension 3, the entry `(n, j)` that
`evaluate_covariant_metric_jacobian` returns at a quadrature point is the value at that
point of the polynomial `metric_term_2` (`metric_term_3`) times `1 / determinant`, and for
every physical direction `n` the sum over the reference directions `j` of the derivative
along `j` of the polynomial `(n, j)` is zero. -/
theorem metric_identity (quadrature : Quadrature) (coords_coeff : Vec) (fe_metric : FESystem)
    (fe_lagrange_grid : FiniteElement) (covariant_metric_jacobian : Nat → Nat → Nat → ℚ)
    (shape : Nat → MvPolynomial ℕ ℚ)
    (hshape : ∀ igrid point d, fe_lagrange_grid.shape_grad igrid point d
      = MvPolynomial.eval point (MvPolynomial.pderiv d (shape igrid))) :
    ((∀ iquad n j, iquad < quadrature.size → n < 2 → j < 2 →
        (evaluate_covariant_metric_jacobian 2 quadrature coords_coeff fe_metric
          fe_lagrange_grid covariant_metric_jacobian).covariant_metric_jacobian iquad n j
          = MvPolynomial.eval (quadrature.point iquad)
              (metric_term_2 fe_lagrange_grid.n_unit_support_points
                (evaluate_finite_element_values 2 fe_lagrange_grid.n_unit_support_points
                  fe_lagrange_grid.unit_support_points coords_coeff fe_metric)
                (fun igrid d => MvPolynomial.pderiv d (shape igrid)) n j)
            * (1 / (evaluate_covariant_metric_jacobian 2 quadrature coords_coeff fe_metric
                fe_lagrange_grid covariant_metric_jacobian).jacobian_determinants iquad))
      ∧ (∀ n, ∑ j ∈ Finset.range 2, MvPolynomial.pderiv j
          (metric_term_2 fe_lagrange_grid.n_unit_support_points
            (evaluate_finite_element_values 2 fe_lagrange_grid.n_unit_support_points
              fe_lagrange_grid.unit_support_points coords_coeff fe_metric)
            (fun igrid d => MvPolynomial.pderiv d (shape igrid)) n j) = 0))
    ∧ ((∀ iquad n j, iquad < quadrature.size → n < 3 → j < 3 →
        (evaluate_covariant_metric_jacobian 3 quadrature coords_coeff fe_metric
          fe_lagrange_grid covariant_metric_jacobian).covariant_metric_jacobian iquad n j
          = MvPolynomial.eval (quadrature.point iquad)
              (metric_term_3 fe_lagrange_grid.n_unit_support_points
                (evaluate_finite_element_values 3 fe_lagrange_grid.n_unit_support_points
                  fe_lagrange_grid.unit_support_points coords_coeff fe_metric)
                (evaluate_finite_element_gradients 3 3 fe_lagrange_grid.n_unit_support_points
                  fe_lagrange_grid.unit_support_points coords_coeff fe_metric)
                (fun igrid d => MvPolynomial.pderiv d (shape igrid)) n j)
            * (1 / (evaluate_covariant_metric_jacobian 3 quadrature coords_coeff fe_metric
                fe_lagrange_grid covariant_metric_jacobian).jacobian_determinants iquad))
      ∧ (∀ n, ∑ j ∈ Finset.range 3, MvPolynomial.pderiv j
          (metric_term_3 fe_lagrange_grid.n_unit_support_points
            (evaluate_finite_element_values 3 fe_lagrange_grid.n_unit_support_points
              fe_lagrange_grid.unit_support_points coords_coeff fe_metric)
            (evaluate_finite_element_gradients 3 3 fe_lagrange_grid.n_unit_support_points
              fe_lagrange_grid.unit_support_points coords_coeff fe_metric)
            (fun igrid d => MvPolynomial.pderiv d (shape igrid)) n j) = 0)) := by
  refine ⟨⟨?_, ?_⟩, ⟨?_, ?_⟩⟩
  · intro iquad n j hiquad hn hj
    rw [evaluate_covariant_metric_jacobian_dim_2,
      covariant_metric_jacobian_2_apply _ _ _ _ _ _ _ iquad n j hiquad hn hj,
      eval_metric_term_2]
    simp only [hshape]
  · intro n
    exact metric_term_2_divergence _ _ shape n
  · intro iquad n j hiquad hn hj
    rw [evaluate_covariant_metric_jacobian_dim_3,
      covariant_metric_jacobian_3_apply _ _ _ _ _ _ _ _ iquad n j hiquad hn hj,
      eval_metric_term_3]
    simp only [hshape]
  · intro n
    exact metric_term_3_divergence _ _ _ shape n

theorem metric_identity_witness :
    (∀ igrid point d, square_fe_lagrange_grid.shape_grad igrid point d
      = MvPolynomial.eval point (MvPolynomial.pderiv d
          ((fun v => (if v % 2 = 0 then 1 - MvPolynomial.X 0 else MvPolynomial.X 0)
            * (if v / 2 = 0 then 1 - MvPolynomial.X 1 else MvPolynomial.X 1) :
              Nat → MvPolynomial ℕ ℚ) igrid)))
      ∧ ∑ j ∈ Finset.range 2, MvPolynomial.pderiv j
          (metric_term_2 square_fe_lagrange_grid.n_unit_support_points
            (evaluate_finite_element_values 2 square_fe_lagrange_grid.n_unit_support_points
              square_fe_lagrange_grid.unit_support_points skewed_square_coords
              square_fe_metric)
            (fun igrid d => MvPolynomial.pderiv d
              ((fun v => (if v % 2 = 0 then 1 - MvPolynomial.X 0 else MvPolynomial.X 0)
                * (if v / 2 = 0 then 1 - MvPolynomial.X 1 else MvPolynomial.X 1) :
                  Nat → MvPolynomial ℕ ℚ) igrid)) 0 j) = 0 :=
  have hshape : ∀ igrid point d, square_fe_lagrange_grid.shape_grad igrid point d
      = MvPolynomial.eval point (MvPolynomial.pderiv d
          ((fun v => (if v % 2 = 0 then 1 - MvPolynomial.X 0 else MvPolynomial.X 0)
            * (if v / 2 = 0 then 1 - MvPolynomial.X 1 else MvPolynomial.X 1) :
              Nat → MvPolynomial ℕ ℚ) igrid)) := by
    intro igrid point d
    simp only [square_fe_lagrange_grid, bilinear_shape_grad]
    by_cases h0 : d = 0
    · subst h0
      by_cases a : igrid % 2 = 0 <;> by_cases b : igrid / 2 = 0 <;>
        simp [a, b, Derivation.leibniz, MvPolynomial.pderiv_X, Pi.single_apply]
    · by_cases h1 : d = 1
      · subst h1
        by_cases a : igrid % 2 = 0 <;> by_cases b : igrid / 2 = 0 <;>
          simp [a, b, Derivation.leibniz, MvPolynomial.pderiv_X, Pi.single_apply]
      · have h0' : ¬ 0 = d := fun h => h0 h.symm
        have h1' : ¬ 1 = d := fun h => h1 h.symm
        by_cases a : igrid % 2 = 0 <;> by_cases b : igrid / 2 = 0 <;>
          simp [a, b, h0, h1, h0', h1', Derivation.leibniz, MvPolynomial.pderiv_X,
            Pi.single_apply]
  ⟨hshape,
    (metric_identity square_midpoint_quadrature skewed_square_coords square_fe_metric
      square_fe_lagrange_grid (fun _ _ _ => 0) _ hshape).1.2 0⟩

/-! ### Closed forms of the interpolation of the geometry -/

/-- The values of `evaluate_finite_element_values`: at each point, the sum over the dofs
of a component of the coefficient times the shape function. -/
theorem evaluate_finite_element_values_apply (n_components n_pts : Nat)
    (unit_points : Nat → Point) (coefficients : Vec) (finite_element : FESystem)
    (ipoint icomp : Nat) (hipoint : ipoint < n_pts) :
    evaluate_finite_element_values n_components n_pts unit_points coefficients finite_element
        ipoint icomp
      = ∑ idof ∈ Finset.range finite_element.dofs_per_cell,
          if finite_element.system_to_component_index idof = icomp then
            coefficients idof
              * finite_element.shape_value_component idof (unit_points ipoint) icomp
          else 0 := by
  unfold evaluate_finite_element_values
  dsimp only
  rw [forLoop_rows _
    (fun ipoint (row : Nat → ℚ) => fun icomp =>
      (if icomp < n_components then 0 else row icomp)
        + ∑ idof ∈ Finset.range finite_element.dofs_per_cell,
          if finite_element.system_to_component_index idof = icomp then
            coefficients idof
              * finite_element.shape_value_component idof (unit_points ipoint) icomp
          else 0)]
  · rw [if_pos hipoint]
    simp
  · intro i s
    funext c
    rw [forLoop_sum (fun v : Nat → Nat → ℚ => v i c)
      (fun idof => if finite_element.system_to_component_index idof = c then
            coefficients idof * finite_element.shape_value_component idof (unit_points i) c
          else 0)]
    · congr 1
      rw [forLoop_entrywise_set (fun v : Nat → Nat → ℚ => fun c => v i c) (fun _ => 0)]
      · intro k v
        simp [set_entry2]
      · intro k v j hj
        simp [set_entry2, hj]
    · intro idof v
      by_cases hc : finite_element.system_to_component_index idof = c
      · subst hc
        simp [set_entry2]
      · have hc2 : ¬ c = finite_element.system_to_component_index idof := fun h => hc h.symm
        simp [set_entry2, hc, hc2]
  · intro i s j hj
    funext c
    rw [forLoop_invariant (fun v : Nat → Nat → ℚ => v j c) _
      (fun idof v => by simp [set_entry2, hj])]
    rw [forLoop_invariant (fun v : Nat → Nat → ℚ => v j c) _
      (fun icomp v => by simp [set_entry2, hj])]

/-- The gradients of `evaluate_finite_element_gradients`: at each point, the sum over the
dofs of a component of the coefficient times the gradient of the shape function. -/
theorem evaluate_finite_element_gradients_apply (dim n_components n_pts : Nat)
    (unit_points : Nat → Point) (coefficients : Vec) (finite_element : FESystem)
    (ipoint icomp d : Nat) (hipoint : ipoint < n_pts) (hd : d < dim) :
    evaluate_finite_element_gradients dim n_components n_pts unit_points coefficients
        finite_element ipoint icomp d
      = ∑ idof ∈ Finset.range finite_element.dofs_per_cell,
          if finite_element.system_to_component_index idof = icomp then
            coefficients idof
              * finite_element.shape_grad_component idof (unit_points ipoint) icomp d
          else 0 := by
  unfold evaluate_finite_element_gradients
  dsimp only
  rw [forLoop_rows _
    (fun ipoint (row : Nat → Nat → ℚ) => fun icomp d =>
      (if icomp < n_components then 0 else row icomp d)
        + ∑ idof ∈ Finset.range finite_element.dofs_per_cell,
          if finite_element.system_to_component_index idof = icomp ∧ d < dim then
            coefficients idof
              * finite_element.shape_grad_component idof (unit_points ipoint) icomp d
          else 0)]
  · rw [if_pos hipoint]
    simp [hd]
  · intro i s
    funext c e
    rw [forLoop_sum (fun v : Nat → Nat → Nat → ℚ => v i c e)
      (fun idof => if finite_element.system_to_component_index idof = c ∧ e < dim then
            coefficients idof * finite_element.shape_grad_component idof (unit_points i) c e
          else 0)]
    · congr 1
      rw [forLoop_entrywise_set (fun v : Nat → Nat → Nat → ℚ => fun c => v i c e)
        (fun _ => 0)]
      · intro k v
        simp
      · intro k v j hj
        simp [hj]
    · intro idof v
      rw [forLoop_entrywise (fun g : Nat → Nat → Nat → ℚ => fun e => g i c e)
        (fun e => if finite_element.system_to_component_index idof = c then
            coefficients idof * finite_element.shape_grad_component idof (unit_points i) c e
          else 0)]
      · by_cases he : e < dim <;> by_cases hc : finite_element.system_to_component_index idof = c <;>
          simp [he, hc]
      · intro k g
        by_cases hc : finite_element.system_to_component_index idof = c
        · subst hc
          simp [set_entry3]
        · have hc2 : ¬ c = finite_element.system_to_component_index idof := fun h => hc h.symm
          simp [set_entry3, hc, hc2]
      · intro k g j hj
        simp [set_entry3, hj]
  · intro i s j hj
    funext c e
    rw [forLoop_invariant (fun v : Nat → Nat → Nat → ℚ => v j c e) _
      (fun idof v => forLoop_invariant (fun g : Nat → Nat → Nat → ℚ => g j c e) _
          (fun k g => by simp [set_entry3, hj]) dim v)]
    rw [forLoop_invariant (fun v : Nat → Nat → Nat → ℚ => v j c e) _
      (fun icomp v => by simp [hj])]

/-! ### The inverse-transpose Jacobian in two dimensions -/

/-- With the nodal Lagrange basis, the gradient of the physical coordinates interpolated
from the grid points is the gradient of the geometry at the quadrature point. -/
theorem dphys_dref_quad_eq_gradient (dim : Nat) (quadrature : Quadrature) (coords_coeff : Vec)
    (fe_metric : FESystem) (fe_lagrange_grid : FiniteElement) (base_index : Nat → Nat)
    (iquad dphys dref : Nat) (hiquad : iquad < quadrature.size) (hdref : dref < dim)
    (hbase : ∀ idof, idof < fe_metric.dofs_per_cell →
      base_index idof < fe_lagrange_grid.n_unit_support_points)
    (hnodal : ∀ idof igrid, idof < fe_metric.dofs_per_cell →
      igrid < fe_lagrange_grid.n_unit_support_points →
      fe_metric.shape_value_component idof (fe_lagrange_grid.unit_support_points igrid)
          (fe_metric.system_to_component_index idof)
        = if base_index idof = igrid then 1 else 0)
    (hgrad : ∀ idof d, idof < fe_metric.dofs_per_cell → d < dim →
      fe_metric.shape_grad_component idof (quadrature.point iquad)
          (fe_metric.system_to_component_index idof) d
        = fe_lagrange_grid.shape_grad (base_index idof) (quadrature.point iquad) d) :
    ∑ igrid ∈ Finset.range fe_lagrange_grid.n_unit_support_points,
        evaluate_finite_element_values dim fe_lagrange_grid.n_unit_support_points
            fe_lagrange_grid.unit_support_points coords_coeff fe_metric igrid dphys
          * fe_lagrange_grid.shape_grad igrid (quadrature.point iquad) dref
      = evaluate_finite_element_gradients dim dim quadrature.size quadrature.point
          coords_coeff fe_metric iquad dphys dref := by
  rw [evaluate_finite_element_gradients_apply dim dim quadrature.size quadrature.point
    coords_coeff fe_metric iquad dphys dref hiquad hdref]
  rw [Finset.sum_congr rfl (fun igrid higrid => by
    rw [evaluate_finite_element_values_apply dim fe_lagrange_grid.n_unit_support_points
      fe_lagrange_grid.unit_support_points coords_coeff fe_metric igrid dphys
      (Finset.mem_range.mp higrid), Finset.sum_mul])]
  rw [Finset.sum_comm]
  apply Finset.sum_congr rfl
  intro idof hidof
  rw [Finset.mem_range] at hidof
  by_cases hc : fe_metric.system_to_component_index idof = dphys
  · subst hc
    simp only [if_true]
    rw [Finset.sum_congr rfl (fun igrid higrid => by
      rw [hnodal idof igrid hidof (Finset.mem_range.mp higrid)])]
    rw [hgrad idof dref hidof hdref]
    simp [Finset.sum_ite_eq, hbase idof hidof]
  · simp [hc]

/-- C25: in dimension 2, with the nodal Lagrange basis of the grid points as geometry
basis, at every quadrature point where the returned determinant is not zero the matrix that
`evaluate_covariant_metric_jacobian` returns is the inverse-transpose of the gradient
`dphys_dref_quad` of the physical coordinates interpolated from the grid points: its
product with the transpose of `dphys_dref_quad` is the identity. -/
theorem covariant_metric_jacobian_2_inverse_transpose (quadrature : Quadrature)
    (coords_coeff : Vec) (fe_metric : FESystem) (fe_lagrange_grid : FiniteElement)
    (covariant_metric_jacobian : Nat → Nat → Nat → ℚ) (base_index : Nat → Nat) (iquad : Nat)
    (hiquad : iquad < quadrature.size)
    (hbase : ∀ idof, idof < fe_metric.dofs_per_cell →
      base_index idof < fe_lagrange_grid.n_unit_support_points)
    (hnodal : ∀ idof igrid, idof < fe_metric.dofs_per_cell →
      igrid < fe_lagrange_grid.n_unit_support_points →
      fe_metric.shape_value_component idof (fe_lagrange_grid.unit_support_points igrid)
          (fe_metric.system_to_component_index idof)
        = if base_index idof = igrid then 1 else 0)
    (hgrad : ∀ idof d, idof < fe_metric.dofs_per_cell → d < 2 →
      fe_metric.shape_grad_component idof (quadrature.point iquad)
          (fe_metric.system_to_component_index idof) d
        = fe_lagrange_grid.shape_grad (base_index idof) (quadrature.point iquad) d)
    (hdet : (evaluate_covariant_metric_jacobian 2 quadrature coords_coeff fe_metric
      fe_lagrange_grid covariant_metric_jacobian).jacobian_determinants iquad ≠ 0) :
    Matrix.of (fun n j : Fin 2 =>
        (evaluate_covariant_metric_jacobian 2 quadrature coords_coeff fe_metric
          fe_lagrange_grid covariant_metric_jacobian).covariant_metric_jacobian iquad n.val
          j.val)
      * (Matrix.of (fun dphys dref : Fin 2 =>
          dphys_dref_quad quadrature.size fe_lagrange_grid.n_unit_support_points
            quadrature.point fe_lagrange_grid
            (evaluate_finite_element_values 2 fe_lagrange_grid.n_unit_support_points
              fe_lagrange_grid.unit_support_points coords_coeff fe_metric)
            iquad dphys.val dref.val)).transpose = 1
    ∧ Matrix.of (fun n j : Fin 2 =>
        (evaluate_covariant_metric_jacobian 2 quadrature coords_coeff fe_metric
          fe_lagrange_grid covariant_metric_jacobian).covariant_metric_jacobian iquad n.val
          j.val)
      = ((Matrix.of (fun dphys dref : Fin 2 =>
          dphys_dref_quad quadrature.size fe_lagrange_grid.n_unit_support_points
            quadrature.point fe_lagrange_grid
            (evaluate_finite_element_values 2 fe_lagrange_grid.n_unit_support_points
              fe_lagrange_grid.unit_support_points coords_coeff fe_metric)
            iquad dphys.val dref.val))⁻¹).transpose := by
  have hJ : (evaluate_covariant_metric_jacobian 2 quadrature coords_coeff fe_metric
      fe_lagrange_grid covariant_metric_jacobian).jacobian_determinants iquad
      = determinant 2 (evaluate_finite_element_gradients 2 2 quadrature.size quadrature.point
          coords_coeff fe_metric iquad) :=
    evaluate_covariant_metric_jacobian_determinants 2 quadrature coords_coeff fe_metric
      fe_lagrange_grid covariant_metric_jacobian iquad hiquad
  have hD : ∀ dphys dref, dphys < 2 → dref < 2 →
      dphys_dref_quad quadrature.size fe_lagrange_grid.n_unit_support_points
          quadrature.point fe_lagrange_grid
          (evaluate_finite_element_values 2 fe_lagrange_grid.n_unit_support_points
            fe_lagrange_grid.unit_support_points coords_coeff fe_metric) iquad dphys dref
        = evaluate_finite_element_gradients 2 2 quadrature.size quadrature.point
            coords_coeff fe_metric iquad dphys dref := by
    intro dphys dref h1 h2
    rw [dphys_dref_quad_apply _ _ _ _ _ iquad dphys dref hiquad h1 h2]
    exact dphys_dref_quad_eq_gradient 2 quadrature coords_coeff fe_metric fe_lagrange_grid
      base_index iquad dphys dref hiquad h2 hbase hnodal hgrad
  have hcov : ∀ n j, n < 2 → j < 2 →
      (evaluate_covariant_metric_jacobian 2 quadrature coords_coeff fe_metric
          fe_lagrange_grid covariant_metric_jacobian).covariant_metric_jacobian iquad n j
        = metric_term_2 fe_lagrange_grid.n_unit_support_points
            (evaluate_finite_element_values 2 fe_lagrange_grid.n_unit_support_points
              fe_lagrange_grid.unit_support_points coords_coeff fe_metric)
            (fun igrid d => fe_lagrange_grid.shape_grad igrid (quadrature.point iquad) d) n j
          * (1 / (evaluate_covariant_metric_jacobian 2 quadrature coords_coeff fe_metric
              fe_lagrange_grid covariant_metric_jacobian).jacobian_determinants iquad) := by
    intro n j hn hj
    rw [evaluate_covariant_metric_jacobian_dim_2]
    exact covariant_metric_jacobian_2_apply _ _ _ _ _ _ _ iquad n j hiquad hn hj
  have hG : ∀ dphys dref, dphys < 2 → dref < 2 →
      ∑ igrid ∈ Finset.range fe_lagrange_grid.n_unit_support_points,
        evaluate_finite_element_values 2 fe_lagrange_grid.n_unit_support_points
            fe_lagrange_grid.unit_support_points coords_coeff fe_metric igrid dphys
          * fe_lagrange_grid.shape_grad igrid (quadrature.point iquad) dref
        = evaluate_finite_element_gradients 2 2 quadrature.size quadrature.point
            coords_coeff fe_metric iquad dphys dref := by
    intro dphys dref _ h2
    exact dphys_dref_quad_eq_gradient 2 quadrature coords_coeff fe_metric fe_lagrange_grid
      base_index iquad dphys dref hiquad h2 hbase hnodal hgrad
  have hprod : Matrix.of (fun n j : Fin 2 =>
        (evaluate_covariant_metric_jacobian 2 quadrature coords_coeff fe_metric
          fe_lagrange_grid covariant_metric_jacobian).covariant_metric_jacobian iquad n.val
          j.val)
      * (Matrix.of (fun dphys dref : Fin 2 =>
          dphys_dref_quad quadrature.size fe_lagrange_grid.n_unit_support_points
            quadrature.point fe_lagrange_grid
            (evaluate_finite_element_values 2 fe_lagrange_grid.n_unit_support_points
              fe_lagrange_grid.unit_support_points coords_coeff fe_metric)
            iquad dphys.val dref.val)).transpose = 1 := by
    rw [hJ] at hdet
    simp only [determinant] at hdet
    norm_num at hdet
    ext n j
    fin_cases n <;> fin_cases j <;>
      simp [Matrix.mul_apply, Fin.sum_univ_two, hcov, hD, metric_term_2, algebraMap_rat_self,
        hG, hJ, determinant] <;>
      field_simp <;> ring
  refine ⟨hprod, ?_⟩
  rw [Matrix.transpose_nonsing_inv]
  exact (Matrix.inv_eq_left_inv hprod).symm

theorem covariant_metric_jacobian_2_inverse_transpose_witness :
    (0 < square_midpoint_quadrature.size)
      ∧ (∀ idof, idof < square_fe_metric.dofs_per_cell →
          idof / 2 < square_fe_lagrange_grid.n_unit_support_points)
      ∧ (evaluate_covariant_metric_jacobian 2 square_midpoint_quadrature skewed_square_coords
          square_fe_metric square_fe_lagrange_grid (fun _ _ _ => 0)).jacobian_determinants 0 ≠ 0
      ∧ Matrix.of (fun n j : Fin 2 =>
          (evaluate_covariant_metric_jacobian 2 square_midpoint_quadrature
            skewed_square_coords square_fe_metric square_fe_lagrange_grid
            (fun _ _ _ => 0)).covariant_metric_jacobian 0 n.val j.val)
        * (Matrix.of (fun dphys dref : Fin 2 =>
            dphys_dref_quad square_midpoint_quadrature.size
              square_fe_lagrange_grid.n_unit_support_points square_midpoint_quadrature.point
              square_fe_lagrange_grid
              (evaluate_finite_element_values 2 square_fe_lagrange_grid.n_unit_support_points
                square_fe_lagrange_grid.unit_support_points skewed_square_coords
                square_fe_metric)
              0 dphys.val dref.val)).transpose = 1 :=
  have hbase : ∀ idof, idof < square_fe_metric.dofs_per_cell →
      idof / 2 < square_fe_lagrange_grid.n_unit_support_points := by
    intro idof h
    simp only [square_fe_metric, square_fe_lagrange_grid] at h ⊢
    omega
  have hnodal : ∀ idof igrid, idof < square_fe_metric.dofs_per_cell →
      igrid < square_fe_lagrange_grid.n_unit_support_points →
      square_fe_metric.shape_value_component idof
          (square_fe_lagrange_grid.unit_support_points igrid)
          (square_fe_metric.system_to_component_index idof)
        = if idof / 2 = igrid then 1 else 0 := by
    intro idof igrid h1 h2
    simp only [square_fe_metric, square_fe_lagrange_grid] at h1 h2
    interval_cases idof <;> interval_cases igrid <;>
      simp [square_fe_metric, square_fe_lagrange_grid, bilinear_shape_value]
  have hgrad : ∀ idof d, idof < square_fe_metric.dofs_per_cell → d < 2 →
      square_fe_metric.shape_grad_component idof (square_midpoint_quadrature.point 0)
          (square_fe_metric.system_to_component_index idof) d
        = square_fe_lagrange_grid.shape_grad (idof / 2) (square_midpoint_quadrature.point 0)
            d := by
    intro idof d _ _
    simp [square_fe_metric, square_fe_lagrange_grid]
  have hdet : (evaluate_covariant_metric_jacobian 2 square_midpoint_quadrature
      skewed_square_coords square_fe_metric square_fe_lagrange_grid
      (fun _ _ _ => 0)).jacobian_determinants 0 ≠ 0 := by
    rw [evaluate_covariant_metric_jacobian_determinants 2 square_midpoint_quadrature
      skewed_square_coords square_fe_metric square_fe_lagrange_grid _ 0 (by decide)]
    simp only [determinant]
    rw [evaluate_finite_element_gradients_apply 2 2 _ _ _ _ 0 0 0 (by decide) (by decide),
      evaluate_finite_element_gradients_apply 2 2 _ _ _ _ 0 0 1 (by decide) (by decide),
      evaluate_finite_element_gradients_apply 2 2 _ _ _ _ 0 1 0 (by decide) (by decide),
      evaluate_finite_element_gradients_apply 2 2 _ _ _ _ 0 1 1 (by decide) (by decide)]
    simp [square_fe_metric, square_midpoint_quadrature, skewed_square_coords,
      bilinear_shape_grad, Finset.sum_range_succ]
    norm_num
  ⟨by decide, hbase, hdet,
    (covariant_metric_jacobian_2_inverse_transpose square_midpoint_quadrature
      skewed_square_coords square_fe_metric square_fe_lagrange_grid (fun _ _ _ => 0)
      (fun idof => idof / 2) 0 (by decide) hbase hnodal hgrad hdet).1⟩

/-! ### The inverse-transpose Jacobian of an affine map in three dimensions -/

/-- C26: in dimension 3, for a geometry map that is affine, `x = A xi + b`, at the grid
points and at the quadrature point, with shape gradients that sum to zero and reproduce
linear functions, and with `det A` not zero, the curl form of
`evaluate_covariant_metric_jacobian` gives the cofactor matrix of `A` divided by `det A`,
which is the inverse-transpose of `A`. -/
theorem covariant_metric_jacobian_3_affine (quadrature : Quadrature) (coords_coeff : Vec)
    (fe_metric : FESystem) (fe_lagrange_grid : FiniteElement)
    (covariant_metric_jacobian : Nat → Nat → Nat → ℚ) (A : Nat → Nat → ℚ) (b : Nat → ℚ)
    (iquad : Nat) (hiquad : iquad < quadrature.size)
    (hcoords : ∀ igrid d, igrid < fe_lagrange_grid.n_unit_support_points → d < 3 →
      evaluate_finite_element_values 3 fe_lagrange_grid.n_unit_support_points
          fe_lagrange_grid.unit_support_points coords_coeff fe_metric igrid d
        = ∑ e ∈ Finset.range 3, A d e * fe_lagrange_grid.unit_support_points igrid e + b d)
    (hgrad_grid : ∀ igrid d e, igrid < fe_lagrange_grid.n_unit_support_points → d < 3 →
      e < 3 →
      evaluate_finite_element_gradients 3 3 fe_lagrange_grid.n_unit_support_points
          fe_lagrange_grid.unit_support_points coords_coeff fe_metric igrid d e = A d e)
    (hgrad_quad : ∀ d e, d < 3 → e < 3 →
      evaluate_finite_element_gradients 3 3 quadrature.size quadrature.point coords_coeff
          fe_metric iquad d e = A d e)
    (hsum : ∀ d, d < 3 →
      ∑ igrid ∈ Finset.range fe_lagrange_grid.n_unit_support_points,
        fe_lagrange_grid.shape_grad igrid (quadrature.point iquad) d = 0)
    (hlinear : ∀ e d, e < 3 → d < 3 →
      ∑ igrid ∈ Finset.range fe_lagrange_grid.n_unit_support_points,
        fe_lagrange_grid.unit_support_points igrid e
          * fe_lagrange_grid.shape_grad igrid (quadrature.point iquad) d
        = if e = d then 1 else 0)
    (hdet : Matrix.det (Matrix.of (fun d e : Fin 3 => A d.val e.val)) ≠ 0) :
    (∀ n j : Fin 3,
        (evaluate_covariant_metric_jacobian 3 quadrature coords_coeff fe_metric
          fe_lagrange_grid covariant_metric_jacobian).covariant_metric_jacobian iquad n.val
          j.val
        = (A (n + 1).val (j + 1).val * A (n + 2).val (j + 2).val
            - A (n + 1).val (j + 2).val * A (n + 2).val (j + 1).val)
          / Matrix.det (Matrix.of (fun d e : Fin 3 => A d.val e.val)))
    ∧ Matrix.of (fun n j : Fin 3 =>
        (evaluate_covariant_metric_jacobian 3 quadrature coords_coeff fe_metric
          fe_lagrange_grid covariant_metric_jacobian).covariant_metric_jacobian iquad n.val
          j.val)
      = ((Matrix.of (fun d e : Fin 3 => A d.val e.val))⁻¹).transpose := by
  have hJ : (evaluate_covariant_metric_jacobian 3 quadrature coords_coeff fe_metric
      fe_lagrange_grid covariant_metric_jacobian).jacobian_determinants iquad
      = Matrix.det (Matrix.of (fun d e : Fin 3 => A d.val e.val)) := by
    rw [evaluate_covariant_metric_jacobian_determinants 3 quadrature coords_coeff fe_metric
      fe_lagrange_grid covariant_metric_jacobian iquad hiquad, Matrix.det_fin_three]
    simp [determinant, hgrad_quad]
    ring_nf
  have hX : ∀ r m, r < 3 → m < 3 →
      ∑ igrid ∈ Finset.range fe_lagrange_grid.n_unit_support_points,
        fe_lagrange_grid.shape_grad igrid (quadrature.point iquad) r
          * evaluate_finite_element_values 3 fe_lagrange_grid.n_unit_support_points
              fe_lagrange_grid.unit_support_points coords_coeff fe_metric igrid m
        = A m r := by
    intro r m hr hm
    rw [Finset.sum_congr rfl (fun igrid higrid => by
      rw [hcoords igrid m (Finset.mem_range.mp higrid) hm])]
    have h0 := hlinear 0 r (by norm_num) hr
    have h1 := hlinear 1 r (by norm_num) hr
    have h2 := hlinear 2 r (by norm_num) hr
    have hs := hsum r hr
    have hsplit : ∀ igrid ∈ Finset.range fe_lagrange_grid.n_unit_support_points,
        fe_lagrange_grid.shape_grad igrid (quadrature.point iquad) r
          * (∑ e ∈ Finset.range 3, A m e * fe_lagrange_grid.unit_support_points igrid e
              + b m)
        = A m 0 * (fe_lagrange_grid.unit_support_points igrid 0
              * fe_lagrange_grid.shape_grad igrid (quadrature.point iquad) r)
          + A m 1 * (fe_lagrange_grid.unit_support_points igrid 1
              * fe_lagrange_grid.shape_grad igrid (quadrature.point iquad) r)
          + A m 2 * (fe_lagrange_grid.unit_support_points igrid 2
              * fe_lagrange_grid.shape_grad igrid (quadrature.point iquad) r)
          + b m * fe_lagrange_grid.shape_grad igrid (quadrature.point iquad) r := by
      intro igrid _
      simp only [Finset.sum_range_succ, Finset.sum_range_zero, zero_add]
      ring
    rw [Finset.sum_congr rfl hsplit, Finset.sum_add_distrib, Finset.sum_add_distrib,
      Finset.sum_add_distrib, ← Finset.mul_sum, ← Finset.mul_sum, ← Finset.mul_sum,
      ← Finset.mul_sum, h0, h1, h2, hs]
    interval_cases r <;> simp
  have hcurl : ∀ r n d, r < 3 → n < 3 → d < 3 →
      ∑ igrid ∈ Finset.range fe_lagrange_grid.n_unit_support_points,
        fe_lagrange_grid.shape_grad igrid (quadrature.point iquad) r
          * curl_potential
              (evaluate_finite_element_values 3 fe_lagrange_grid.n_unit_support_points
                fe_lagrange_grid.unit_support_points coords_coeff fe_metric)
              (evaluate_finite_element_gradients 3 3 fe_lagrange_grid.n_unit_support_points
                fe_lagrange_grid.unit_support_points coords_coeff fe_metric) igrid n d
        = (1 / 2) * (A ((n + 1) % 3) d * A ((n + 2) % 3) r
            - A ((n + 2) % 3) d * A ((n + 1) % 3) r) := by
    intro r n d hr hn hd
    have hn1 : (n + 1) % 3 < 3 := Nat.mod_lt _ (by norm_num)
    have hn2 : (n + 2) % 3 < 3 := Nat.mod_lt _ (by norm_num)
    rw [← hX r ((n + 2) % 3) hr hn2, ← hX r ((n + 1) % 3) hr hn1, Finset.mul_sum,
      Finset.mul_sum, ← Finset.sum_sub_distrib, Finset.mul_sum]
    apply Finset.sum_congr rfl
    intro igrid higrid
    rw [Finset.mem_range] at higrid
    unfold curl_potential
    rw [hgrad_grid igrid _ d higrid hn1 hd, hgrad_grid igrid _ d higrid hn2 hd]
    ring
  have hcov : ∀ n j, n < 3 → j < 3 →
      (evaluate_covariant_metric_jacobian 3 quadrature coords_coeff fe_metric
          fe_lagrange_grid covariant_metric_jacobian).covariant_metric_jacobian iquad n j
        = (A ((n + 1) % 3) ((j + 1) % 3) * A ((n + 2) % 3) ((j + 2) % 3)
            - A ((n + 1) % 3) ((j + 2) % 3) * A ((n + 2) % 3) ((j + 1) % 3))
          / Matrix.det (Matrix.of (fun d e : Fin 3 => A d.val e.val)) := by
    intro n j hn hj
    have hj1 : (j + 1) % 3 < 3 := Nat.mod_lt _ (by norm_num)
    have hj2 : (j + 2) % 3 < 3 := Nat.mod_lt _ (by norm_num)
    rw [evaluate_covariant_metric_jacobian_dim_3,
      covariant_metric_jacobian_3_apply _ _ _ _ _ _ _ _ iquad n j hiquad hn hj, hJ]
    unfold metric_term_3
    simp only [algebraMap_rat_self]
    rw [Finset.sum_sub_distrib, hcurl _ n _ hj2 hn hj1, hcurl _ n _ hj1 hn hj2]
    ring
  have hentries : ∀ n j : Fin 3,
      (evaluate_covariant_metric_jacobian 3 quadrature coords_coeff fe_metric
          fe_lagrange_grid covariant_metric_jacobian).covariant_metric_jacobian iquad n.val
          j.val
        = (A (n + 1).val (j + 1).val * A (n + 2).val (j + 2).val
            - A (n + 1).val (j + 2).val * A (n + 2).val (j + 1).val)
          / Matrix.det (Matrix.of (fun d e : Fin 3 => A d.val e.val)) := by
    intro n j
    rw [hcov n.val j.val n.isLt j.isLt]
    fin_cases n <;> fin_cases j <;> rfl
  refine ⟨hentries, ?_⟩
  rw [Matrix.transpose_nonsing_inv]
  symm
  apply Matrix.inv_eq_left_inv
  ext n j
  fin_cases n <;> fin_cases j <;>
    simp [Matrix.mul_apply, Fin.sum_univ_three, hentries] <;>
    field_simp <;>
    first
      | ring1
      | (rw [Matrix.det_fin_three]; simp only [Matrix.of_apply]; norm_num; ring1)


/-- The trilinear interpolant of the images of the vertices of the cube is the affine
map, at every point. -/
theorem cube_coords_affine (point : Point) (d : Nat) (hd : d < 3) :
    ∑ idof ∈ Finset.range cube_fe_metric.dofs_per_cell,
        (if cube_fe_metric.system_to_component_index idof = d then
          sheared_cube_coords idof * cube_fe_metric.shape_value_component idof point d
        else 0)
      = ∑ e ∈ Finset.range 3, sheared_cube_matrix d e * point e
        + sheared_cube_translation d := by
  simp only [cube_fe_metric, Finset.sum_range_succ, Finset.sum_range_zero, zero_add]
  interval_cases d <;>
    norm_num [sheared_cube_coords, sheared_cube_matrix, sheared_cube_translation,
      trilinear_shape_value] <;>
    ring

/-- The gradient of the trilinear interpolant of the images of the vertices of the cube
is the matrix of the affine map, at every point. -/
theorem cube_gradients_affine (point : Point) (d e : Nat) (hd : d < 3) (he : e < 3) :
    ∑ idof ∈ Finset.range cube_fe_metric.dofs_per_cell,
        (if cube_fe_metric.system_to_component_index idof = d then
          sheared_cube_coords idof * cube_fe_metric.shape_grad_component idof point d e
        else 0)
      = sheared_cube_matrix d e := by
  simp only [cube_fe_metric, Finset.sum_range_succ, Finset.sum_range_zero, zero_add]
  interval_cases d <;> interval_cases e <;>
    norm_num [sheared_cube_coords, sheared_cube_matrix, trilinear_shape_grad] <;>
    ring

theorem covariant_metric_jacobian_3_affine_witness :
    (0 < cube_midpoint_quadrature.size)
      ∧ Matrix.det (Matrix.of (fun d e : Fin 3 => sheared_cube_matrix d.val e.val)) ≠ 0
      ∧ Matrix.of (fun n j : Fin 3 =>
          (evaluate_covariant_metric_jacobian 3 cube_midpoint_quadrature sheared_cube_coords
            cube_fe_metric cube_fe_lagrange_grid
            (fun _ _ _ => 0)).covariant_metric_jacobian 0 n.val j.val)
        = ((Matrix.of (fun d e : Fin 3 => sheared_cube_matrix d.val e.val))⁻¹).transpose :=
  have hcoords : ∀ igrid d, igrid < cube_fe_lagrange_grid.n_unit_support_points → d < 3 →
      evaluate_finite_element_values 3 cube_fe_lagrange_grid.n_unit_support_points
          cube_fe_lagrange_grid.unit_support_points sheared_cube_coords cube_fe_metric igrid d
        = ∑ e ∈ Finset.range 3, sheared_cube_matrix d e
            * cube_fe_lagrange_grid.unit_support_points igrid e
          + sheared_cube_translation d := by
    intro igrid d h1 h2
    rw [evaluate_finite_element_values_apply _ _ _ _ _ igrid d h1]
    exact cube_coords_affine _ d h2
  have hgrad_grid : ∀ igrid d e, igrid < cube_fe_lagrange_grid.n_unit_support_points →
      d < 3 → e < 3 →
      evaluate_finite_element_gradients 3 3 cube_fe_lagrange_grid.n_unit_support_points
          cube_fe_lagrange_grid.unit_support_points sheared_cube_coords cube_fe_metric igrid
          d e = sheared_cube_matrix d e := by
    intro igrid d e h1 h2 h3
    rw [evaluate_finite_element_gradients_apply _ _ _ _ _ _ igrid d e h1 h3]
    exact cube_gradients_affine _ d e h2 h3
  have hgrad_quad : ∀ d e, d < 3 → e < 3 →
      evaluate_finite_element_gradients 3 3 cube_midpoint_quadrature.size
          cube_midpoint_quadrature.point sheared_cube_coords cube_fe_metric 0 d e
        = sheared_cube_matrix d e := by
    intro d e h2 h3
    rw [evaluate_finite_element_gradients_apply _ _ _ _ _ _ 0 d e (by decide) h3]
    exact cube_gradients_affine _ d e h2 h3
  have hsum : ∀ d, d < 3 →
      ∑ igrid ∈ Finset.range cube_fe_lagrange_grid.n_unit_support_points,
        cube_fe_lagrange_grid.shape_grad igrid (cube_midpoint_quadrature.point 0) d = 0 := by
    intro d h
    simp only [cube_fe_lagrange_grid, Finset.sum_range_succ, Finset.sum_range_zero, zero_add]
    interval_cases d <;> norm_num [cube_midpoint_quadrature, trilinear_shape_grad]
  have hlinear : ∀ e d, e < 3 → d < 3 →
      ∑ igrid ∈ Finset.range cube_fe_lagrange_grid.n_unit_support_points,
        cube_fe_lagrange_grid.unit_support_points igrid e
          * cube_fe_lagrange_grid.shape_grad igrid (cube_midpoint_quadrature.point 0) d
        = if e = d then 1 else 0 := by
    intro e d h1 h2
    simp only [cube_fe_lagrange_grid, Finset.sum_range_succ, Finset.sum_range_zero, zero_add]
    interval_cases e <;> interval_cases d <;>
      norm_num [cube_midpoint_quadrature, trilinear_shape_grad]
  have hdet : Matrix.det (Matrix.of (fun d e : Fin 3 => sheared_cube_matrix d.val e.val))
      ≠ 0 := by
    rw [Matrix.det_fin_three]
    simp [sheared_cube_matrix]
  ⟨by decide, hdet,
    (covariant_metric_jacobian_3_affine cube_midpoint_quadrature sheared_cube_coords
      cube_fe_metric cube_fe_lagrange_grid (fun _ _ _ => 0) sheared_cube_matrix
      sheared_cube_translation 0 (by decide) hcoords hgrad_grid hgrad_quad hsum hlinear
      hdet).2⟩

/-! ### The traversal with its assertions -/

theorem Assert_eq_none (debug cond : Bool) :
    Assert debug cond = none ↔ (debug = true ∧ cond = false) := by
  unfold Assert
  cases debug <;> cases cond <;> simp

/-- A fold that stops with `none` at the first element whose check fails returns `none`
when some check fails, and otherwise the result of the fold without checks. -/
theorem foldl_option {σ α : Type} (bad : α → Bool) (f : σ → α → σ) (l : List α) (init : σ) :
    l.foldl (fun (s : Option σ) a => s.bind (fun s => if bad a then none else some (f s a)))
        (some init)
      = if l.any bad then none else some (l.foldl f init) := by
  induction l generalizing init with
  | nil => simp
  | cons a as ih =>
    rw [List.foldl_cons, List.foldl_cons, List.any_cons]
    cases hb : bad a
    · simpa [hb] using ih (f init a)
    · have hnone : ∀ l : List α,
          l.foldl (fun (s : Option σ) a =>
            s.bind (fun s => if bad a then none else some (f s a))) none = none := by
        intro l
        induction l with
        | nil => rfl
        | cons b bs ihb => simpa using ihb
      simp [hb, hnone]

/-- The face loop body with assertions aborts exactly in a debug build at a periodic face
that the current cell owns, and otherwise does what the body without assertions does. -/
theorem assemble_residual_face_with_assertions_eq (debug : Bool) (dim : Nat)
    (all_parameters : AllParameters) (hooks : AssemblyHooks)
    (degree_current dofs_per_cell cell_no : Nat) (current_cell : ActiveCell) (iface : Nat)
    (st : AssemblyState) :
    assemble_residual_face_with_assertions debug dim all_parameters hooks degree_current
        dofs_per_cell cell_no current_cell iface st
      = if (debug && current_cell.owns_periodic_face iface) = true then none
        else some (assemble_residual_face dim all_parameters hooks degree_current
          dofs_per_cell cell_no current_cell iface st) := by
  unfold assemble_residual_face_with_assertions assemble_residual_face
    finer_neighbor_case_with_assertions ActiveCell.owns_periodic_face Assert
    FaceView.neighbor_state_valid
  cases debug <;> cases hb : (current_cell.face iface).at_boundary <;>
    cases hp : (current_cell.face iface).has_periodic_neighbor <;>
    cases ho : ownership_test (current_cell.face iface).periodic_neighbor_is_coarser
      current_cell.cell (current_cell.face iface).periodic_neighbor <;>
    simp [hb, hp, ho] <;> split_ifs <;> rfl

/-- The face loop body of the derivative pass never aborts: its assertions are made at
faces that are not at the boundary. -/
theorem assemble_residual_dRdW_face_with_assertions_eq (debug : Bool)
    (all_parameters : AllParameters) (hooks : AssemblyHooks)
    (degree_current dofs_per_cell cell_no : Nat) (current_cell : ActiveCell) (iface : Nat)
    (st : AssemblyState) :
    assemble_residual_dRdW_face_with_assertions debug all_parameters hooks degree_current
        dofs_per_cell cell_no current_cell iface st
      = some (assemble_residual_dRdW_face all_parameters hooks degree_current dofs_per_cell
          cell_no current_cell iface st) := by
  unfold assemble_residual_dRdW_face_with_assertions assemble_residual_dRdW_face
    finer_neighbor_case_with_assertions Assert FaceView.neighbor_state_valid
  cases debug <;> cases hb : (current_cell.face iface).at_boundary <;>
    simp [hb] <;> split_ifs <;> rfl

theorem assemble_residual_cell_with_assertions_eq (debug : Bool) (dim : Nat)
    (all_parameters : AllParameters) (hooks : AssemblyHooks)
    (degree_current dofs_per_cell : Nat) (st : AssemblyState) (current_cell : ActiveCell) :
    assemble_residual_cell_with_assertions debug dim all_parameters hooks degree_current
        dofs_per_cell st current_cell
      = if (debug && (List.range (faces_per_cell dim)).any
            (fun iface => current_cell.owns_periodic_face iface)) = true then none
        else some (assemble_residual_cell dim all_parameters hooks degree_current
          dofs_per_cell st current_cell) := by
  unfold assemble_residual_cell_with_assertions assemble_residual_cell
  simp only [assemble_residual_face_with_assertions_eq]
  rw [forLoop_option (fun iface => (debug && current_cell.owns_periodic_face iface) = true)]
  by_cases h : ∃ i, i < faces_per_cell dim
      ∧ (debug && current_cell.owns_periodic_face i) = true
  · obtain ⟨i, hi, hbad⟩ := h
    have h2 : (debug && (List.range (faces_per_cell dim)).any
        (fun iface => current_cell.owns_periodic_face iface)) = true := by
      simp only [Bool.and_eq_true, List.any_eq_true, List.mem_range] at hbad ⊢
      exact ⟨hbad.1, i, hi, hbad.2⟩
    rw [if_pos ⟨i, hi, hbad⟩, if_pos h2]
    rfl
  · have h2 : ¬ (debug && (List.range (faces_per_cell dim)).any
        (fun iface => current_cell.owns_periodic_face iface)) = true := by
      simp only [Bool.and_eq_true, List.any_eq_true, List.mem_range]
      rintro ⟨hd, i, hi, hbad⟩
      exact h ⟨i, hi, by simp [hd, hbad]⟩
    rw [if_neg h, if_neg h2]
    rfl

theorem assemble_residual_dRdW_cell_with_assertions_eq (debug : Bool) (dim : Nat)
    (all_parameters : AllParameters) (hooks : AssemblyHooks)
    (degree_current dofs_per_cell : Nat) (st : AssemblyState) (current_cell : ActiveCell) :
    assemble_residual_dRdW_cell_with_assertions debug dim all_parameters hooks degree_current
        dofs_per_cell st current_cell
      = some (assemble_residual_dRdW_cell dim all_parameters hooks degree_current
          dofs_per_cell st current_cell) := by
  unfold assemble_residual_dRdW_cell_with_assertions assemble_residual_dRdW_cell
  simp only [assemble_residual_dRdW_face_with_assertions_eq]
  have h := forLoop_option (fun _ : Nat => False)
    (fun iface s => assemble_residual_dRdW_face all_parameters hooks degree_current
      dofs_per_cell st.n_cell_visited current_cell iface s) (faces_per_cell dim)
  simp only [if_false, and_false, exists_false] at h
  rw [h]
  rfl

/-- The pass with assertions aborts exactly in a debug build on a mesh in which some cell
owns a periodic face, and otherwise ends as the pass without assertions. -/
theorem assemble_residual_with_assertions_eq (debug : Bool) (dim : Nat)
    (all_parameters : AllParameters) (hooks : AssemblyHooks)
    (degree_current dofs_per_cell : Nat) (active_cells : List ActiveCell) (rhs0 : Vec) :
    assemble_residual_with_assertions debug dim all_parameters hooks degree_current
        dofs_per_cell active_cells rhs0
      = if (debug && some_cell_owns_periodic_face dim active_cells) = true then none
        else some (assemble_residual dim all_parameters hooks degree_current dofs_per_cell
          active_cells rhs0) := by
  unfold assemble_residual_with_assertions assemble_residual some_cell_owns_periodic_face
  simp only [assemble_residual_cell_with_assertions_eq]
  have h := foldl_option
    (fun current_cell : ActiveCell => debug && (List.range (faces_per_cell dim)).any
      (fun iface => current_cell.owns_periodic_face iface))
    (assemble_residual_cell dim all_parameters hooks degree_current dofs_per_cell)
    active_cells
    { right_hand_side := zeroVec, n_cell_visited := 0, n_face_visited := 0,
      current_cell_rhs := zeroVec, kernel_calls := [] }
  rw [h]
  cases debug <;> simp

/-- The derivative pass with assertions never aborts. -/
theorem assemble_residual_dRdW_with_assertions_eq (debug : Bool) (dim : Nat)
    (all_parameters : AllParameters) (hooks : AssemblyHooks)
    (degree_current dofs_per_cell : Nat) (active_cells : List ActiveCell) (rhs0 : Vec) :
    assemble_residual_dRdW_with_assertions debug dim all_parameters hooks degree_current
        dofs_per_cell active_cells rhs0
      = some (assemble_residual_dRdW dim all_parameters hooks degree_current dofs_per_cell
          active_cells rhs0) := by
  unfold assemble_residual_dRdW_with_assertions assemble_residual_dRdW
  simp only [assemble_residual_dRdW_cell_with_assertions_eq]
  have h := foldl_option (fun _ : ActiveCell => false)
    (assemble_residual_dRdW_cell dim all_parameters hooks degree_current dofs_per_cell)
    active_cells
    { right_hand_side := zeroVec, n_cell_visited := 0, n_face_visited := 0,
      current_cell_rhs := zeroVec, kernel_calls := [] }
  simpa using h

/-- C4 (as amended): in a build without assertions, or on a mesh in which no cell owns a
periodic face, a cell face on the domain boundary without periodic neighbour receives
exactly one boundary-kernel call in a pass, with the penalty `deg1sq / extent` computed
from the extent of that cell in the face-normal direction and the polynomial degree: in
`assemble_residual` for every parameter setting other than `use_periodic_bc` with
`dim = 1`, and in `assemble_residual_dRdW` for every parameter setting with
`use_periodic_bc` off. With `use_periodic_bc` set and `dim = 1` the face receives no
boundary-kernel call in either pass. Each pass runs to its end. -/
theorem boundary_face_one_kernel_call (debug : Bool) (dim : Nat)
    (all_parameters : AllParameters) (hooks : AssemblyHooks)
    (degree_current dofs_per_cell : Nat) (active_cells : List ActiveCell) (rhs0 : Vec)
    (k iface : Nat) (c : ActiveCell)
    (hc : active_cells[k]? = some c) (hi : iface < faces_per_cell dim)
    (hb : (c.face iface).at_boundary = true)
    (hp : (c.face iface).has_periodic_neighbor = false)
    (hbuild : debug = false ∨ some_cell_owns_periodic_face dim active_cells = false) :
    (¬ (all_parameters.use_periodic_bc = true ∧ dim = 1) →
      ∃ st, assemble_residual_with_assertions debug dim all_parameters hooks degree_current
          dofs_per_cell active_cells rhs0 = some st
        ∧ boundary_calls_of k iface st.kernel_calls
          = [KernelCall.boundary_term k iface (c.face iface).boundary_id
              ((deg1sq degree_current : ℚ)
                / c.cell.extent_in_direction (unit_normal_direction iface))])
    ∧ (all_parameters.use_periodic_bc = false →
      ∃ st, assemble_residual_dRdW_with_assertions debug dim all_parameters hooks
          degree_current dofs_per_cell active_cells rhs0 = some st
        ∧ boundary_calls_of k iface st.kernel_calls
          = [KernelCall.boundary_term k iface (c.face iface).boundary_id
              ((deg1sq degree_current : ℚ)
                / c.cell.extent_in_direction (unit_normal_direction iface))])
    ∧ ((all_parameters.use_periodic_bc = true ∧ dim = 1) →
      (∃ st, assemble_residual_with_assertions debug dim all_parameters hooks degree_current
          dofs_per_cell active_cells rhs0 = some st
        ∧ boundary_calls_of k iface st.kernel_calls = [])
      ∧ (∃ st, assemble_residual_dRdW_with_assertions debug dim all_parameters hooks
          degree_current dofs_per_cell active_cells rhs0 = some st
        ∧ boundary_calls_of k iface st.kernel_calls = [])) := by
  have hreturns : assemble_residual_with_assertions debug dim all_parameters hooks
      degree_current dofs_per_cell active_cells rhs0
      = some (assemble_residual dim all_parameters hooks degree_current dofs_per_cell
          active_cells rhs0) := by
    rw [assemble_residual_with_assertions_eq, if_neg]
    rcases hbuild with h | h <;> simp [h]
  have hres := assemble_residual_boundary_calls dim all_parameters hooks degree_current
    dofs_per_cell active_cells rhs0 k iface c hc hi
  have hder := assemble_residual_dRdW_boundary_calls dim all_parameters hooks degree_current
    dofs_per_cell active_cells rhs0 k iface c hc hi
  unfold assemble_residual_face_calls at hres
  unfold assemble_residual_dRdW_face_calls at hder
  dsimp only at hres hder
  refine ⟨?_, ?_, ?_⟩
  · intro hguard
    refine ⟨_, hreturns, ?_⟩
    rw [hres]
    simp [hb, hp, hguard, boundary_calls_of, KernelCall.is_boundary_call_of, boundary_penalty]
  · intro hguard
    refine ⟨_, assemble_residual_dRdW_with_assertions_eq _ _ _ _ _ _ _ _, ?_⟩
    rw [hder]
    simp [hb, hguard, boundary_calls_of, KernelCall.is_boundary_call_of, boundary_penalty]
  · intro hguard
    refine ⟨⟨_, hreturns, ?_⟩, ⟨_, assemble_residual_dRdW_with_assertions_eq _ _ _ _ _ _ _ _, ?_⟩⟩
    · rw [hres]
      simp [hb, hp, hguard.1, hguard.2, boundary_calls_of]
    · rw [hder]
      simp [hb, hguard.1, boundary_calls_of]

/-- Witness of C4 (as amended): the left boundary face of the cell `L` of the
one-dimensional mesh, which has no periodic face, in a build with assertions, with every
switch off and degree 1. -/
theorem boundary_face_one_kernel_call_witness :
    (line_mesh[0]? = some ⟨cell_L, faces_L⟩)
    ∧ 0 < faces_per_cell 1
    ∧ ((⟨cell_L, faces_L⟩ : ActiveCell).face 0).at_boundary = true
    ∧ ((⟨cell_L, faces_L⟩ : ActiveCell).face 0).has_periodic_neighbor = false
    ∧ (true = false ∨ some_cell_owns_periodic_face 1 line_mesh = false)
    ∧ ((¬ (default_parameters.use_periodic_bc = true ∧ 1 = 1) →
        ∃ st, assemble_residual_with_assertions true 1 default_parameters zero_hooks 1 2
            line_mesh zeroVec = some st
          ∧ boundary_calls_of 0 0 st.kernel_calls
            = [KernelCall.boundary_term 0 0
                ((⟨cell_L, faces_L⟩ : ActiveCell).face 0).boundary_id
                ((deg1sq 1 : ℚ) / (⟨cell_L, faces_L⟩ : ActiveCell).cell.extent_in_direction
                  (unit_normal_direction 0))])
      ∧ (default_parameters.use_periodic_bc = false →
        ∃ st, assemble_residual_dRdW_with_assertions true 1 default_parameters zero_hooks 1 2
            line_mesh zeroVec = some st
          ∧ boundary_calls_of 0 0 st.kernel_calls
            = [KernelCall.boundary_term 0 0
                ((⟨cell_L, faces_L⟩ : ActiveCell).face 0).boundary_id
                ((deg1sq 1 : ℚ) / (⟨cell_L, faces_L⟩ : ActiveCell).cell.extent_in_direction
                  (unit_normal_direction 0))])
      ∧ ((default_parameters.use_periodic_bc = true ∧ 1 = 1) →
        (∃ st, assemble_residual_with_assertions true 1 default_parameters zero_hooks 1 2
            line_mesh zeroVec = some st
          ∧ boundary_calls_of 0 0 st.kernel_calls = [])
        ∧ (∃ st, assemble_residual_dRdW_with_assertions true 1 default_parameters zero_hooks
            1 2 line_mesh zeroVec = some st
          ∧ boundary_calls_of 0 0 st.kernel_calls = []))) :=
  ⟨rfl, by decide, rfl, rfl, Or.inr (by decide),
    boundary_face_one_kernel_call true 1 default_parameters zero_hooks 1 2 line_mesh zeroVec
      0 0 ⟨cell_L, faces_L⟩ rfl (by decide) rfl rfl (Or.inr (by decide))⟩

/-- C4 (counterexample): three boundary faces without periodic neighbour that do not
receive one boundary-kernel call. With `use_periodic_bc` set, the left face of the cell `L`
of the one-dimensional mesh receives none in `assemble_residual`, and a boundary face of
the cell `A` of the two-dimensional mesh receives none in `assemble_residual_dRdW`. In a
build with assertions, `assemble_residual` on the periodic strip aborts at the periodic
face that `P` owns, which is visited before the bottom wall of `P`. -/
theorem boundary_face_without_kernel_call :
    ((line_mesh[0]?.map (fun c => ((c.face 0).at_boundary, (c.face 0).has_periodic_neighbor))
        = some (true, false))
      ∧ (assemble_residual_with_assertions false 1 periodic_bc_parameters zero_hooks 1 2
          line_mesh zeroVec).map (fun st => boundary_calls_of 0 0 st.kernel_calls) = some [])
    ∧ ((hanging_mesh[0]?.map
          (fun c => ((c.face 0).at_boundary, (c.face 0).has_periodic_neighbor))
        = some (true, false))
      ∧ (assemble_residual_dRdW_with_assertions false 2 periodic_bc_parameters zero_hooks 1 1
          hanging_mesh zeroVec).map (fun st => boundary_calls_of 0 0 st.kernel_calls)
        = some [])
    ∧ ((periodic_strip_mesh[0]?.map
          (fun c => ((c.face 2).at_boundary, (c.face 2).has_periodic_neighbor))
        = some (true, false))
      ∧ assemble_residual_with_assertions true 2 default_parameters zero_hooks 1 1
          periodic_strip_mesh zeroVec = none) := by
  refine ⟨⟨rfl, ?_⟩, ⟨rfl, ?_⟩, ⟨rfl, ?_⟩⟩
  · rw [assemble_residual_with_assertions_eq, if_neg (by simp), Option.map_some',
      assemble_residual_boundary_calls 1 periodic_bc_parameters zero_hooks 1 2 line_mesh
        zeroVec 0 0 ⟨cell_L, faces_L⟩ rfl (by decide)]
    rfl
  · rw [assemble_residual_dRdW_with_assertions_eq, Option.map_some',
      assemble_residual_dRdW_boundary_calls 2 periodic_bc_parameters zero_hooks 1 1
        hanging_mesh zeroVec 0 0 ⟨cell_A, faces_A⟩ rfl (by decide)]
    rfl
  · rw [assemble_residual_with_assertions_eq, if_pos (by decide)]

end PHiLiP
